import Mathlib

/-!
# Horde3D-x: frustum culling math and the D3D11 render device

A shallow embedding of `Horde3DEngine/egPrimitives.cpp` (class `Frustum`) and of
the parts of `Horde3DEngine/D3D11/egRendererBaseD3D11.cpp` (class `RenderDevice`)
that the verified properties talk about.

Conventions of the embedding:

* `float` values are exact rationals (`ℚ`); rounding, infinities and NaN are not
  modelled.  `sqrtf` is a parameter of every definition that normalises a vector.
* `uint32` values are natural numbers; where the source adds two `uint32`
  values the sum is reduced modulo `2 ^ 32`.
* a driver object pointer is an `Option Nat` (`none` is `NULL`).
* calls into the D3D11 driver and into the log are recorded, in program order,
  in a list of `D3DCall`; results that the driver hands back (a mapped row
  pitch, a created state object, a failure) are parameters of the operation.
-/

namespace Horde3D

/-! ## utMath.h -/

/-- Modelled from the spec: `Vec3f` of `utMath.h` (not part of the sources), a
vector of three floats. -/
structure Vec3f where
  x : ℚ
  y : ℚ
  z : ℚ
deriving DecidableEq

namespace Vec3f

/-- Modelled from the spec: `Vec3f::operator-` of `utMath.h`. -/
def sub (a b : Vec3f) : Vec3f := ⟨a.x - b.x, a.y - b.y, a.z - b.z⟩

/-- Modelled from the spec: `Vec3f::dot` of `utMath.h`. -/
def dot (a b : Vec3f) : ℚ := a.x * b.x + a.y * b.y + a.z * b.z

/-- Modelled from the spec: `Vec3f::cross` of `utMath.h`. -/
def cross (a b : Vec3f) : Vec3f :=
  ⟨a.y * b.z - a.z * b.y, a.z * b.x - a.x * b.z, a.x * b.y - a.y * b.x⟩

/-- Modelled from the spec: `Vec3f::length` of `utMath.h`,
`sqrtf( x * x + y * y + z * z )`. -/
def length (sqrtf : ℚ → ℚ) (a : Vec3f) : ℚ := sqrtf (a.x * a.x + a.y * a.y + a.z * a.z)

/-- Modelled from the spec: `Vec3f::normalize` of `utMath.h`, which scales the
vector by `1.0f / length()`. -/
def normalize (sqrtf : ℚ → ℚ) (a : Vec3f) : Vec3f :=
  let invLen := 1 / a.length sqrtf
  ⟨a.x * invLen, a.y * invLen, a.z * invLen⟩

end Vec3f

/-- Modelled from the spec: `minf` of `utMath.h`, `a < b ? a : b`. -/
def minf (a b : ℚ) : ℚ := if a < b then a else b

/-- Modelled from the spec: `maxf` of `utMath.h`, `a > b ? a : b`. -/
def maxf (a b : ℚ) : ℚ := if a > b then a else b

/-- Modelled from the spec: `Matrix4f` of `utMath.h`, sixteen floats addressed
as `c[column][row]`. -/
structure Matrix4f where
  c : Fin 4 → Fin 4 → ℚ

namespace Matrix4f

/-- The identity matrix, the state of a default-constructed `Matrix4f`. -/
def identity : Matrix4f := ⟨fun i j => if i = j then 1 else 0⟩

/-- Modelled from the spec: `Matrix4f::operator*( const Vec3f & )` of `utMath.h`,
the affine transformation of a point. -/
def mulVec3 (m : Matrix4f) (v : Vec3f) : Vec3f :=
  ⟨v.x * m.c 0 0 + v.y * m.c 1 0 + v.z * m.c 2 0 + m.c 3 0,
   v.x * m.c 0 1 + v.y * m.c 1 1 + v.z * m.c 2 1 + m.c 3 1,
   v.x * m.c 0 2 + v.y * m.c 1 2 + v.z * m.c 2 2 + m.c 3 2⟩

end Matrix4f

/-- Modelled from the spec: `Plane` of `utMath.h`, a normal and an offset. -/
structure Plane where
  normal : Vec3f
  dist : ℚ

namespace Plane

/-- Modelled from the spec: the constructor `Plane( v0, v1, v2 )` of `utMath.h`:
the normal is the normalised cross product of `v1 - v0` and `v2 - v0`, the
offset is `-normal.dot( v0 )`. -/
def ofPoints (sqrtf : ℚ → ℚ) (v0 v1 v2 : Vec3f) : Plane :=
  let normal := ((v1.sub v0).cross (v2.sub v0)).normalize sqrtf
  ⟨normal, -(normal.dot v0)⟩

/-- Modelled from the spec: `Plane::distToPoint` of `utMath.h`, the signed
distance `normal.dot( v ) + dist` of a point to the plane. -/
def distToPoint (p : Plane) (v : Vec3f) : ℚ := p.normal.dot v + p.dist

end Plane

/-- Modelled from the spec: `BoundingBox` of `egPrimitives.h`, the two extreme
corners of an axis-aligned box. -/
structure BoundingBox where
  min : Vec3f
  max : Vec3f

/-! ## egPrimitives.cpp -/

/-- The data members of `Frustum`: six planes (left, right, bottom, top, near,
far), the origin and eight corners. -/
structure Frustum where
  _planes : Fin 6 → Plane
  _origin : Vec3f
  _corners : Fin 8 → Vec3f

/-- An array of eight values written out element by element. -/
def array8 {α : Type} (a0 a1 a2 a3 a4 a5 a6 a7 : α) (i : Fin 8) : α :=
  match i with
  | 0 => a0
  | 1 => a1
  | 2 => a2
  | 3 => a3
  | 4 => a4
  | 5 => a5
  | 6 => a6
  | 7 => a7

/-- An array of six values written out element by element. -/
def array6 {α : Type} (a0 a1 a2 a3 a4 a5 : α) (i : Fin 6) : α :=
  match i with
  | 0 => a0
  | 1 => a1
  | 2 => a2
  | 3 => a3
  | 4 => a4
  | 5 => a5

namespace Frustum

/-- `Frustum::buildViewFrustum( transMat, left, right, bottom, top, nearPlane,
farPlane )`. -/
def buildViewFrustum (sqrtf : ℚ → ℚ) (transMat : Matrix4f)
    (left right bottom top nearPlane farPlane : ℚ) : Frustum :=
  -- Use intercept theorem to get params for far plane
  let invNearPlane := 1 / nearPlane
  let left_f := left * farPlane * invNearPlane
  let right_f := right * farPlane * invNearPlane
  let bottom_f := bottom * farPlane * invNearPlane
  let top_f := top * farPlane * invNearPlane
  -- points on the near plane, then points on the far plane
  let corners0 : Fin 8 → Vec3f := array8
    ⟨left, bottom, -nearPlane⟩ ⟨right, bottom, -nearPlane⟩
    ⟨right, top, -nearPlane⟩ ⟨left, top, -nearPlane⟩
    ⟨left_f, bottom_f, -farPlane⟩ ⟨right_f, bottom_f, -farPlane⟩
    ⟨right_f, top_f, -farPlane⟩ ⟨left_f, top_f, -farPlane⟩
  -- Transform points to fit camera position and rotation
  let origin := transMat.mulVec3 ⟨0, 0, 0⟩
  let corners : Fin 8 → Vec3f := fun i => transMat.mulVec3 (corners0 i)
  -- Build planes
  { _planes := array6
      (Plane.ofPoints sqrtf origin (corners 3) (corners 0))
      (Plane.ofPoints sqrtf origin (corners 1) (corners 2))
      (Plane.ofPoints sqrtf origin (corners 0) (corners 1))
      (Plane.ofPoints sqrtf origin (corners 2) (corners 3))
      (Plane.ofPoints sqrtf (corners 0) (corners 1) (corners 2))
      (Plane.ofPoints sqrtf (corners 5) (corners 4) (corners 7))
    _origin := origin
    _corners := corners }

/-- `Frustum::buildBoxFrustum`. -/
def buildBoxFrustum (sqrtf : ℚ → ℚ) (transMat : Matrix4f)
    (left right bottom top front back : ℚ) : Frustum :=
  -- points on the front plane, then points on the far plane
  let corners0 : Fin 8 → Vec3f := array8
    ⟨left, bottom, front⟩ ⟨right, bottom, front⟩ ⟨right, top, front⟩ ⟨left, top, front⟩
    ⟨left, bottom, back⟩ ⟨right, bottom, back⟩ ⟨right, top, back⟩ ⟨left, top, back⟩
  -- Transform points to fit camera position and rotation
  let origin := transMat.mulVec3 ⟨0, 0, 0⟩
  let corners : Fin 8 → Vec3f := fun i => transMat.mulVec3 (corners0 i)
  -- Build planes
  { _planes := array6
      (Plane.ofPoints sqrtf (corners 0) (corners 3) (corners 7))
      (Plane.ofPoints sqrtf (corners 2) (corners 1) (corners 6))
      (Plane.ofPoints sqrtf (corners 0) (corners 4) (corners 5))
      (Plane.ofPoints sqrtf (corners 3) (corners 2) (corners 6))
      (Plane.ofPoints sqrtf (corners 0) (corners 1) (corners 2))
      (Plane.ofPoints sqrtf (corners 4) (corners 7) (corners 6))
    _origin := origin
    _corners := corners }

/-- `Frustum::cullSphere`: the loop over the six planes returns `true` at the
first plane whose signed distance to the centre exceeds the radius. -/
def cullSphere (f : Frustum) (pos : Vec3f) (rad : ℚ) : Bool :=
  (List.finRange 6).any fun i => decide ((f._planes i).distToPoint pos > rad)

/-- The corner `positive` that `Frustum::cullBox` builds for a plane normal. -/
def cullBoxCorner (n : Vec3f) (b : BoundingBox) : Vec3f :=
  let positive := b.min
  let positive : Vec3f := if n.x ≤ 0 then { positive with x := b.max.x } else positive
  let positive : Vec3f := if n.y ≤ 0 then { positive with y := b.max.y } else positive
  let positive : Vec3f := if n.z ≤ 0 then { positive with z := b.max.z } else positive
  positive

/-- `Frustum::cullBox`. -/
def cullBox (f : Frustum) (b : BoundingBox) : Bool :=
  (List.finRange 6).any fun i =>
    decide ((f._planes i).distToPoint (cullBoxCorner (f._planes i).normal b) > 0)

/-- `Frustum::cullFrustum`: for each plane, `allOut` stays `true` unless some
corner of `frust` has a negative signed distance. -/
def cullFrustum (f : Frustum) (frust : Frustum) : Bool :=
  (List.finRange 6).any fun i =>
    let allOut := (List.finRange 8).all fun j =>
      !decide ((f._planes i).distToPoint (frust._corners j) < 0)
    allOut

/-- `Frustum::calcAABB`; the constant `Math::MaxFloat` of `utMath.h` is a
parameter.  The result is the pair `(mins, maxs)`. -/
def calcAABB (MaxFloat : ℚ) (f : Frustum) : Vec3f × Vec3f :=
  let mins : Vec3f := ⟨MaxFloat, MaxFloat, MaxFloat⟩
  let maxs : Vec3f := ⟨-MaxFloat, -MaxFloat, -MaxFloat⟩
  (List.finRange 8).foldl
    (fun (acc : Vec3f × Vec3f) i =>
      let c := f._corners i
      (⟨minf c.x acc.1.x, minf c.y acc.1.y, minf c.z acc.1.z⟩,
       ⟨maxf c.x acc.2.x, maxf c.y acc.2.y, maxf c.z acc.2.z⟩))
    (mins, maxs)

end Frustum

/-- A square root on the rationals that is exact on squares of rationals; it
stands in for `sqrtf` where a concrete function is needed. -/
def sqrtQ (q : ℚ) : ℚ := (Nat.sqrt q.num.natAbs : ℚ) / (Nat.sqrt q.den : ℚ)

/-! ## Notions used to state the culling properties -/

/-- The eight corners of an axis-aligned box. -/
def BoundingBox.corners (b : BoundingBox) : List Vec3f :=
  [⟨b.min.x, b.min.y, b.min.z⟩, ⟨b.max.x, b.min.y, b.min.z⟩,
   ⟨b.min.x, b.max.y, b.min.z⟩, ⟨b.max.x, b.max.y, b.min.z⟩,
   ⟨b.min.x, b.min.y, b.max.z⟩, ⟨b.max.x, b.min.y, b.max.z⟩,
   ⟨b.min.x, b.max.y, b.max.z⟩, ⟨b.max.x, b.max.y, b.max.z⟩]

/-- The naive box test: some plane of the frustum has all eight corners of the
box strictly outside it. -/
def Frustum.cullBoxNaive (f : Frustum) (b : BoundingBox) : Bool :=
  (List.finRange 6).any fun i =>
    b.corners.all fun c => decide ((f._planes i).distToPoint c > 0)

/-- The point `w 0 * c 0 + ... + w 7 * c 7` of the hull of eight points. -/
def convexCombination (w : Fin 8 → ℚ) (c : Fin 8 → Vec3f) : Vec3f :=
  ⟨∑ j, w j * (c j).x, ∑ j, w j * (c j).y, ∑ j, w j * (c j).z⟩

/-- The six outward planes of the axis-aligned box `[x0, x1] × [y0, y1] × [z0, z1]`, in
the order left, right, bottom, top, front, back used by `buildBoxFrustum`. -/
def boxPlanes (x0 x1 y0 y1 z0 z1 : ℚ) : Fin 6 → Plane :=
  array6 ⟨⟨-1, 0, 0⟩, x0⟩ ⟨⟨1, 0, 0⟩, -x1⟩ ⟨⟨0, -1, 0⟩, y0⟩ ⟨⟨0, 1, 0⟩, -y1⟩
    ⟨⟨0, 0, 1⟩, -z1⟩ ⟨⟨0, 0, -1⟩, z0⟩

/-- The eight corners of the box `[x0, x1] × [y0, y1] × [z0, z1]`, front face first, in the
order used by `buildBoxFrustum`. -/
def boxCorners (x0 x1 y0 y1 z0 z1 : ℚ) : Fin 8 → Vec3f :=
  array8 ⟨x0, y0, z1⟩ ⟨x1, y0, z1⟩ ⟨x1, y1, z1⟩ ⟨x0, y1, z1⟩
    ⟨x0, y0, z0⟩ ⟨x1, y0, z0⟩ ⟨x1, y1, z0⟩ ⟨x0, y1, z0⟩

/-- The box frustum of the unit cube `[0, 1]³`. -/
def unitBoxFrustum : Frustum :=
  { _planes := boxPlanes 0 1 0 1 0 1, _origin := ⟨0, 0, 0⟩, _corners := boxCorners 0 1 0 1 0 1 }

/-- The box frustum of the cube `[1, 2] × [0, 1] × [0, 1]`, which touches the unit cube in the
face `x = 1`. -/
def touchingBoxFrustum : Frustum :=
  { _planes := boxPlanes 1 2 0 1 0 1, _origin := ⟨0, 0, 0⟩, _corners := boxCorners 1 2 0 1 0 1 }

/-! ## egRendererBase.h (D3D11 backend): records, tables and driver calls -/

/-- Reasons for which an operation has no defined result. -/
inductive Fault where
  | assertFailed
  | invalidHandle
deriving DecidableEq

/-- The texture formats that the backend names (`TextureFormats::List`), in the
order of the `formats[]` table of `createTexture`. -/
inductive TextureFormats where
  | Unknown
  | RGBA8
  | DXT1
  | DXT3
  | DXT5
  | RGBA16F
  | RGBA32F
  | DEPTH
deriving DecidableEq

/-- The texture types of `TextureTypes::List`. -/
inductive TextureTypes where
  | Tex2D
  | Tex3D
  | TexCube
deriving DecidableEq

/-- The record `RDIBuffer`, with the fields that `createBuffer` fills in. -/
structure RDIBuffer where
  type : Nat
  size : Nat
  d3dObj : Option Nat
  dynamic : Bool
deriving DecidableEq

/-- The record `RDITexture`, with the fields that `createTexture` fills in; the
pointers `d3dTexture`, `d3dTexture2D` and `d3dTexture3D` name the same storage. -/
structure RDITexture where
  type : TextureTypes
  format : TextureFormats
  width : Int
  height : Int
  depth : Int
  sRGB : Bool
  genMips : Bool
  hasMips : Bool
  memSize : Nat
  d3dTexture : Option Nat
  d3dResourceView : Option Nat
  d3dFmt : String
deriving DecidableEq

/-- Modelled from the spec: the handle table `RDIObjects` (section 4.1), slot
storage in which handle `h` names slot `h - 1` and freed slots are kept for
reuse. -/
structure RDIObjects (α : Type) where
  _objects : List α
  _freeList : List Nat

/-- Modelled from the spec: `RDIObjects::getRef`, defined for a non-zero handle
that names a slot of the table. -/
def RDIObjects.getRef {α : Type} (t : RDIObjects α) (handle : Nat) : Option α :=
  if handle = 0 then none else t._objects[handle - 1]?

/-- Modelled from the spec: `RDIObjects::add`, which stores the record in the
slot freed last, or in a new slot when no slot is free, and returns its handle.
The head of `_freeList` is the slot freed last. -/
def RDIObjects.add {α : Type} (t : RDIObjects α) (obj : α) : RDIObjects α × Nat :=
  match t._freeList with
  | index :: rest => (⟨t._objects.set index obj, rest⟩, index + 1)
  | [] => (⟨t._objects ++ [obj], []⟩, t._objects.length + 1)

/-- Modelled from the spec: `RDIObjects::remove`, which replaces the record by
a default-constructed one (`dflt`) and frees the slot for reuse. -/
def RDIObjects.remove {α : Type} (t : RDIObjects α) (dflt : α) (handle : Nat) : RDIObjects α :=
  ⟨t._objects.set (handle - 1) dflt, (handle - 1) :: t._freeList⟩

/-- A write through the reference that `RDIObjects::getRef` returns. -/
def RDIObjects.setRef {α : Type} (t : RDIObjects α) (handle : Nat) (obj : α) : RDIObjects α :=
  ⟨t._objects.set (handle - 1) obj, t._freeList⟩

/-- The free list of a handle table names slots of the table only. -/
def RDIObjects.WF {α : Type} (t : RDIObjects α) : Prop :=
  ∀ i ∈ t._freeList, i < t._objects.length

/-- A C string, as a list of characters. -/
abbrev CString := List Char

/-- The shader stages of `RDIShaderType::List`. -/
inductive RDIShaderType where
  | Vertex
  | Pixel
deriving DecidableEq

/-- `VertexLayoutAttrib`: semantic name, buffer slot, component count and byte
offset of one vertex attribute. -/
structure VertexLayoutAttrib where
  semanticName : CString
  vbSlot : Nat
  size : Nat
  offset : Nat
deriving DecidableEq

/-- `RDIVertexLayout`: the number of attributes and the fixed array holding
them. -/
structure RDIVertexLayout where
  numAttribs : Nat
  attribs : Nat → VertexLayoutAttrib

/-- `RDIUniform::Desc`: byte offset and size of a uniform in one stage. -/
structure RDIUniformDesc where
  offset : Nat
  size : Nat
deriving DecidableEq

/-- `RDIUniform`: a named uniform with one descriptor per stage. -/
structure RDIUniform where
  name : CString
  desc : RDIShaderType → RDIUniformDesc

/-- `RDISampler::Desc`: bind points of a sampler in one stage. -/
structure RDISamplerDesc where
  textureBindPoint : Nat
  samplerBindPoint : Nat
deriving DecidableEq

/-- `RDISampler`: a named sampler, the texture unit it reads and one
descriptor per stage. -/
structure RDISampler where
  name : CString
  slot : Int
  desc : RDIShaderType → RDISamplerDesc

/-- `RDIShader::GlobalCBuffer`: the CPU-side copy, the uniform buffer and the
bind point of the `$Globals` block of one stage. -/
structure GlobalCBuffer where
  bufferData : Option (List Nat)
  bufferId : Nat
  bindPoint : Int
deriving DecidableEq

/-- The record `RDIShader`. -/
structure RDIShader where
  vertexShader : Option Nat
  pixelShader : Option Nat
  inputLayouts : Nat → Option Nat
  globalCBuffers : RDIShaderType → GlobalCBuffer
  uniforms : List RDIUniform
  samplers : List RDISampler

/-- The record `RDIRenderBuffer`; `colTexs` and `colBufs` are arrays of
`MaxColorAttachmentCount` entries. -/
structure RDIRenderBuffer where
  fbo : Nat
  fboMS : Nat
  width : Nat
  height : Nat
  samples : Nat
  depthTex : Nat
  colTexs : Nat → Nat
  depthBuf : Nat
  colBufs : Nat → Nat

/-- `RDITexSlot`: the texture and sampler state requested for a texture unit. -/
structure RDITexSlot where
  texObj : Nat
  samplerState : Nat
deriving DecidableEq

/-- `RDIVertBufSlot`: the vertex buffer requested for a buffer slot. -/
structure RDIVertBufSlot where
  vbObj : Nat
  offset : Nat
  stride : Nat
deriving DecidableEq

/-- The capability flags `DeviceCaps` that the embedded operations read. -/
structure DeviceCaps where
  texFloat : Bool
  texNPOT : Bool
  rtMultisampling : Bool
deriving DecidableEq

/-- Modelled from the spec: the default-constructed `RDIBuffer`, the value of a
freed slot. -/
def RDIBuffer.empty : RDIBuffer := ⟨0, 0, none, false⟩

/-- Modelled from the spec: the default-constructed `RDITexture`, the value of
a freed slot. -/
def RDITexture.empty : RDITexture :=
  ⟨.Tex2D, .Unknown, 0, 0, 0, false, false, false, 0, none, none, ""⟩

/-- Modelled from the spec: the default-constructed `RDIUniform::Desc`. -/
def RDIUniformDesc.empty : RDIUniformDesc := ⟨0, 0⟩

/-- Modelled from the spec: the default-constructed `RDISampler::Desc`. -/
def RDISamplerDesc.empty : RDISamplerDesc := ⟨0, 0⟩

/-- Modelled from the spec: the default-constructed `RDIShader`: no stage
objects, no input layouts, empty uniform and sampler tables. -/
def RDIShader.empty : RDIShader :=
  ⟨none, none, fun _ => none, fun _ => ⟨none, 0, 0⟩, [], []⟩

/-- Modelled from the spec: the default-constructed `RDIRenderBuffer`, in which
every attachment is the null handle 0. -/
def RDIRenderBuffer.empty : RDIRenderBuffer :=
  ⟨0, 0, 0, 0, 0, 0, fun _ => 0, 0, fun _ => 0⟩

/-- `D3D11_BOX`, of which only the first axis is used for buffers. -/
structure D3D11_BOX where
  left : Nat
  top : Nat
  front : Nat
  right : Nat
  bottom : Nat
  back : Nat
deriving DecidableEq

/-- `D3D11_SAMPLER_DESC` as filled in by `getSamplerState`; the enumerators of
the driver are kept as names. -/
structure D3D11_SAMPLER_DESC where
  Filter : String
  AddressU : String
  AddressV : String
  AddressW : String
  MipLODBias : Int
  MaxAnisotropy : Nat
  ComparisonFunc : String
  BorderColor : List Int
  MinLOD : Int
  MaxLOD : Int
deriving DecidableEq

/-- `D3D11_RASTERIZER_DESC` as filled in by `applyRenderStates`. -/
structure D3D11_RASTERIZER_DESC where
  FillMode : String
  CullMode : String
  FrontCounterClockwise : Bool
  DepthBias : Int
  DepthBiasClamp : Int
  SlopeScaledDepthBias : Int
  DepthClipEnable : Bool
  ScissorEnable : Bool
  MultisampleEnable : Bool
  AntialiasedLineEnable : Bool
deriving DecidableEq

/-- `D3D11_BLEND_DESC` as filled in by `applyRenderStates` (render target 0). -/
structure D3D11_BLEND_DESC where
  AlphaToCoverageEnable : Bool
  IndependentBlendEnable : Bool
  BlendEnable : Bool
  SrcBlend : String
  DestBlend : String
  BlendOp : String
  SrcBlendAlpha : String
  DestBlendAlpha : String
  BlendOpAlpha : String
  RenderTargetWriteMask : String
deriving DecidableEq

/-- `D3D11_DEPTH_STENCIL_DESC` as filled in by `applyRenderStates`; the stencil
part is the constant default. -/
structure D3D11_DEPTH_STENCIL_DESC where
  DepthEnable : Bool
  DepthWriteMask : String
  DepthFunc : String
  StencilEnable : Bool
deriving DecidableEq

/-- `D3D11_INPUT_ELEMENT_DESC` as filled in by `parseShaderBlob`; the input slot
class is always per-vertex data with step rate 0. -/
structure D3D11_INPUT_ELEMENT_DESC where
  SemanticName : CString
  SemanticIndex : Nat
  Format : String
  InputSlot : Nat
  AlignedByteOffset : Nat
deriving DecidableEq

/-- A call into the D3D11 driver, the D3D compiler, the D3DX helper library or
the engine log. -/
inductive D3DCall where
  | Map (obj : Nat)
  | memcpy (obj : Nat) (offset : Nat) (size : Nat) (data : List Nat)
  | Unmap (obj : Nat)
  | UpdateSubresource (obj : Option Nat) (subresource : Int) (box : Option D3D11_BOX)
      (data : List Nat) (srcRowPitch : Int)
  | D3DX11FilterTexture (obj : Option Nat)
  | CreateSamplerState (desc : D3D11_SAMPLER_DESC)
  | CreateRasterizerState (desc : D3D11_RASTERIZER_DESC)
  | RSSetState (obj : Option Nat)
  | CreateBlendState (desc : D3D11_BLEND_DESC)
  | OMSetBlendState (obj : Option Nat)
  | CreateDepthStencilState (desc : D3D11_DEPTH_STENCIL_DESC)
  | OMSetDepthStencilState (obj : Option Nat)
  | writeError (msg : String)
  | writeWarning (msg : String)
  | Release (obj : Nat)
  | ReleaseBlob (stage : RDIShaderType)
  | CreateBuffer (byteWidth : Nat) (dynamic : Bool) (bindFlags : Nat)
      (initData : Option (List Nat))
  | CreateTexture2D (width : Int) (height : Int) (mipLevels : Nat) (arraySize : Nat)
      (format : String) (cube : Bool)
  | CreateShaderResourceView (tex : Option Nat) (format : String) (cube : Bool)
  | D3DCompile (src : CString) (target : String)
  | CreateVertexShader
  | CreatePixelShader
  | D3DReflect (stage : RDIShaderType)
  | CreateInputLayout (elements : List D3D11_INPUT_ELEMENT_DESC) (layoutIndex : Nat)
  | RSSetViewports (x : Int) (y : Int) (width : Int) (height : Int)
  | RSSetScissorRects (left : Int) (top : Int) (right : Int) (bottom : Int)
  | IASetIndexBuffer (obj : Option Nat) (format : Nat)
  | PSSetShaderResources (slot : Nat) (view : Option Nat)
  | PSSetSamplers (slot : Nat) (state : Option Nat)
  | IASetInputLayout (layout : Nat)
  | IASetVertexBuffers (slot : Nat) (obj : Option Nat) (stride : Nat) (offset : Nat)
  | VSSetConstantBuffers (slot : Int) (obj : Option Nat)
  | PSSetConstantBuffers (slot : Int) (obj : Option Nat)
  | IASetPrimitiveTopology (primType : Nat)
  | Draw (numVerts : Nat) (firstVert : Nat)
  | DrawIndexed (numIndices : Nat) (firstIndex : Nat) (baseVertex : Int)
  | OMSetRenderTargets (numViews : Nat) (views : List (Option Nat)) (depth : Option Nat)
deriving DecidableEq

/-- The raster state `RDIRasterState`, a union of the packed word `hash` with
bit fields; the fields are read off the word by the decoders of `RDIConsts`. -/
structure RDIRasterState where
  hash : Nat
deriving DecidableEq

/-- The blend state `RDIBlendState`, a union of `hash` with bit fields. -/
structure RDIBlendState where
  hash : Nat
deriving DecidableEq

/-- The depth-stencil state `RDIDepthStencilState`, a union of `hash` with bit
fields. -/
structure RDIDepthStencilState where
  hash : Nat
deriving DecidableEq

/-- Constants and bit-field layouts of `egRendererBase.h` that the backend
refers to by name; their values are parameters of the embedding.  The last
eleven fields read a bit field off the packed word of a state union. -/
structure RDIConsts where
  RDISamplerStateMask : Nat
  SS_FILTER_START : Nat
  SS_FILTER_MASK : Nat
  SS_ANISO_START : Nat
  SS_ANISO_MASK : Nat
  SS_ANISO1 : Nat
  SS_ADDRU_START : Nat
  SS_ADDRU_MASK : Nat
  SS_ADDRV_START : Nat
  SS_ADDRV_MASK : Nat
  SS_ADDRW_START : Nat
  SS_ADDRW_MASK : Nat
  SS_COMP_LEQUAL : Nat
  rasterStateMask : Nat
  blendStateMask : Nat
  depthStencilStateMask : Nat
  RS_FILL_WIREFRAME : Nat
  RS_CULL_BACK : Nat
  RS_CULL_FRONT : Nat
  PM_VIEWPORT : Nat
  PM_INDEXBUF : Nat
  PM_VERTLAYOUT : Nat
  PM_TEXTURES : Nat
  PM_SCISSOR : Nat
  PM_RENDERSTATES : Nat
  MaxNumVertexLayouts : Nat
  MaxColorAttachmentCount : Nat
  fillMode : Nat → Nat
  cullMode : Nat → Nat
  scissorEnable : Nat → Bool
  alphaToCoverageEnable : Nat → Bool
  blendEnable : Nat → Bool
  srcBlendFunc : Nat → Nat
  destBlendFunc : Nat → Nat
  renderTargetWriteMask : Nat → Bool
  depthWriteMask : Nat → Bool
  depthEnable : Nat → Bool
  depthFunc : Nat → Nat

/-- The members of `RenderDevice` that the embedded operations read or write. -/
structure RenderDevice where
  _buffers : RDIObjects RDIBuffer
  _textures : RDIObjects RDITexture
  _bufferMem : Nat
  _textureMem : Nat
  _curRasterState : RDIRasterState
  _newRasterState : RDIRasterState
  _curBlendState : RDIBlendState
  _newBlendState : RDIBlendState
  _curDepthStencilState : RDIDepthStencilState
  _newDepthStencilState : RDIDepthStencilState
  _rasterizerStates : Nat → Option Nat
  _blendStates : Nat → Option Nat
  _depthStencilStates : Nat → Option Nat
  _samplerStates : Nat → Option Nat
  _pendingMask : Nat
  _caps : DeviceCaps
  _depthFormat : String
  _shaders : RDIObjects RDIShader
  _rendBufs : RDIObjects RDIRenderBuffer
  _vertexLayouts : Nat → RDIVertexLayout
  _numVertexLayouts : Nat
  _activeVertexAttribsMask : Nat
  _vpX : Int
  _vpY : Int
  _vpWidth : Int
  _vpHeight : Int
  _scX : Int
  _scY : Int
  _scWidth : Int
  _scHeight : Int
  _fbWidth : Int
  _fbHeight : Int
  _prevShaderId : Nat
  _curShaderId : Nat
  _curRendBuf : Nat
  _outputBufferIndex : Nat
  _curVertLayout : Nat
  _newVertLayout : Nat
  _curIndexBuf : Nat
  _newIndexBuf : Nat
  _indexFormat : Nat
  _texSlots : Nat → RDITexSlot
  _vertBufSlots : Nat → RDIVertBufSlot
  _shaderLog : CString
  _defaultRenderTargetViews : List (Option Nat)
  _defaultDepthStencilView : Option Nat

/-! ## egRendererBaseD3D11.cpp -/

/-- The value of an `int` expression once stored in a `uint32`. -/
def toUInt32 (x : Int) : Nat := (x % 2 ^ 32).toNat

namespace RenderDevice

/-- `RenderDevice::updateBufferData`.  `debugAsserts` tells whether the macro
`ASSERT` of `utDebug.h` is compiled in; `mapResult` is the answer of the driver
to `Map`: `some rowPitch` when it succeeds.  The device itself is not written;
the result is the list of calls issued. -/
def updateBufferData (debugAsserts : Bool) (dev : RenderDevice) (mapResult : Option Nat)
    (bufObj offset size : Nat) (data : List Nat) : Except Fault (List D3DCall) :=
  match dev._buffers.getRef bufObj with
  | none => .error .invalidHandle
  | some buf =>
    if debugAsserts && !decide ((offset + size) % 2 ^ 32 ≤ buf.size) then
      .error .assertFailed
    else
      match buf.d3dObj with
      | none => .ok []
      | some obj =>
        if buf.dynamic then
          match mapResult with
          | some rowPitch =>
            .ok ([D3DCall.Map obj] ++
              (if (offset + size) % 2 ^ 32 ≤ rowPitch then
                [D3DCall.memcpy obj offset size data]
              else
                [D3DCall.writeError "updateBufferData: invalid offset/size parameters"]) ++
              [D3DCall.Unmap obj])
          | none => .ok [D3DCall.Map obj]
        else
          .ok [D3DCall.UpdateSubresource (some obj) 0
            (some ⟨offset, 0, 0, (offset + size) % 2 ^ 32, 1, 1⟩) data 0]

/-- `RenderDevice::calcTextureSize`; the `int` product is reduced to a `uint32`. -/
def calcTextureSize (format : TextureFormats) (width height depth : Int) : Nat :=
  match format with
  | .RGBA8 => toUInt32 (width * height * depth * 4)
  | .DXT1 => toUInt32 (max (width.tdiv 4) 1 * max (height.tdiv 4) 1 * depth * 8)
  | .DXT3 => toUInt32 (max (width.tdiv 4) 1 * max (height.tdiv 4) 1 * depth * 16)
  | .DXT5 => toUInt32 (max (width.tdiv 4) 1 * max (height.tdiv 4) 1 * depth * 16)
  | .RGBA16F => toUInt32 (width * height * depth * 8)
  | .RGBA32F => toUInt32 (width * height * depth * 16)
  | _ => 0

end RenderDevice

/-- The loop of `getMipLevels`; `fuel` bounds the number of iterations. -/
def getMipLevelsLoop : Nat → Int → Int → Int → Int → Int
  | 0, _, _, _, mipcount => mipcount
  | fuel + 1, width, height, depth, mipcount =>
    if width > 1 ∨ height > 1 ∨ depth > 1 then
      getMipLevelsLoop fuel (width >>> 1) (height >>> 1) (depth >>> 1) (mipcount + 1)
    else mipcount

/-- The static function `getMipLevels`.  Its arguments are 32-bit, so the loop
body runs fewer than 32 times; 32 bounds the recursion. -/
def getMipLevels (width height depth : Int) : Int :=
  getMipLevelsLoop 32 width height depth 1

/-- `D3D11CalcSubresource` of the driver headers. -/
def D3D11CalcSubresource (mipSlice arraySlice mipLevels : Int) : Int :=
  mipSlice + arraySlice * mipLevels

namespace RenderDevice

/-- `RenderDevice::uploadTextureData`.  The device itself is not written; the
result is the list of calls issued. -/
def uploadTextureData (dev : RenderDevice) (texObj : Nat) (slice mipLevel : Int)
    (pixels : List Nat) : Except Fault (List D3DCall) :=
  match dev._textures.getRef texObj with
  | none => .error .invalidHandle
  | some tex =>
    let format := tex.format
    -- Calculate size of next mipmap using "floor" convention
    let mipLevels : Int :=
      if tex.hasMips || tex.genMips then getMipLevels tex.width tex.height tex.depth else 1
    let width := max (tex.width >>> mipLevel.toNat) 1
    let height := max (tex.height >>> mipLevel.toNat) 1
    let srcRowPitch : Int := (calcTextureSize format width height 1 / height.toNat : Nat)
    let srcRowPitch : Int :=
      if tex.format = .DXT1 ∨ tex.format = .DXT3 ∨ tex.format = .DXT5 then srcRowPitch * 4
      else srcRowPitch
    let upload : List D3DCall :=
      if tex.type = .Tex2D ∨ tex.type = .TexCube then
        [D3DCall.UpdateSubresource tex.d3dTexture (D3D11CalcSubresource mipLevel slice mipLevels)
          none pixels srcRowPitch]
      else []
    let filter : List D3DCall :=
      if tex.genMips && (decide (tex.type ≠ .TexCube) || decide (slice = 5)) then
        [D3DCall.D3DX11FilterTexture tex.d3dTexture]
      else []
    .ok (upload ++ filter)

/-- `RenderDevice::getTextureData`.  The result is the returned flag together
with the contents of `buffer` after the call. -/
def getTextureData (dev : RenderDevice) (texObj : Nat) (_slice _mipLevel : Int)
    (buffer : List Nat) : Except Fault (Bool × List Nat) :=
  match dev._textures.getRef texObj with
  | none => .error .invalidHandle
  | some tex =>
    match tex.format with
    | .RGBA8 => .ok (true, buffer)
    | .DXT1 | .DXT3 | .DXT5 => .ok (true, buffer)
    | .RGBA16F | .RGBA32F => .ok (true, buffer)
    | _ => .ok (false, buffer)

end RenderDevice

namespace RenderDevice

/-- The descriptor that `getSamplerState` fills in for a masked state word.  An
index past the end of one of the four constant tables reads an unspecified
value in the source; here it reads the last line of the lookup. -/
def samplerDesc (k : RDIConsts) (state : Nat) : D3D11_SAMPLER_DESC :=
  let filters : List String := ["D3D11_FILTER_MIN_MAG_LINEAR_MIP_POINT",
    "D3D11_FILTER_MIN_MAG_MIP_LINEAR", "D3D11_FILTER_MIN_MAG_MIP_POINT"]
  let filtersComp : List String := ["D3D11_FILTER_COMPARISON_MIN_MAG_LINEAR_MIP_POINT",
    "D3D11_FILTER_COMPARISON_MIN_MAG_MIP_LINEAR", "D3D11_FILTER_COMPARISON_MIN_MAG_MIP_POINT"]
  let maxAniso : List Nat := [1, 2, 4, 8, 16, 1, 1, 1]
  let addressModes : List String := ["D3D11_TEXTURE_ADDRESS_CLAMP",
    "D3D11_TEXTURE_ADDRESS_WRAP", "D3D11_TEXTURE_ADDRESS_BORDER", "D3D11_TEXTURE_ADDRESS_BORDER"]
  let FLT_MAX : Int := 340282346638528859811704183484516925440
  let comp : Bool := state &&& k.SS_COMP_LEQUAL != 0
  let Filter : String :=
    if !comp then
      if state &&& k.SS_ANISO_MASK ≠ k.SS_ANISO1 then "D3D11_FILTER_ANISOTROPIC"
      else filters.getD ((state &&& k.SS_FILTER_MASK) >>> k.SS_FILTER_START) ""
    else
      if state &&& k.SS_ANISO_MASK ≠ k.SS_ANISO1 then "D3D11_FILTER_COMPARISON_ANISOTROPIC"
      else filtersComp.getD ((state &&& k.SS_FILTER_MASK) >>> k.SS_FILTER_START) ""
  { Filter := Filter
    AddressU := addressModes.getD ((state &&& k.SS_ADDRU_MASK) >>> k.SS_ADDRU_START) ""
    AddressV := addressModes.getD ((state &&& k.SS_ADDRV_MASK) >>> k.SS_ADDRV_START) ""
    AddressW := addressModes.getD ((state &&& k.SS_ADDRW_MASK) >>> k.SS_ADDRW_START) ""
    MipLODBias := 0
    MaxAnisotropy := maxAniso.getD ((state &&& k.SS_ANISO_MASK) >>> k.SS_ANISO_START) 0
    ComparisonFunc :=
      if !comp then "D3D11_COMPARISON_NEVER"
      else if state &&& k.SS_COMP_LEQUAL != 0 then "D3D11_COMPARISON_LESS_EQUAL"
      else "D3D11_COMPARISON_NEVER"
    BorderColor := [1, 1, 1, 1]
    MinLOD := -FLT_MAX
    MaxLOD := FLT_MAX }

/-- `RenderDevice::getSamplerState`.  `created` is the answer of the driver to
`CreateSamplerState`, should the call be made: `some obj` when it succeeds, and
`none` when it fails, which leaves the slot `NULL`.  The result is the device
after the call, the returned pointer and the calls issued. -/
def getSamplerState (k : RDIConsts) (dev : RenderDevice) (created : Option Nat) (state : Nat) :
    RenderDevice × Option Nat × List D3DCall :=
  let state := state &&& k.RDISamplerStateMask
  match dev._samplerStates state with
  | some obj => (dev, some obj, [])
  | none =>
    let desc := samplerDesc k state
    let dev1 : RenderDevice :=
      { dev with _samplerStates := Function.update dev._samplerStates state created }
    let log : List D3DCall :=
      if created.isNone then [D3DCall.writeError "CreateSamplerState failed with flag:%d"]
      else []
    (dev1, dev1._samplerStates state, [D3DCall.CreateSamplerState desc] ++ log)

/-- The rasterizer descriptor that `applyRenderStates` fills in. -/
def rasterizerDesc (k : RDIConsts) (st : RDIRasterState) : D3D11_RASTERIZER_DESC :=
  { FillMode := if k.fillMode st.hash = k.RS_FILL_WIREFRAME then "D3D11_FILL_WIREFRAME"
      else "D3D11_FILL_SOLID"
    CullMode :=
      if k.cullMode st.hash = k.RS_CULL_BACK then "D3D11_CULL_BACK"
      else if k.cullMode st.hash = k.RS_CULL_FRONT then "D3D11_CULL_FRONT"
      else "D3D11_CULL_NONE"
    FrontCounterClockwise := true
    DepthBias := 0
    DepthBiasClamp := 0
    SlopeScaledDepthBias := 0
    DepthClipEnable := true
    ScissorEnable := k.scissorEnable st.hash
    MultisampleEnable := false
    AntialiasedLineEnable := false }

/-- The blend descriptor that `applyRenderStates` fills in; the table
`d3dBlendFuncs` has seven initialisers for eight entries. -/
def blendDesc (k : RDIConsts) (st : RDIBlendState) : D3D11_BLEND_DESC :=
  let d3dBlendFuncs : List String := ["D3D11_BLEND_ZERO", "D3D11_BLEND_ONE",
    "D3D11_BLEND_SRC_ALPHA", "D3D11_BLEND_INV_SRC_ALPHA", "D3D11_BLEND_DEST_COLOR",
    "D3D11_BLEND_ZERO", "D3D11_BLEND_ZERO", "0"]
  let enabled := k.blendEnable st.hash
  { AlphaToCoverageEnable := k.alphaToCoverageEnable st.hash
    IndependentBlendEnable := false
    BlendEnable := enabled
    SrcBlend := if enabled then d3dBlendFuncs.getD (k.srcBlendFunc st.hash) "" else "D3D11_BLEND_ONE"
    DestBlend := if enabled then d3dBlendFuncs.getD (k.destBlendFunc st.hash) "" else "D3D11_BLEND_ZERO"
    BlendOp := "D3D11_BLEND_OP_ADD"
    SrcBlendAlpha :=
      if enabled then d3dBlendFuncs.getD (k.srcBlendFunc st.hash) "" else "D3D11_BLEND_ONE"
    DestBlendAlpha :=
      if enabled then d3dBlendFuncs.getD (k.destBlendFunc st.hash) "" else "D3D11_BLEND_ZERO"
    BlendOpAlpha := "D3D11_BLEND_OP_ADD"
    RenderTargetWriteMask :=
      if !k.renderTargetWriteMask st.hash then "0" else "D3D11_COLOR_WRITE_ENABLE_ALL" }

/-- The depth-stencil descriptor that `applyRenderStates` fills in. -/
def depthStencilDesc (k : RDIConsts) (st : RDIDepthStencilState) : D3D11_DEPTH_STENCIL_DESC :=
  let d3dDepthFuncs : List String := ["D3D11_COMPARISON_LESS_EQUAL", "D3D11_COMPARISON_LESS",
    "D3D11_COMPARISON_EQUAL", "D3D11_COMPARISON_GREATER", "D3D11_COMPARISON_GREATER_EQUAL",
    "D3D11_COMPARISON_ALWAYS", "D3D11_COMPARISON_ALWAYS", "D3D11_COMPARISON_ALWAYS"]
  { DepthEnable := k.depthEnable st.hash
    DepthWriteMask :=
      if !k.depthWriteMask st.hash then "D3D11_DEPTH_WRITE_MASK_ZERO"
      else "D3D11_DEPTH_WRITE_MASK_ALL"
    DepthFunc :=
      if k.depthEnable st.hash then d3dDepthFuncs.getD (k.depthFunc st.hash) ""
      else "D3D11_COMPARISON_LESS"
    StencilEnable := false }

/-- The rasterizer part of `applyRenderStates`.  `created` is the object that
`CreateRasterizerState` stores in the cache slot, should the call be made
(`none` when it fails). -/
def applyRasterState (k : RDIConsts) (dev : RenderDevice) (created : Option Nat) :
    RenderDevice × List D3DCall :=
  if dev._newRasterState.hash ≠ dev._curRasterState.hash then
    let hash := dev._newRasterState.hash &&& k.rasterStateMask
    let (cache, calls) :=
      if dev._rasterizerStates hash = none then
        (Function.update dev._rasterizerStates hash created,
          [D3DCall.CreateRasterizerState (rasterizerDesc k dev._newRasterState)])
      else (dev._rasterizerStates, [])
    ({ dev with
        _rasterizerStates := cache
        _curRasterState := ⟨dev._newRasterState.hash⟩ },
      calls ++ [D3DCall.RSSetState (cache hash)])
  else (dev, [])

/-- The blend part of `applyRenderStates`. -/
def applyBlendState (k : RDIConsts) (dev : RenderDevice) (created : Option Nat) :
    RenderDevice × List D3DCall :=
  if dev._newBlendState.hash ≠ dev._curBlendState.hash then
    let hash := dev._newBlendState.hash &&& k.blendStateMask
    let (cache, calls) :=
      if dev._blendStates hash = none then
        (Function.update dev._blendStates hash created,
          [D3DCall.CreateBlendState (blendDesc k dev._newBlendState)])
      else (dev._blendStates, [])
    ({ dev with
        _blendStates := cache
        _curBlendState := ⟨dev._newBlendState.hash⟩ },
      calls ++ [D3DCall.OMSetBlendState (cache hash)])
  else (dev, [])

/-- The depth-stencil part of `applyRenderStates`. -/
def applyDepthStencilState (k : RDIConsts) (dev : RenderDevice) (created : Option Nat) :
    RenderDevice × List D3DCall :=
  if dev._newDepthStencilState.hash ≠ dev._curDepthStencilState.hash then
    let hash := dev._newDepthStencilState.hash &&& k.depthStencilStateMask
    let (cache, calls) :=
      if dev._depthStencilStates hash = none then
        (Function.update dev._depthStencilStates hash created,
          [D3DCall.CreateDepthStencilState (depthStencilDesc k dev._newDepthStencilState)])
      else (dev._depthStencilStates, [])
    ({ dev with
        _depthStencilStates := cache
        _curDepthStencilState := ⟨dev._newDepthStencilState.hash⟩ },
      calls ++ [D3DCall.OMSetDepthStencilState (cache hash)])
  else (dev, [])

/-- `RenderDevice::applyRenderStates`: rasterizer state, then blend state, then
depth-stencil state.  `createdRS`, `createdBS` and `createdDS` are the objects
that the three creation calls of the driver store, should they be made.  The
result is the device after the call and the calls issued. -/
def applyRenderStates (k : RDIConsts) (dev : RenderDevice)
    (createdRS createdBS createdDS : Option Nat) : RenderDevice × List D3DCall :=
  let (dev1, calls1) := applyRasterState k dev createdRS
  let (dev2, calls2) := applyBlendState k dev1 createdBS
  let (dev3, calls3) := applyDepthStencilState k dev2 createdDS
  (dev3, calls1 ++ calls2 ++ calls3)

end RenderDevice

/-- Calls of the rasterizer category: state-object creation and binding. -/
def D3DCall.isRaster : D3DCall → Bool
  | .CreateRasterizerState _ => true
  | .RSSetState _ => true
  | _ => false

/-- Calls of the blend category: state-object creation and binding. -/
def D3DCall.isBlend : D3DCall → Bool
  | .CreateBlendState _ => true
  | .OMSetBlendState _ => true
  | _ => false

/-- Calls of the depth-stencil category: state-object creation and binding. -/
def D3DCall.isDepthStencil : D3DCall → Bool
  | .CreateDepthStencilState _ => true
  | .OMSetDepthStencilState _ => true
  | _ => false

/-- Calls that create a sampler state object. -/
def D3DCall.isCreateSamplerState : D3DCall → Bool
  | .CreateSamplerState _ => true
  | _ => false

/-- Addition of two `uint32` values. -/
def addUInt32 (a b : Nat) : Nat := (a + b) % 2 ^ 32

/-- Subtraction of two `uint32` values. -/
def subUInt32 (a b : Nat) : Nat := (a + 2 ^ 32 - b % 2 ^ 32) % 2 ^ 32

/-- The `uint32` value with the bits of `m` cleared, `x & ~m`. -/
def clearBits (x m : Nat) : Nat := x &&& (0xFFFFFFFF ^^^ m)

namespace RenderDevice

/-- `RenderDevice::registerVertexLayout`; the caller's array `attribs` holds
`numAttribs` entries.  The result is the device after the call and the returned
handle. -/
def registerVertexLayout (k : RDIConsts) (dev : RenderDevice)
    (attribs : List VertexLayoutAttrib) : RenderDevice × Nat :=
  if dev._numVertexLayouts = k.MaxNumVertexLayouts then (dev, 0)
  else
    let numAttribs := attribs.length
    let old := dev._vertexLayouts dev._numVertexLayouts
    let vl : RDIVertexLayout :=
      { numAttribs := numAttribs
        attribs := fun i => if i < numAttribs then attribs.getD i (old.attribs i)
          else old.attribs i }
    ({ dev with
        _vertexLayouts := Function.update dev._vertexLayouts dev._numVertexLayouts vl
        _numVertexLayouts := dev._numVertexLayouts + 1 },
      dev._numVertexLayouts + 1)

/-- `RenderDevice::createBuffer`.  `created` is the answer of the driver to
`CreateBuffer`, should the call be made.  The result is the device after the
call, the returned handle and the calls issued. -/
def createBuffer (dev : RenderDevice) (created : Option Nat) (size : Nat)
    (data : Option (List Nat)) (dynamic : Bool) (bindFlags : Nat) :
    RenderDevice × Nat × List D3DCall :=
  let buf : RDIBuffer := ⟨bindFlags, size, none, dynamic⟩
  let (buf, calls) : RDIBuffer × List D3DCall :=
    if size > 0 then
      ({ buf with d3dObj := created },
        [D3DCall.CreateBuffer size dynamic bindFlags data] ++
          (if created.isNone then [D3DCall.writeError "createBuffer failed"] else []))
    else (buf, [])
  let added := dev._buffers.add buf
  ({ dev with _bufferMem := addUInt32 dev._bufferMem size, _buffers := added.1 },
    added.2, calls)

/-- `RenderDevice::createUniformBuffer`; 4 is `D3D11_BIND_CONSTANT_BUFFER`. -/
def createUniformBuffer (dev : RenderDevice) (created : Option Nat) (size : Nat)
    (data : Option (List Nat)) : RenderDevice × Nat × List D3DCall :=
  createBuffer dev created size data true 4

/-- `RenderDevice::destroyBuffer`. -/
def destroyBuffer (dev : RenderDevice) (bufObj : Nat) :
    Except Fault (RenderDevice × List D3DCall) :=
  if bufObj = 0 then .ok (dev, [])
  else
    match dev._buffers.getRef bufObj with
    | none => .error .invalidHandle
    | some buf =>
      let calls : List D3DCall :=
        match buf.d3dObj with
        | some obj => [D3DCall.Release obj]
        | none => []
      .ok ({ dev with
              _bufferMem := subUInt32 dev._bufferMem buf.size
              _buffers := dev._buffers.remove RDIBuffer.empty bufObj },
        calls)

/-- `RenderDevice::createTexture`.  `debugAsserts` tells whether `ASSERT` is
compiled in, `sRGBLinearization` is the engine option of that name, `ftoi_r` is
the rounding function of `utMath.h`; `createdTex` and `createdView` are the
answers of the driver to `CreateTexture2D` and `CreateShaderResourceView`.  The
result is the device after the call, the returned handle and the calls
issued. -/
def createTexture (debugAsserts : Bool) (sRGBLinearization : Bool) (ftoi_r : ℚ → Int)
    (dev : RenderDevice) (createdTex createdView : Option Nat)
    (type : TextureTypes) (width height depth : Int) (format : TextureFormats)
    (hasMips genMips sRGB : Bool) : Except Fault (RenderDevice × Nat × List D3DCall) :=
  if debugAsserts && !decide (depth > 0) then .error .assertFailed
  else
    let warn : List D3DCall :=
      if !dev._caps.texNPOT &&
          (decide (Int.land width (width - 1) ≠ 0) || decide (Int.land height (height - 1) ≠ 0))
      then [D3DCall.writeWarning
        "Texture has non-power-of-two dimensions although NPOT is not supported by GPU"]
      else []
    let texSRGB := sRGB && sRGBLinearization
    let formats : TextureFormats → String
      | .Unknown => "DXGI_FORMAT_UNKNOWN"
      | .RGBA8 => "DXGI_FORMAT_R8G8B8A8_UNORM"
      | .DXT1 => "DXGI_FORMAT_BC1_UNORM"
      | .DXT3 => "DXGI_FORMAT_BC2_UNORM"
      | .DXT5 => "DXGI_FORMAT_BC3_UNORM"
      | .RGBA16F => "DXGI_FORMAT_R16G16B16A16_FLOAT"
      | .RGBA32F => "DXGI_FORMAT_R32G32B32A32_FLOAT"
      | .DEPTH => dev._depthFormat
    let srgbFormats : TextureFormats → String
      | .Unknown => "DXGI_FORMAT_UNKNOWN"
      | .RGBA8 => "DXGI_FORMAT_R8G8B8A8_UNORM_SRGB"
      | .DXT1 => "DXGI_FORMAT_BC1_UNORM_SRGB"
      | .DXT3 => "DXGI_FORMAT_BC2_UNORM_SRGB"
      | .DXT5 => "DXGI_FORMAT_BC3_UNORM_SRGB"
      | .RGBA16F => "DXGI_FORMAT_R16G16B16A16_FLOAT"
      | .RGBA32F => "DXGI_FORMAT_R32G32B32A32_FLOAT"
      | .DEPTH => dev._depthFormat
    let d3dFmt := if texSRGB then srgbFormats format else formats format
    let mipCount : Nat :=
      if genMips then 0 else if hasMips then toUInt32 (getMipLevels width height depth) else 1
    let cube := decide (type = .TexCube)
    let (d3dTexture, d3dResourceView, calls) : Option Nat × Option Nat × List D3DCall :=
      if type = .Tex2D ∨ type = .TexCube then
        let create := D3DCall.CreateTexture2D width height mipCount (if cube then 6 else 1)
          d3dFmt cube
        match createdTex with
        | some texObj =>
          let viewFormat :=
            if format = .DEPTH ∧ dev._depthFormat = "DXGI_FORMAT_R32_TYPELESS" then
              "DXGI_FORMAT_R32_FLOAT"
            else if format = .DEPTH ∧ dev._depthFormat = "DXGI_FORMAT_R24G8_TYPELESS" then
              "DXGI_FORMAT_R24_UNORM_X8_TYPELESS"
            else d3dFmt
          let view := D3DCall.CreateShaderResourceView (some texObj) viewFormat cube
          match createdView with
          | some viewObj => (some texObj, some viewObj, [create, view])
          | none => (none, none, [create, view, D3DCall.Release texObj])
        | none => (none, none, [create])
      else (none, none, [])
    -- Calculate memory requirements
    let memSize := calcTextureSize format width height depth
    let memSize :=
      if hasMips || genMips then toUInt32 ((memSize : Int) + ftoi_r ((memSize : ℚ) * 1 / 3))
      else memSize
    let memSize := if type = .TexCube then (memSize * 6) % 2 ^ 32 else memSize
    let tex : RDITexture :=
      { type := type, format := format, width := width, height := height, depth := depth
        sRGB := texSRGB, genMips := genMips, hasMips := hasMips, memSize := memSize
        d3dTexture := d3dTexture, d3dResourceView := d3dResourceView, d3dFmt := d3dFmt }
    let added := dev._textures.add tex
    .ok ({ dev with _textureMem := addUInt32 dev._textureMem memSize, _textures := added.1 },
      added.2, warn ++ calls)

/-- `RenderDevice::destroyTexture`. -/
def destroyTexture (dev : RenderDevice) (texObj : Nat) :
    Except Fault (RenderDevice × List D3DCall) :=
  if texObj = 0 then .ok (dev, [])
  else
    match dev._textures.getRef texObj with
    | none => .error .invalidHandle
    | some tex =>
      let calls : List D3DCall :=
        (match tex.d3dTexture with
          | some obj => [D3DCall.Release obj]
          | none => []) ++
        (match tex.d3dResourceView with
          | some obj => [D3DCall.Release obj]
          | none => [])
      .ok ({ dev with
              _textureMem := subUInt32 dev._textureMem tex.memSize
              _textures := dev._textures.remove RDITexture.empty texObj },
        calls)

end RenderDevice

namespace RenderDevice

/-- The loop of `destroyRenderBuffer` over the color attachments: every
non-zero texture handle in `colTexs` is destroyed. -/
def destroyColTexs (rb : RDIRenderBuffer) :
    List Nat → RenderDevice → Except Fault (RenderDevice × List D3DCall)
  | [], dev => .ok (dev, [])
  | i :: rest, dev =>
    if rb.colTexs i ≠ 0 then
      match destroyTexture dev (rb.colTexs i) with
      | .error e => .error e
      | .ok (dev1, calls1) =>
        match destroyColTexs rb rest dev1 with
        | .error e => .error e
        | .ok (dev2, calls2) => .ok (dev2, calls1 ++ calls2)
    else destroyColTexs rb rest dev

/-- `RenderDevice::destroyRenderBuffer`.  The fields of the record that the
source zeroes are not written here, since `remove` replaces the whole record. -/
def destroyRenderBuffer (k : RDIConsts) (dev : RenderDevice) (rbObj : Nat) :
    Except Fault (RenderDevice × List D3DCall) :=
  match dev._rendBufs.getRef rbObj with
  | none => .error .invalidHandle
  | some rb =>
    match (if rb.depthTex ≠ 0 then destroyTexture dev rb.depthTex else .ok (dev, [])) with
    | .error e => .error e
    | .ok (dev1, calls1) =>
      match destroyColTexs rb (List.range k.MaxColorAttachmentCount) dev1 with
      | .error e => .error e
      | .ok (dev2, calls2) =>
        .ok ({ dev2 with _rendBufs := dev2._rendBufs.remove RDIRenderBuffer.empty rbObj },
          calls1 ++ calls2)

/-- `RenderDevice::createRenderBuffer`.  The creation of the attachments and the
completeness check are commented out in this backend, so `valid` stays `true`.
The result is the device after the call, the returned handle and the calls
issued. -/
def createRenderBuffer (k : RDIConsts) (dev : RenderDevice) (width height : Nat)
    (format : TextureFormats) (_depth : Bool) (numColBufs samples : Nat) :
    Except Fault (RenderDevice × Nat × List D3DCall) :=
  if (format = .RGBA16F ∨ format = .RGBA32F) ∧ dev._caps.texFloat = false then .ok (dev, 0, [])
  else if numColBufs > k.MaxColorAttachmentCount then .ok (dev, 0, [])
  else
    let maxSamples : Nat := 0
    let (samples, warn) : Nat × List D3DCall :=
      if samples > maxSamples then
        (maxSamples, [D3DCall.writeWarning
          "GPU does not support desired multisampling quality for render target"])
      else (samples, [])
    let rb : RDIRenderBuffer :=
      { RDIRenderBuffer.empty with width := width, height := height, samples := samples }
    let added := dev._rendBufs.add rb
    let dev1 : RenderDevice := { dev with _rendBufs := added.1 }
    let rbObj := added.2
    -- Check if FBO is complete
    let valid := true
    if !valid then
      match destroyRenderBuffer k dev1 rbObj with
      | .error e => .error e
      | .ok (dev2, calls) => .ok (dev2, 0, warn ++ calls)
    else .ok (dev1, rbObj, warn)

/-- `RenderDevice::getRenderBufferTex`. -/
def getRenderBufferTex (k : RDIConsts) (dev : RenderDevice) (rbObj bufIndex : Nat) :
    Except Fault Nat :=
  match dev._rendBufs.getRef rbObj with
  | none => .error .invalidHandle
  | some rb =>
    if bufIndex < k.MaxColorAttachmentCount then .ok (rb.colTexs bufIndex)
    else if bufIndex = 32 then .ok rb.depthTex
    else .ok 0

/-- `RenderDevice::resolveRenderBuffer`: every driver call of the function is
commented out in this backend, so it only reads the record. -/
def resolveRenderBuffer (dev : RenderDevice) (rbObj : Nat) : Except Fault Unit :=
  match dev._rendBufs.getRef rbObj with
  | none => .error .invalidHandle
  | some _ => .ok ()

/-- Modelled from the spec: the inline setter `setTexture` of
`egRendererBase.h`, which stores the request in the texture slot and marks the
texture category dirty. -/
def setTexture (k : RDIConsts) (dev : RenderDevice) (slot texObj samplerState : Nat) :
    RenderDevice :=
  { dev with
    _texSlots := Function.update dev._texSlots slot ⟨texObj, samplerState⟩
    _pendingMask := dev._pendingMask ||| k.PM_TEXTURES }

end RenderDevice

/-- The answers of the driver to the calls that `commitStates` may make: the
three state objects of `applyRenderStates`, the sampler state created while
binding sampler number `i` of the shader, and the row pitches of the two
uniform-buffer mappings. -/
structure CommitAnswers where
  createdRS : Option Nat
  createdBS : Option Nat
  createdDS : Option Nat
  createdSampler : Nat → Option Nat
  mapVertex : Option Nat
  mapPixel : Option Nat

namespace RenderDevice

/-- The viewport part of `commitStates`. -/
def commitViewport (k : RDIConsts) (dev : RenderDevice) (mask : Nat) :
    RenderDevice × List D3DCall :=
  if mask &&& k.PM_VIEWPORT ≠ 0 then
    ({ dev with _pendingMask := clearBits dev._pendingMask k.PM_VIEWPORT },
      [D3DCall.RSSetViewports dev._vpX dev._vpY dev._vpWidth dev._vpHeight])
  else (dev, [])

/-- The render-state part of `commitStates`. -/
def commitRenderStates (k : RDIConsts) (dev : RenderDevice) (io : CommitAnswers)
    (mask : Nat) : RenderDevice × List D3DCall :=
  if mask &&& k.PM_RENDERSTATES ≠ 0 then
    let r := applyRenderStates k dev io.createdRS io.createdBS io.createdDS
    ({ r.1 with _pendingMask := clearBits r.1._pendingMask k.PM_RENDERSTATES }, r.2)
  else (dev, [])

/-- The scissor part of `commitStates`. -/
def commitScissor (k : RDIConsts) (dev : RenderDevice) (mask : Nat) :
    RenderDevice × List D3DCall :=
  if mask &&& k.PM_SCISSOR ≠ 0 then
    ({ dev with _pendingMask := clearBits dev._pendingMask k.PM_SCISSOR },
      [D3DCall.RSSetScissorRects dev._scX dev._scY (dev._scX + dev._scWidth)
        (dev._scY + dev._scHeight)])
  else (dev, [])

/-- The index-buffer part of `commitStates`; 57 is `DXGI_FORMAT_R16_UINT`. -/
def commitIndexBuf (k : RDIConsts) (dev : RenderDevice) (mask : Nat) :
    Except Fault (RenderDevice × List D3DCall) :=
  if mask &&& k.PM_INDEXBUF ≠ 0 then
    if dev._newIndexBuf ≠ dev._curIndexBuf then
      let dev1 : RenderDevice :=
        { dev with
          _curIndexBuf := dev._newIndexBuf
          _pendingMask := clearBits dev._pendingMask k.PM_INDEXBUF }
      if dev._newIndexBuf ≠ 0 then
        match dev._buffers.getRef dev._newIndexBuf with
        | none => .error .invalidHandle
        | some buf => .ok (dev1, [D3DCall.IASetIndexBuffer buf.d3dObj dev._indexFormat])
      else .ok (dev1, [D3DCall.IASetIndexBuffer none 57])
    else .ok (dev, [])
  else .ok (dev, [])

/-- The loop of `commitStates` over the samplers of the bound shader; `i` is
the index of the first sampler of the list. -/
def bindSamplers (k : RDIConsts) (io : CommitAnswers) :
    List RDISampler → Nat → RenderDevice → Except Fault (RenderDevice × List D3DCall)
  | [], _, dev => .ok (dev, [])
  | sampler :: rest, i, dev =>
    if sampler.slot ≥ 0 ∧ (dev._texSlots sampler.slot.toNat).texObj ≠ 0 then
      match dev._textures.getRef (dev._texSlots sampler.slot.toNat).texObj with
      | none => .error .invalidHandle
      | some tex =>
        let r := getSamplerState k dev (io.createdSampler i)
          (dev._texSlots sampler.slot.toNat).samplerState
        let desc := sampler.desc .Pixel
        match bindSamplers k io rest (i + 1) r.1 with
        | .error e => .error e
        | .ok (dev2, calls) =>
          .ok (dev2, r.2.2 ++
            [D3DCall.PSSetShaderResources desc.textureBindPoint tex.d3dResourceView,
             D3DCall.PSSetSamplers desc.samplerBindPoint r.2.1] ++ calls)
    else bindSamplers k io rest (i + 1) dev

/-- The texture part of `commitStates`. -/
def commitTextures (k : RDIConsts) (dev : RenderDevice) (io : CommitAnswers) (mask : Nat) :
    Except Fault (RenderDevice × List D3DCall) :=
  if mask &&& k.PM_TEXTURES ≠ 0 then
    match (if dev._curShaderId > 0 then
        match dev._shaders.getRef dev._curShaderId with
        | none => .error .invalidHandle
        | some shader => bindSamplers k io shader.samplers 0 dev
      else .ok (dev, []) : Except Fault (RenderDevice × List D3DCall)) with
    | .error e => .error e
    | .ok (dev1, calls) =>
      .ok ({ dev1 with _pendingMask := clearBits dev1._pendingMask k.PM_TEXTURES }, calls)
  else .ok (dev, [])

/-- The loop of `applyVertexLayout` over the attributes of the layout: each
buffer slot is bound once.  The result is the new attribute mask and the calls
issued. -/
def bindVertexBuffers (dev : RenderDevice) (vl : RDIVertexLayout) :
    List Nat → Nat → Except Fault (Nat × List D3DCall)
  | [], newVertexAttribMask => .ok (newVertexAttribMask, [])
  | i :: rest, newVertexAttribMask =>
    let buffer := (vl.attribs i).vbSlot
    if newVertexAttribMask &&& (1 <<< buffer) = 0 then
      let vbSlot := dev._vertBufSlots buffer
      match dev._buffers.getRef vbSlot.vbObj with
      | none => .error .invalidHandle
      | some buf =>
        match bindVertexBuffers dev vl rest
            ((newVertexAttribMask ||| (1 <<< buffer)) % 2 ^ 32) with
        | .error e => .error e
        | .ok (m, calls) =>
          .ok (m, D3DCall.IASetVertexBuffers buffer buf.d3dObj vbSlot.stride vbSlot.offset
            :: calls)
    else bindVertexBuffers dev vl rest newVertexAttribMask

/-- `RenderDevice::applyVertexLayout`.  The result is the device after the
call, the returned flag and the calls issued. -/
def applyVertexLayout (dev : RenderDevice) : Except Fault (RenderDevice × Bool × List D3DCall) :=
  let finish (newVertexAttribMask : Nat) (calls : List D3DCall) :
      Except Fault (RenderDevice × Bool × List D3DCall) :=
    let disableMask := clearBits dev._activeVertexAttribsMask newVertexAttribMask
    let disable : List D3DCall :=
      if disableMask ≠ 0 then
        (List.range 16).filterMap fun i =>
          if disableMask &&& (1 <<< i) ≠ 0 then some (D3DCall.IASetVertexBuffers i none 0 0)
          else none
      else []
    .ok ({ dev with _activeVertexAttribsMask := newVertexAttribMask }, true, calls ++ disable)
  if dev._newVertLayout ≠ 0 then
    if dev._curShaderId = 0 then .ok (dev, false, [])
    else
      let vl := dev._vertexLayouts (dev._newVertLayout - 1)
      match dev._shaders.getRef dev._curShaderId with
      | none => .error .invalidHandle
      | some shader =>
        match shader.inputLayouts (dev._newVertLayout - 1) with
        | none => .ok (dev, false, [])
        | some inputLayout =>
          match bindVertexBuffers dev vl (List.range vl.numAttribs) 0 with
          | .error e => .error e
          | .ok (m, calls) => finish m (D3DCall.IASetInputLayout inputLayout :: calls)
  else finish 0 []

/-- The vertex-layout part of `commitStates`; the flag `false` makes
`commitStates` return `false` at once. -/
def commitVertLayout (k : RDIConsts) (dev : RenderDevice) (mask : Nat) :
    Except Fault (RenderDevice × Bool × List D3DCall) :=
  if mask &&& k.PM_VERTLAYOUT ≠ 0 then
    match applyVertexLayout dev with
    | .error e => .error e
    | .ok (dev1, false, calls) => .ok (dev1, false, calls)
    | .ok (dev1, true, calls) =>
      .ok ({ dev1 with
              _curVertLayout := dev1._newVertLayout
              _prevShaderId := dev1._curShaderId
              _pendingMask := clearBits dev1._pendingMask k.PM_VERTLAYOUT },
        true, calls)
  else .ok (dev, true, [])

/-- The upload of the `$Globals` block of one stage in `commitStates`; `bind`
is the driver call that binds the uniform buffer for the stage. -/
def uploadGlobals (debugAsserts : Bool) (dev : RenderDevice) (cb : GlobalCBuffer)
    (mapResult : Option Nat) (bind : Int → Option Nat → D3DCall) :
    Except Fault (List D3DCall) :=
  if cb.bindPoint ≥ 0 then
    match dev._buffers.getRef cb.bufferId with
    | none => .error .invalidHandle
    | some buffer =>
      match updateBufferData debugAsserts dev mapResult cb.bufferId 0 buffer.size
          (cb.bufferData.getD []) with
      | .error e => .error e
      | .ok calls => .ok (calls ++ [bind cb.bindPoint buffer.d3dObj])
  else .ok []

/-- The upload of the shader constants at the end of `commitStates`. -/
def commitUniforms (debugAsserts : Bool) (dev : RenderDevice) (io : CommitAnswers) :
    Except Fault (List D3DCall) :=
  if dev._curShaderId > 0 then
    match dev._shaders.getRef dev._curShaderId with
    | none => .error .invalidHandle
    | some shader =>
      match uploadGlobals debugAsserts dev (shader.globalCBuffers .Vertex) io.mapVertex
          D3DCall.VSSetConstantBuffers with
      | .error e => .error e
      | .ok calls1 =>
        match uploadGlobals debugAsserts dev (shader.globalCBuffers .Pixel) io.mapPixel
            D3DCall.PSSetConstantBuffers with
        | .error e => .error e
        | .ok calls2 => .ok (calls1 ++ calls2)
  else .ok []

/-- `RenderDevice::commitStates`.  The result is the device after the call, the
returned flag and the calls issued, in program order. -/
def commitStates (debugAsserts : Bool) (k : RDIConsts) (dev : RenderDevice)
    (io : CommitAnswers) (filter : Nat) : Except Fault (RenderDevice × Bool × List D3DCall) :=
  if dev._pendingMask &&& filter ≠ 0 then
    let mask := dev._pendingMask &&& filter
    let r1 := commitViewport k dev mask
    let r2 := commitRenderStates k r1.1 io mask
    let r3 := commitScissor k r2.1 mask
    match commitIndexBuf k r3.1 mask with
    | .error e => .error e
    | .ok (dev4, calls4) =>
      match commitTextures k dev4 io mask with
      | .error e => .error e
      | .ok (dev5, calls5) =>
        match commitVertLayout k dev5 mask with
        | .error e => .error e
        | .ok (dev6, false, calls6) =>
          .ok (dev6, false, r1.2 ++ r2.2 ++ r3.2 ++ calls4 ++ calls5 ++ calls6)
        | .ok (dev6, true, calls6) =>
          match commitUniforms debugAsserts dev6 io with
          | .error e => .error e
          | .ok calls7 =>
            .ok (dev6, true, r1.2 ++ r2.2 ++ r3.2 ++ calls4 ++ calls5 ++ calls6 ++ calls7)
  else .ok (dev, true, [])

/-- `RenderDevice::draw`; `commitStates()` is called with the default filter
`0xFFFFFFFF`. -/
def draw (debugAsserts : Bool) (k : RDIConsts) (dev : RenderDevice) (io : CommitAnswers)
    (primType firstVert numVerts : Nat) : Except Fault (RenderDevice × List D3DCall) :=
  match commitStates debugAsserts k dev io 0xFFFFFFFF with
  | .error e => .error e
  | .ok (dev1, true, calls) =>
    .ok (dev1, calls ++ [D3DCall.IASetPrimitiveTopology primType,
      D3DCall.Draw numVerts firstVert])
  | .ok (dev1, false, calls) => .ok (dev1, calls)

/-- `RenderDevice::drawIndexed`. -/
def drawIndexed (debugAsserts : Bool) (k : RDIConsts) (dev : RenderDevice)
    (io : CommitAnswers) (primType firstIndex numIndices _firstVert _numVerts : Nat) :
    Except Fault (RenderDevice × List D3DCall) :=
  match commitStates debugAsserts k dev io 0xFFFFFFFF with
  | .error e => .error e
  | .ok (dev1, true, calls) =>
    .ok (dev1, calls ++ [D3DCall.IASetPrimitiveTopology primType,
      D3DCall.DrawIndexed numIndices firstIndex 0])
  | .ok (dev1, false, calls) => .ok (dev1, calls)

/-- `RenderDevice::setRenderBuffer`. -/
def setRenderBuffer (debugAsserts : Bool) (k : RDIConsts) (dev : RenderDevice)
    (io : CommitAnswers) (rbObj : Nat) : Except Fault (RenderDevice × List D3DCall) :=
  -- Resolve render buffer if necessary
  match (if dev._curRendBuf ≠ 0 then resolveRenderBuffer dev dev._curRendBuf else .ok ()) with
  | .error e => .error e
  | .ok () =>
    -- Set new render buffer
    let dev1 : RenderDevice := { dev with _curRendBuf := rbObj }
    if rbObj = 0 then
      .ok ({ dev1 with
              _fbWidth := dev1._vpWidth + dev1._vpX
              _fbHeight := dev1._vpHeight + dev1._vpY },
        [D3DCall.OMSetRenderTargets k.MaxColorAttachmentCount dev1._defaultRenderTargetViews
          dev1._defaultDepthStencilView])
    else
      -- Unbind all textures to make sure that no FBO attachment is bound any more
      let dev2 := (List.range 16).foldl (fun d i => setTexture k d i 0 0) dev1
      match commitStates debugAsserts k dev2 io k.PM_TEXTURES with
      | .error e => .error e
      | .ok (dev3, _, calls) =>
        match dev3._rendBufs.getRef rbObj with
        | none => .error .invalidHandle
        | some rb =>
          .ok ({ dev3 with _fbWidth := rb.width, _fbHeight := rb.height },
            calls ++ [D3DCall.OMSetRenderTargets 0 [] none])

end RenderDevice

/-- `D3D11_SIGNATURE_PARAMETER_DESC`: an input parameter of a shader stage. -/
structure D3D11_SIGNATURE_PARAMETER_DESC where
  SemanticName : CString
  SemanticIndex : Nat
deriving DecidableEq

/-- `D3D11_SHADER_VARIABLE_DESC`: a variable of a constant buffer. -/
structure D3D11_SHADER_VARIABLE_DESC where
  Name : CString
  StartOffset : Nat
  Size : Nat
  uFlags : Nat
deriving DecidableEq

/-- `D3D11_SHADER_BUFFER_DESC` together with the variables of the buffer; an
entry of `Variables` is `none` when `GetDesc` fails for that variable. -/
structure D3D11_SHADER_BUFFER_DESC where
  Size : Nat
  Variables : List (Option D3D11_SHADER_VARIABLE_DESC)
deriving DecidableEq

/-- The resource types of `D3D_SHADER_INPUT_TYPE` that `parseShaderBlob` tells
apart. -/
inductive D3D_SHADER_INPUT_TYPE where
  | D3D_SIT_CBUFFER
  | D3D_SIT_TEXTURE
  | D3D_SIT_SAMPLER
  | D3D_SIT_OTHER
deriving DecidableEq

/-- `D3D11_SHADER_INPUT_BIND_DESC`: a resource bound by a shader stage; `Type_`
is the member `Type`. -/
structure D3D11_SHADER_INPUT_BIND_DESC where
  Name : CString
  Type_ : D3D_SHADER_INPUT_TYPE
  BindPoint : Nat
deriving DecidableEq

/-- What `D3DReflect` reports for a compiled stage: the input parameters, the
number of constant buffers, the description of the buffer `$Globals` (`none`
when its `GetDesc` fails) and the bound resources. -/
structure ShaderReflection where
  InputParameters : List D3D11_SIGNATURE_PARAMETER_DESC
  ConstantBuffers : Nat
  globals : Option D3D11_SHADER_BUFFER_DESC
  BoundResources : List D3D11_SHADER_INPUT_BIND_DESC
deriving DecidableEq

/-- The answers of the compiler and the driver for one shader stage: whether
`D3DCompile` fails, its error blob, the object of `CreateVertexShader` or
`CreatePixelShader`, the reflection of the blob, the input layout created for
vertex layout `i`, and the uniform buffer created for `$Globals`. -/
structure StageAnswers where
  compileFailed : Bool
  errorBlob : Option CString
  created : Option Nat
  reflection : ShaderReflection
  createdLayout : Nat → Option Nat
  createdBuffer : Option Nat

/-- An entry of the table `attribRemaps` of `parseShaderBlob`. -/
structure AttribRemap where
  attrib : CString
  semanticName : CString
  semanticIndex : Nat
deriving DecidableEq

/-- The table `attribRemaps` of `parseShaderBlob`. -/
def attribRemaps : List AttribRemap :=
  [⟨"vertPos".toList, "POSITION".toList, 0⟩,
   ⟨"texCoords0".toList, "TEXCOORD".toList, 0⟩,
   ⟨"texCoords1".toList, "TEXCOORD".toList, 1⟩,
   ⟨"normal".toList, "NORMAL".toList, 0⟩,
   ⟨"tangent".toList, "TANGENT".toList, 0⟩,
   ⟨"joints".toList, "BLENDINDICES".toList, 0⟩,
   ⟨"weights".toList, "BLENDWEIGHTS".toList, 0⟩,
   ⟨"parIdx".toList, "BLENDINDICES".toList, 0⟩]

namespace RenderDevice

/-- The array `layout` that `parseShaderBlob` fills for a vertex layout: one
element for each attribute whose name is in `attribRemaps`, taken from the
first entry with that name. -/
def layoutElements (vl : RDIVertexLayout) : List D3D11_INPUT_ELEMENT_DESC :=
  let formats : List String := ["DXGI_FORMAT_R32_FLOAT", "DXGI_FORMAT_R32G32_FLOAT",
    "DXGI_FORMAT_R32G32B32_FLOAT", "DXGI_FORMAT_R32G32B32A32_FLOAT"]
  (List.range vl.numAttribs).filterMap fun j =>
    (attribRemaps.find? fun r => decide ((vl.attribs j).semanticName = r.attrib)).map fun r =>
      { SemanticName := r.semanticName, SemanticIndex := r.semanticIndex
        Format := formats.getD (subUInt32 (vl.attribs j).size 1) ""
        InputSlot := (vl.attribs j).vbSlot, AlignedByteOffset := (vl.attribs j).offset }

/-- The flag `allParametersFound` of `parseShaderBlob`: every input parameter
of the shader has an element of `layout` with its semantic name and index. -/
def allParametersFound (layout : List D3D11_INPUT_ELEMENT_DESC)
    (params : List D3D11_SIGNATURE_PARAMETER_DESC) : Bool :=
  params.all fun inputDesc =>
    layout.any fun e =>
      decide (e.SemanticName = inputDesc.SemanticName) &&
        decide (e.SemanticIndex = inputDesc.SemanticIndex)

/-- The loop of `parseShaderBlob` over the registered vertex layouts.  The
result is the updated array `inputLayouts` and the calls issued. -/
def createInputLayouts (dev : RenderDevice) (a : StageAnswers) :
    List Nat → (Nat → Option Nat) → (Nat → Option Nat) × List D3DCall
  | [], inputLayouts => (inputLayouts, [])
  | i :: rest, inputLayouts =>
    let layout := layoutElements (dev._vertexLayouts i)
    if allParametersFound layout a.reflection.InputParameters then
      let r := createInputLayouts dev a rest
        (Function.update inputLayouts i (a.createdLayout i))
      (r.1, D3DCall.CreateInputLayout layout i :: r.2)
    else createInputLayouts dev a rest inputLayouts

/-- The merge of one used variable into `shader.uniforms`: the first uniform of
that name gets the offset and size for the stage; if there is none, a new
uniform is appended and gets them. -/
def setUniformDesc (shaderType : RDIShaderType) (name : CString) (d : RDIUniformDesc) :
    List RDIUniform → List RDIUniform
  | [] => [⟨name, Function.update (fun _ => RDIUniformDesc.empty) shaderType d⟩]
  | u :: rest =>
    if u.name = name then { u with desc := Function.update u.desc shaderType d } :: rest
    else u :: setUniformDesc shaderType name d rest

/-- The loop of `parseShaderBlob` over the variables of `$Globals`; 2 is
`D3D_SVF_USED`. -/
def mergeUniforms (shaderType : RDIShaderType) :
    List (Option D3D11_SHADER_VARIABLE_DESC) → List RDIUniform → List RDIUniform
  | [], uniforms => uniforms
  | none :: rest, uniforms => mergeUniforms shaderType rest uniforms
  | some v :: rest, uniforms =>
    if v.uFlags &&& 2 ≠ 0 then
      mergeUniforms shaderType rest
        (setUniformDesc shaderType v.Name ⟨v.StartOffset, v.Size⟩ uniforms)
    else mergeUniforms shaderType rest uniforms

/-- The merge of one texture or sampler resource into `shader.samplers`: the
first sampler of that name gets the bind point written by `write`; if there is
none, a new sampler with slot 0 is appended and gets it. -/
def setSamplerDesc (shaderType : RDIShaderType) (name : CString)
    (write : RDISamplerDesc → RDISamplerDesc) : List RDISampler → List RDISampler
  | [] =>
    [⟨name, 0, Function.update (fun _ => RDISamplerDesc.empty) shaderType
      (write RDISamplerDesc.empty)⟩]
  | sampler :: rest =>
    if sampler.name = name then
      { sampler with desc := Function.update sampler.desc shaderType (write (sampler.desc shaderType)) }
        :: rest
    else sampler :: setSamplerDesc shaderType name write rest

/-- The loop of `parseShaderBlob` over the bound resources.  The result is the
updated shader and the text appended to the shader log. -/
def bindResources (shaderType : RDIShaderType) :
    List D3D11_SHADER_INPUT_BIND_DESC → RDIShader → RDIShader × CString
  | [], shader => (shader, [])
  | desc :: rest, shader =>
    let noPrefix : CString :=
      "[Shader]\n Texture resource's name must have a texture_ prefix\n".toList
    if desc.Name = "$Globals".toList ∧ desc.Type_ = .D3D_SIT_CBUFFER then
      bindResources shaderType rest
        { shader with
          globalCBuffers := Function.update shader.globalCBuffers shaderType
            { shader.globalCBuffers shaderType with bindPoint := desc.BindPoint } }
    else if desc.Type_ = .D3D_SIT_TEXTURE then
      if desc.Name.length > 8 ∧ desc.Name.take 8 = "texture_".toList then
        bindResources shaderType rest
          { shader with
            samplers := setSamplerDesc shaderType (desc.Name.drop 8)
              (fun d => { d with textureBindPoint := desc.BindPoint }) shader.samplers }
      else
        let r := bindResources shaderType rest shader
        (r.1, noPrefix ++ r.2)
    else if desc.Type_ = .D3D_SIT_SAMPLER then
      if desc.Name.length > 8 ∧ desc.Name.take 8 = "sampler_".toList then
        bindResources shaderType rest
          { shader with
            samplers := setSamplerDesc shaderType (desc.Name.drop 8)
              (fun d => { d with samplerBindPoint := desc.BindPoint }) shader.samplers }
      else
        let r := bindResources shaderType rest shader
        (r.1, noPrefix ++ r.2)
    else bindResources shaderType rest shader

/-- The part of `parseShaderBlob` that reads the constant buffer `$Globals`:
the uniform buffer and its CPU-side copy are created when the buffer has a
size, and the used variables are merged into `shader.uniforms`.  The result
is the device, the shader, the calls issued and the text appended to the
shader log. -/
def parseGlobals (dev : RenderDevice) (shader : RDIShader) (a : StageAnswers)
    (shaderType : RDIShaderType) : RenderDevice × RDIShader × List D3DCall × CString :=
  if a.reflection.ConstantBuffers > 0 then
    match a.reflection.globals with
    | some bufferDesc =>
      let r : RenderDevice × RDIShader × List D3DCall :=
        if bufferDesc.Size > 0 then
          let b := createUniformBuffer dev a.createdBuffer bufferDesc.Size none
          (b.1,
            { shader with
              globalCBuffers := Function.update shader.globalCBuffers shaderType
                { shader.globalCBuffers shaderType with
                  bufferId := b.2.1
                  bufferData := some (List.replicate bufferDesc.Size 0) } },
            b.2.2)
        else (dev, shader, [])
      (r.1,
        { r.2.1 with uniforms := mergeUniforms shaderType bufferDesc.Variables r.2.1.uniforms },
        r.2.2, [])
    | none => (dev, shader, [], "[Shader]\n Failed to get constant buffer desc\n".toList)
  else (dev, shader, [], [])

/-- `RenderDevice::parseShaderBlob`; `a` holds what reflection reports for the
blob and the answers of the driver.  The result is the device after the call
and the calls issued. -/
def parseShaderBlob (dev : RenderDevice) (shaderId : Nat) (a : StageAnswers)
    (shaderType : RDIShaderType) : Except Fault (RenderDevice × List D3DCall) :=
  if shaderId = 0 then .ok (dev, [])
  else
    match dev._shaders.getRef shaderId with
    | none => .error .invalidHandle
    | some shader =>
      -- input layout - for vertex shader only
      let r1 : (Nat → Option Nat) × List D3DCall :=
        if shaderType = .Vertex then
          createInputLayouts dev a (List.range dev._numVertexLayouts) shader.inputLayouts
        else (shader.inputLayouts, [])
      -- the constant buffer $Globals
      let r2 := parseGlobals dev { shader with inputLayouts := r1.1 } a shaderType
      -- bound resources
      let r3 := bindResources shaderType a.reflection.BoundResources r2.2.1
      .ok ({ r2.1 with
              _shaders := r2.1._shaders.setRef shaderId r3.1
              _shaderLog := r2.1._shaderLog ++ r2.2.2.2 ++ r3.2 },
        [D3DCall.D3DReflect shaderType] ++ r1.2 ++ r2.2.2.1)

/-- `RenderDevice::createShader`; `vs` and `ps` hold the answers of the compiler
and the driver for the two stages.  The result is the device after the call,
the returned handle and the calls issued. -/
def createShader (dev : RenderDevice) (vs ps : StageAnswers)
    (vertexShaderSrc fragmentShaderSrc : CString) :
    Except Fault (RenderDevice × Nat × List D3DCall) :=
  let dev0 : RenderDevice := { dev with _shaderLog := [] }
  -- Vertex shader
  let compileVS := D3DCall.D3DCompile vertexShaderSrc "vs_4_0"
  if vs.compileFailed ∨ vs.errorBlob ≠ none then
    match vs.errorBlob with
    | some msg =>
      .ok ({ dev0 with _shaderLog := dev0._shaderLog ++ "[Vertex Shader]\n".toList ++ msg },
        0, [compileVS])
    | none => .ok (dev0, 0, [compileVS])
  else
    match vs.created with
    | none =>
      .ok ({ dev0 with
              _shaderLog := dev0._shaderLog ++ "[Vertex Shader]\n Create Failed\n".toList },
        0, [compileVS, D3DCall.CreateVertexShader, D3DCall.ReleaseBlob .Vertex])
    | some vertexShader =>
      -- pixel shader
      let compilePS := D3DCall.D3DCompile fragmentShaderSrc "ps_4_0"
      if ps.compileFailed ∨ ps.errorBlob ≠ none then
        let calls := [compileVS, D3DCall.CreateVertexShader, compilePS,
          D3DCall.Release vertexShader, D3DCall.ReleaseBlob .Vertex]
        match ps.errorBlob with
        | some msg =>
          .ok ({ dev0 with _shaderLog := dev0._shaderLog ++ "[Pixel Shader]\n".toList ++ msg },
            0, calls)
        | none => .ok (dev0, 0, calls)
      else
        match ps.created with
        | none =>
          .ok ({ dev0 with
                  _shaderLog := dev0._shaderLog ++ "[Pixel Shader]\n Create Failed\n".toList },
            0, [compileVS, D3DCall.CreateVertexShader, compilePS, D3DCall.CreatePixelShader,
              D3DCall.Release vertexShader, D3DCall.ReleaseBlob .Vertex,
              D3DCall.ReleaseBlob .Pixel])
        | some pixelShader =>
          let added := dev0._shaders.add RDIShader.empty
          let shaderId := added.2
          let shader : RDIShader :=
            { RDIShader.empty with
              vertexShader := some vertexShader
              pixelShader := some pixelShader
              inputLayouts := fun _ => none
              globalCBuffers := fun _ => ⟨none, 0, -1⟩ }
          let dev1 : RenderDevice := { dev0 with _shaders := added.1.setRef shaderId shader }
          match parseShaderBlob dev1 shaderId vs .Vertex with
          | .error e => .error e
          | .ok (dev2, calls2) =>
            match parseShaderBlob dev2 shaderId ps .Pixel with
            | .error e => .error e
            | .ok (dev3, calls3) =>
              .ok (dev3, shaderId,
                [compileVS, D3DCall.CreateVertexShader, compilePS, D3DCall.CreatePixelShader]
                  ++ calls2 ++ [D3DCall.ReleaseBlob .Vertex] ++ calls3
                  ++ [D3DCall.ReleaseBlob .Pixel])

/-- The releases that `destroyShader` issues for the objects of a shader. -/
def releaseShaderObjects (k : RDIConsts) (shader : RDIShader) : List D3DCall :=
  (match shader.vertexShader with
    | some obj => [D3DCall.Release obj]
    | none => []) ++
  ((List.range k.MaxNumVertexLayouts).filterMap fun i =>
    (shader.inputLayouts i).map D3DCall.Release) ++
  (match shader.pixelShader with
    | some obj => [D3DCall.Release obj]
    | none => [])

/-- `RenderDevice::destroyShader`. -/
def destroyShader (k : RDIConsts) (dev : RenderDevice) (shaderId : Nat) :
    Except Fault (RenderDevice × List D3DCall) :=
  if shaderId = 0 then .ok (dev, [])
  else
    match dev._shaders.getRef shaderId with
    | none => .error .invalidHandle
    | some shader =>
      match destroyBuffer dev (shader.globalCBuffers .Vertex).bufferId with
      | .error e => .error e
      | .ok (dev1, calls1) =>
        match destroyBuffer dev1 (shader.globalCBuffers .Pixel).bufferId with
        | .error e => .error e
        | .ok (dev2, calls2) =>
          .ok ({ dev2 with _shaders := dev2._shaders.remove RDIShader.empty shaderId },
            releaseShaderObjects k shader ++ calls1 ++ calls2)

end RenderDevice

/-- The value of a `uint32` once converted to `int`. -/
def uint32ToInt (n : Nat) : Int :=
  if n % 2 ^ 32 < 2 ^ 31 then ((n % 2 ^ 32 : Nat) : Int) else ((n % 2 ^ 32 : Nat) : Int) - 2 ^ 32

/-- The loop that `getShaderConstLoc` and `getShaderSamplerLoc` share: from
index `i` on, the index of the first entry that passes `test` is returned,
converted to `int`; when the entries are used up the result is -1. -/
def getShaderLocLoop {α : Type} (test : α → Bool) : List α → Nat → Int
  | [], _ => -1
  | x :: rest, i => if test x then uint32ToInt i else getShaderLocLoop test rest (i + 1)

namespace RenderDevice

/-- `RenderDevice::getShaderConstLoc`; the bound `s` of the loop is the size of
the uniform table as a `uint32`. -/
def getShaderConstLoc (dev : RenderDevice) (shaderId : Nat) (name : CString) :
    Except Fault Int :=
  match dev._shaders.getRef shaderId with
  | none => .error .invalidHandle
  | some shader =>
    let s := shader.uniforms.length % 2 ^ 32
    .ok (getShaderLocLoop
      (fun u : RDIUniform => decide (u.name = name) || decide (u.name ++ "[0]".toList = name))
      (shader.uniforms.take s) 0)

/-- `RenderDevice::getShaderSamplerLoc`. -/
def getShaderSamplerLoc (dev : RenderDevice) (shaderId : Nat) (name : CString) :
    Except Fault Int :=
  match dev._shaders.getRef shaderId with
  | none => .error .invalidHandle
  | some shader =>
    let s := shader.samplers.length % 2 ^ 32
    .ok (getShaderLocLoop (fun sampler : RDISampler => decide (sampler.name = name))
      (shader.samplers.take s) 0)

end RenderDevice

/-- One choice of values for the constants and bit-field layouts of
`egRendererBase.h`, for use where a concrete device is needed. -/
def sampleConsts : RDIConsts :=
  { RDISamplerStateMask := 0x1fff
    SS_FILTER_START := 0, SS_FILTER_MASK := 0x3
    SS_ANISO_START := 2, SS_ANISO_MASK := 0x3c, SS_ANISO1 := 0
    SS_ADDRU_START := 6, SS_ADDRU_MASK := 0xc0
    SS_ADDRV_START := 8, SS_ADDRV_MASK := 0x300
    SS_ADDRW_START := 10, SS_ADDRW_MASK := 0xc00
    SS_COMP_LEQUAL := 0x1000
    rasterStateMask := 0xf, blendStateMask := 0xff, depthStencilStateMask := 0x1f
    RS_FILL_WIREFRAME := 1, RS_CULL_BACK := 0, RS_CULL_FRONT := 1
    PM_VIEWPORT := 0x1, PM_INDEXBUF := 0x2, PM_VERTLAYOUT := 0x4, PM_TEXTURES := 0x8
    PM_SCISSOR := 0x10, PM_RENDERSTATES := 0x20
    MaxNumVertexLayouts := 16, MaxColorAttachmentCount := 4
    fillMode := fun h => h % 2
    cullMode := fun h => h / 2 % 4
    scissorEnable := fun h => h / 8 % 2 == 1
    alphaToCoverageEnable := fun h => h % 2 == 1
    blendEnable := fun h => h / 2 % 2 == 1
    srcBlendFunc := fun h => h / 4 % 8
    destBlendFunc := fun h => h / 32 % 8
    renderTargetWriteMask := fun h => h / 256 % 2 == 1
    depthWriteMask := fun h => h % 2 == 1
    depthEnable := fun h => h / 2 % 2 == 1
    depthFunc := fun h => h / 4 % 8 }

/-- A device right after construction: empty tables, empty state caches, all
hashes zero, nothing pending.  The capabilities are those of feature level 11;
the index format and the framebuffer size, which the constructor takes from the
header or leaves unset, are 0. -/
def freshDevice : RenderDevice :=
  { _buffers := ⟨[], []⟩, _textures := ⟨[], []⟩, _bufferMem := 0, _textureMem := 0
    _curRasterState := ⟨0⟩, _newRasterState := ⟨0⟩
    _curBlendState := ⟨0⟩, _newBlendState := ⟨0⟩
    _curDepthStencilState := ⟨0⟩, _newDepthStencilState := ⟨0⟩
    _rasterizerStates := fun _ => none, _blendStates := fun _ => none
    _depthStencilStates := fun _ => none, _samplerStates := fun _ => none
    _pendingMask := 0
    _caps := ⟨true, true, true⟩, _depthFormat := "DXGI_FORMAT_R24G8_TYPELESS"
    _shaders := ⟨[], []⟩, _rendBufs := ⟨[], []⟩
    _vertexLayouts := fun _ => ⟨0, fun _ => ⟨[], 0, 0, 0⟩⟩
    _numVertexLayouts := 0, _activeVertexAttribsMask := 0
    _vpX := 0, _vpY := 0, _vpWidth := 320, _vpHeight := 240
    _scX := 0, _scY := 0, _scWidth := 320, _scHeight := 240
    _fbWidth := 0, _fbHeight := 0
    _prevShaderId := 0, _curShaderId := 0, _curRendBuf := 0, _outputBufferIndex := 0
    _curVertLayout := 0, _newVertLayout := 0, _curIndexBuf := 0, _newIndexBuf := 0
    _indexFormat := 0
    _texSlots := fun _ => ⟨0, 0⟩, _vertBufSlots := fun _ => ⟨0, 0, 0⟩
    _shaderLog := []
    _defaultRenderTargetViews := [none, none, none, none], _defaultDepthStencilView := none }

/-- A device holding one static vertex buffer of 16 bytes, handle 1, backed by
the driver object 7. -/
def staticBufferDevice : RenderDevice :=
  { freshDevice with _buffers := ⟨[⟨1, 16, some 7, false⟩], []⟩, _bufferMem := 16 }

/-- A device holding one dynamic vertex buffer of 16 bytes, handle 1, backed by
the driver object 7. -/
def dynamicBufferDevice : RenderDevice :=
  { freshDevice with _buffers := ⟨[⟨1, 16, some 7, true⟩], []⟩, _bufferMem := 16 }

/-- A device holding one 2D texture of format RGBA8 and size 1 × 1 without
mipmaps, handle 1, backed by the driver object 9. -/
def rgba8TextureDevice : RenderDevice :=
  { freshDevice with
    _textures := ⟨[⟨.Tex2D, .RGBA8, 1, 1, 1, false, false, false, 4, some 9, some 10,
      "DXGI_FORMAT_R8G8B8A8_UNORM"⟩], []⟩
    _textureMem := 4 }

/-- A fresh device on which a new blend state, with packed word 3, has been
requested. -/
def pendingBlendDevice : RenderDevice :=
  { freshDevice with _newBlendState := ⟨3⟩ }

/-- The device reached from `dev` by a sequence of `registerVertexLayout`
calls, one for each attribute array of `calls`. -/
def RenderDevice.registerAll (k : RDIConsts) (dev : RenderDevice)
    (calls : List (List VertexLayoutAttrib)) : RenderDevice :=
  calls.foldl (fun d attribs => (RenderDevice.registerVertexLayout k d attribs).1) dev

/-- The vertex layout of the default shader: one attribute `vertPos` of three
floats in buffer slot 0 at offset 0. -/
def positionLayout : List VertexLayoutAttrib := [⟨"vertPos".toList, 0, 3, 0⟩]

/-- A rounding function for use where a concrete `ftoi_r` is needed: the
nearest integer, halves rounded up. -/
def roundQ (x : ℚ) : Int := ⌊x + 1 / 2⌋

/-- Modelled from the spec: the inline setter `setIndexBuffer` of
`egRendererBase.h`, which stores the request and marks the index-buffer
category dirty. -/
def RenderDevice.setIndexBuffer (k : RDIConsts) (dev : RenderDevice) (bufObj idxFmt : Nat) :
    RenderDevice :=
  { dev with
    _indexFormat := idxFmt
    _newIndexBuf := bufObj
    _pendingMask := dev._pendingMask ||| k.PM_INDEXBUF }

/-- The draw commands of the driver. -/
def D3DCall.isDraw : D3DCall → Bool
  | .Draw _ _ => true
  | .DrawIndexed _ _ _ => true
  | _ => false

/-- The semantic name and index that the table `attribRemaps` assigns to an
attribute name, if the name is in the table. -/
def remapAttrib (name : CString) : Option (CString × Nat) :=
  (attribRemaps.find? fun r => decide (name = r.attrib)).map fun r =>
    (r.semanticName, r.semanticIndex)

/-- Every input parameter of the shader is the semantic that `attribRemaps`
assigns to some attribute of the vertex layout. -/
def layoutCovers (vl : RDIVertexLayout) (params : List D3D11_SIGNATURE_PARAMETER_DESC) : Prop :=
  ∀ p ∈ params, ∃ j, j < vl.numAttribs ∧
    remapAttrib (vl.attribs j).semanticName = some (p.SemanticName, p.SemanticIndex)

/-- The members of the device that `commitStates` only reads. -/
structure RenderDevice.SameBindings (dev dev1 : RenderDevice) : Prop where
  texSlots : dev1._texSlots = dev._texSlots
  vertBufSlots : dev1._vertBufSlots = dev._vertBufSlots
  curRendBuf : dev1._curRendBuf = dev._curRendBuf
  rendBufs : dev1._rendBufs = dev._rendBufs
  shaders : dev1._shaders = dev._shaders
  buffers : dev1._buffers = dev._buffers
  textures : dev1._textures = dev._textures
  curShaderId : dev1._curShaderId = dev._curShaderId
  newVertLayout : dev1._newVertLayout = dev._newVertLayout
  newIndexBuf : dev1._newIndexBuf = dev._newIndexBuf
  vertexLayouts : dev1._vertexLayouts = dev._vertexLayouts
  numVertexLayouts : dev1._numVertexLayouts = dev._numVertexLayouts

/-- Driver answers under which every creation and every mapping fails. -/
def noAnswers : CommitAnswers := ⟨none, none, none, fun _ => none, none, none⟩

/-- What reflection reports for the vertex stage of the default shader: the
one input parameter `POSITION0`. -/
def positionReflection : ShaderReflection := ⟨[⟨"POSITION".toList, 0⟩], 0, none, []⟩

/-- Stage answers for a stage that compiles and is created as object `obj`. -/
def stageCreated (obj : Nat) (r : ShaderReflection) : StageAnswers :=
  ⟨false, none, some obj, r, fun i => some (100 + i), some 50⟩

/-- Stage answers for a stage whose compilation fails without an error blob. -/
def stageFailsSilently : StageAnswers :=
  ⟨true, none, none, ⟨[], 0, none, []⟩, fun _ => none, none⟩

/-- Stage answers for a stage whose compilation fails with the error text
`X3000`. -/
def stageFailsWithMessage : StageAnswers :=
  ⟨true, some "X3000".toList, none, ⟨[], 0, none, []⟩, fun _ => none, none⟩

/-- A fresh device on which texture 5 has been requested for texture unit 0. -/
def boundTextureDevice : RenderDevice :=
  RenderDevice.setTexture sampleConsts freshDevice 0 5 0

/-- A device with one render target of 64 × 64, handle 1, on which texture 5
has been requested for texture unit 0. -/
def renderTargetDevice : RenderDevice :=
  { boundTextureDevice with
    _rendBufs := ⟨[{ RDIRenderBuffer.empty with width := 64, height := 64 }], []⟩ }

/-- A fresh device on which vertex layout 1 has been requested while no shader
is bound. -/
def pendingLayoutDevice : RenderDevice :=
  { freshDevice with _newVertLayout := 1, _pendingMask := 0x4 }

/-- A device with the vertex layout `positionLayout` registered as layout 1 and
one freshly added shader, handle 1, not yet reflected. -/
def shaderDevice : RenderDevice :=
  { RenderDevice.registerAll sampleConsts freshDevice [positionLayout] with
    _shaders := ⟨[{ RDIShader.empty with vertexShader := some 20, pixelShader := some 21 }], []⟩ }

/-- What reflection reports for a vertex stage with the two input parameters
`POSITION0` and `NORMAL0`. -/
def positionNormalReflection : ShaderReflection :=
  ⟨[⟨"POSITION".toList, 0⟩, ⟨"NORMAL".toList, 0⟩], 0, none, []⟩

/-- The vertex-layout category keeps its dirty bit and its current value. -/
def RenderDevice.KeepsLayoutBit (k : RDIConsts) (dev dev1 : RenderDevice) : Prop :=
  dev1._curVertLayout = dev._curVertLayout ∧
    dev1._pendingMask &&& k.PM_VERTLAYOUT = dev._pendingMask &&& k.PM_VERTLAYOUT

/-- The dirty bit of the vertex-layout category is a `uint32` that shares no
bit with the dirty bits of the other five categories. -/
def RDIConsts.LayoutBitApart (k : RDIConsts) : Prop :=
  k.PM_VERTLAYOUT < 2 ^ 32 ∧
  k.PM_VIEWPORT &&& k.PM_VERTLAYOUT = 0 ∧
  k.PM_RENDERSTATES &&& k.PM_VERTLAYOUT = 0 ∧
  k.PM_SCISSOR &&& k.PM_VERTLAYOUT = 0 ∧
  k.PM_INDEXBUF &&& k.PM_VERTLAYOUT = 0 ∧
  k.PM_TEXTURES &&& k.PM_VERTLAYOUT = 0

/-- No call of the list is a draw command. -/
def NoDraw (calls : List D3DCall) : Prop := ∀ c ∈ calls, c.isDraw = false

/-- The call that generates the mipmaps of a texture. -/
def D3DCall.isFilterTexture : D3DCall → Bool
  | .D3DX11FilterTexture _ => true
  | _ => false

/-- A device holding one cube map of format RGBA8 with 4 × 4 faces and the flag
`genMips`, handle 1, backed by the driver object 9. -/
def cubeTextureDevice : RenderDevice :=
  { freshDevice with
    _textures := ⟨[⟨.TexCube, .RGBA8, 4, 4, 1, false, true, false, 510, some 9, some 10,
      "DXGI_FORMAT_R8G8B8A8_UNORM"⟩], []⟩
    _textureMem := 510 }

/-- The byte footprint of a texture as the specification words it: `base`, plus
a third of `base` rounded by `ftoi_r` when mipmaps are present, the result
multiplied by 6 for a cube map. -/
def textureFootprint (ftoi_r : ℚ → Int) (base : Nat) (mips cube : Bool) : Int :=
  (if mips then (base : Int) + ftoi_r ((base : ℚ) / 3) else (base : Int)) *
    (if cube then 6 else 1)

/-- A device holding one shader, handle 1, with the uniforms `color`,
`lights` and `bones` and the samplers `albedoMap` and `normalMap`. -/
def uniformShaderDevice : RenderDevice :=
  { freshDevice with
    _shaders := ⟨[{ RDIShader.empty with
      uniforms := [⟨"color".toList, fun _ => ⟨0, 16⟩⟩, ⟨"lights".toList, fun _ => ⟨16, 64⟩⟩,
        ⟨"bones".toList, fun _ => ⟨80, 64⟩⟩]
      samplers := [⟨"albedoMap".toList, 0, fun _ => ⟨0, 0⟩⟩,
        ⟨"normalMap".toList, 1, fun _ => ⟨1, 1⟩⟩] }], []⟩ }

/-- The variables of `$Globals` that `parseShaderBlob` merges into the uniform
table for a stage: those whose description could be read and that carry the
flag `D3D_SVF_USED`, in the order of the reflection; none when the stage has no
constant buffer or the description of `$Globals` cannot be read. -/
def usedVariables (a : StageAnswers) : List D3D11_SHADER_VARIABLE_DESC :=
  if a.reflection.ConstantBuffers > 0 then
    match a.reflection.globals with
    | some bufferDesc =>
      bufferDesc.Variables.filterMap fun v => v.filter fun d => decide (d.uFlags &&& 2 ≠ 0)
    | none => []
  else []

/-- The per-stage descriptors of the first uniform named `n`, if there is one. -/
def uniformDescs (l : List RDIUniform) (n : CString) :
    Option (RDIShaderType → RDIUniformDesc) :=
  (l.find? fun u => decide (u.name = n)).map fun u => u.desc

/-- The per-stage descriptors of the first sampler named `n`, if there is one. -/
def samplerDescs (l : List RDISampler) (n : CString) :
    Option (RDIShaderType → RDISamplerDesc) :=
  (l.find? fun sampler => decide (sampler.name = n)).map fun sampler => sampler.desc

/-- A texture or sampler resource whose name does not start with the prefix for
its type followed by at least one more character. -/
def lacksPrefix (desc : D3D11_SHADER_INPUT_BIND_DESC) : Bool :=
  (decide (desc.Type_ = .D3D_SIT_TEXTURE) &&
    !(decide (desc.Name.length > 8) && decide (desc.Name.take 8 = "texture_".toList))) ||
  (decide (desc.Type_ = .D3D_SIT_SAMPLER) &&
    !(decide (desc.Name.length > 8) && decide (desc.Name.take 8 = "sampler_".toList)))

/-- The uniform table after the variables `vs` have been merged into it for a
stage, one after the other. -/
def mergeUsed (t : RDIShaderType) (vs : List D3D11_SHADER_VARIABLE_DESC)
    (l : List RDIUniform) : List RDIUniform :=
  vs.foldl (fun us v => RenderDevice.setUniformDesc t v.Name ⟨v.StartOffset, v.Size⟩ us) l

/-- What the loop of `parseShaderBlob` over the bound resources does to the
sampler table for one resource: the name of the sampler and the write to its
descriptor for the stage, or nothing. -/
def resourceAction (desc : D3D11_SHADER_INPUT_BIND_DESC) :
    Option (CString × (RDISamplerDesc → RDISamplerDesc)) :=
  if desc.Name = "$Globals".toList ∧ desc.Type_ = .D3D_SIT_CBUFFER then none
  else if desc.Type_ = .D3D_SIT_TEXTURE then
    if desc.Name.length > 8 ∧ desc.Name.take 8 = "texture_".toList then
      some (desc.Name.drop 8, fun d => { d with textureBindPoint := desc.BindPoint })
    else none
  else if desc.Type_ = .D3D_SIT_SAMPLER then
    if desc.Name.length > 8 ∧ desc.Name.take 8 = "sampler_".toList then
      some (desc.Name.drop 8, fun d => { d with samplerBindPoint := desc.BindPoint })
    else none
  else none

/-- The sampler table after a list of writes has been merged into it for a
stage, one after the other. -/
def mergeActions (t : RDIShaderType)
    (acts : List (CString × (RDISamplerDesc → RDISamplerDesc))) (l : List RDISampler) :
    List RDISampler :=
  acts.foldl (fun samplers a => RenderDevice.setSamplerDesc t a.1 a.2 samplers) l

/-- The text that the loop of `parseShaderBlob` over the bound resources appends
to the shader log: one line for each resource that lacks its prefix. -/
def prefixDiagnostics : List D3D11_SHADER_INPUT_BIND_DESC → CString
  | [] => []
  | desc :: rest =>
    (if lacksPrefix desc then
      "[Shader]\n Texture resource's name must have a texture_ prefix\n".toList
    else []) ++ prefixDiagnostics rest

/-- What reflection reports for a stage that names the variable `color` twice
in `$Globals`, leaves the variable `time` unused, and binds the texture
`texture_albedo` twice, the sampler `sampler_albedo` and a texture `albedo`
without the prefix. -/
def repeatedNamesReflection : ShaderReflection :=
  { InputParameters := []
    ConstantBuffers := 1
    globals := some ⟨48, [some ⟨"color".toList, 0, 16, 2⟩, some ⟨"color".toList, 16, 16, 2⟩,
      some ⟨"time".toList, 32, 4, 0⟩]⟩
    BoundResources := [⟨"texture_albedo".toList, .D3D_SIT_TEXTURE, 3⟩,
      ⟨"sampler_albedo".toList, .D3D_SIT_SAMPLER, 2⟩,
      ⟨"texture_albedo".toList, .D3D_SIT_TEXTURE, 3⟩,
      ⟨"albedo".toList, .D3D_SIT_TEXTURE, 5⟩] }

/-- What reflection reports for a vertex stage whose `$Globals` block holds
the used variable `worldMat` at offset 0 and the unused variable `time`. -/
def vertexGlobalsReflection : ShaderReflection :=
  { InputParameters := []
    ConstantBuffers := 1
    globals := some ⟨80, [some ⟨"worldMat".toList, 0, 64, 2⟩, some ⟨"time".toList, 64, 4, 0⟩]⟩
    BoundResources := [] }

/-- What reflection reports for a pixel stage whose `$Globals` block holds the
used variables `color` at offset 0 and `worldMat` at offset 16. -/
def pixelGlobalsReflection : ShaderReflection :=
  { InputParameters := []
    ConstantBuffers := 1
    globals := some ⟨80, [some ⟨"color".toList, 0, 16, 2⟩, some ⟨"worldMat".toList, 16, 64, 2⟩]⟩
    BoundResources := [] }

/-- The category of `commitStates` to which a driver call belongs, in the order
of the specification: 1 viewport, 2 raster, blend and depth-stencil state,
3 scissor rectangle, 4 index buffer, 5 texture and sampler bindings, 6 input
layout and vertex buffers, 7 uniform-buffer upload and binding.  Entries of the
engine log and calls that `commitStates` never makes have no category. -/
def D3DCall.commitCategory : D3DCall → Option Nat
  | .RSSetViewports _ _ _ _ => some 1
  | .CreateRasterizerState _ => some 2
  | .RSSetState _ => some 2
  | .CreateBlendState _ => some 2
  | .OMSetBlendState _ => some 2
  | .CreateDepthStencilState _ => some 2
  | .OMSetDepthStencilState _ => some 2
  | .RSSetScissorRects _ _ _ _ => some 3
  | .IASetIndexBuffer _ _ => some 4
  | .CreateSamplerState _ => some 5
  | .PSSetShaderResources _ _ => some 5
  | .PSSetSamplers _ _ => some 5
  | .IASetInputLayout _ => some 6
  | .IASetVertexBuffers _ _ _ _ => some 6
  | .Map _ => some 7
  | .memcpy _ _ _ _ => some 7
  | .Unmap _ => some 7
  | .UpdateSubresource _ _ _ _ _ => some 7
  | .VSSetConstantBuffers _ _ => some 7
  | .PSSetConstantBuffers _ _ => some 7
  | _ => none

/-- An entry of the engine log. -/
def D3DCall.isLogEntry : D3DCall → Bool
  | .writeError _ => true
  | .writeWarning _ => true
  | _ => false

/-- The call is a driver call of category `n` or an entry of the engine log. -/
def D3DCall.inCategory (n : Nat) (c : D3DCall) : Bool :=
  c.isLogEntry || c.commitCategory == some n

/-- Every call of the list is a driver call of category `n` or a log entry. -/
def StageCalls (n : Nat) (calls : List D3DCall) : Prop := ∀ c ∈ calls, c.inCategory n = true

/-- A device with every category pending: three buffers (a vertex buffer,
handle 1; an index buffer, handle 2; a dynamic uniform buffer, handle 3), one
texture requested for texture unit 0, the vertex layout `positionLayout`
requested as layout 1, a new blend state, and a bound shader, handle 1, with an
input layout for layout 1, a `$Globals` block for the vertex stage and the
sampler `albedoMap`. -/
def fullFrameDevice : RenderDevice :=
  { RenderDevice.registerAll sampleConsts freshDevice [positionLayout] with
    _buffers := ⟨[⟨0, 36, some 7, false⟩, ⟨1, 12, some 8, false⟩, ⟨2, 16, some 11, true⟩], []⟩
    _textures := ⟨[⟨.Tex2D, .RGBA8, 1, 1, 1, false, false, false, 4, some 9, some 10,
      "DXGI_FORMAT_R8G8B8A8_UNORM"⟩], []⟩
    _shaders := ⟨[{ RDIShader.empty with
      vertexShader := some 20, pixelShader := some 21
      inputLayouts := fun i => if i = 0 then some 30 else none
      globalCBuffers := fun t =>
        match t with
        | .Vertex => ⟨some [1, 2, 3, 4], 3, 0⟩
        | .Pixel => ⟨none, 0, -1⟩
      samplers := [⟨"albedoMap".toList, 0, fun _ => ⟨0, 0⟩⟩] }], []⟩
    _curShaderId := 1
    _newVertLayout := 1
    _newIndexBuf := 2, _indexFormat := 57
    _newBlendState := ⟨3⟩
    _texSlots := fun i => if i = 0 then ⟨1, 0⟩ else ⟨0, 0⟩
    _vertBufSlots := fun _ => ⟨1, 0, 12⟩
    _pendingMask := 0x3f }

/-- Driver answers under which every object creation and every `Map` of
`commitStates` succeeds. -/
def allAnswers : CommitAnswers := ⟨some 40, some 41, some 42, fun i => some (60 + i), some 16,
  some 16⟩

/-! ## Auxiliary facts -/

theorem sqrtQ_mul_self (x : ℚ) (hx : 0 ≤ x) : sqrtQ (x * x) = x := by
  unfold sqrtQ
  rw [Rat.mul_self_num, Rat.mul_self_den, Int.natAbs_mul, Nat.sqrt_eq, Nat.sqrt_eq]
  have hnum : (0 : ℤ) ≤ x.num := Rat.num_nonneg.mpr hx
  have h1 : ((x.num.natAbs : ℕ) : ℚ) = (x.num : ℚ) := by
    rw [← Int.cast_natCast, Int.natAbs_of_nonneg hnum]
  rw [h1]
  exact Rat.num_div_den x

theorem array6_val {α : Type} (a0 a1 a2 a3 a4 a5 : α) :
    array6 a0 a1 a2 a3 a4 a5 0 = a0 ∧ array6 a0 a1 a2 a3 a4 a5 1 = a1 ∧
    array6 a0 a1 a2 a3 a4 a5 2 = a2 ∧ array6 a0 a1 a2 a3 a4 a5 3 = a3 ∧
    array6 a0 a1 a2 a3 a4 a5 4 = a4 ∧ array6 a0 a1 a2 a3 a4 a5 5 = a5 :=
  ⟨rfl, rfl, rfl, rfl, rfl, rfl⟩

theorem array8_val {α : Type} (a0 a1 a2 a3 a4 a5 a6 a7 : α) :
    array8 a0 a1 a2 a3 a4 a5 a6 a7 0 = a0 ∧ array8 a0 a1 a2 a3 a4 a5 a6 a7 1 = a1 ∧
    array8 a0 a1 a2 a3 a4 a5 a6 a7 2 = a2 ∧ array8 a0 a1 a2 a3 a4 a5 a6 a7 3 = a3 ∧
    array8 a0 a1 a2 a3 a4 a5 a6 a7 4 = a4 ∧ array8 a0 a1 a2 a3 a4 a5 a6 a7 5 = a5 ∧
    array8 a0 a1 a2 a3 a4 a5 a6 a7 6 = a6 ∧ array8 a0 a1 a2 a3 a4 a5 a6 a7 7 = a7 :=
  ⟨rfl, rfl, rfl, rfl, rfl, rfl, rfl, rfl⟩

/-- Every index of a six-element array is one of the six literals. -/
theorem fin6_cases (i : Fin 6) : i = 0 ∨ i = 1 ∨ i = 2 ∨ i = 3 ∨ i = 4 ∨ i = 5 := by
  fin_cases i <;> simp

/-- The loop of `cullSphere` returns `true` exactly when some plane is farther
from the centre than the radius. -/
theorem cullSphere_eq_true_iff (f : Frustum) (pos : Vec3f) (rad : ℚ) :
    f.cullSphere pos rad = true ↔ ∃ i : Fin 6, (f._planes i).distToPoint pos > rad := by
  simp [Frustum.cullSphere, List.any_eq_true]

theorem identity_mulVec3 (v : Vec3f) : Matrix4f.identity.mulVec3 v = v := by
  cases v
  simp [Matrix4f.mulVec3, Matrix4f.identity]

/-- A plane built through the point `(0, 0, 0)` has signed distance `0` to it. -/
theorem ofPoints_origin_dist (sqrtf : ℚ → ℚ) (v1 v2 : Vec3f) :
    (Plane.ofPoints sqrtf ⟨0, 0, 0⟩ v1 v2).distToPoint ⟨0, 0, 0⟩ = 0 := by
  simp [Plane.ofPoints, Plane.distToPoint, Vec3f.dot]

/-- Normalising a vector that points along `+z`. -/
theorem normalize_pos_z (sqrtf : ℚ → ℚ) (hsqrt : ∀ x : ℚ, 0 ≤ x → sqrtf (x * x) = x)
    (v : Vec3f) (hx : v.x = 0) (hy : v.y = 0) (hz : 0 < v.z) :
    v.normalize sqrtf = ⟨0, 0, 1⟩ := by
  have hs := hsqrt v.z hz.le
  simp only [Vec3f.normalize, Vec3f.length, hx, hy, mul_zero, zero_mul, zero_add, hs]
  congr 1
  field_simp

/-- Normalising a vector that points along `-z`. -/
theorem normalize_neg_z (sqrtf : ℚ → ℚ) (hsqrt : ∀ x : ℚ, 0 ≤ x → sqrtf (x * x) = x)
    (v : Vec3f) (hx : v.x = 0) (hy : v.y = 0) (hz : v.z < 0) :
    v.normalize sqrtf = ⟨0, 0, -1⟩ := by
  have hs := hsqrt (-v.z) (by linarith)
  have e : v.z * v.z = -v.z * -v.z := by ring
  simp only [Vec3f.normalize, Vec3f.length, hx, hy, mul_zero, zero_mul, zero_add, e, hs]
  congr 1
  have : v.z ≠ 0 := ne_of_lt hz
  field_simp

/-- The near plane of a view frustum built with the identity transform is
`z = -nearPlane`, with its normal along `+z`. -/
theorem viewFrustum_near (sqrtf : ℚ → ℚ) (hsqrt : ∀ x : ℚ, 0 ≤ x → sqrtf (x * x) = x)
    (l r b t n f : ℚ) (hlr : l < r) (hbt : b < t) (p : Vec3f) :
    ((Frustum.buildViewFrustum sqrtf Matrix4f.identity l r b t n f)._planes 4).distToPoint p
      = p.z + n := by
  have hk : 0 < (r - l) * (t - b) := mul_pos (sub_pos.mpr hlr) (sub_pos.mpr hbt)
  simp only [Frustum.buildViewFrustum, (array6_val _ _ _ _ _ _).2.2.2.2.1, identity_mulVec3,
    (array8_val _ _ _ _ _ _ _ _).1, (array8_val _ _ _ _ _ _ _ _).2.1,
    (array8_val _ _ _ _ _ _ _ _).2.2.1, Plane.ofPoints, Plane.distToPoint]
  rw [normalize_pos_z sqrtf hsqrt _ (by simp [Vec3f.cross, Vec3f.sub])
    (by simp [Vec3f.cross, Vec3f.sub]) (by simpa [Vec3f.cross, Vec3f.sub] using hk)]
  simp [Vec3f.dot]

/-- The far plane of a view frustum built with the identity transform is
`z = -farPlane`, with its normal along `-z`. -/
theorem viewFrustum_far (sqrtf : ℚ → ℚ) (hsqrt : ∀ x : ℚ, 0 ≤ x → sqrtf (x * x) = x)
    (l r b t n f : ℚ) (hlr : l < r) (hbt : b < t) (hn : 0 < n) (hf : 0 < f) (p : Vec3f) :
    ((Frustum.buildViewFrustum sqrtf Matrix4f.identity l r b t n f)._planes 5).distToPoint p
      = -p.z - f := by
  have hfn : 0 < f * (1 / n) := mul_pos hf (one_div_pos.mpr hn)
  have hk : (l * f * (1 / n) - r * f * (1 / n)) * (t * f * (1 / n) - b * f * (1 / n)) < 0 := by
    have h1 : l * f * (1 / n) - r * f * (1 / n) < 0 := by
      have : l * f * (1 / n) - r * f * (1 / n) = (l - r) * (f * (1 / n)) := by ring
      rw [this]; exact mul_neg_of_neg_of_pos (sub_neg.mpr hlr) hfn
    have h2 : 0 < t * f * (1 / n) - b * f * (1 / n) := by
      have : t * f * (1 / n) - b * f * (1 / n) = (t - b) * (f * (1 / n)) := by ring
      rw [this]; exact mul_pos (sub_pos.mpr hbt) hfn
    exact mul_neg_of_neg_of_pos h1 h2
  simp only [Frustum.buildViewFrustum, (array6_val _ _ _ _ _ _).2.2.2.2.2, identity_mulVec3,
    (array8_val _ _ _ _ _ _ _ _).2.2.2.2.1, (array8_val _ _ _ _ _ _ _ _).2.2.2.2.2.1,
    (array8_val _ _ _ _ _ _ _ _).2.2.2.2.2.2.2, Plane.ofPoints, Plane.distToPoint]
  rw [normalize_neg_z sqrtf hsqrt _ (by simp [Vec3f.cross, Vec3f.sub])
    (by simp [Vec3f.cross, Vec3f.sub]) (by simpa [Vec3f.cross, Vec3f.sub] using hk)]
  simp [Vec3f.dot]
  ring

/-- The four side planes of a view frustum built with the identity transform
pass through the origin. -/
theorem viewFrustum_side (sqrtf : ℚ → ℚ) (l r b t n f : ℚ) (i : Fin 6)
    (hi : i = 0 ∨ i = 1 ∨ i = 2 ∨ i = 3) :
    ((Frustum.buildViewFrustum sqrtf Matrix4f.identity l r b t n f)._planes i).distToPoint
      ⟨0, 0, 0⟩ = 0 := by
  have ho : Matrix4f.identity.mulVec3 ⟨0, 0, 0⟩ = ⟨0, 0, 0⟩ := identity_mulVec3 _
  rcases hi with h | h | h | h <;> subst h
  · simp only [Frustum.buildViewFrustum, (array6_val _ _ _ _ _ _).1, ho]
    exact ofPoints_origin_dist _ _ _
  · simp only [Frustum.buildViewFrustum, (array6_val _ _ _ _ _ _).2.1, ho]
    exact ofPoints_origin_dist _ _ _
  · simp only [Frustum.buildViewFrustum, (array6_val _ _ _ _ _ _).2.2.1, ho]
    exact ofPoints_origin_dist _ _ _
  · simp only [Frustum.buildViewFrustum, (array6_val _ _ _ _ _ _).2.2.2.1, ho]
    exact ofPoints_origin_dist _ _ _

theorem viewFrustum_origin (sqrtf : ℚ → ℚ) (l r b t n f : ℚ) :
    (Frustum.buildViewFrustum sqrtf Matrix4f.identity l r b t n f)._origin = ⟨0, 0, 0⟩ := by
  simp [Frustum.buildViewFrustum, identity_mulVec3]

/-- With the identity transform the sphere test at the frustum origin culls
exactly the radii below `nearPlane`. -/
theorem cullSphere_origin_aux (sqrtf : ℚ → ℚ) (hsqrt : ∀ x : ℚ, 0 ≤ x → sqrtf (x * x) = x)
    (l r b t n f rad : ℚ) (hlr : l < r) (hbt : b < t) (hn : 0 < n) (hnf : n < f) :
    (Frustum.buildViewFrustum sqrtf Matrix4f.identity l r b t n f).cullSphere
        (Frustum.buildViewFrustum sqrtf Matrix4f.identity l r b t n f)._origin rad = true
      ↔ rad < n := by
  rw [viewFrustum_origin, cullSphere_eq_true_iff]
  constructor
  · rintro ⟨i, hi⟩
    rcases fin6_cases i with h | h | h | h | h | h
    · rw [viewFrustum_side sqrtf l r b t n f i (by tauto)] at hi; linarith
    · rw [viewFrustum_side sqrtf l r b t n f i (by tauto)] at hi; linarith
    · rw [viewFrustum_side sqrtf l r b t n f i (by tauto)] at hi; linarith
    · rw [viewFrustum_side sqrtf l r b t n f i (by tauto)] at hi; linarith
    · subst h
      rw [viewFrustum_near sqrtf hsqrt l r b t n f hlr hbt] at hi
      simpa using hi
    · subst h
      rw [viewFrustum_far sqrtf hsqrt l r b t n f hlr hbt hn (by linarith)] at hi
      simp at hi
      linarith
  · intro h
    refine ⟨4, ?_⟩
    rw [viewFrustum_near sqrtf hsqrt l r b t n f hlr hbt]
    simpa using h

theorem minf_eq_min (a b : ℚ) : minf a b = min a b := by
  unfold minf
  split_ifs with h
  · exact (min_eq_left h.le).symm
  · exact (min_eq_right (not_lt.mp h)).symm

theorem maxf_eq_max (a b : ℚ) : maxf a b = max a b := by
  unfold maxf
  split_ifs with h
  · exact (max_eq_left (le_of_lt h)).symm
  · exact (max_eq_right (not_lt.mp h)).symm

/-- A running minimum is below its start value and below every visited value,
and it is one of them. -/
theorem foldl_minf_spec {ι : Type} (v : ι → ℚ) (l : List ι) (m : ℚ) :
    (l.foldl (fun acc i => minf (v i) acc) m ≤ m ∧
      ∀ i ∈ l, l.foldl (fun acc i => minf (v i) acc) m ≤ v i) ∧
    (l.foldl (fun acc i => minf (v i) acc) m = m ∨
      ∃ i ∈ l, l.foldl (fun acc i => minf (v i) acc) m = v i) := by
  induction l generalizing m with
  | nil => simp
  | cons a l ih =>
    simp only [List.foldl_cons, List.mem_cons]
    obtain ⟨⟨h1, h2⟩, h3⟩ := ih (minf (v a) m)
    have hle : minf (v a) m ≤ m := by rw [minf_eq_min]; exact min_le_right _ _
    have hle2 : minf (v a) m ≤ v a := by rw [minf_eq_min]; exact min_le_left _ _
    refine ⟨⟨h1.trans hle, ?_⟩, ?_⟩
    · rintro i (rfl | hi)
      · exact h1.trans hle2
      · exact h2 i hi
    · rcases h3 with h | ⟨i, hi, h⟩
      · rw [h, minf_eq_min]
        rcases min_choice (v a) m with e | e
        · exact Or.inr ⟨a, Or.inl rfl, e⟩
        · exact Or.inl e
      · exact Or.inr ⟨i, Or.inr hi, h⟩

/-- A running maximum is above its start value and above every visited value,
and it is one of them. -/
theorem foldl_maxf_spec {ι : Type} (v : ι → ℚ) (l : List ι) (m : ℚ) :
    (m ≤ l.foldl (fun acc i => maxf (v i) acc) m ∧
      ∀ i ∈ l, v i ≤ l.foldl (fun acc i => maxf (v i) acc) m) ∧
    (l.foldl (fun acc i => maxf (v i) acc) m = m ∨
      ∃ i ∈ l, l.foldl (fun acc i => maxf (v i) acc) m = v i) := by
  induction l generalizing m with
  | nil => simp
  | cons a l ih =>
    simp only [List.foldl_cons, List.mem_cons]
    obtain ⟨⟨h1, h2⟩, h3⟩ := ih (maxf (v a) m)
    have hle : m ≤ maxf (v a) m := by rw [maxf_eq_max]; exact le_max_right _ _
    have hle2 : v a ≤ maxf (v a) m := by rw [maxf_eq_max]; exact le_max_left _ _
    refine ⟨⟨hle.trans h1, ?_⟩, ?_⟩
    · rintro i (rfl | hi)
      · exact hle2.trans h1
      · exact h2 i hi
    · rcases h3 with h | ⟨i, hi, h⟩
      · rw [h, maxf_eq_max]
        rcases max_choice (v a) m with e | e
        · exact Or.inr ⟨a, Or.inl rfl, e⟩
        · exact Or.inl e
      · exact Or.inr ⟨i, Or.inr hi, h⟩

/-- The loop of `calcAABB` keeps six independent running extrema. -/
theorem calcAABB_fold (c : Fin 8 → Vec3f) (l : List (Fin 8)) (acc : Vec3f × Vec3f) :
    l.foldl
      (fun (acc : Vec3f × Vec3f) i =>
        ((⟨minf (c i).x acc.1.x, minf (c i).y acc.1.y, minf (c i).z acc.1.z⟩ : Vec3f),
         (⟨maxf (c i).x acc.2.x, maxf (c i).y acc.2.y, maxf (c i).z acc.2.z⟩ : Vec3f)))
      acc
    = (⟨l.foldl (fun m i => minf (c i).x m) acc.1.x,
        l.foldl (fun m i => minf (c i).y m) acc.1.y,
        l.foldl (fun m i => minf (c i).z m) acc.1.z⟩,
       ⟨l.foldl (fun m i => maxf (c i).x m) acc.2.x,
        l.foldl (fun m i => maxf (c i).y m) acc.2.y,
        l.foldl (fun m i => maxf (c i).z m) acc.2.z⟩) := by
  induction l generalizing acc with
  | nil => rfl
  | cons a l ih => simp only [List.foldl_cons]; rw [ih]

/-- Bounds of one component of the box computed by `calcAABB`. -/
theorem aabb_component (v : Fin 8 → ℚ) (M : ℚ) (h : ∀ i, -M ≤ v i ∧ v i ≤ M) :
    ((∀ i, (List.finRange 8).foldl (fun m i => minf (v i) m) M ≤ v i) ∧
      ∃ i, (List.finRange 8).foldl (fun m i => minf (v i) m) M = v i) ∧
    ((∀ i, v i ≤ (List.finRange 8).foldl (fun m i => maxf (v i) m) (-M)) ∧
      ∃ i, (List.finRange 8).foldl (fun m i => maxf (v i) m) (-M) = v i) := by
  obtain ⟨⟨a1, a2⟩, a3⟩ := foldl_minf_spec v (List.finRange 8) M
  obtain ⟨⟨b1, b2⟩, b3⟩ := foldl_maxf_spec v (List.finRange 8) (-M)
  refine ⟨⟨fun i => a2 i (List.mem_finRange i), ?_⟩, ⟨fun i => b2 i (List.mem_finRange i), ?_⟩⟩
  · rcases a3 with e | ⟨i, _, e⟩
    · exact ⟨0, le_antisymm (a2 0 (List.mem_finRange 0)) (by rw [e]; exact (h 0).2)⟩
    · exact ⟨i, e⟩
  · rcases b3 with e | ⟨i, _, e⟩
    · exact ⟨0, le_antisymm (by rw [e]; exact (h 0).1) (b2 0 (List.mem_finRange 0))⟩
    · exact ⟨i, e⟩

/-- The loops of `cullFrustum`: some plane has no corner of `frust` at a
negative signed distance. -/
theorem cullFrustum_eq_true_iff (f frust : Frustum) :
    f.cullFrustum frust = true ↔
      ∃ i : Fin 6, ∀ j : Fin 8, 0 ≤ (f._planes i).distToPoint (frust._corners j) := by
  simp [Frustum.cullFrustum, List.any_eq_true, List.all_eq_true]

/-- The signed distance to a plane is affine: at a weighted mean of eight points
it is the weighted mean of the eight distances. -/
theorem distToPoint_convexCombination (p : Plane) (w : Fin 8 → ℚ) (c : Fin 8 → Vec3f)
    (hsum : ∑ j, w j = 1) :
    p.distToPoint (convexCombination w c) = ∑ j, w j * p.distToPoint (c j) := by
  have h : ∀ j, w j * p.distToPoint (c j)
      = p.normal.x * (w j * (c j).x) + p.normal.y * (w j * (c j).y)
        + p.normal.z * (w j * (c j).z) + w j * p.dist := by
    intro j
    simp only [Plane.distToPoint, Vec3f.dot]
    ring
  simp only [h, Finset.sum_add_distrib, ← Finset.mul_sum, ← Finset.sum_mul, hsum, one_mul]
  simp [Plane.distToPoint, Vec3f.dot, convexCombination]

/-- The corner chosen by `cullBox` is nearest to the half-space behind the
plane among all points of the box. -/
theorem Frustum.cullBoxCorner_le (p : Plane) (b : BoundingBox) (c : Vec3f)
    (hx : b.min.x ≤ c.x ∧ c.x ≤ b.max.x) (hy : b.min.y ≤ c.y ∧ c.y ≤ b.max.y)
    (hz : b.min.z ≤ c.z ∧ c.z ≤ b.max.z) :
    p.distToPoint (Frustum.cullBoxCorner p.normal b) ≤ p.distToPoint c := by
  have ex : p.normal.x * (Frustum.cullBoxCorner p.normal b).x ≤ p.normal.x * c.x := by
    unfold Frustum.cullBoxCorner
    by_cases h : p.normal.x ≤ 0
    · split_ifs <;> simp <;> exact mul_le_mul_of_nonpos_left hx.2 h
    · split_ifs <;> simp <;> exact mul_le_mul_of_nonneg_left hx.1 (not_le.mp h).le
  have ey : p.normal.y * (Frustum.cullBoxCorner p.normal b).y ≤ p.normal.y * c.y := by
    unfold Frustum.cullBoxCorner
    by_cases h : p.normal.y ≤ 0
    · split_ifs <;> simp <;> exact mul_le_mul_of_nonpos_left hy.2 h
    · split_ifs <;> simp <;> exact mul_le_mul_of_nonneg_left hy.1 (not_le.mp h).le
  have ez : p.normal.z * (Frustum.cullBoxCorner p.normal b).z ≤ p.normal.z * c.z := by
    unfold Frustum.cullBoxCorner
    by_cases h : p.normal.z ≤ 0
    · split_ifs <;> simp <;> exact mul_le_mul_of_nonpos_left hz.2 h
    · split_ifs <;> simp <;> exact mul_le_mul_of_nonneg_left hz.1 (not_le.mp h).le
  simp only [Plane.distToPoint, Vec3f.dot]
  linarith

/-- The corner chosen by `cullBox` is one of the eight corners of the box. -/
theorem Frustum.cullBoxCorner_mem (n : Vec3f) (b : BoundingBox) :
    Frustum.cullBoxCorner n b ∈ b.corners := by
  unfold Frustum.cullBoxCorner BoundingBox.corners
  split_ifs <;> simp

/-- Each corner of a well-formed box lies between `min` and `max`. -/
theorem corners_bounds (b : BoundingBox) (hx : b.min.x ≤ b.max.x) (hy : b.min.y ≤ b.max.y)
    (hz : b.min.z ≤ b.max.z) (c : Vec3f) (hc : c ∈ b.corners) :
    (b.min.x ≤ c.x ∧ c.x ≤ b.max.x) ∧ (b.min.y ≤ c.y ∧ c.y ≤ b.max.y) ∧
      (b.min.z ≤ c.z ∧ c.z ≤ b.max.z) := by
  simp only [BoundingBox.corners, List.mem_cons, List.mem_singleton, List.not_mem_nil,
    or_false] at hc
  rcases hc with h | h | h | h | h | h | h | h <;> subst h <;> simp [hx, hy, hz]

/-- A request for an occupied cache slot returns the cached object, leaves the
device as it is and calls nothing. -/
theorem getSamplerState_hit (k : RDIConsts) (dev : RenderDevice) (created : Option Nat)
    (state obj : Nat) (h : dev._samplerStates (state &&& k.RDISamplerStateMask) = some obj) :
    RenderDevice.getSamplerState k dev created state = (dev, some obj, []) := by
  simp only [RenderDevice.getSamplerState, h]

/-- A request for an empty cache slot calls `CreateSamplerState` once, stores
the answer in the slot and returns it. -/
theorem getSamplerState_miss (k : RDIConsts) (dev : RenderDevice) (created : Option Nat)
    (state : Nat) (h : dev._samplerStates (state &&& k.RDISamplerStateMask) = none) :
    (RenderDevice.getSamplerState k dev created state).1._samplerStates
        (state &&& k.RDISamplerStateMask) = created ∧
    (RenderDevice.getSamplerState k dev created state).2.1 = created ∧
    ((RenderDevice.getSamplerState k dev created state).2.2.countP
        D3DCall.isCreateSamplerState) = 1 := by
  simp only [RenderDevice.getSamplerState, h, Function.update_same, true_and]
  cases created <;> simp [D3DCall.isCreateSamplerState, List.countP_cons]

/-- The rasterizer part of `applyRenderStates` is silent when the hashes agree
and always leaves them equal. -/
theorem applyRasterState_spec (k : RDIConsts) (dev : RenderDevice) (created : Option Nat) :
    (dev._newRasterState.hash = dev._curRasterState.hash →
      RenderDevice.applyRasterState k dev created = (dev, [])) ∧
    (∀ c ∈ (RenderDevice.applyRasterState k dev created).2,
      c.isRaster = true ∧ c.isBlend = false ∧ c.isDepthStencil = false) ∧
    (RenderDevice.applyRasterState k dev created).1._curRasterState.hash
      = dev._newRasterState.hash ∧
    (RenderDevice.applyRasterState k dev created).1._newRasterState = dev._newRasterState ∧
    (RenderDevice.applyRasterState k dev created).1._newBlendState = dev._newBlendState ∧
    (RenderDevice.applyRasterState k dev created).1._curBlendState = dev._curBlendState ∧
    (RenderDevice.applyRasterState k dev created).1._newDepthStencilState
      = dev._newDepthStencilState ∧
    (RenderDevice.applyRasterState k dev created).1._curDepthStencilState
      = dev._curDepthStencilState := by
  unfold RenderDevice.applyRasterState
  by_cases h : dev._newRasterState.hash = dev._curRasterState.hash
  · simp [h]
  · simp only [ne_eq, h, not_false_eq_true, if_true, false_imp_iff, true_and, and_true]
    split_ifs <;> simp [D3DCall.isRaster, D3DCall.isBlend, D3DCall.isDepthStencil]

/-- The blend part of `applyRenderStates` is silent when the hashes agree and
always leaves them equal. -/
theorem applyBlendState_spec (k : RDIConsts) (dev : RenderDevice) (created : Option Nat) :
    (dev._newBlendState.hash = dev._curBlendState.hash →
      RenderDevice.applyBlendState k dev created = (dev, [])) ∧
    (∀ c ∈ (RenderDevice.applyBlendState k dev created).2,
      c.isRaster = false ∧ c.isBlend = true ∧ c.isDepthStencil = false) ∧
    (RenderDevice.applyBlendState k dev created).1._curBlendState.hash
      = dev._newBlendState.hash ∧
    (RenderDevice.applyBlendState k dev created).1._newBlendState = dev._newBlendState ∧
    (RenderDevice.applyBlendState k dev created).1._newRasterState = dev._newRasterState ∧
    (RenderDevice.applyBlendState k dev created).1._curRasterState = dev._curRasterState ∧
    (RenderDevice.applyBlendState k dev created).1._newDepthStencilState
      = dev._newDepthStencilState ∧
    (RenderDevice.applyBlendState k dev created).1._curDepthStencilState
      = dev._curDepthStencilState := by
  unfold RenderDevice.applyBlendState
  by_cases h : dev._newBlendState.hash = dev._curBlendState.hash
  · simp [h]
  · simp only [ne_eq, h, not_false_eq_true, if_true, false_imp_iff, true_and, and_true]
    split_ifs <;> simp [D3DCall.isRaster, D3DCall.isBlend, D3DCall.isDepthStencil]

/-- The depth-stencil part of `applyRenderStates` is silent when the hashes
agree and always leaves them equal. -/
theorem applyDepthStencilState_spec (k : RDIConsts) (dev : RenderDevice)
    (created : Option Nat) :
    (dev._newDepthStencilState.hash = dev._curDepthStencilState.hash →
      RenderDevice.applyDepthStencilState k dev created = (dev, [])) ∧
    (∀ c ∈ (RenderDevice.applyDepthStencilState k dev created).2,
      c.isRaster = false ∧ c.isBlend = false ∧ c.isDepthStencil = true) ∧
    (RenderDevice.applyDepthStencilState k dev created).1._curDepthStencilState.hash
      = dev._newDepthStencilState.hash ∧
    (RenderDevice.applyDepthStencilState k dev created).1._newDepthStencilState
      = dev._newDepthStencilState ∧
    (RenderDevice.applyDepthStencilState k dev created).1._newRasterState
      = dev._newRasterState ∧
    (RenderDevice.applyDepthStencilState k dev created).1._curRasterState
      = dev._curRasterState ∧
    (RenderDevice.applyDepthStencilState k dev created).1._newBlendState = dev._newBlendState ∧
    (RenderDevice.applyDepthStencilState k dev created).1._curBlendState
      = dev._curBlendState := by
  unfold RenderDevice.applyDepthStencilState
  by_cases h : dev._newDepthStencilState.hash = dev._curDepthStencilState.hash
  · simp [h]
  · simp only [ne_eq, h, not_false_eq_true, if_true, false_imp_iff, true_and, and_true]
    split_ifs <;> simp [D3DCall.isRaster, D3DCall.isBlend, D3DCall.isDepthStencil]

/-- The three parts of `applyRenderStates` run one after the other. -/
theorem applyRenderStates_eq (k : RDIConsts) (dev : RenderDevice)
    (createdRS createdBS createdDS : Option Nat) :
    RenderDevice.applyRenderStates k dev createdRS createdBS createdDS =
      ((RenderDevice.applyDepthStencilState k
          (RenderDevice.applyBlendState k
            (RenderDevice.applyRasterState k dev createdRS).1 createdBS).1 createdDS).1,
        (RenderDevice.applyRasterState k dev createdRS).2 ++
        (RenderDevice.applyBlendState k
            (RenderDevice.applyRasterState k dev createdRS).1 createdBS).2 ++
        (RenderDevice.applyDepthStencilState k
          (RenderDevice.applyBlendState k
            (RenderDevice.applyRasterState k dev createdRS).1 createdBS).1 createdDS).2) :=
  rfl

/-- After `applyRenderStates` the current hash of each category equals the
pending hash, which is the pending hash from before the call. -/
theorem applyRenderStates_hashes (k : RDIConsts) (dev : RenderDevice)
    (createdRS createdBS createdDS : Option Nat) :
    ((RenderDevice.applyRenderStates k dev createdRS createdBS createdDS).1._curRasterState.hash
        = dev._newRasterState.hash ∧
      (RenderDevice.applyRenderStates k dev createdRS createdBS createdDS).1._newRasterState
        = dev._newRasterState) ∧
    ((RenderDevice.applyRenderStates k dev createdRS createdBS createdDS).1._curBlendState.hash
        = dev._newBlendState.hash ∧
      (RenderDevice.applyRenderStates k dev createdRS createdBS createdDS).1._newBlendState
        = dev._newBlendState) ∧
    ((RenderDevice.applyRenderStates k dev createdRS createdBS
          createdDS).1._curDepthStencilState.hash
        = dev._newDepthStencilState.hash ∧
      (RenderDevice.applyRenderStates k dev createdRS createdBS
          createdDS).1._newDepthStencilState
        = dev._newDepthStencilState) := by
  rw [applyRenderStates_eq]
  obtain ⟨-, -, r3, r4, r5, r6, r7, r8⟩ := applyRasterState_spec k dev createdRS
  obtain ⟨-, -, b3, b4, b5, b6, b7, b8⟩ :=
    applyBlendState_spec k (RenderDevice.applyRasterState k dev createdRS).1 createdBS
  obtain ⟨-, -, d3, d4, d5, d6, d7, d8⟩ :=
    applyDepthStencilState_spec k
      (RenderDevice.applyBlendState k
        (RenderDevice.applyRasterState k dev createdRS).1 createdBS).1 createdDS
  refine ⟨⟨?_, ?_⟩, ⟨?_, ?_⟩, ⟨?_, ?_⟩⟩
  · rw [d6, b6, r3]
  · rw [d5, b5, r4]
  · rw [d8, b3, r5]
  · rw [d7, b4, r5]
  · rw [d3, b7, r7]
  · rw [d4, b7, r7]

/-- A category whose hashes agree contributes no call to `applyRenderStates`. -/
theorem applyRenderStates_silent (k : RDIConsts) (dev : RenderDevice)
    (createdRS createdBS createdDS : Option Nat) :
    (dev._newRasterState.hash = dev._curRasterState.hash →
      ∀ c ∈ (RenderDevice.applyRenderStates k dev createdRS createdBS createdDS).2,
        c.isRaster = false) ∧
    (dev._newBlendState.hash = dev._curBlendState.hash →
      ∀ c ∈ (RenderDevice.applyRenderStates k dev createdRS createdBS createdDS).2,
        c.isBlend = false) ∧
    (dev._newDepthStencilState.hash = dev._curDepthStencilState.hash →
      ∀ c ∈ (RenderDevice.applyRenderStates k dev createdRS createdBS createdDS).2,
        c.isDepthStencil = false) := by
  rw [applyRenderStates_eq]
  obtain ⟨r1, r2, -, -, r5, r6, r7, r8⟩ := applyRasterState_spec k dev createdRS
  obtain ⟨b1, b2, -, -, -, -, b7, b8⟩ :=
    applyBlendState_spec k (RenderDevice.applyRasterState k dev createdRS).1 createdBS
  obtain ⟨d1, d2, -⟩ :=
    applyDepthStencilState_spec k
      (RenderDevice.applyBlendState k
        (RenderDevice.applyRasterState k dev createdRS).1 createdBS).1 createdDS
  simp only [List.mem_append]
  refine ⟨?_, ?_, ?_⟩
  · rintro h c ((hc | hc) | hc)
    · rw [r1 h] at hc; simp at hc
    · exact (b2 c hc).1
    · exact (d2 c hc).1
  · rintro h c ((hc | hc) | hc)
    · exact (r2 c hc).2.1
    · rw [b1 (by rw [r5, r6]; exact h)] at hc; simp at hc
    · exact (d2 c hc).2.1
  · rintro h c ((hc | hc) | hc)
    · exact (r2 c hc).2.2
    · exact (b2 c hc).2.2
    · rw [d1 (by rw [b7, b8, r7, r8]; exact h)] at hc; simp at hc

/-- When all three pairs of hashes agree `applyRenderStates` does nothing. -/
theorem applyRenderStates_noop (k : RDIConsts) (dev : RenderDevice)
    (createdRS createdBS createdDS : Option Nat)
    (hr : dev._newRasterState.hash = dev._curRasterState.hash)
    (hb : dev._newBlendState.hash = dev._curBlendState.hash)
    (hd : dev._newDepthStencilState.hash = dev._curDepthStencilState.hash) :
    RenderDevice.applyRenderStates k dev createdRS createdBS createdDS = (dev, []) := by
  rw [applyRenderStates_eq]
  have e1 := (applyRasterState_spec k dev createdRS).1 hr
  rw [e1]
  have e2 := (applyBlendState_spec k dev createdBS).1 hb
  rw [e2]
  have e3 := (applyDepthStencilState_spec k dev createdDS).1 hd
  rw [e3]
  rfl

/-! ## Handle tables -/

theorem RDIObjects.add_of_nil {α : Type} (t : RDIObjects α) (obj : α) (h : t._freeList = []) :
    t.add obj = (⟨t._objects ++ [obj], []⟩, t._objects.length + 1) := by
  unfold RDIObjects.add
  rw [h]

theorem RDIObjects.add_of_cons {α : Type} (t : RDIObjects α) (obj : α) (index : Nat)
    (rest : List Nat) (h : t._freeList = index :: rest) :
    t.add obj = (⟨t._objects.set index obj, rest⟩, index + 1) := by
  unfold RDIObjects.add
  rw [h]

/-- The handle returned by `add` is never the null handle. -/
theorem RDIObjects.add_ne_zero {α : Type} (t : RDIObjects α) (obj : α) : (t.add obj).2 ≠ 0 := by
  rcases hfl : t._freeList with _ | ⟨index, rest⟩
  · rw [RDIObjects.add_of_nil t obj hfl]; simp
  · rw [RDIObjects.add_of_cons t obj index rest hfl]; simp

/-- The handle returned by `add` names the record that was added. -/
theorem RDIObjects.getRef_add {α : Type} (t : RDIObjects α) (obj : α) (h : t.WF) :
    (t.add obj).1.getRef (t.add obj).2 = some obj := by
  rcases hfl : t._freeList with _ | ⟨index, rest⟩
  · rw [RDIObjects.add_of_nil t obj hfl]
    simp [RDIObjects.getRef]
  · rw [RDIObjects.add_of_cons t obj index rest hfl]
    have hlt : index < t._objects.length := h index (by rw [hfl]; exact List.mem_cons_self _ _)
    simp [RDIObjects.getRef, hlt]

/-- Every other handle names the same record after `add` as before. -/
theorem RDIObjects.getRef_add_of_ne {α : Type} (t : RDIObjects α) (obj : α) (handle : Nat)
    (hne : handle ≠ (t.add obj).2) : (t.add obj).1.getRef handle = t.getRef handle := by
  rcases hfl : t._freeList with _ | ⟨index, rest⟩
  · rw [RDIObjects.add_of_nil t obj hfl] at hne ⊢
    simp only at hne
    unfold RDIObjects.getRef
    by_cases h0 : handle = 0
    · simp [h0]
    · simp only [h0, if_false]
      rw [List.getElem?_append]
      split_ifs with hlt
      · rfl
      · rw [List.getElem?_eq_none (by omega : t._objects.length ≤ handle - 1)]
        cases hm : handle - 1 - t._objects.length with
        | zero => omega
        | succ n => rfl
  · rw [RDIObjects.add_of_cons t obj index rest hfl] at hne ⊢
    simp only at hne
    unfold RDIObjects.getRef
    by_cases h0 : handle = 0
    · simp [h0]
    · simp only [h0, if_false]
      rw [List.getElem?_set_ne]
      omega

/-- The slot that `add` uses was free: it was on the free list, or lies past
the end of the table. -/
theorem RDIObjects.add_fresh {α : Type} (t : RDIObjects α) (obj : α) :
    (t.add obj).2 - 1 ∈ t._freeList ∨ t.getRef (t.add obj).2 = none := by
  rcases hfl : t._freeList with _ | ⟨index, rest⟩
  · rw [RDIObjects.add_of_nil t obj hfl]
    right
    simp [RDIObjects.getRef]
  · rw [RDIObjects.add_of_cons t obj index rest hfl]
    left
    simp

/-- `add` keeps the free list within the table. -/
theorem RDIObjects.WF_add {α : Type} (t : RDIObjects α) (obj : α) (h : t.WF) :
    (t.add obj).1.WF := by
  rcases hfl : t._freeList with _ | ⟨index, rest⟩
  · rw [RDIObjects.add_of_nil t obj hfl]
    intro i hi
    simp at hi
  · rw [RDIObjects.add_of_cons t obj index rest hfl]
    intro i hi
    simp only [List.length_set]
    exact h i (by rw [hfl]; exact List.mem_cons_of_mem _ hi)

/-- A write through a live handle is read back through it. -/
theorem RDIObjects.getRef_setRef {α : Type} (t : RDIObjects α) (handle : Nat) (old obj : α)
    (h : t.getRef handle = some old) : (t.setRef handle obj).getRef handle = some obj := by
  unfold RDIObjects.getRef at h ⊢
  unfold RDIObjects.setRef
  by_cases h0 : handle = 0
  · simp [h0] at h
  · simp only [h0, if_false] at h ⊢
    have hlt : handle - 1 < t._objects.length := by
      by_contra hc
      rw [List.getElem?_eq_none (by omega)] at h
      exact absurd h (by simp)
    simp [hlt]

/-- After `remove` the slot holds the default record and heads the free list. -/
theorem RDIObjects.getRef_remove {α : Type} (t : RDIObjects α) (dflt old : α) (handle : Nat)
    (h : t.getRef handle = some old) :
    (t.remove dflt handle).getRef handle = some dflt ∧
      (t.remove dflt handle)._freeList = (handle - 1) :: t._freeList :=
  ⟨RDIObjects.getRef_setRef t handle old dflt h, rfl⟩

/-! ## Render targets, vertex layouts and memory accounting -/

/-- Outside the two rejected cases `createRenderBuffer` adds one record with the
requested size and no attachment, and returns its handle. -/
theorem createRenderBuffer_ok (k : RDIConsts) (dev : RenderDevice) (width height : Nat)
    (format : TextureFormats) (depth : Bool) (numColBufs samples : Nat)
    (h1 : ¬ ((format = .RGBA16F ∨ format = .RGBA32F) ∧ dev._caps.texFloat = false))
    (h2 : ¬ numColBufs > k.MaxColorAttachmentCount) :
    RenderDevice.createRenderBuffer k dev width height format depth numColBufs samples =
      .ok ({ dev with
              _rendBufs := (dev._rendBufs.add
                { RDIRenderBuffer.empty with
                  width := width, height := height, samples := 0 }).1 },
        (dev._rendBufs.add
          { RDIRenderBuffer.empty with width := width, height := height, samples := 0 }).2,
        if samples > 0 then [D3DCall.writeWarning
          "GPU does not support desired multisampling quality for render target"] else []) := by
  unfold RenderDevice.createRenderBuffer
  rw [if_neg h1, if_neg h2]
  by_cases hs : samples > 0
  · simp [hs]
  · have : samples = 0 := by omega
    subst this
    simp

/-- A sequence of `registerVertexLayout` calls keeps the count within the
maximum. -/
theorem registerAll_count_le (k : RDIConsts) (calls : List (List VertexLayoutAttrib))
    (dev : RenderDevice) (h : dev._numVertexLayouts ≤ k.MaxNumVertexLayouts) :
    (RenderDevice.registerAll k dev calls)._numVertexLayouts ≤ k.MaxNumVertexLayouts := by
  induction calls generalizing dev with
  | nil => exact h
  | cons attribs rest ih =>
    simp only [RenderDevice.registerAll, List.foldl_cons]
    apply ih
    unfold RenderDevice.registerVertexLayout
    split_ifs with hmax
    · exact h
    · simp only
      omega

/-- The `uint32` subtraction undoes the `uint32` addition. -/
theorem subUInt32_addUInt32 (a m : Nat) (h : a < 2 ^ 32) :
    subUInt32 (addUInt32 a m) m = a := by
  unfold subUInt32 addUInt32
  omega

/-- `destroyTexture` of a live non-zero handle subtracts the footprint of the
record and removes the record. -/
theorem destroyTexture_live (dev : RenderDevice) (texObj : Nat) (tex : RDITexture)
    (h0 : texObj ≠ 0) (h : dev._textures.getRef texObj = some tex) :
    RenderDevice.destroyTexture dev texObj =
      .ok ({ dev with
              _textureMem := subUInt32 dev._textureMem tex.memSize
              _textures := dev._textures.remove RDITexture.empty texObj },
        (match tex.d3dTexture with
          | some obj => [D3DCall.Release obj]
          | none => []) ++
        (match tex.d3dResourceView with
          | some obj => [D3DCall.Release obj]
          | none => [])) := by
  unfold RenderDevice.destroyTexture
  rw [if_neg h0, h]

/-- When its assertion holds, `createTexture` adds one record and adds the
footprint stored in that record to `_textureMem`. -/
theorem createTexture_ok (debugAsserts sRGBLinearization : Bool) (ftoi_r : ℚ → Int)
    (dev : RenderDevice) (createdTex createdView : Option Nat) (type : TextureTypes)
    (width height depth : Int) (format : TextureFormats) (hasMips genMips sRGB : Bool)
    (hassert : debugAsserts = false ∨ depth > 0) (hwf : dev._textures.WF) :
    ∃ dev1 texObj calls tex,
      RenderDevice.createTexture debugAsserts sRGBLinearization ftoi_r dev createdTex
        createdView type width height depth format hasMips genMips sRGB
        = .ok (dev1, texObj, calls) ∧
      texObj ≠ 0 ∧
      dev1._textures.getRef texObj = some tex ∧
      dev1._textureMem = addUInt32 dev._textureMem tex.memSize := by
  have hcond : (debugAsserts && !decide (depth > 0)) = false := by
    rcases hassert with h | h
    · simp [h]
    · simp [h]
  unfold RenderDevice.createTexture
  simp only [hcond, Bool.false_eq_true, if_false]
  exact ⟨_, _, _, _, rfl, RDIObjects.add_ne_zero _ _, RDIObjects.getRef_add _ _ hwf, rfl⟩

/-! ## Shaders -/

/-- The four ways in which `createShader` gives up: the device after the call
is the device before it with a new shader log, the handle is 0. -/
theorem createShader_failure_aux (dev : RenderDevice) (vs ps : StageAnswers)
    (vertexShaderSrc fragmentShaderSrc : CString)
    (hfail : vs.compileFailed = true ∨ vs.created = none ∨ ps.compileFailed = true ∨
      ps.created = none) :
    ∃ log calls,
      RenderDevice.createShader dev vs ps vertexShaderSrc fragmentShaderSrc
        = .ok ({ dev with _shaderLog := log }, 0, calls) ∧
      (log = [] ↔
        (vs.compileFailed = true ∧ vs.errorBlob = none) ∨
        (vs.compileFailed = false ∧ vs.errorBlob = none ∧ vs.created ≠ none ∧
          ps.compileFailed = true ∧ ps.errorBlob = none)) := by
  obtain ⟨vcf, veb, vcr, vrf, vcl, vcb⟩ := vs
  obtain ⟨pcf, peb, pcr, prf, pcl, pcb⟩ := ps
  simp only at hfail
  unfold RenderDevice.createShader
  have hv : ("[Vertex Shader]\n".toList : CString) ≠ [] := by decide
  have hp : ("[Pixel Shader]\n".toList : CString) ≠ [] := by decide
  have hvc : ("[Vertex Shader]\n Create Failed\n".toList : CString) ≠ [] := by decide
  have hpc : ("[Pixel Shader]\n Create Failed\n".toList : CString) ≠ [] := by decide
  cases vcf <;> cases veb <;> cases vcr <;> cases pcf <;> cases peb <;> cases pcr <;>
    simp_all

/-- The test `allParametersFound` on the elements built for a vertex layout says
that every input parameter is the remapped semantic of some attribute. -/
theorem allParametersFound_iff (vl : RDIVertexLayout)
    (params : List D3D11_SIGNATURE_PARAMETER_DESC) :
    RenderDevice.allParametersFound (RenderDevice.layoutElements vl) params = true ↔
      layoutCovers vl params := by
  unfold RenderDevice.allParametersFound layoutCovers RenderDevice.layoutElements remapAttrib
  simp only [List.all_eq_true, List.any_eq_true, List.mem_filterMap, List.mem_range,
    Option.map_eq_some', Bool.and_eq_true, decide_eq_true_eq]
  constructor
  · intro h p hp
    obtain ⟨e, ⟨j, hj, r, hr, rfl⟩, hn, hi⟩ := h p hp
    exact ⟨j, hj, r, hr, by simp only at hn hi; rw [hn, hi]⟩
  · intro h p hp
    obtain ⟨j, hj, r, hr, he⟩ := h p hp
    simp only [Prod.mk.injEq] at he
    exact ⟨_, ⟨j, hj, r, hr, rfl⟩, he.1, he.2⟩

/-- The loop over the vertex layouts requests an input layout exactly for the
listed layouts that pass `allParametersFound`, and writes no other entry of
`inputLayouts`. -/
theorem createInputLayouts_spec (dev : RenderDevice) (a : StageAnswers) (l : List Nat)
    (inputLayouts : Nat → Option Nat) :
    (∀ c ∈ (RenderDevice.createInputLayouts dev a l inputLayouts).2,
      ∃ i, i ∈ l ∧
        RenderDevice.allParametersFound (RenderDevice.layoutElements (dev._vertexLayouts i))
          a.reflection.InputParameters = true ∧
        c = D3DCall.CreateInputLayout (RenderDevice.layoutElements (dev._vertexLayouts i)) i) ∧
    (∀ i ∈ l,
      RenderDevice.allParametersFound (RenderDevice.layoutElements (dev._vertexLayouts i))
          a.reflection.InputParameters = true →
      D3DCall.CreateInputLayout (RenderDevice.layoutElements (dev._vertexLayouts i)) i
        ∈ (RenderDevice.createInputLayouts dev a l inputLayouts).2) ∧
    (∀ i,
      RenderDevice.allParametersFound (RenderDevice.layoutElements (dev._vertexLayouts i))
          a.reflection.InputParameters = false →
      (RenderDevice.createInputLayouts dev a l inputLayouts).1 i = inputLayouts i) := by
  induction l generalizing inputLayouts with
  | nil =>
    simp [RenderDevice.createInputLayouts]
  | cons j rest ih =>
    unfold RenderDevice.createInputLayouts
    by_cases hj : RenderDevice.allParametersFound
        (RenderDevice.layoutElements (dev._vertexLayouts j)) a.reflection.InputParameters = true
    · simp only [hj, if_true]
      obtain ⟨h1, h2, h3⟩ := ih (Function.update inputLayouts j (a.createdLayout j))
      refine ⟨?_, ?_, ?_⟩
      · intro c hc
        rcases List.mem_cons.mp hc with rfl | hc
        · exact ⟨j, List.mem_cons_self _ _, hj, rfl⟩
        · obtain ⟨i, hi, hf, he⟩ := h1 c hc
          exact ⟨i, List.mem_cons_of_mem _ hi, hf, he⟩
      · intro i hi hf
        rcases List.mem_cons.mp hi with rfl | hi
        · exact List.mem_cons_self _ _
        · exact List.mem_cons_of_mem _ (h2 i hi hf)
      · intro i hf
        rw [h3 i hf]
        have hne : i ≠ j := by
          rintro rfl
          rw [hj] at hf
          exact absurd hf (by simp)
        exact Function.update_noteq hne _ _
    · simp only [hj, Bool.false_eq_true, if_false]
      obtain ⟨h1, h2, h3⟩ := ih inputLayouts
      refine ⟨?_, ?_, h3⟩
      · intro c hc
        obtain ⟨i, hi, hf, he⟩ := h1 c hc
        exact ⟨i, List.mem_cons_of_mem _ hi, hf, he⟩
      · intro i hi hf
        rcases List.mem_cons.mp hi with rfl | hi
        · exact absurd hf hj
        · exact h2 i hi hf

/-- The loop over the bound resources does not write `inputLayouts`. -/
theorem bindResources_inputLayouts (shaderType : RDIShaderType)
    (l : List D3D11_SHADER_INPUT_BIND_DESC) (shader : RDIShader) :
    (RenderDevice.bindResources shaderType l shader).1.inputLayouts = shader.inputLayouts := by
  induction l generalizing shader with
  | nil => rfl
  | cons desc rest ih =>
    unfold RenderDevice.bindResources
    simp only
    split_ifs <;> simp only [ih]

/-- The `$Globals` part of `parseShaderBlob` leaves the shader table and
`inputLayouts` alone and requests no input layout. -/
theorem parseGlobals_frame (dev : RenderDevice) (shader : RDIShader) (a : StageAnswers)
    (shaderType : RDIShaderType) :
    (RenderDevice.parseGlobals dev shader a shaderType).1._shaders = dev._shaders ∧
    (RenderDevice.parseGlobals dev shader a shaderType).2.1.inputLayouts = shader.inputLayouts ∧
    ∀ c ∈ (RenderDevice.parseGlobals dev shader a shaderType).2.2.1,
      ∀ layout i, c ≠ D3DCall.CreateInputLayout layout i := by
  unfold RenderDevice.parseGlobals
  split_ifs with h1
  · cases hg : a.reflection.globals with
    | none => simp
    | some bufferDesc =>
      simp only
      split_ifs with h2
      · refine ⟨rfl, rfl, ?_⟩
        intro c hc layout i
        simp only [RenderDevice.createUniformBuffer, RenderDevice.createBuffer, h2,
          if_true] at hc
        rcases List.mem_append.mp hc with hc | hc
        · simp only [List.mem_singleton] at hc
          rw [hc]
          simp
        · split_ifs at hc
          · simp only [List.mem_singleton] at hc
            rw [hc]
            simp
          · simp at hc
      · simp
  · simp

/-! ## State commits -/

/-- Clearing the bits of `m` leaves the bits of a `uint32` `p` alone when `m`
and `p` share no bit. -/
theorem clearBits_and_of_disjoint (x m p : Nat) (hd : m &&& p = 0) (hp : p < 2 ^ 32) :
    clearBits x m &&& p = x &&& p := by
  apply Nat.eq_of_testBit_eq
  intro i
  have hF : (0xFFFFFFFF : Nat) = 2 ^ 32 - 1 := by norm_num
  have hmp : (m.testBit i && p.testBit i) = false := by
    rw [← Nat.testBit_and, hd]
    simp
  simp only [clearBits, Nat.testBit_and, Nat.testBit_xor, hF, Nat.testBit_two_pow_sub_one]
  by_cases hpi : p.testBit i = true
  · have hi : i < 32 := by
      by_contra hc
      have : p < 2 ^ i := lt_of_lt_of_le hp (Nat.pow_le_pow_right (by norm_num) (by omega))
      rw [Nat.testBit_lt_two_pow this] at hpi
      exact absurd hpi (by simp)
    have hm : m.testBit i = false := by
      rw [hpi] at hmp
      simpa using hmp
    simp [hpi, hi, hm]
  · simp only [Bool.not_eq_true] at hpi
    simp [hpi]

/-- A `uint32` is unchanged by the full filter `0xFFFFFFFF`. -/
theorem and_full_filter (x : Nat) (h : x < 2 ^ 32) : x &&& 0xFFFFFFFF = x := by
  have hF : (0xFFFFFFFF : Nat) = 2 ^ 32 - 1 := by norm_num
  rw [hF, Nat.and_pow_two_sub_one_eq_mod, Nat.mod_eq_of_lt h]

theorem NoDraw_nil : NoDraw [] := by
  intro c hc
  simp at hc

theorem NoDraw_append {l1 l2 : List D3DCall} (h1 : NoDraw l1) (h2 : NoDraw l2) :
    NoDraw (l1 ++ l2) := by
  intro c hc
  rcases List.mem_append.mp hc with h | h
  · exact h1 c h
  · exact h2 c h

theorem NoDraw_cons {c : D3DCall} {l : List D3DCall} (hc : c.isDraw = false) (h : NoDraw l) :
    NoDraw (c :: l) := by
  intro d hd
  rcases List.mem_cons.mp hd with rfl | hd
  · exact hc
  · exact h d hd

theorem SameBindings_refl (dev : RenderDevice) : RenderDevice.SameBindings dev dev :=
  ⟨rfl, rfl, rfl, rfl, rfl, rfl, rfl, rfl, rfl, rfl, rfl, rfl⟩

theorem SameBindings_trans {d1 d2 d3 : RenderDevice} (h12 : RenderDevice.SameBindings d1 d2)
    (h23 : RenderDevice.SameBindings d2 d3) : RenderDevice.SameBindings d1 d3 :=
  ⟨h23.texSlots.trans h12.texSlots, h23.vertBufSlots.trans h12.vertBufSlots,
   h23.curRendBuf.trans h12.curRendBuf, h23.rendBufs.trans h12.rendBufs,
   h23.shaders.trans h12.shaders, h23.buffers.trans h12.buffers,
   h23.textures.trans h12.textures, h23.curShaderId.trans h12.curShaderId,
   h23.newVertLayout.trans h12.newVertLayout, h23.newIndexBuf.trans h12.newIndexBuf,
   h23.vertexLayouts.trans h12.vertexLayouts, h23.numVertexLayouts.trans h12.numVertexLayouts⟩

theorem KeepsLayoutBit_refl (k : RDIConsts) (dev : RenderDevice) :
    RenderDevice.KeepsLayoutBit k dev dev := ⟨rfl, rfl⟩

theorem KeepsLayoutBit_trans {k : RDIConsts} {d1 d2 d3 : RenderDevice}
    (h12 : RenderDevice.KeepsLayoutBit k d1 d2) (h23 : RenderDevice.KeepsLayoutBit k d2 d3) :
    RenderDevice.KeepsLayoutBit k d1 d3 :=
  ⟨h23.1.trans h12.1, h23.2.trans h12.2⟩

theorem isDraw_of_isRaster (c : D3DCall) (h : c.isRaster = true) : c.isDraw = false := by
  cases c <;> first | rfl | exact absurd h (by simp [D3DCall.isRaster])

theorem isDraw_of_isBlend (c : D3DCall) (h : c.isBlend = true) : c.isDraw = false := by
  cases c <;> first | rfl | exact absurd h (by simp [D3DCall.isBlend])

theorem isDraw_of_isDepthStencil (c : D3DCall) (h : c.isDepthStencil = true) :
    c.isDraw = false := by
  cases c <;> first | rfl | exact absurd h (by simp [D3DCall.isDepthStencil])

/-- `getSamplerState` writes the sampler cache only and issues no draw command. -/
theorem getSamplerState_frame (k : RDIConsts) (dev : RenderDevice) (created : Option Nat)
    (state : Nat) :
    RenderDevice.SameBindings dev (RenderDevice.getSamplerState k dev created state).1 ∧
    RenderDevice.KeepsLayoutBit k dev (RenderDevice.getSamplerState k dev created state).1 ∧
    NoDraw (RenderDevice.getSamplerState k dev created state).2.2 := by
  cases hslot : dev._samplerStates (state &&& k.RDISamplerStateMask) with
  | some obj =>
    rw [getSamplerState_hit k dev created state obj hslot]
    exact ⟨SameBindings_refl dev, KeepsLayoutBit_refl k dev, NoDraw_nil⟩
  | none =>
    simp only [RenderDevice.getSamplerState, hslot]
    refine ⟨⟨rfl, rfl, rfl, rfl, rfl, rfl, rfl, rfl, rfl, rfl, rfl, rfl⟩, ⟨rfl, rfl⟩, ?_⟩
    intro c hc
    simp only [List.singleton_append, List.mem_cons] at hc
    rcases hc with rfl | hc
    · rfl
    · split_ifs at hc
      · simp only [List.mem_singleton] at hc
        rw [hc]
        rfl
      · simp at hc

/-- `applyRenderStates` writes the state caches and the current states only and
issues no draw command. -/
theorem applyRenderStates_frame (k : RDIConsts) (dev : RenderDevice)
    (createdRS createdBS createdDS : Option Nat) :
    RenderDevice.SameBindings dev
      (RenderDevice.applyRenderStates k dev createdRS createdBS createdDS).1 ∧
    (RenderDevice.applyRenderStates k dev createdRS createdBS createdDS).1._curVertLayout
      = dev._curVertLayout ∧
    (RenderDevice.applyRenderStates k dev createdRS createdBS createdDS).1._pendingMask
      = dev._pendingMask ∧
    NoDraw (RenderDevice.applyRenderStates k dev createdRS createdBS createdDS).2 := by
  have hr : ∀ (d : RenderDevice) (c : Option Nat),
      RenderDevice.SameBindings d (RenderDevice.applyRasterState k d c).1 ∧
      (RenderDevice.applyRasterState k d c).1._curVertLayout = d._curVertLayout ∧
      (RenderDevice.applyRasterState k d c).1._pendingMask = d._pendingMask := by
    intro d c
    unfold RenderDevice.applyRasterState
    split_ifs <;> exact ⟨⟨rfl, rfl, rfl, rfl, rfl, rfl, rfl, rfl, rfl, rfl, rfl, rfl⟩, rfl, rfl⟩
  have hb : ∀ (d : RenderDevice) (c : Option Nat),
      RenderDevice.SameBindings d (RenderDevice.applyBlendState k d c).1 ∧
      (RenderDevice.applyBlendState k d c).1._curVertLayout = d._curVertLayout ∧
      (RenderDevice.applyBlendState k d c).1._pendingMask = d._pendingMask := by
    intro d c
    unfold RenderDevice.applyBlendState
    split_ifs <;> exact ⟨⟨rfl, rfl, rfl, rfl, rfl, rfl, rfl, rfl, rfl, rfl, rfl, rfl⟩, rfl, rfl⟩
  have hd : ∀ (d : RenderDevice) (c : Option Nat),
      RenderDevice.SameBindings d (RenderDevice.applyDepthStencilState k d c).1 ∧
      (RenderDevice.applyDepthStencilState k d c).1._curVertLayout = d._curVertLayout ∧
      (RenderDevice.applyDepthStencilState k d c).1._pendingMask = d._pendingMask := by
    intro d c
    unfold RenderDevice.applyDepthStencilState
    split_ifs <;> exact ⟨⟨rfl, rfl, rfl, rfl, rfl, rfl, rfl, rfl, rfl, rfl, rfl, rfl⟩, rfl, rfl⟩
  rw [applyRenderStates_eq]
  obtain ⟨r1, r2, r3⟩ := hr dev createdRS
  obtain ⟨b1, b2, b3⟩ := hb (RenderDevice.applyRasterState k dev createdRS).1 createdBS
  obtain ⟨d1, d2, d3⟩ := hd (RenderDevice.applyBlendState k
    (RenderDevice.applyRasterState k dev createdRS).1 createdBS).1 createdDS
  refine ⟨SameBindings_trans (SameBindings_trans r1 b1) d1, by rw [d2, b2, r2],
    by rw [d3, b3, r3], ?_⟩
  obtain ⟨-, cr, -⟩ := applyRasterState_spec k dev createdRS
  obtain ⟨-, cb, -⟩ := applyBlendState_spec k
    (RenderDevice.applyRasterState k dev createdRS).1 createdBS
  obtain ⟨-, cd, -⟩ := applyDepthStencilState_spec k (RenderDevice.applyBlendState k
    (RenderDevice.applyRasterState k dev createdRS).1 createdBS).1 createdDS
  intro c hc
  simp only [List.mem_append] at hc
  rcases hc with (hc | hc) | hc
  · exact isDraw_of_isRaster c (cr c hc).1
  · exact isDraw_of_isBlend c (cb c hc).2.1
  · exact isDraw_of_isDepthStencil c (cd c hc).2.2

/-- The viewport part of `commitStates`. -/
theorem commitViewport_frame (k : RDIConsts) (dev : RenderDevice) (mask : Nat) :
    RenderDevice.SameBindings dev (RenderDevice.commitViewport k dev mask).1 ∧
    (k.LayoutBitApart → RenderDevice.KeepsLayoutBit k dev
      (RenderDevice.commitViewport k dev mask).1) ∧
    NoDraw (RenderDevice.commitViewport k dev mask).2 := by
  unfold RenderDevice.commitViewport
  split_ifs
  · refine ⟨⟨rfl, rfl, rfl, rfl, rfl, rfl, rfl, rfl, rfl, rfl, rfl, rfl⟩, ?_, ?_⟩
    · intro ha
      exact ⟨rfl, clearBits_and_of_disjoint _ _ _ ha.2.1 ha.1⟩
    · exact NoDraw_cons rfl NoDraw_nil
  · exact ⟨SameBindings_refl dev, fun _ => KeepsLayoutBit_refl k dev, NoDraw_nil⟩

/-- The render-state part of `commitStates`. -/
theorem commitRenderStates_frame (k : RDIConsts) (dev : RenderDevice) (io : CommitAnswers)
    (mask : Nat) :
    RenderDevice.SameBindings dev (RenderDevice.commitRenderStates k dev io mask).1 ∧
    (k.LayoutBitApart → RenderDevice.KeepsLayoutBit k dev
      (RenderDevice.commitRenderStates k dev io mask).1) ∧
    NoDraw (RenderDevice.commitRenderStates k dev io mask).2 := by
  obtain ⟨a1, a2, a3, a4⟩ :=
    applyRenderStates_frame k dev io.createdRS io.createdBS io.createdDS
  unfold RenderDevice.commitRenderStates
  split_ifs
  · refine ⟨⟨a1.texSlots, a1.vertBufSlots, a1.curRendBuf, a1.rendBufs, a1.shaders, a1.buffers,
      a1.textures, a1.curShaderId, a1.newVertLayout, a1.newIndexBuf, a1.vertexLayouts,
      a1.numVertexLayouts⟩, ?_, a4⟩
    intro ha
    refine ⟨a2, ?_⟩
    show clearBits _ _ &&& _ = _
    rw [clearBits_and_of_disjoint _ _ _ ha.2.2.1 ha.1, a3]
  · exact ⟨SameBindings_refl dev, fun _ => KeepsLayoutBit_refl k dev, NoDraw_nil⟩

/-- The scissor part of `commitStates`. -/
theorem commitScissor_frame (k : RDIConsts) (dev : RenderDevice) (mask : Nat) :
    RenderDevice.SameBindings dev (RenderDevice.commitScissor k dev mask).1 ∧
    (k.LayoutBitApart → RenderDevice.KeepsLayoutBit k dev
      (RenderDevice.commitScissor k dev mask).1) ∧
    NoDraw (RenderDevice.commitScissor k dev mask).2 := by
  unfold RenderDevice.commitScissor
  split_ifs
  · refine ⟨⟨rfl, rfl, rfl, rfl, rfl, rfl, rfl, rfl, rfl, rfl, rfl, rfl⟩, ?_, ?_⟩
    · intro ha
      exact ⟨rfl, clearBits_and_of_disjoint _ _ _ ha.2.2.2.1 ha.1⟩
    · exact NoDraw_cons rfl NoDraw_nil
  · exact ⟨SameBindings_refl dev, fun _ => KeepsLayoutBit_refl k dev, NoDraw_nil⟩

/-- The index-buffer part of `commitStates`. -/
theorem commitIndexBuf_frame (k : RDIConsts) (dev dev1 : RenderDevice) (mask : Nat)
    (calls : List D3DCall) (h : RenderDevice.commitIndexBuf k dev mask = .ok (dev1, calls)) :
    RenderDevice.SameBindings dev dev1 ∧
    (k.LayoutBitApart → RenderDevice.KeepsLayoutBit k dev dev1) ∧
    NoDraw calls := by
  unfold RenderDevice.commitIndexBuf at h
  split_ifs at h with h1 h2 h3
  · cases hb : dev._buffers.getRef dev._newIndexBuf with
    | none => rw [hb] at h; exact absurd h (by simp)
    | some buf =>
      rw [hb] at h
      simp only [Except.ok.injEq, Prod.mk.injEq] at h
      obtain ⟨rfl, rfl⟩ := h
      refine ⟨⟨rfl, rfl, rfl, rfl, rfl, rfl, rfl, rfl, rfl, rfl, rfl, rfl⟩, ?_, ?_⟩
      · intro ha
        exact ⟨rfl, clearBits_and_of_disjoint _ _ _ ha.2.2.2.2.1 ha.1⟩
      · exact NoDraw_cons rfl NoDraw_nil
  · simp only [Except.ok.injEq, Prod.mk.injEq] at h
    obtain ⟨rfl, rfl⟩ := h
    refine ⟨⟨rfl, rfl, rfl, rfl, rfl, rfl, rfl, rfl, rfl, rfl, rfl, rfl⟩, ?_, ?_⟩
    · intro ha
      exact ⟨rfl, clearBits_and_of_disjoint _ _ _ ha.2.2.2.2.1 ha.1⟩
    · exact NoDraw_cons rfl NoDraw_nil
  · simp only [Except.ok.injEq, Prod.mk.injEq] at h
    obtain ⟨rfl, rfl⟩ := h
    exact ⟨SameBindings_refl dev, fun _ => KeepsLayoutBit_refl k dev, NoDraw_nil⟩
  · simp only [Except.ok.injEq, Prod.mk.injEq] at h
    obtain ⟨rfl, rfl⟩ := h
    exact ⟨SameBindings_refl dev, fun _ => KeepsLayoutBit_refl k dev, NoDraw_nil⟩

/-- The loop over the samplers of the bound shader. -/
theorem bindSamplers_frame (k : RDIConsts) (io : CommitAnswers) (l : List RDISampler)
    (i : Nat) (dev dev1 : RenderDevice) (calls : List D3DCall)
    (h : RenderDevice.bindSamplers k io l i dev = .ok (dev1, calls)) :
    RenderDevice.SameBindings dev dev1 ∧ RenderDevice.KeepsLayoutBit k dev dev1 ∧
    NoDraw calls := by
  induction l generalizing i dev dev1 calls with
  | nil =>
    simp only [RenderDevice.bindSamplers, Except.ok.injEq, Prod.mk.injEq] at h
    obtain ⟨rfl, rfl⟩ := h
    exact ⟨SameBindings_refl dev, KeepsLayoutBit_refl k dev, NoDraw_nil⟩
  | cons sampler rest ih =>
    unfold RenderDevice.bindSamplers at h
    split_ifs at h with hc
    · cases ht : dev._textures.getRef (dev._texSlots sampler.slot.toNat).texObj with
      | none => rw [ht] at h; exact absurd h (by simp)
      | some tex =>
        rw [ht] at h
        simp only at h
        obtain ⟨g1, g2, g3⟩ := getSamplerState_frame k dev (io.createdSampler i)
          (dev._texSlots sampler.slot.toNat).samplerState
        cases hr : RenderDevice.bindSamplers k io rest (i + 1)
            (RenderDevice.getSamplerState k dev (io.createdSampler i)
              (dev._texSlots sampler.slot.toNat).samplerState).1 with
        | error e => rw [hr] at h; exact absurd h (by simp)
        | ok r =>
          obtain ⟨dev2, calls2⟩ := r
          rw [hr] at h
          simp only [Except.ok.injEq, Prod.mk.injEq] at h
          obtain ⟨rfl, rfl⟩ := h
          obtain ⟨i1, i2, i3⟩ := ih _ _ _ _ hr
          refine ⟨SameBindings_trans g1 i1, KeepsLayoutBit_trans g2 i2, ?_⟩
          exact NoDraw_append (NoDraw_append g3 (NoDraw_cons rfl (NoDraw_cons rfl NoDraw_nil))) i3
    · exact ih _ _ _ _ h

/-- The texture part of `commitStates`. -/
theorem commitTextures_frame (k : RDIConsts) (dev dev1 : RenderDevice) (io : CommitAnswers)
    (mask : Nat) (calls : List D3DCall)
    (h : RenderDevice.commitTextures k dev io mask = .ok (dev1, calls)) :
    RenderDevice.SameBindings dev dev1 ∧
    (k.LayoutBitApart → RenderDevice.KeepsLayoutBit k dev dev1) ∧
    NoDraw calls := by
  have key : ∀ (d2 : RenderDevice) (c2 : List D3DCall),
      RenderDevice.SameBindings dev d2 → RenderDevice.KeepsLayoutBit k dev d2 → NoDraw c2 →
      RenderDevice.SameBindings dev
        { d2 with _pendingMask := clearBits d2._pendingMask k.PM_TEXTURES } ∧
      (k.LayoutBitApart → RenderDevice.KeepsLayoutBit k dev
        { d2 with _pendingMask := clearBits d2._pendingMask k.PM_TEXTURES }) ∧
      NoDraw c2 := by
    intro d2 c2 hs hk hn
    refine ⟨⟨hs.texSlots, hs.vertBufSlots, hs.curRendBuf, hs.rendBufs, hs.shaders,
      hs.buffers, hs.textures, hs.curShaderId, hs.newVertLayout, hs.newIndexBuf,
      hs.vertexLayouts, hs.numVertexLayouts⟩, ?_, hn⟩
    intro ha
    refine ⟨hk.1, ?_⟩
    show clearBits _ _ &&& _ = _
    rw [clearBits_and_of_disjoint _ _ _ ha.2.2.2.2.2 ha.1, hk.2]
  unfold RenderDevice.commitTextures at h
  split_ifs at h with h1 h2
  · cases hsh : dev._shaders.getRef dev._curShaderId with
    | none => rw [hsh] at h; exact absurd h (by simp)
    | some shader =>
      rw [hsh] at h
      simp only at h
      cases hb : RenderDevice.bindSamplers k io shader.samplers 0 dev with
      | error e => rw [hb] at h; exact absurd h (by simp)
      | ok r =>
        obtain ⟨d2, c2⟩ := r
        rw [hb] at h
        simp only [Except.ok.injEq, Prod.mk.injEq] at h
        obtain ⟨rfl, rfl⟩ := h
        obtain ⟨b1, b2, b3⟩ := bindSamplers_frame k io _ _ _ _ _ hb
        exact key d2 c2 b1 b2 b3
  · simp only [Except.ok.injEq, Prod.mk.injEq] at h
    obtain ⟨rfl, rfl⟩ := h
    exact key dev [] (SameBindings_refl dev) (KeepsLayoutBit_refl k dev) NoDraw_nil
  · simp only [Except.ok.injEq, Prod.mk.injEq] at h
    obtain ⟨rfl, rfl⟩ := h
    exact ⟨SameBindings_refl dev, fun _ => KeepsLayoutBit_refl k dev, NoDraw_nil⟩

/-- The calls of `updateBufferData` hold no draw command. -/
theorem updateBufferData_noDraw (debugAsserts : Bool) (dev : RenderDevice)
    (mapResult : Option Nat) (bufObj offset size : Nat) (data : List Nat)
    (calls : List D3DCall)
    (h : RenderDevice.updateBufferData debugAsserts dev mapResult bufObj offset size data
      = .ok calls) : NoDraw calls := by
  unfold RenderDevice.updateBufferData at h
  cases hb : dev._buffers.getRef bufObj with
  | none => rw [hb] at h; exact absurd h (by simp)
  | some buf =>
    rw [hb] at h
    simp only at h
    by_cases h1 : (debugAsserts && !decide ((offset + size) % 2 ^ 32 ≤ buf.size)) = true
    · rw [if_pos h1] at h; exact absurd h (by simp)
    · rw [if_neg h1] at h
      cases ho : buf.d3dObj with
      | none =>
        rw [ho] at h
        simp only [Except.ok.injEq] at h
        subst h
        exact NoDraw_nil
      | some obj =>
        rw [ho] at h
        simp only at h
        by_cases h2 : buf.dynamic = true
        · rw [if_pos h2] at h
          cases mapResult with
          | none =>
            simp only [Except.ok.injEq] at h
            subst h
            exact NoDraw_cons rfl NoDraw_nil
          | some rowPitch =>
            simp only [Except.ok.injEq] at h
            subst h
            refine NoDraw_append (NoDraw_append (NoDraw_cons rfl NoDraw_nil) ?_)
              (NoDraw_cons rfl NoDraw_nil)
            split_ifs
            · exact NoDraw_cons rfl NoDraw_nil
            · exact NoDraw_cons rfl NoDraw_nil
        · rw [if_neg h2] at h
          simp only [Except.ok.injEq] at h
          subst h
          exact NoDraw_cons rfl NoDraw_nil

/-- The calls of `uploadGlobals` hold no draw command when `bind` is none. -/
theorem uploadGlobals_noDraw (debugAsserts : Bool) (dev : RenderDevice) (cb : GlobalCBuffer)
    (mapResult : Option Nat) (bind : Int → Option Nat → D3DCall)
    (hbind : ∀ a b, (bind a b).isDraw = false) (calls : List D3DCall)
    (h : RenderDevice.uploadGlobals debugAsserts dev cb mapResult bind = .ok calls) :
    NoDraw calls := by
  unfold RenderDevice.uploadGlobals at h
  split_ifs at h with h1
  · cases hb : dev._buffers.getRef cb.bufferId with
    | none => rw [hb] at h; exact absurd h (by simp)
    | some buffer =>
      rw [hb] at h
      simp only at h
      cases hu : RenderDevice.updateBufferData debugAsserts dev mapResult cb.bufferId 0
          buffer.size (cb.bufferData.getD []) with
      | error e => rw [hu] at h; exact absurd h (by simp)
      | ok c1 =>
        rw [hu] at h
        simp only [Except.ok.injEq] at h
        subst h
        exact NoDraw_append (updateBufferData_noDraw _ _ _ _ _ _ _ _ hu)
          (NoDraw_cons (hbind _ _) NoDraw_nil)
  · simp only [Except.ok.injEq] at h
    subst h
    exact NoDraw_nil

/-- The upload of the shader constants issues no draw command. -/
theorem commitUniforms_noDraw (debugAsserts : Bool) (dev : RenderDevice) (io : CommitAnswers)
    (calls : List D3DCall)
    (h : RenderDevice.commitUniforms debugAsserts dev io = .ok calls) : NoDraw calls := by
  unfold RenderDevice.commitUniforms at h
  split_ifs at h with h1
  · cases hs : dev._shaders.getRef dev._curShaderId with
    | none => rw [hs] at h; exact absurd h (by simp)
    | some shader =>
      rw [hs] at h
      simp only at h
      cases hv : RenderDevice.uploadGlobals debugAsserts dev (shader.globalCBuffers .Vertex)
          io.mapVertex D3DCall.VSSetConstantBuffers with
      | error e => rw [hv] at h; exact absurd h (by simp)
      | ok c1 =>
        rw [hv] at h
        simp only at h
        cases hp : RenderDevice.uploadGlobals debugAsserts dev (shader.globalCBuffers .Pixel)
            io.mapPixel D3DCall.PSSetConstantBuffers with
        | error e => rw [hp] at h; exact absurd h (by simp)
        | ok c2 =>
          rw [hp] at h
          simp only [Except.ok.injEq] at h
          subst h
          exact NoDraw_append
            (uploadGlobals_noDraw _ _ _ _ D3DCall.VSSetConstantBuffers (fun _ _ => rfl) _ hv)
            (uploadGlobals_noDraw _ _ _ _ D3DCall.PSSetConstantBuffers (fun _ _ => rfl) _ hp)
  · simp only [Except.ok.injEq] at h
    subst h
    exact NoDraw_nil

/-- The loop of `applyVertexLayout` issues no draw command. -/
theorem bindVertexBuffers_noDraw (dev : RenderDevice) (vl : RDIVertexLayout) (l : List Nat)
    (m0 m : Nat) (calls : List D3DCall)
    (h : RenderDevice.bindVertexBuffers dev vl l m0 = .ok (m, calls)) : NoDraw calls := by
  induction l generalizing m0 m calls with
  | nil =>
    simp only [RenderDevice.bindVertexBuffers, Except.ok.injEq, Prod.mk.injEq] at h
    obtain ⟨_, rfl⟩ := h
    exact NoDraw_nil
  | cons i rest ih =>
    unfold RenderDevice.bindVertexBuffers at h
    simp only at h
    split_ifs at h with h1
    · cases hb : dev._buffers.getRef (dev._vertBufSlots (vl.attribs i).vbSlot).vbObj with
      | none => rw [hb] at h; exact absurd h (by simp)
      | some buf =>
        rw [hb] at h
        simp only at h
        cases hr : RenderDevice.bindVertexBuffers dev vl rest
            ((m0 ||| (1 <<< (vl.attribs i).vbSlot)) % 2 ^ 32) with
        | error e => rw [hr] at h; exact absurd h (by simp)
        | ok r =>
          obtain ⟨m2, c2⟩ := r
          rw [hr] at h
          simp only [Except.ok.injEq, Prod.mk.injEq] at h
          obtain ⟨_, rfl⟩ := h
          exact NoDraw_cons rfl (ih _ _ _ hr)
    · exact ih _ _ _ h

/-- The calls that unbind the vertex buffers no longer used hold no draw
command. -/
theorem disableCalls_noDraw (disableMask : Nat) :
    NoDraw ((List.range 16).filterMap fun i =>
      if disableMask &&& (1 <<< i) ≠ 0 then some (D3DCall.IASetVertexBuffers i none 0 0)
      else none) := by
  intro c hc
  rw [List.mem_filterMap] at hc
  obtain ⟨i, _, hi⟩ := hc
  split_ifs at hi
  simp only [Option.some.injEq] at hi
  subst hi
  rfl

/-- `applyVertexLayout` changes no binding and issues no draw command; when it
returns `false` it has changed nothing at all. -/
theorem applyVertexLayout_frame (dev dev1 : RenderDevice) (b : Bool) (calls : List D3DCall)
    (h : RenderDevice.applyVertexLayout dev = .ok (dev1, b, calls)) :
    RenderDevice.SameBindings dev dev1 ∧ dev1._curVertLayout = dev._curVertLayout ∧
    dev1._pendingMask = dev._pendingMask ∧ NoDraw calls ∧ (b = false → dev1 = dev) := by
  have fin : ∀ (m : Nat) (c : List D3DCall), NoDraw c →
      (.ok ({ dev with _activeVertexAttribsMask := m }, true,
          c ++ (if clearBits dev._activeVertexAttribsMask m ≠ 0 then
            (List.range 16).filterMap fun i =>
              if clearBits dev._activeVertexAttribsMask m &&& (1 <<< i) ≠ 0 then
                some (D3DCall.IASetVertexBuffers i none 0 0)
              else none
          else [])) : Except Fault (RenderDevice × Bool × List D3DCall))
        = .ok (dev1, b, calls) →
      RenderDevice.SameBindings dev dev1 ∧ dev1._curVertLayout = dev._curVertLayout ∧
      dev1._pendingMask = dev._pendingMask ∧ NoDraw calls ∧ (b = false → dev1 = dev) := by
    intro m c hc he
    simp only [Except.ok.injEq, Prod.mk.injEq] at he
    obtain ⟨rfl, rfl, rfl⟩ := he
    refine ⟨⟨rfl, rfl, rfl, rfl, rfl, rfl, rfl, rfl, rfl, rfl, rfl, rfl⟩, rfl, rfl, ?_, ?_⟩
    · refine NoDraw_append hc ?_
      by_cases hm : clearBits dev._activeVertexAttribsMask m ≠ 0
      · rw [if_pos hm]
        exact disableCalls_noDraw _
      · rw [if_neg hm]
        exact NoDraw_nil
    · intro hb
      exact absurd hb (by simp)
  have same : (.ok (dev, false, []) : Except Fault (RenderDevice × Bool × List D3DCall))
        = .ok (dev1, b, calls) →
      RenderDevice.SameBindings dev dev1 ∧ dev1._curVertLayout = dev._curVertLayout ∧
      dev1._pendingMask = dev._pendingMask ∧ NoDraw calls ∧ (b = false → dev1 = dev) := by
    intro he
    simp only [Except.ok.injEq, Prod.mk.injEq] at he
    obtain ⟨rfl, rfl, rfl⟩ := he
    exact ⟨SameBindings_refl dev, rfl, rfl, NoDraw_nil, fun _ => rfl⟩
  unfold RenderDevice.applyVertexLayout at h
  simp only at h
  by_cases h1 : dev._newVertLayout ≠ 0
  · rw [if_pos h1] at h
    by_cases h2 : dev._curShaderId = 0
    · rw [if_pos h2] at h
      exact same h
    · rw [if_neg h2] at h
      cases hs : dev._shaders.getRef dev._curShaderId with
      | none => rw [hs] at h; exact absurd h (by simp)
      | some shader =>
        rw [hs] at h
        simp only at h
        cases hl : shader.inputLayouts (dev._newVertLayout - 1) with
        | none => rw [hl] at h; exact same h
        | some inputLayout =>
          rw [hl] at h
          simp only at h
          cases hr : RenderDevice.bindVertexBuffers dev
              (dev._vertexLayouts (dev._newVertLayout - 1))
              (List.range (dev._vertexLayouts (dev._newVertLayout - 1)).numAttribs) 0 with
          | error e => rw [hr] at h; exact absurd h (by simp)
          | ok r =>
            obtain ⟨m2, c2⟩ := r
            rw [hr] at h
            have hc : NoDraw (D3DCall.IASetInputLayout inputLayout :: c2) :=
              NoDraw_cons rfl (bindVertexBuffers_noDraw _ _ _ _ _ _ hr)
            exact fin m2 _ hc h
  · rw [if_neg h1] at h
    exact fin 0 [] NoDraw_nil h

/-- When a vertex layout is requested while no shader is bound, or while the
bound shader has no input layout for it, `applyVertexLayout` returns `false`
and changes nothing. -/
theorem applyVertexLayout_fails (dev : RenderDevice) (hnew : dev._newVertLayout ≠ 0)
    (hsh : dev._curShaderId = 0 ∨ ∃ shader, dev._shaders.getRef dev._curShaderId = some shader ∧
      shader.inputLayouts (dev._newVertLayout - 1) = none) :
    RenderDevice.applyVertexLayout dev = .ok (dev, false, []) := by
  unfold RenderDevice.applyVertexLayout
  simp only
  rw [if_pos hnew]
  by_cases h2 : dev._curShaderId = 0
  · rw [if_pos h2]
  · rw [if_neg h2]
    rcases hsh with h0 | ⟨shader, hs, hl⟩
    · exact absurd h0 h2
    · rw [hs]
      simp only
      rw [hl]

/-- The vertex-layout part of `commitStates` changes no binding and issues no
draw command; when it returns `false` it has changed nothing at all. -/
theorem commitVertLayout_frame (k : RDIConsts) (dev dev1 : RenderDevice) (mask : Nat)
    (b : Bool) (calls : List D3DCall)
    (h : RenderDevice.commitVertLayout k dev mask = .ok (dev1, b, calls)) :
    RenderDevice.SameBindings dev dev1 ∧ NoDraw calls ∧ (b = false → dev1 = dev) := by
  unfold RenderDevice.commitVertLayout at h
  by_cases h1 : mask &&& k.PM_VERTLAYOUT ≠ 0
  · rw [if_pos h1] at h
    cases ha : RenderDevice.applyVertexLayout dev with
    | error e => rw [ha] at h; exact absurd h (by simp)
    | ok r =>
      obtain ⟨d2, b2, c2⟩ := r
      obtain ⟨a1, _, _, a4, a5⟩ := applyVertexLayout_frame dev d2 b2 c2 ha
      rw [ha] at h
      cases b2 with
      | false =>
        simp only [Except.ok.injEq, Prod.mk.injEq] at h
        obtain ⟨rfl, rfl, rfl⟩ := h
        exact ⟨a1, a4, fun _ => a5 rfl⟩
      | true =>
        simp only [Except.ok.injEq, Prod.mk.injEq] at h
        obtain ⟨rfl, rfl, rfl⟩ := h
        refine ⟨⟨a1.texSlots, a1.vertBufSlots, a1.curRendBuf, a1.rendBufs, a1.shaders,
          a1.buffers, a1.textures, a1.curShaderId, a1.newVertLayout, a1.newIndexBuf,
          a1.vertexLayouts, a1.numVertexLayouts⟩, a4, ?_⟩
        intro hb
        exact absurd hb (by simp)
  · rw [if_neg h1] at h
    simp only [Except.ok.injEq, Prod.mk.injEq] at h
    obtain ⟨rfl, rfl, rfl⟩ := h
    exact ⟨SameBindings_refl dev, NoDraw_nil, fun hb => absurd hb (by simp)⟩

/-- When the vertex-layout category is within `mask` and `applyVertexLayout`
cannot resolve the requested layout, the vertex-layout part of `commitStates`
returns `false` and changes nothing. -/
theorem commitVertLayout_fails (k : RDIConsts) (dev : RenderDevice) (mask : Nat)
    (hm : mask &&& k.PM_VERTLAYOUT ≠ 0) (hnew : dev._newVertLayout ≠ 0)
    (hsh : dev._curShaderId = 0 ∨ ∃ shader, dev._shaders.getRef dev._curShaderId = some shader ∧
      shader.inputLayouts (dev._newVertLayout - 1) = none) :
    RenderDevice.commitVertLayout k dev mask = .ok (dev, false, []) := by
  unfold RenderDevice.commitVertLayout
  rw [if_pos hm, applyVertexLayout_fails dev hnew hsh]

/-- The stages of `commitStates` before the vertex layout, run one after the
other. -/
theorem commitStates_stages (debugAsserts : Bool) (k : RDIConsts) (dev dev1 : RenderDevice)
    (io : CommitAnswers) (filter : Nat) (b : Bool) (calls : List D3DCall)
    (h : RenderDevice.commitStates debugAsserts k dev io filter = .ok (dev1, b, calls))
    (hp : dev._pendingMask &&& filter ≠ 0) :
    ∃ (dev5 : RenderDevice) (calls5 calls6 : List D3DCall),
      RenderDevice.SameBindings dev dev5 ∧
      (k.LayoutBitApart → RenderDevice.KeepsLayoutBit k dev dev5) ∧ NoDraw calls5 ∧
      RenderDevice.commitVertLayout k dev5 (dev._pendingMask &&& filter)
        = .ok (dev1, b, calls6) ∧
      ∃ calls7, NoDraw calls7 ∧ calls = calls5 ++ calls6 ++ calls7 := by
  unfold RenderDevice.commitStates at h
  rw [if_pos hp] at h
  simp only at h
  obtain ⟨v1, v2, v3⟩ := commitViewport_frame k dev (dev._pendingMask &&& filter)
  obtain ⟨r1, r2, r3⟩ := commitRenderStates_frame k
    (RenderDevice.commitViewport k dev (dev._pendingMask &&& filter)).1 io
    (dev._pendingMask &&& filter)
  obtain ⟨s1, s2, s3⟩ := commitScissor_frame k
    (RenderDevice.commitRenderStates k
      (RenderDevice.commitViewport k dev (dev._pendingMask &&& filter)).1 io
      (dev._pendingMask &&& filter)).1 (dev._pendingMask &&& filter)
  cases h4 : RenderDevice.commitIndexBuf k
      (RenderDevice.commitScissor k
        (RenderDevice.commitRenderStates k
          (RenderDevice.commitViewport k dev (dev._pendingMask &&& filter)).1 io
          (dev._pendingMask &&& filter)).1 (dev._pendingMask &&& filter)).1
      (dev._pendingMask &&& filter) with
  | error e => rw [h4] at h; exact absurd h (by simp)
  | ok r =>
    obtain ⟨dev4, calls4⟩ := r
    rw [h4] at h
    simp only at h
    obtain ⟨i1, i2, i3⟩ := commitIndexBuf_frame k _ _ _ _ h4
    cases h5 : RenderDevice.commitTextures k dev4 io (dev._pendingMask &&& filter) with
    | error e => rw [h5] at h; exact absurd h (by simp)
    | ok r =>
      obtain ⟨dev5, calls5⟩ := r
      rw [h5] at h
      simp only at h
      obtain ⟨t1, t2, t3⟩ := commitTextures_frame k _ _ _ _ _ h5
      have hsame : RenderDevice.SameBindings dev dev5 :=
        SameBindings_trans (SameBindings_trans (SameBindings_trans
          (SameBindings_trans v1 r1) s1) i1) t1
      have hkeep : k.LayoutBitApart → RenderDevice.KeepsLayoutBit k dev dev5 := fun ha =>
        KeepsLayoutBit_trans (KeepsLayoutBit_trans (KeepsLayoutBit_trans
          (KeepsLayoutBit_trans (v2 ha) (r2 ha)) (s2 ha)) (i2 ha)) (t2 ha)
      have hno := NoDraw_append (NoDraw_append (NoDraw_append (NoDraw_append v3 r3) s3) i3) t3
      cases h6 : RenderDevice.commitVertLayout k dev5 (dev._pendingMask &&& filter) with
      | error e => rw [h6] at h; exact absurd h (by simp)
      | ok r =>
        obtain ⟨dev6, b6, calls6⟩ := r
        rw [h6] at h
        cases b6 with
        | false =>
          simp only [Except.ok.injEq, Prod.mk.injEq] at h
          obtain ⟨rfl, rfl, rfl⟩ := h
          exact ⟨dev5, _, calls6, hsame, hkeep, hno, h6, [], NoDraw_nil, by simp⟩
        | true =>
          simp only at h
          cases h7 : RenderDevice.commitUniforms debugAsserts dev6 io with
          | error e => rw [h7] at h; exact absurd h (by simp)
          | ok calls7 =>
            rw [h7] at h
            simp only [Except.ok.injEq, Prod.mk.injEq] at h
            obtain ⟨rfl, rfl, rfl⟩ := h
            exact ⟨dev5, _, calls6, hsame, hkeep, hno, h6, calls7,
              commitUniforms_noDraw _ _ _ _ h7, rfl⟩

/-- `commitStates` changes no binding and issues no draw command. -/
theorem commitStates_frame (debugAsserts : Bool) (k : RDIConsts) (dev dev1 : RenderDevice)
    (io : CommitAnswers) (filter : Nat) (b : Bool) (calls : List D3DCall)
    (h : RenderDevice.commitStates debugAsserts k dev io filter = .ok (dev1, b, calls)) :
    RenderDevice.SameBindings dev dev1 ∧ NoDraw calls := by
  by_cases hp : dev._pendingMask &&& filter ≠ 0
  · obtain ⟨dev5, calls5, calls6, hs, _, hn5, h6, calls7, hn7, rfl⟩ :=
      commitStates_stages debugAsserts k dev dev1 io filter b calls h hp
    obtain ⟨l1, l2, _⟩ := commitVertLayout_frame k dev5 dev1 _ b calls6 h6
    exact ⟨SameBindings_trans hs l1, NoDraw_append (NoDraw_append hn5 l2) hn7⟩
  · unfold RenderDevice.commitStates at h
    rw [if_neg hp] at h
    simp only [Except.ok.injEq, Prod.mk.injEq] at h
    obtain ⟨rfl, rfl, rfl⟩ := h
    exact ⟨SameBindings_refl dev, NoDraw_nil⟩

/-- When the vertex-layout category is pending and within `filter` and the
requested layout cannot be resolved, `commitStates` returns `false`, the
vertex-layout bit stays pending and `_curVertLayout` keeps its value. -/
theorem commitStates_layout_fails (debugAsserts : Bool) (k : RDIConsts)
    (dev dev1 : RenderDevice) (io : CommitAnswers) (filter : Nat) (b : Bool)
    (calls : List D3DCall) (hk : k.LayoutBitApart)
    (h : RenderDevice.commitStates debugAsserts k dev io filter = .ok (dev1, b, calls))
    (hm : dev._pendingMask &&& filter &&& k.PM_VERTLAYOUT ≠ 0) (hnew : dev._newVertLayout ≠ 0)
    (hsh : dev._curShaderId = 0 ∨ ∃ shader, dev._shaders.getRef dev._curShaderId = some shader ∧
      shader.inputLayouts (dev._newVertLayout - 1) = none) :
    b = false ∧ RenderDevice.KeepsLayoutBit k dev dev1 := by
  have hp : dev._pendingMask &&& filter ≠ 0 := by
    intro h0
    rw [h0] at hm
    exact hm (Nat.zero_and _)
  obtain ⟨dev5, calls5, calls6, hs, hkeep, _, h6, _⟩ :=
    commitStates_stages debugAsserts k dev dev1 io filter b calls h hp
  have hnew5 : dev5._newVertLayout ≠ 0 := by rw [hs.newVertLayout]; exact hnew
  have hsh5 : dev5._curShaderId = 0 ∨ ∃ shader,
      dev5._shaders.getRef dev5._curShaderId = some shader ∧
      shader.inputLayouts (dev5._newVertLayout - 1) = none := by
    rw [hs.curShaderId, hs.shaders, hs.newVertLayout]
    exact hsh
  rw [commitVertLayout_fails k dev5 _ hm hnew5 hsh5] at h6
  simp only [Except.ok.injEq, Prod.mk.injEq] at h6
  obtain ⟨rfl, rfl, _⟩ := h6
  exact ⟨rfl, hkeep hk⟩

/-- Requesting texture 0 for each texture unit of a list empties those units
and leaves the other units, the current render target and the table of render
targets as they were. -/
theorem unbindTextures_spec (k : RDIConsts) (l : List Nat) (dev : RenderDevice) :
    (∀ i ∈ l, (l.foldl (fun d i => RenderDevice.setTexture k d i 0 0) dev)._texSlots i
      = ⟨0, 0⟩) ∧
    (∀ i, i ∉ l → (l.foldl (fun d i => RenderDevice.setTexture k d i 0 0) dev)._texSlots i
      = dev._texSlots i) ∧
    (l.foldl (fun d i => RenderDevice.setTexture k d i 0 0) dev)._curRendBuf
      = dev._curRendBuf ∧
    (l.foldl (fun d i => RenderDevice.setTexture k d i 0 0) dev)._rendBufs = dev._rendBufs := by
  induction l generalizing dev with
  | nil => exact ⟨fun i hi => absurd hi (List.not_mem_nil i), fun _ _ => rfl, rfl, rfl⟩
  | cons a rest ih =>
    obtain ⟨i1, i2, i3, i4⟩ := ih (RenderDevice.setTexture k dev a 0 0)
    rw [List.foldl_cons]
    refine ⟨?_, ?_, i3, i4⟩
    · intro i hi
      by_cases hr : i ∈ rest
      · exact i1 i hr
      · have hia : i = a := by
          rcases List.mem_cons.mp hi with h | h
          · exact h
          · exact absurd h hr
        rw [i2 i hr, hia]
        simp [RenderDevice.setTexture]
    · intro i hi
      have hr : i ∉ rest := fun h => hi (List.mem_cons_of_mem a h)
      have hia : i ≠ a := fun h => hi (h ▸ List.mem_cons_self a rest)
      rw [i2 i hr]
      simp [RenderDevice.setTexture, Function.update_noteq hia]

/-! ## Texture sizes and box frusta -/

/-- On `int` values `x >> 1` is the division by 2 that rounds down. -/
theorem int_shiftRight_one (a : Int) : a >>> (1 : Int) = a / 2 := by
  cases a with
  | ofNat m =>
    change (m : ℤ) >>> ((1 : ℕ) : ℤ) = _
    rw [Int.shiftRight_coe_nat, Nat.shiftRight_eq_div_pow]
    simp
  | negSucc m =>
    change Int.negSucc m >>> ((1 : ℕ) : ℤ) = _
    rw [Int.shiftRight_negSucc, Nat.shiftRight_eq_div_pow]
    simp only [pow_one, Int.negSucc_eq]
    omega

/-- With enough fuel the loop of `getMipLevels` adds to `mipcount` the number of
halvings that bring the largest extent down to 1. -/
theorem getMipLevelsLoop_eq (fuel : Nat) (width height depth mipcount : Int)
    (h : max width (max height depth) < 2 ^ fuel) :
    getMipLevelsLoop fuel width height depth mipcount
      = mipcount + Nat.log 2 (max width (max height depth)).toNat := by
  induction fuel generalizing width height depth mipcount with
  | zero =>
    have h0 : (max width (max height depth)).toNat = 0 := by
      simp only [pow_zero] at h
      omega
    simp [getMipLevelsLoop, h0]
  | succ n ih =>
    unfold getMipLevelsLoop
    by_cases hc : width > 1 ∨ height > 1 ∨ depth > 1
    · rw [if_pos hc]
      have hshift : max (width >>> (1 : Int)) (max (height >>> (1 : Int)) (depth >>> (1 : Int)))
          = max width (max height depth) / 2 := by
        rw [int_shiftRight_one, int_shiftRight_one, int_shiftRight_one]
        omega
      have hlt : max width (max height depth) / 2 < 2 ^ n := by
        rw [pow_succ] at h
        omega
      rw [ih _ _ _ _ (by rw [hshift]; exact hlt), hshift]
      have h2 : 2 ≤ (max width (max height depth)).toNat := by omega
      have hdiv : (max width (max height depth) / 2).toNat
          = (max width (max height depth)).toNat / 2 := by omega
      rw [hdiv, Nat.log_of_one_lt_of_le (by norm_num) h2]
      push_cast
      ring
    · rw [if_neg hc]
      have h1 : (max width (max height depth)).toNat < 2 := by omega
      rw [Nat.log_of_lt h1]
      simp

/-- Normalising a vector that points along `+x`. -/
theorem normalize_pos_x (sqrtf : ℚ → ℚ) (hsqrt : ∀ x : ℚ, 0 ≤ x → sqrtf (x * x) = x)
    (v : Vec3f) (hx : 0 < v.x) (hy : v.y = 0) (hz : v.z = 0) :
    v.normalize sqrtf = ⟨1, 0, 0⟩ := by
  have hs := hsqrt v.x hx.le
  simp only [Vec3f.normalize, Vec3f.length, hy, hz, mul_zero, zero_mul, add_zero, hs]
  congr 1
  field_simp

/-- Normalising a vector that points along `-x`. -/
theorem normalize_neg_x (sqrtf : ℚ → ℚ) (hsqrt : ∀ x : ℚ, 0 ≤ x → sqrtf (x * x) = x)
    (v : Vec3f) (hx : v.x < 0) (hy : v.y = 0) (hz : v.z = 0) :
    v.normalize sqrtf = ⟨-1, 0, 0⟩ := by
  have hs := hsqrt (-v.x) (by linarith)
  have e : v.x * v.x = -v.x * -v.x := by ring
  simp only [Vec3f.normalize, Vec3f.length, hy, hz, mul_zero, zero_mul, add_zero, e, hs]
  congr 1
  have : v.x ≠ 0 := ne_of_lt hx
  field_simp

/-- Normalising a vector that points along `+y`. -/
theorem normalize_pos_y (sqrtf : ℚ → ℚ) (hsqrt : ∀ x : ℚ, 0 ≤ x → sqrtf (x * x) = x)
    (v : Vec3f) (hx : v.x = 0) (hy : 0 < v.y) (hz : v.z = 0) :
    v.normalize sqrtf = ⟨0, 1, 0⟩ := by
  have hs := hsqrt v.y hy.le
  simp only [Vec3f.normalize, Vec3f.length, hx, hz, mul_zero, zero_mul, add_zero, zero_add, hs]
  congr 1
  field_simp

/-- Normalising a vector that points along `-y`. -/
theorem normalize_neg_y (sqrtf : ℚ → ℚ) (hsqrt : ∀ x : ℚ, 0 ≤ x → sqrtf (x * x) = x)
    (v : Vec3f) (hx : v.x = 0) (hy : v.y < 0) (hz : v.z = 0) :
    v.normalize sqrtf = ⟨0, -1, 0⟩ := by
  have hs := hsqrt (-v.y) (by linarith)
  have e : v.y * v.y = -v.y * -v.y := by ring
  simp only [Vec3f.normalize, Vec3f.length, hx, hz, mul_zero, zero_mul, add_zero, zero_add, e,
    hs]
  congr 1
  have : v.y ≠ 0 := ne_of_lt hy
  field_simp

/-- With the identity transform, `left < right`, `bottom < top` and
`back < front`, the six planes that `buildBoxFrustum` builds are the outward
planes of the box. -/
theorem boxFrustum_planes (sqrtf : ℚ → ℚ) (hsqrt : ∀ x : ℚ, 0 ≤ x → sqrtf (x * x) = x)
    (l r b t f k : ℚ) (hlr : l < r) (hbt : b < t) (hkf : k < f) :
    (Frustum.buildBoxFrustum sqrtf Matrix4f.identity l r b t f k)._planes
      = boxPlanes l r b t k f := by
  have hrl : 0 < r - l := sub_pos.mpr hlr
  have htb : 0 < t - b := sub_pos.mpr hbt
  have hfk : k - f < 0 := sub_neg.mpr hkf
  funext i
  rcases fin6_cases i with h | h | h | h | h | h <;> subst h
  · have hn : (t - b) * (k - f) < 0 := mul_neg_of_pos_of_neg htb hfk
    simp only [Frustum.buildBoxFrustum, boxPlanes, (array6_val _ _ _ _ _ _).1, identity_mulVec3,
      (array8_val _ _ _ _ _ _ _ _).1, (array8_val _ _ _ _ _ _ _ _).2.2.2.1,
      (array8_val _ _ _ _ _ _ _ _).2.2.2.2.2.2.2, Plane.ofPoints]
    rw [normalize_neg_x sqrtf hsqrt _ (by simpa [Vec3f.cross, Vec3f.sub] using hn)
      (by simp [Vec3f.cross, Vec3f.sub]) (by simp [Vec3f.cross, Vec3f.sub])]
    simp [Vec3f.dot]
  · have hn : 0 < (b - t) * (k - f) := mul_pos_of_neg_of_neg (by linarith) hfk
    simp only [Frustum.buildBoxFrustum, boxPlanes, (array6_val _ _ _ _ _ _).2.1,
      identity_mulVec3, (array8_val _ _ _ _ _ _ _ _).2.1, (array8_val _ _ _ _ _ _ _ _).2.2.1,
      (array8_val _ _ _ _ _ _ _ _).2.2.2.2.2.2.1, Plane.ofPoints]
    rw [normalize_pos_x sqrtf hsqrt _ (by simpa [Vec3f.cross, Vec3f.sub] using hn)
      (by simp [Vec3f.cross, Vec3f.sub]) (by simp [Vec3f.cross, Vec3f.sub])]
    simp [Vec3f.dot]
  · have hn : (k - f) * (r - l) < 0 := mul_neg_of_neg_of_pos hfk hrl
    simp only [Frustum.buildBoxFrustum, boxPlanes, (array6_val _ _ _ _ _ _).2.2.1,
      identity_mulVec3, (array8_val _ _ _ _ _ _ _ _).1,
      (array8_val _ _ _ _ _ _ _ _).2.2.2.2.1, (array8_val _ _ _ _ _ _ _ _).2.2.2.2.2.1,
      Plane.ofPoints]
    rw [normalize_neg_y sqrtf hsqrt _ (by simp [Vec3f.cross, Vec3f.sub])
      (by simpa [Vec3f.cross, Vec3f.sub] using hn) (by simp [Vec3f.cross, Vec3f.sub])]
    simp [Vec3f.dot]
  · have hn : 0 < -((r - l) * (k - f)) := by
      have := mul_neg_of_pos_of_neg hrl hfk
      linarith
    simp only [Frustum.buildBoxFrustum, boxPlanes, (array6_val _ _ _ _ _ _).2.2.2.1,
      identity_mulVec3, (array8_val _ _ _ _ _ _ _ _).2.2.1,
      (array8_val _ _ _ _ _ _ _ _).2.2.2.1, (array8_val _ _ _ _ _ _ _ _).2.2.2.2.2.2.1,
      Plane.ofPoints]
    rw [normalize_pos_y sqrtf hsqrt _ (by simp [Vec3f.cross, Vec3f.sub])
      (by simpa [Vec3f.cross, Vec3f.sub] using hn) (by simp [Vec3f.cross, Vec3f.sub])]
    simp [Vec3f.dot]
  · have hn : 0 < (r - l) * (t - b) := mul_pos hrl htb
    simp only [Frustum.buildBoxFrustum, boxPlanes, (array6_val _ _ _ _ _ _).2.2.2.2.1,
      identity_mulVec3, (array8_val _ _ _ _ _ _ _ _).1, (array8_val _ _ _ _ _ _ _ _).2.1,
      (array8_val _ _ _ _ _ _ _ _).2.2.1, Plane.ofPoints]
    rw [normalize_pos_z sqrtf hsqrt _ (by simp [Vec3f.cross, Vec3f.sub])
      (by simp [Vec3f.cross, Vec3f.sub]) (by simpa [Vec3f.cross, Vec3f.sub] using hn)]
    simp [Vec3f.dot]
  · have hn : -((t - b) * (r - l)) < 0 := by
      have := mul_pos htb hrl
      linarith
    simp only [Frustum.buildBoxFrustum, boxPlanes, (array6_val _ _ _ _ _ _).2.2.2.2.2,
      identity_mulVec3, (array8_val _ _ _ _ _ _ _ _).2.2.2.2.1,
      (array8_val _ _ _ _ _ _ _ _).2.2.2.2.2.2.1, (array8_val _ _ _ _ _ _ _ _).2.2.2.2.2.2.2,
      Plane.ofPoints]
    rw [normalize_neg_z sqrtf hsqrt _ (by simp [Vec3f.cross, Vec3f.sub])
      (by simp [Vec3f.cross, Vec3f.sub]) (by simpa [Vec3f.cross, Vec3f.sub] using hn)]
    simp [Vec3f.dot]

/-- The value of `calcTextureSize` is a `uint32`. -/
theorem calcTextureSize_lt (format : TextureFormats) (width height depth : Int) :
    RenderDevice.calcTextureSize format width height depth < 2 ^ 32 := by
  have h : ∀ x : Int, toUInt32 x < 2 ^ 32 := by
    intro x
    unfold toUInt32
    have h1 : 0 ≤ x % 2 ^ 32 := Int.emod_nonneg _ (by norm_num)
    have h2 : x % 2 ^ 32 < 2 ^ 32 := Int.emod_lt_of_pos _ (by norm_num)
    omega
  cases format <;> first | exact h _ | (show (0 : Nat) < 2 ^ 32; norm_num)

/-- A `uint32` multiplied by a constant, in `uint32` arithmetic. -/
theorem toUInt32_mul (x : Int) (c : Nat) : toUInt32 x * c % 2 ^ 32 = toUInt32 (x * c) := by
  unfold toUInt32
  have h1 : 0 ≤ x % 4294967296 := Int.emod_nonneg _ (by norm_num)
  have h2 : 0 ≤ (x * c) % 2 ^ 32 := Int.emod_nonneg _ (by norm_num)
  apply Int.ofNat_inj.mp
  rw [Int.toNat_of_nonneg h2]
  push_cast
  rw [Int.toNat_of_nonneg h1, Int.mul_emod, Int.emod_emod, ← Int.mul_emod]

/-- A natural number below `2 ^ 32` is its own `uint32` value. -/
theorem toUInt32_natCast (n : Nat) (h : n < 2 ^ 32) : toUInt32 (n : Int) = n := by
  unfold toUInt32
  omega

/-- When its assertion holds, `createTexture` adds one record whose `memSize` is
computed from `calcTextureSize` in `uint32` arithmetic. -/
theorem createTexture_record (debugAsserts sRGBLinearization : Bool) (ftoi_r : ℚ → Int)
    (dev : RenderDevice) (createdTex createdView : Option Nat) (type : TextureTypes)
    (width height depth : Int) (format : TextureFormats) (hasMips genMips sRGB : Bool)
    (hassert : debugAsserts = false ∨ depth > 0) (hwf : dev._textures.WF) :
    ∃ dev1 texObj calls tex,
      RenderDevice.createTexture debugAsserts sRGBLinearization ftoi_r dev createdTex
        createdView type width height depth format hasMips genMips sRGB
        = .ok (dev1, texObj, calls) ∧
      dev1._textures.getRef texObj = some tex ∧
      tex.memSize =
        (if type = .TexCube then
          (if hasMips || genMips then
            toUInt32 ((RenderDevice.calcTextureSize format width height depth : Int) +
              ftoi_r ((RenderDevice.calcTextureSize format width height depth : ℚ) * 1 / 3))
          else RenderDevice.calcTextureSize format width height depth) * 6 % 2 ^ 32
        else
          (if hasMips || genMips then
            toUInt32 ((RenderDevice.calcTextureSize format width height depth : Int) +
              ftoi_r ((RenderDevice.calcTextureSize format width height depth : ℚ) * 1 / 3))
          else RenderDevice.calcTextureSize format width height depth)) := by
  have hcond : (debugAsserts && !decide (depth > 0)) = false := by
    rcases hassert with h | h
    · simp [h]
    · simp [h]
  unfold RenderDevice.createTexture
  simp only [hcond, Bool.false_eq_true, if_false]
  exact ⟨_, _, _, _, rfl, RDIObjects.getRef_add _ _ hwf, rfl⟩

/-! ## Uniform and sampler tables -/

/-- The loop over a table returns -1 when no entry passes the test and
otherwise the index of the first entry that passes it. -/
theorem getShaderLocLoop_spec {α : Type} (test : α → Bool) (l : List α) (i : Nat)
    (hlen : i + l.length < 2 ^ 31) :
    (getShaderLocLoop test l i = -1 ↔ ∀ x ∈ l, test x = false) ∧
    (∀ k : Nat, getShaderLocLoop test l i = ((i + k : Nat) : Int) ↔
      (∃ x, l[k]? = some x ∧ test x = true) ∧
        ∀ j, j < k → ∀ x, l[j]? = some x → test x = false) ∧
    (getShaderLocLoop test l i = -1 ∨
      ∃ k, k < l.length ∧ getShaderLocLoop test l i = ((i + k : Nat) : Int)) := by
  induction l generalizing i with
  | nil =>
    refine ⟨by simp [getShaderLocLoop], ?_, Or.inl rfl⟩
    intro k
    simp only [getShaderLocLoop, List.getElem?_nil]
    constructor
    · intro h
      omega
    · rintro ⟨⟨x, hx, _⟩, _⟩
      exact absurd hx (by simp)
  | cons x rest ih =>
    have hlen1 : i + 1 + rest.length < 2 ^ 31 := by
      simp only [List.length_cons] at hlen
      omega
    have hi : uint32ToInt i = (i : Int) := by
      unfold uint32ToInt
      simp only [List.length_cons] at hlen
      have h1 : i % 2 ^ 32 = i := Nat.mod_eq_of_lt (by omega)
      rw [h1, if_pos (by omega)]
    unfold getShaderLocLoop
    by_cases ht : test x = true
    · rw [if_pos ht, hi]
      refine ⟨?_, ?_, Or.inr ⟨0, by simp, by simp⟩⟩
      · constructor
        · intro h
          omega
        · intro h
          have := h x (List.mem_cons_self _ _)
          rw [ht] at this
          exact absurd this (by simp)
      · intro k
        constructor
        · intro h
          have hk : k = 0 := by omega
          subst hk
          exact ⟨⟨x, by simp, ht⟩, fun j hj => absurd hj (by omega)⟩
        · rintro ⟨_, hall⟩
          by_cases hk : k = 0
          · subst hk
            simp
          · have := hall 0 (by omega) x (by simp)
            rw [ht] at this
            exact absurd this (by simp)
    · rw [if_neg ht]
      have htf : test x = false := by
        cases h : test x
        · rfl
        · exact absurd h ht
      obtain ⟨ih1, ih2, ih3⟩ := ih (i + 1) hlen1
      refine ⟨?_, ?_, ?_⟩
      · rw [ih1]
        constructor
        · intro h y hy
          rcases List.mem_cons.mp hy with rfl | hy
          · exact htf
          · exact h y hy
        · intro h y hy
          exact h y (List.mem_cons_of_mem _ hy)
      · intro k
        cases k with
        | zero =>
          constructor
          · intro h
            rcases ih3 with h3 | ⟨k1, _, h3⟩
            · rw [h3] at h
              omega
            · rw [h3] at h
              omega
          · rintro ⟨⟨y, hy, hty⟩, _⟩
            simp only [List.getElem?_cons_zero, Option.some.injEq] at hy
            rw [← hy, htf] at hty
            exact absurd hty (by simp)
        | succ k1 =>
          have e : ((i + (k1 + 1) : Nat) : Int) = ((i + 1 + k1 : Nat) : Int) := by
            congr 1
            omega
          rw [e, ih2 k1]
          simp only [List.getElem?_cons_succ]
          constructor
          · rintro ⟨hex, hall⟩
            refine ⟨hex, ?_⟩
            intro j hj y hy
            cases j with
            | zero =>
              simp only [List.getElem?_cons_zero, Option.some.injEq] at hy
              rw [← hy]
              exact htf
            | succ j1 =>
              simp only [List.getElem?_cons_succ] at hy
              exact hall j1 (by omega) y hy
          · rintro ⟨hex, hall⟩
            refine ⟨hex, ?_⟩
            intro j hj y hy
            exact hall (j + 1) (by omega) y (by simpa using hy)
      · rcases ih3 with h3 | ⟨k1, hk1, h3⟩
        · exact Or.inl h3
        · refine Or.inr ⟨k1 + 1, by simp only [List.length_cons]; omega, ?_⟩
          rw [h3]
          congr 1
          omega

/-- The names of the uniform table after one variable has been merged. -/
theorem setUniformDesc_names (t : RDIShaderType) (n : CString) (d : RDIUniformDesc)
    (l : List RDIUniform) :
    (RenderDevice.setUniformDesc t n d l).map (fun u => u.name)
      = if n ∈ l.map (fun u => u.name) then l.map (fun u => u.name)
        else l.map (fun u => u.name) ++ [n] := by
  induction l with
  | nil => simp [RenderDevice.setUniformDesc]
  | cons u rest ih =>
    unfold RenderDevice.setUniformDesc
    by_cases h : u.name = n
    · rw [if_pos h]
      simp [h]
    · rw [if_neg h]
      have hn : ¬ n = u.name := fun e => h e.symm
      simp only [List.map_cons, List.mem_cons, hn, false_or, ih]
      split_ifs <;> simp

/-- Merging a variable keeps the names of the uniform table pairwise distinct. -/
theorem setUniformDesc_nodup (t : RDIShaderType) (n : CString) (d : RDIUniformDesc)
    (l : List RDIUniform) (h : (l.map fun u => u.name).Nodup) :
    ((RenderDevice.setUniformDesc t n d l).map fun u => u.name).Nodup := by
  rw [setUniformDesc_names]
  split_ifs with hm
  · exact h
  · exact List.Nodup.append h (List.nodup_singleton n)
      (by
        intro x hx hx1
        rw [List.mem_singleton] at hx1
        exact hm (hx1 ▸ hx))

/-- The descriptors found under a name after one variable has been merged. -/
theorem setUniformDesc_descs (t : RDIShaderType) (n : CString) (d : RDIUniformDesc)
    (l : List RDIUniform) (n1 : CString) :
    uniformDescs (RenderDevice.setUniformDesc t n d l) n1
      = if n1 = n then
          some (Function.update ((uniformDescs l n).getD fun _ => RDIUniformDesc.empty) t d)
        else uniformDescs l n1 := by
  induction l with
  | nil =>
    by_cases h : n1 = n
    · subst h
      simp [RenderDevice.setUniformDesc, uniformDescs]
    · have h1 : ¬ n = n1 := fun e => h e.symm
      simp [RenderDevice.setUniformDesc, uniformDescs, h, h1]
  | cons u rest ih =>
    unfold RenderDevice.setUniformDesc
    by_cases hu : u.name = n
    · rw [if_pos hu]
      by_cases h : n1 = n
      · subst h
        simp [uniformDescs, hu]
      · have h1 : ¬ u.name = n1 := fun e => h (e.symm.trans hu)
        simp [uniformDescs, h, h1]
    · rw [if_neg hu]
      by_cases h : n1 = n
      · subst h
        have ih1 := ih
        simp only [if_true] at ih1
        simp only [uniformDescs, List.find?_cons, hu, decide_False, if_true] at ih1 ⊢
        exact ih1
      · rw [if_neg h] at ih ⊢
        by_cases h2 : u.name = n1
        · simp [uniformDescs, h2]
        · simp only [uniformDescs, List.find?_cons, h2, decide_False] at ih ⊢
          exact ih

/-- The loop over the variables of `$Globals` merges the used variables in
order. -/
theorem mergeUniforms_eq (t : RDIShaderType) (vars : List (Option D3D11_SHADER_VARIABLE_DESC))
    (uniforms : List RDIUniform) :
    RenderDevice.mergeUniforms t vars uniforms
      = mergeUsed t
        (vars.filterMap fun v => v.filter fun d => decide (d.uFlags &&& 2 ≠ 0)) uniforms := by
  induction vars generalizing uniforms with
  | nil => rfl
  | cons v rest ih =>
    cases v with
    | none =>
      unfold RenderDevice.mergeUniforms
      rw [ih]
      simp [mergeUsed]
    | some d =>
      unfold RenderDevice.mergeUniforms
      by_cases hd : d.uFlags &&& 2 ≠ 0
      · rw [if_pos hd, ih]
        simp [mergeUsed, Option.filter, hd]
      · rw [if_neg hd, ih]
        simp [mergeUsed, Option.filter, hd]

/-- The `$Globals` part of `parseShaderBlob` merges the used variables of the
stage into the uniform table, leaves the sampler table alone and logs at most
one line. -/
theorem parseGlobals_tables (dev : RenderDevice) (shader : RDIShader) (a : StageAnswers)
    (t : RDIShaderType) :
    (RenderDevice.parseGlobals dev shader a t).2.1.uniforms
      = mergeUsed t (usedVariables a) shader.uniforms ∧
    (RenderDevice.parseGlobals dev shader a t).2.1.samplers = shader.samplers ∧
    ((RenderDevice.parseGlobals dev shader a t).2.2.2 = [] ∨
      (RenderDevice.parseGlobals dev shader a t).2.2.2
        = "[Shader]\n Failed to get constant buffer desc\n".toList) := by
  unfold RenderDevice.parseGlobals usedVariables
  by_cases h1 : a.reflection.ConstantBuffers > 0
  · rw [if_pos h1, if_pos h1]
    cases hg : a.reflection.globals with
    | none => exact ⟨rfl, rfl, Or.inr rfl⟩
    | some bufferDesc =>
      simp only
      by_cases h2 : bufferDesc.Size > 0
      · rw [if_pos h2]
        exact ⟨mergeUniforms_eq _ _ _, rfl, Or.inl trivial⟩
      · rw [if_neg h2]
        exact ⟨mergeUniforms_eq _ _ _, rfl, Or.inl trivial⟩
  · rw [if_neg h1, if_neg h1]
    exact ⟨rfl, rfl, Or.inl rfl⟩

/-- Merging variables keeps the names of the uniform table pairwise distinct. -/
theorem mergeUsed_nodup (t : RDIShaderType) (vs : List D3D11_SHADER_VARIABLE_DESC)
    (l : List RDIUniform) (h : (l.map fun u => u.name).Nodup) :
    ((mergeUsed t vs l).map fun u => u.name).Nodup := by
  induction vs generalizing l with
  | nil => exact h
  | cons v rest ih =>
    exact ih _ (setUniformDesc_nodup t v.Name ⟨v.StartOffset, v.Size⟩ l h)

/-- The names of the uniform table after a merge: the names it had and the
names of the merged variables. -/
theorem mergeUsed_names (t : RDIShaderType) (vs : List D3D11_SHADER_VARIABLE_DESC)
    (l : List RDIUniform) (n : CString) :
    n ∈ (mergeUsed t vs l).map (fun u => u.name)
      ↔ n ∈ l.map (fun u => u.name) ∨ ∃ v ∈ vs, v.Name = n := by
  induction vs generalizing l with
  | nil => simp [mergeUsed]
  | cons v rest ih =>
    have h := ih (RenderDevice.setUniformDesc t v.Name ⟨v.StartOffset, v.Size⟩ l)
    have e : mergeUsed t (v :: rest) l
        = mergeUsed t rest (RenderDevice.setUniformDesc t v.Name ⟨v.StartOffset, v.Size⟩ l) :=
      rfl
    rw [e, h, setUniformDesc_names]
    by_cases hm : v.Name ∈ l.map (fun u => u.name)
    · rw [if_pos hm]
      constructor
      · rintro (h1 | ⟨w, hw, hn⟩)
        · exact Or.inl h1
        · exact Or.inr ⟨w, List.mem_cons_of_mem _ hw, hn⟩
      · rintro (h1 | ⟨w, hw, hn⟩)
        · exact Or.inl h1
        · rcases List.mem_cons.mp hw with rfl | hw
          · exact Or.inl (hn ▸ hm)
          · exact Or.inr ⟨w, hw, hn⟩
    · rw [if_neg hm]
      constructor
      · rintro (h1 | ⟨w, hw, hn⟩)
        · rcases List.mem_append.mp h1 with h1 | h1
          · exact Or.inl h1
          · exact Or.inr ⟨v, List.mem_cons_self _ _, (List.mem_singleton.mp h1).symm⟩
        · exact Or.inr ⟨w, List.mem_cons_of_mem _ hw, hn⟩
      · rintro (h1 | ⟨w, hw, hn⟩)
        · exact Or.inl (List.mem_append_left _ h1)
        · rcases List.mem_cons.mp hw with rfl | hw
          · exact Or.inl (List.mem_append_right _ (List.mem_singleton.mpr hn.symm))
          · exact Or.inr ⟨w, hw, hn⟩

/-- A merge leaves the descriptors under a name alone when no merged variable
has that name. -/
theorem mergeUsed_descs_of_not_mem (t : RDIShaderType)
    (vs : List D3D11_SHADER_VARIABLE_DESC) (l : List RDIUniform) (n : CString)
    (h : ∀ v ∈ vs, v.Name ≠ n) : uniformDescs (mergeUsed t vs l) n = uniformDescs l n := by
  induction vs generalizing l with
  | nil => rfl
  | cons v rest ih =>
    have e : mergeUsed t (v :: rest) l
        = mergeUsed t rest (RenderDevice.setUniformDesc t v.Name ⟨v.StartOffset, v.Size⟩ l) :=
      rfl
    rw [e, ih _ (fun w hw => h w (List.mem_cons_of_mem _ hw)), setUniformDesc_descs,
      if_neg (fun hn => h v (List.mem_cons_self _ _) hn.symm)]

/-- After a merge in which every variable named `n` carries the offset and size
`d`, and at least one does, the descriptors under `n` are those from before
(the default ones for a new uniform) with `d` written for the stage. -/
theorem mergeUsed_descs (t : RDIShaderType) (vs : List D3D11_SHADER_VARIABLE_DESC)
    (l : List RDIUniform) (n : CString) (d : RDIUniformDesc)
    (hex : ∃ v ∈ vs, v.Name = n)
    (hall : ∀ v ∈ vs, v.Name = n → (⟨v.StartOffset, v.Size⟩ : RDIUniformDesc) = d) :
    uniformDescs (mergeUsed t vs l) n
      = some (Function.update ((uniformDescs l n).getD fun _ => RDIUniformDesc.empty) t d) := by
  induction vs generalizing l with
  | nil =>
    obtain ⟨v, hv, _⟩ := hex
    exact absurd hv (List.not_mem_nil v)
  | cons w rest ih =>
    have e : mergeUsed t (w :: rest) l
        = mergeUsed t rest (RenderDevice.setUniformDesc t w.Name ⟨w.StartOffset, w.Size⟩ l) :=
      rfl
    rw [e]
    by_cases hr : ∃ v ∈ rest, v.Name = n
    · rw [ih _ hr (fun v hv => hall v (List.mem_cons_of_mem _ hv)), setUniformDesc_descs]
      by_cases hw : n = w.Name
      · rw [if_pos hw]
        have hd := hall w (List.mem_cons_self _ _) hw.symm
        rw [hd, ← hw]
        simp
      · rw [if_neg hw]
    · have hnot : ∀ v ∈ rest, v.Name ≠ n := fun v hv hn => hr ⟨v, hv, hn⟩
      have hw : w.Name = n := by
        obtain ⟨v, hv, hn⟩ := hex
        rcases List.mem_cons.mp hv with rfl | hv
        · exact hn
        · exact absurd hn (hnot v hv)
      rw [mergeUsed_descs_of_not_mem t rest _ n hnot, setUniformDesc_descs, if_pos hw.symm,
        hall w (List.mem_cons_self _ _) hw, hw]

/-- In a table with pairwise distinct names the first uniform under a name is
the only one. -/
theorem uniformDescs_unique (l : List RDIUniform) (n : CString)
    (f : RDIShaderType → RDIUniformDesc) (hnd : (l.map fun u => u.name).Nodup)
    (h : uniformDescs l n = some f) :
    ∃ u, l.filter (fun u => decide (u.name = n)) = [u] ∧ u.name = n ∧ u.desc = f := by
  induction l with
  | nil => simp [uniformDescs] at h
  | cons u rest ih =>
    rw [List.map_cons, List.nodup_cons] at hnd
    by_cases hu : u.name = n
    · have hf : u.desc = f := by
        simpa [uniformDescs, hu] using h
      refine ⟨u, ?_, hu, hf⟩
      have hrest : rest.filter (fun u => decide (u.name = n)) = [] := by
        rw [List.filter_eq_nil_iff]
        intro x hx
        have hne : x.name ≠ n := by
          intro hxn
          exact hnd.1 (List.mem_map.mpr ⟨x, hx, hxn.trans hu.symm⟩)
        simpa using hne
      rw [List.filter_cons_of_pos (by simpa using hu), hrest]
    · have h1 : uniformDescs rest n = some f := by
        simpa [uniformDescs, hu] using h
      obtain ⟨x, hx, hxn, hxf⟩ := ih hnd.2 h1
      refine ⟨x, ?_, hxn, hxf⟩
      rw [List.filter_cons_of_neg (by simpa using hu), hx]

/-- The names of the sampler table after one resource has been merged. -/
theorem setSamplerDesc_names (t : RDIShaderType) (n : CString)
    (w : RDISamplerDesc → RDISamplerDesc) (l : List RDISampler) :
    (RenderDevice.setSamplerDesc t n w l).map (fun x => x.name)
      = if n ∈ l.map (fun x => x.name) then l.map (fun x => x.name)
        else l.map (fun x => x.name) ++ [n] := by
  induction l with
  | nil => simp [RenderDevice.setSamplerDesc]
  | cons u rest ih =>
    unfold RenderDevice.setSamplerDesc
    by_cases h : u.name = n
    · rw [if_pos h]
      simp [h]
    · rw [if_neg h]
      have hn : ¬ n = u.name := fun e => h e.symm
      simp only [List.map_cons, List.mem_cons, hn, false_or, ih]
      split_ifs <;> simp

/-- Merging a resource keeps the names of the sampler table pairwise distinct. -/
theorem setSamplerDesc_nodup (t : RDIShaderType) (n : CString)
    (w : RDISamplerDesc → RDISamplerDesc) (l : List RDISampler)
    (h : (l.map fun x => x.name).Nodup) :
    ((RenderDevice.setSamplerDesc t n w l).map fun x => x.name).Nodup := by
  rw [setSamplerDesc_names]
  split_ifs with hm
  · exact h
  · exact List.Nodup.append h (List.nodup_singleton n)
      (by
        intro x hx hx1
        rw [List.mem_singleton] at hx1
        exact hm (hx1 ▸ hx))

/-- The descriptors found under a name after one resource has been merged. -/
theorem setSamplerDesc_descs (t : RDIShaderType) (n : CString)
    (w : RDISamplerDesc → RDISamplerDesc) (l : List RDISampler) (n1 : CString) :
    samplerDescs (RenderDevice.setSamplerDesc t n w l) n1
      = if n1 = n then
          some (Function.update ((samplerDescs l n).getD fun _ => RDISamplerDesc.empty) t
            (w (((samplerDescs l n).getD fun _ => RDISamplerDesc.empty) t)))
        else samplerDescs l n1 := by
  induction l with
  | nil =>
    by_cases h : n1 = n
    · subst h
      simp [RenderDevice.setSamplerDesc, samplerDescs]
    · have h1 : ¬ n = n1 := fun e => h e.symm
      simp [RenderDevice.setSamplerDesc, samplerDescs, h, h1]
  | cons u rest ih =>
    unfold RenderDevice.setSamplerDesc
    by_cases hu : u.name = n
    · rw [if_pos hu]
      by_cases h : n1 = n
      · subst h
        simp [samplerDescs, hu]
      · have h1 : ¬ u.name = n1 := fun e => h (e.symm.trans hu)
        simp [samplerDescs, h, h1]
    · rw [if_neg hu]
      by_cases h : n1 = n
      · subst h
        have ih1 := ih
        simp only [if_true] at ih1
        simp only [samplerDescs, List.find?_cons, hu, decide_False, if_true] at ih1 ⊢
        exact ih1
      · rw [if_neg h] at ih ⊢
        by_cases h2 : u.name = n1
        · simp [samplerDescs, h2]
        · simp only [samplerDescs, List.find?_cons, h2, decide_False] at ih ⊢
          exact ih

/-- Merging resources keeps the names of the sampler table pairwise distinct. -/
theorem mergeActions_nodup (t : RDIShaderType)
    (acts : List (CString × (RDISamplerDesc → RDISamplerDesc))) (l : List RDISampler)
    (h : (l.map fun x => x.name).Nodup) :
    ((mergeActions t acts l).map fun x => x.name).Nodup := by
  induction acts generalizing l with
  | nil => exact h
  | cons a rest ih => exact ih _ (setSamplerDesc_nodup t a.1 a.2 l h)

/-- The names of the sampler table after a merge: the names it had and the
names of the merged resources. -/
theorem mergeActions_names (t : RDIShaderType)
    (acts : List (CString × (RDISamplerDesc → RDISamplerDesc))) (l : List RDISampler)
    (n : CString) :
    n ∈ (mergeActions t acts l).map (fun x => x.name)
      ↔ n ∈ l.map (fun x => x.name) ∨ ∃ a ∈ acts, a.1 = n := by
  induction acts generalizing l with
  | nil =>
    constructor
    · intro h
      exact Or.inl h
    · rintro (h | ⟨a, ha, _⟩)
      · exact h
      · exact absurd ha (List.not_mem_nil a)
  | cons v rest ih =>
    have h := ih (RenderDevice.setSamplerDesc t v.1 v.2 l)
    have e : mergeActions t (v :: rest) l
        = mergeActions t rest (RenderDevice.setSamplerDesc t v.1 v.2 l) := rfl
    rw [e, h, setSamplerDesc_names]
    by_cases hm : v.1 ∈ l.map (fun x => x.name)
    · rw [if_pos hm]
      constructor
      · rintro (h1 | ⟨w, hw, hn⟩)
        · exact Or.inl h1
        · exact Or.inr ⟨w, List.mem_cons_of_mem _ hw, hn⟩
      · rintro (h1 | ⟨w, hw, hn⟩)
        · exact Or.inl h1
        · rcases List.mem_cons.mp hw with rfl | hw
          · exact Or.inl (hn ▸ hm)
          · exact Or.inr ⟨w, hw, hn⟩
    · rw [if_neg hm]
      constructor
      · rintro (h1 | ⟨w, hw, hn⟩)
        · rcases List.mem_append.mp h1 with h1 | h1
          · exact Or.inl h1
          · exact Or.inr ⟨v, List.mem_cons_self _ _, (List.mem_singleton.mp h1).symm⟩
        · exact Or.inr ⟨w, List.mem_cons_of_mem _ hw, hn⟩
      · rintro (h1 | ⟨w, hw, hn⟩)
        · exact Or.inl (List.mem_append_left _ h1)
        · rcases List.mem_cons.mp hw with rfl | hw
          · exact Or.inl (List.mem_append_right _ (List.mem_singleton.mpr hn.symm))
          · exact Or.inr ⟨w, hw, hn⟩

/-- A property of the descriptor of a sampler for the stage that every write
under its name keeps, is kept by a merge. -/
theorem mergeActions_keeps (t : RDIShaderType) (Q : RDISamplerDesc → Prop)
    (acts : List (CString × (RDISamplerDesc → RDISamplerDesc))) (l : List RDISampler)
    (n : CString) (f : RDIShaderType → RDISamplerDesc)
    (hkeep : ∀ a ∈ acts, a.1 = n → ∀ d, Q d → Q (a.2 d))
    (hf : samplerDescs l n = some f) (hq : Q (f t)) :
    ∃ f1, samplerDescs (mergeActions t acts l) n = some f1 ∧ Q (f1 t) := by
  induction acts generalizing l f with
  | nil => exact ⟨f, hf, hq⟩
  | cons a rest ih =>
    have e : mergeActions t (a :: rest) l
        = mergeActions t rest (RenderDevice.setSamplerDesc t a.1 a.2 l) := rfl
    rw [e]
    by_cases ha : n = a.1
    · refine ih _ (Function.update f t (a.2 (f t)))
        (fun b hb => hkeep b (List.mem_cons_of_mem _ hb)) ?_ ?_
      · rw [setSamplerDesc_descs, if_pos ha, ← ha, hf]
        rfl
      · rw [Function.update_same]
        exact hkeep a (List.mem_cons_self _ _) ha.symm _ hq
    · refine ih _ f (fun b hb => hkeep b (List.mem_cons_of_mem _ hb)) ?_ hq
      rw [setSamplerDesc_descs, if_neg ha, hf]

/-- In a table with pairwise distinct names the first sampler under a name is
the only one. -/
theorem samplerDescs_unique (l : List RDISampler) (n : CString)
    (f : RDIShaderType → RDISamplerDesc) (hnd : (l.map fun x => x.name).Nodup)
    (h : samplerDescs l n = some f) :
    ∃ u, l.filter (fun x => decide (x.name = n)) = [u] ∧ u.name = n ∧ u.desc = f := by
  induction l with
  | nil => simp [samplerDescs] at h
  | cons u rest ih =>
    rw [List.map_cons, List.nodup_cons] at hnd
    by_cases hu : u.name = n
    · have hf : u.desc = f := by
        simpa [samplerDescs, hu] using h
      refine ⟨u, ?_, hu, hf⟩
      have hrest : rest.filter (fun x => decide (x.name = n)) = [] := by
        rw [List.filter_eq_nil_iff]
        intro x hx
        have hne : x.name ≠ n := by
          intro hxn
          exact hnd.1 (List.mem_map.mpr ⟨x, hx, hxn.trans hu.symm⟩)
        simpa using hne
      rw [List.filter_cons_of_pos (by simpa using hu), hrest]
    · have h1 : samplerDescs rest n = some f := by
        simpa [samplerDescs, hu] using h
      obtain ⟨x, hx, hxn, hxf⟩ := ih hnd.2 h1
      refine ⟨x, ?_, hxn, hxf⟩
      rw [List.filter_cons_of_neg (by simpa using hu), hx]

/-- Whether a texture resource lacks its prefix. -/
theorem lacksPrefix_texture (desc : D3D11_SHADER_INPUT_BIND_DESC)
    (h : desc.Type_ = .D3D_SIT_TEXTURE) :
    lacksPrefix desc
      = !(decide (desc.Name.length > 8) && decide (desc.Name.take 8 = "texture_".toList)) := by
  have e1 : decide (D3D_SHADER_INPUT_TYPE.D3D_SIT_TEXTURE = .D3D_SIT_TEXTURE) = true := by
    decide
  have e2 : decide (D3D_SHADER_INPUT_TYPE.D3D_SIT_TEXTURE = .D3D_SIT_SAMPLER) = false := by
    decide
  unfold lacksPrefix
  rw [h, e1, e2, Bool.true_and, Bool.false_and, Bool.or_false]

/-- Whether a sampler resource lacks its prefix. -/
theorem lacksPrefix_sampler (desc : D3D11_SHADER_INPUT_BIND_DESC)
    (h : desc.Type_ = .D3D_SIT_SAMPLER) :
    lacksPrefix desc
      = !(decide (desc.Name.length > 8) && decide (desc.Name.take 8 = "sampler_".toList)) := by
  have e1 : decide (D3D_SHADER_INPUT_TYPE.D3D_SIT_SAMPLER = .D3D_SIT_SAMPLER) = true := by
    decide
  have e2 : decide (D3D_SHADER_INPUT_TYPE.D3D_SIT_SAMPLER = .D3D_SIT_TEXTURE) = false := by
    decide
  unfold lacksPrefix
  rw [h, e1, e2, Bool.true_and, Bool.false_and, Bool.false_or]

/-- A resource that is neither a texture nor a sampler lacks no prefix. -/
theorem lacksPrefix_other (desc : D3D11_SHADER_INPUT_BIND_DESC)
    (h2 : ¬ desc.Type_ = .D3D_SIT_TEXTURE) (h4 : ¬ desc.Type_ = .D3D_SIT_SAMPLER) :
    lacksPrefix desc = false := by
  unfold lacksPrefix
  rw [decide_eq_false h2, decide_eq_false h4, Bool.false_and, Bool.false_and, Bool.or_false]

/-- The loop of `parseShaderBlob` over the bound resources merges the writes
of the resources into the sampler table, does not touch the uniform table and
logs one line for each resource that lacks its prefix. -/
theorem bindResources_eq (t : RDIShaderType) (l : List D3D11_SHADER_INPUT_BIND_DESC)
    (shader : RDIShader) :
    (RenderDevice.bindResources t l shader).1.samplers
      = mergeActions t (l.filterMap resourceAction) shader.samplers ∧
    (RenderDevice.bindResources t l shader).1.uniforms = shader.uniforms ∧
    (RenderDevice.bindResources t l shader).2 = prefixDiagnostics l := by
  induction l generalizing shader with
  | nil => exact ⟨rfl, rfl, rfl⟩
  | cons desc rest ih =>
    unfold RenderDevice.bindResources prefixDiagnostics
    rw [List.filterMap_cons]
    simp only
    by_cases h1 : desc.Name = "$Globals".toList ∧ desc.Type_ = .D3D_SIT_CBUFFER
    · have ha : resourceAction desc = none := by
        unfold resourceAction
        rw [if_pos h1]
      have hl : lacksPrefix desc = false :=
        lacksPrefix_other desc (by rw [h1.2]; decide) (by rw [h1.2]; decide)
      rw [if_pos h1, ha, hl]
      obtain ⟨i1, i2, i3⟩ := ih { shader with
        globalCBuffers := Function.update shader.globalCBuffers t
          { shader.globalCBuffers t with bindPoint := desc.BindPoint } }
      exact ⟨i1, i2, i3⟩
    · rw [if_neg h1]
      by_cases h2 : desc.Type_ = .D3D_SIT_TEXTURE
      · rw [if_pos h2]
        by_cases h3 : desc.Name.length > 8 ∧ desc.Name.take 8 = "texture_".toList
        · have ha : resourceAction desc = some (desc.Name.drop 8,
              fun d => { d with textureBindPoint := desc.BindPoint }) := by
            unfold resourceAction
            rw [if_neg h1, if_pos h2, if_pos h3]
          have hl : lacksPrefix desc = false := by
            rw [lacksPrefix_texture desc h2, decide_eq_true h3.1, decide_eq_true h3.2]
            rfl
          rw [if_pos h3, ha, hl]
          obtain ⟨i1, i2, i3⟩ := ih { shader with
            samplers := RenderDevice.setSamplerDesc t (desc.Name.drop 8)
              (fun d => { d with textureBindPoint := desc.BindPoint }) shader.samplers }
          exact ⟨i1, i2, i3⟩
        · have ha : resourceAction desc = none := by
            unfold resourceAction
            rw [if_neg h1, if_pos h2, if_neg h3]
          have hl : lacksPrefix desc = true := by
            rw [lacksPrefix_texture desc h2]
            by_cases h6 : desc.Name.length > 8
            · have h7 : ¬ desc.Name.take 8 = "texture_".toList := fun h => h3 ⟨h6, h⟩
              rw [decide_eq_true h6, decide_eq_false h7]
              rfl
            · rw [decide_eq_false h6]
              rfl
          rw [if_neg h3, ha, hl]
          obtain ⟨i1, i2, i3⟩ := ih shader
          refine ⟨i1, i2, ?_⟩
          simp only [i3, if_true]
      · rw [if_neg h2]
        by_cases h4 : desc.Type_ = .D3D_SIT_SAMPLER
        · rw [if_pos h4]
          by_cases h5 : desc.Name.length > 8 ∧ desc.Name.take 8 = "sampler_".toList
          · have ha : resourceAction desc = some (desc.Name.drop 8,
                fun d => { d with samplerBindPoint := desc.BindPoint }) := by
              unfold resourceAction
              rw [if_neg h1, if_neg h2, if_pos h4, if_pos h5]
            have hl : lacksPrefix desc = false := by
              rw [lacksPrefix_sampler desc h4, decide_eq_true h5.1, decide_eq_true h5.2]
              rfl
            rw [if_pos h5, ha, hl]
            obtain ⟨i1, i2, i3⟩ := ih { shader with
              samplers := RenderDevice.setSamplerDesc t (desc.Name.drop 8)
                (fun d => { d with samplerBindPoint := desc.BindPoint }) shader.samplers }
            exact ⟨i1, i2, i3⟩
          · have ha : resourceAction desc = none := by
              unfold resourceAction
              rw [if_neg h1, if_neg h2, if_pos h4, if_neg h5]
            have hl : lacksPrefix desc = true := by
              rw [lacksPrefix_sampler desc h4]
              by_cases h6 : desc.Name.length > 8
              · have h7 : ¬ desc.Name.take 8 = "sampler_".toList := fun h => h5 ⟨h6, h⟩
                rw [decide_eq_true h6, decide_eq_false h7]
                rfl
              · rw [decide_eq_false h6]
                rfl
            rw [if_neg h5, ha, hl]
            obtain ⟨i1, i2, i3⟩ := ih shader
            refine ⟨i1, i2, ?_⟩
            simp only [i3, if_true]
        · have ha : resourceAction desc = none := by
            unfold resourceAction
            rw [if_neg h1, if_neg h2, if_neg h4]
          rw [if_neg h4, ha, lacksPrefix_other desc h2 h4]
          obtain ⟨i1, i2, i3⟩ := ih shader
          exact ⟨i1, i2, i3⟩

/-- A resource that lacks its prefix writes nothing to the sampler table. -/
theorem resourceAction_of_lacksPrefix (desc : D3D11_SHADER_INPUT_BIND_DESC)
    (h : lacksPrefix desc = true) : resourceAction desc = none := by
  unfold resourceAction
  by_cases h1 : desc.Name = "$Globals".toList ∧ desc.Type_ = .D3D_SIT_CBUFFER
  · rw [if_pos h1]
  · rw [if_neg h1]
    by_cases h2 : desc.Type_ = .D3D_SIT_TEXTURE
    · rw [if_pos h2, if_neg]
      rintro ⟨a, b⟩
      rw [lacksPrefix_texture desc h2, decide_eq_true a, decide_eq_true b] at h
      exact absurd h (by decide)
    · rw [if_neg h2]
      by_cases h4 : desc.Type_ = .D3D_SIT_SAMPLER
      · rw [if_pos h4, if_neg]
        rintro ⟨a, b⟩
        rw [lacksPrefix_sampler desc h4, decide_eq_true a, decide_eq_true b] at h
        exact absurd h (by decide)
      · rw [if_neg h4]

/-- Leaving out the resources that lack their prefix does not change the writes
to the sampler table. -/
theorem filterMap_resourceAction_filter (l : List D3D11_SHADER_INPUT_BIND_DESC) :
    (l.filter fun d => !lacksPrefix d).filterMap resourceAction
      = l.filterMap resourceAction := by
  induction l with
  | nil => rfl
  | cons desc rest ih =>
    by_cases h : lacksPrefix desc = true
    · rw [List.filter_cons_of_neg (by simp [h]), ih, List.filterMap_cons,
        resourceAction_of_lacksPrefix desc h]
    · rw [List.filter_cons_of_pos (by simpa using h), List.filterMap_cons, List.filterMap_cons,
        ih]

/-- The `$Globals` part of `parseShaderBlob` does not write the shader log of
the device. -/
theorem parseGlobals_log (dev : RenderDevice) (shader : RDIShader) (a : StageAnswers)
    (t : RDIShaderType) :
    (RenderDevice.parseGlobals dev shader a t).1._shaderLog = dev._shaderLog := by
  unfold RenderDevice.parseGlobals
  by_cases h1 : a.reflection.ConstantBuffers > 0
  · rw [if_pos h1]
    cases hg : a.reflection.globals with
    | none => rfl
    | some bufferDesc =>
      simp only
      by_cases h2 : bufferDesc.Size > 0
      · rw [if_pos h2]
        simp only [RenderDevice.createUniformBuffer, RenderDevice.createBuffer]
      · rw [if_neg h2]
  · rw [if_neg h1]

/-- What `parseShaderBlob` does to the shader record and to the shader log, for
a live non-zero handle. -/
theorem parseShaderBlob_tables (dev : RenderDevice) (shaderId : Nat) (a : StageAnswers)
    (t : RDIShaderType) (shader : RDIShader) (h0 : shaderId ≠ 0)
    (hs : dev._shaders.getRef shaderId = some shader) :
    ∃ dev1 calls shader1 globalsLog,
      RenderDevice.parseShaderBlob dev shaderId a t = .ok (dev1, calls) ∧
      dev1._shaders.getRef shaderId = some shader1 ∧
      shader1.uniforms = mergeUsed t (usedVariables a) shader.uniforms ∧
      shader1.samplers
        = mergeActions t (a.reflection.BoundResources.filterMap resourceAction)
          shader.samplers ∧
      (globalsLog = [] ∨
        globalsLog = "[Shader]\n Failed to get constant buffer desc\n".toList) ∧
      dev1._shaderLog
        = dev._shaderLog ++ globalsLog ++ prefixDiagnostics a.reflection.BoundResources := by
  have key : ∀ sh : RDIShader, sh.uniforms = shader.uniforms → sh.samplers = shader.samplers →
      ∃ shader1 globalsLog,
        ({ (RenderDevice.parseGlobals dev sh a t).1 with
            _shaders := (RenderDevice.parseGlobals dev sh a t).1._shaders.setRef shaderId
              (RenderDevice.bindResources t a.reflection.BoundResources
                (RenderDevice.parseGlobals dev sh a t).2.1).1
            _shaderLog := (RenderDevice.parseGlobals dev sh a t).1._shaderLog ++
              (RenderDevice.parseGlobals dev sh a t).2.2.2 ++
              (RenderDevice.bindResources t a.reflection.BoundResources
                (RenderDevice.parseGlobals dev sh a t).2.1).2 }
          : RenderDevice)._shaders.getRef shaderId = some shader1 ∧
        shader1.uniforms = mergeUsed t (usedVariables a) shader.uniforms ∧
        shader1.samplers
          = mergeActions t (a.reflection.BoundResources.filterMap resourceAction)
            shader.samplers ∧
        (globalsLog = [] ∨
          globalsLog = "[Shader]\n Failed to get constant buffer desc\n".toList) ∧
        (RenderDevice.parseGlobals dev sh a t).1._shaderLog ++
            (RenderDevice.parseGlobals dev sh a t).2.2.2 ++
            (RenderDevice.bindResources t a.reflection.BoundResources
              (RenderDevice.parseGlobals dev sh a t).2.1).2
          = dev._shaderLog ++ globalsLog ++ prefixDiagnostics a.reflection.BoundResources := by
    intro sh hu hsm
    obtain ⟨g1, g2, g3⟩ := parseGlobals_tables dev sh a t
    obtain ⟨b1, b2, b3⟩ := bindResources_eq t a.reflection.BoundResources
      (RenderDevice.parseGlobals dev sh a t).2.1
    refine ⟨_, (RenderDevice.parseGlobals dev sh a t).2.2.2,
      RDIObjects.getRef_setRef _ shaderId shader _
        (by rw [(parseGlobals_frame dev sh a t).1]; exact hs), ?_, ?_, g3, ?_⟩
    · rw [b2, g1, hu]
    · rw [b1, g2, hsm]
    · rw [parseGlobals_log, b3]
  unfold RenderDevice.parseShaderBlob
  rw [if_neg h0, hs]
  simp only
  obtain ⟨shader1, globalsLog, k1, k2, k3, k4, k5⟩ := key
    { shader with
      inputLayouts := (if t = .Vertex then
          RenderDevice.createInputLayouts dev a (List.range dev._numVertexLayouts)
            shader.inputLayouts
        else (shader.inputLayouts, [])).1 } rfl rfl
  exact ⟨_, _, shader1, globalsLog, rfl, k1, k2, k3, k4, k5⟩

/-- A variable that `parseShaderBlob` merges for a stage is a variable of the
`$Globals` block of that stage whose flag `D3D_SVF_USED` is set. -/
theorem mem_usedVariables (a : StageAnswers) (v : D3D11_SHADER_VARIABLE_DESC)
    (h : v ∈ usedVariables a) :
    v.uFlags &&& 2 ≠ 0 ∧
      ∃ bufferDesc, a.reflection.globals = some bufferDesc ∧ some v ∈ bufferDesc.Variables := by
  unfold usedVariables at h
  by_cases h1 : a.reflection.ConstantBuffers > 0
  · rw [if_pos h1] at h
    cases hg : a.reflection.globals with
    | none =>
      rw [hg] at h
      exact absurd h (List.not_mem_nil v)
    | some bufferDesc =>
      rw [hg] at h
      simp only [List.mem_filterMap] at h
      obtain ⟨x, hx, hf⟩ := h
      cases x with
      | none => simp [Option.filter] at hf
      | some d =>
        by_cases hd : d.uFlags &&& 2 ≠ 0
        · have hdv : d = v := by
            simpa [Option.filter, hd] using hf
          subst hdv
          exact ⟨hd, bufferDesc, rfl, hx⟩
        · simp [Option.filter, hd] at hf
  · rw [if_neg h1] at h
    exact absurd h (List.not_mem_nil v)

/-- When both stages compile without an error blob and both stage objects are
created, `createShader` adds a record with empty tables and runs
`parseShaderBlob` on it for the vertex stage and then for the pixel stage: the
tables of the new shader are those merged from the two reflections. -/
theorem createShader_ok (dev : RenderDevice) (vs ps : StageAnswers)
    (vertexShaderSrc fragmentShaderSrc : CString) (hwf : dev._shaders.WF)
    (hvf : vs.compileFailed = false) (hve : vs.errorBlob = none) (hvc : vs.created ≠ none)
    (hpf : ps.compileFailed = false) (hpe : ps.errorBlob = none) (hpc : ps.created ≠ none) :
    ∃ dev3 shaderId calls shader3,
      RenderDevice.createShader dev vs ps vertexShaderSrc fragmentShaderSrc
        = .ok (dev3, shaderId, calls) ∧
      shaderId ≠ 0 ∧
      dev3._shaders.getRef shaderId = some shader3 ∧
      shader3.uniforms
        = mergeUsed .Pixel (usedVariables ps) (mergeUsed .Vertex (usedVariables vs) []) ∧
      shader3.samplers
        = mergeActions .Pixel (ps.reflection.BoundResources.filterMap resourceAction)
          (mergeActions .Vertex (vs.reflection.BoundResources.filterMap resourceAction) []) := by
  obtain ⟨vobj, hvobj⟩ := Option.ne_none_iff_exists'.mp hvc
  obtain ⟨pobj, hpobj⟩ := Option.ne_none_iff_exists'.mp hpc
  have hv : ¬ (vs.compileFailed = true ∨ vs.errorBlob ≠ none) := by
    rw [hvf, hve]
    simp
  have hp : ¬ (ps.compileFailed = true ∨ ps.errorBlob ≠ none) := by
    rw [hpf, hpe]
    simp
  have h0 : ((({ dev with _shaderLog := [] } : RenderDevice)._shaders).add RDIShader.empty).2 ≠ 0 :=
    RDIObjects.add_ne_zero _ _
  have hget : ((((({ dev with _shaderLog := [] } : RenderDevice)._shaders).add
        RDIShader.empty).1).setRef
        ((({ dev with _shaderLog := [] } : RenderDevice)._shaders).add RDIShader.empty).2
        { RDIShader.empty with
          vertexShader := some vobj
          pixelShader := some pobj
          inputLayouts := fun _ => none
          globalCBuffers := fun _ => ⟨none, 0, -1⟩ }).getRef
        ((({ dev with _shaderLog := [] } : RenderDevice)._shaders).add RDIShader.empty).2
      = some { RDIShader.empty with
          vertexShader := some vobj
          pixelShader := some pobj
          inputLayouts := fun _ => none
          globalCBuffers := fun _ => ⟨none, 0, -1⟩ } :=
    RDIObjects.getRef_setRef _ _ RDIShader.empty _ (RDIObjects.getRef_add _ _ hwf)
  obtain ⟨dev2, calls2, shader1, _, hp1, hg1, hu1, hs1, _, _⟩ :=
    parseShaderBlob_tables
      { ({ dev with _shaderLog := [] } : RenderDevice) with
        _shaders := (((({ dev with _shaderLog := [] } : RenderDevice)._shaders).add
          RDIShader.empty).1).setRef
          ((({ dev with _shaderLog := [] } : RenderDevice)._shaders).add RDIShader.empty).2
          { RDIShader.empty with
            vertexShader := some vobj
            pixelShader := some pobj
            inputLayouts := fun _ => none
            globalCBuffers := fun _ => ⟨none, 0, -1⟩ } }
      _ vs .Vertex _ h0 hget
  obtain ⟨dev3, calls3, shader2, _, hp2, hg2, hu2, hs2, _, _⟩ :=
    parseShaderBlob_tables dev2 _ ps .Pixel shader1 h0 hg1
  refine ⟨dev3,
    ((({ dev with _shaderLog := [] } : RenderDevice)._shaders).add RDIShader.empty).2,
    [D3DCall.D3DCompile vertexShaderSrc "vs_4_0", D3DCall.CreateVertexShader,
      D3DCall.D3DCompile fragmentShaderSrc "ps_4_0", D3DCall.CreatePixelShader]
      ++ calls2 ++ [D3DCall.ReleaseBlob .Vertex] ++ calls3 ++ [D3DCall.ReleaseBlob .Pixel],
    shader2, ?_, h0, hg2, ?_, ?_⟩
  · unfold RenderDevice.createShader
    simp only
    rw [if_neg hv, hvobj]
    simp only
    rw [if_neg hp, hpobj]
    simp only
    rw [hp1]
    simp only
    rw [hp2]
  · rw [hu2, hu1]
    rfl
  · rw [hs2, hs1]
    rfl

/-- The write of a texture resource named `texture_` followed by `s`. -/
theorem resourceAction_texture (desc : D3D11_SHADER_INPUT_BIND_DESC) (s : CString)
    (ht : desc.Type_ = .D3D_SIT_TEXTURE) (hn : desc.Name = "texture_".toList ++ s)
    (hs : s ≠ []) :
    resourceAction desc
      = some (s, fun d => { d with textureBindPoint := desc.BindPoint }) := by
  have h1 : ¬ (desc.Name = "$Globals".toList ∧ desc.Type_ = .D3D_SIT_CBUFFER) := by
    rintro ⟨_, h⟩
    rw [ht] at h
    exact absurd h (by decide)
  have hlen : desc.Name.length > 8 := by
    rw [hn, List.length_append]
    have : 0 < s.length := List.length_pos.mpr hs
    have h8 : ("texture_".toList).length = 8 := by decide
    omega
  have htake : desc.Name.take 8 = "texture_".toList := by
    rw [hn]
    exact List.take_left' (by decide)
  have hdrop : desc.Name.drop 8 = s := by
    rw [hn]
    exact List.drop_left' (by decide)
  unfold resourceAction
  rw [if_neg h1, if_pos ht, if_pos ⟨hlen, htake⟩, hdrop]

/-- The write of a sampler resource named `sampler_` followed by `s`. -/
theorem resourceAction_sampler (desc : D3D11_SHADER_INPUT_BIND_DESC) (s : CString)
    (ht : desc.Type_ = .D3D_SIT_SAMPLER) (hn : desc.Name = "sampler_".toList ++ s)
    (hs : s ≠ []) :
    resourceAction desc
      = some (s, fun d => { d with samplerBindPoint := desc.BindPoint }) := by
  have h1 : ¬ (desc.Name = "$Globals".toList ∧ desc.Type_ = .D3D_SIT_CBUFFER) := by
    rintro ⟨_, h⟩
    rw [ht] at h
    exact absurd h (by decide)
  have h2 : ¬ desc.Type_ = .D3D_SIT_TEXTURE := by
    rw [ht]
    decide
  have hlen : desc.Name.length > 8 := by
    rw [hn, List.length_append]
    have : 0 < s.length := List.length_pos.mpr hs
    have h8 : ("sampler_".toList).length = 8 := by decide
    omega
  have htake : desc.Name.take 8 = "sampler_".toList := by
    rw [hn]
    exact List.take_left' (by decide)
  have hdrop : desc.Name.drop 8 = s := by
    rw [hn]
    exact List.drop_left' (by decide)
  unfold resourceAction
  rw [if_neg h1, if_neg h2, if_pos ht, if_pos ⟨hlen, htake⟩, hdrop]

/-- A resource that writes to the sampler table is a texture named `texture_`
followed by the sampler name, or a sampler named `sampler_` followed by it. -/
theorem resourceAction_some (desc : D3D11_SHADER_INPUT_BIND_DESC)
    (a : CString × (RDISamplerDesc → RDISamplerDesc)) (h : resourceAction desc = some a) :
    (desc.Type_ = .D3D_SIT_TEXTURE ∧ desc.Name = "texture_".toList ++ a.1 ∧
      a.2 = fun d => { d with textureBindPoint := desc.BindPoint }) ∨
    (desc.Type_ = .D3D_SIT_SAMPLER ∧ desc.Name = "sampler_".toList ++ a.1 ∧
      a.2 = fun d => { d with samplerBindPoint := desc.BindPoint }) := by
  unfold resourceAction at h
  by_cases h1 : desc.Name = "$Globals".toList ∧ desc.Type_ = .D3D_SIT_CBUFFER
  · rw [if_pos h1] at h
    exact absurd h (by simp)
  · rw [if_neg h1] at h
    by_cases h2 : desc.Type_ = .D3D_SIT_TEXTURE
    · rw [if_pos h2] at h
      by_cases h3 : desc.Name.length > 8 ∧ desc.Name.take 8 = "texture_".toList
      · rw [if_pos h3] at h
        have ha := Option.some.inj h
        left
        refine ⟨h2, ?_, ?_⟩
        · rw [← ha, ← h3.2]
          exact (List.take_append_drop 8 desc.Name).symm
        · rw [← ha]
      · rw [if_neg h3] at h
        exact absurd h (by simp)
    · rw [if_neg h2] at h
      by_cases h4 : desc.Type_ = .D3D_SIT_SAMPLER
      · rw [if_pos h4] at h
        by_cases h5 : desc.Name.length > 8 ∧ desc.Name.take 8 = "sampler_".toList
        · rw [if_pos h5] at h
          have ha := Option.some.inj h
          right
          refine ⟨h4, ?_, ?_⟩
          · rw [← ha, ← h5.2]
            exact (List.take_append_drop 8 desc.Name).symm
          · rw [← ha]
        · rw [if_neg h5] at h
          exact absurd h (by simp)
      · rw [if_neg h4] at h
        exact absurd h (by simp)

/-- The descriptors found under a name belong to a sampler of the table with
that name. -/
theorem samplerDescs_mem (l : List RDISampler) (n : CString)
    (f : RDIShaderType → RDISamplerDesc) (h : samplerDescs l n = some f) :
    ∃ sampler ∈ l, sampler.name = n ∧ sampler.desc = f := by
  unfold samplerDescs at h
  cases hfind : l.find? (fun sampler => decide (sampler.name = n)) with
  | none =>
    rw [hfind] at h
    exact absurd h (by simp)
  | some x =>
    rw [hfind] at h
    refine ⟨x, List.mem_of_find?_eq_some hfind, ?_, ?_⟩
    · simpa using List.find?_some hfind
    · simpa using h

/-- The line logged for a resource that lacks its prefix is part of the text
that the loop over the bound resources appends to the log. -/
theorem prefixDiagnostics_logged (l : List D3D11_SHADER_INPUT_BIND_DESC)
    (desc : D3D11_SHADER_INPUT_BIND_DESC) (hmem : desc ∈ l) (h : lacksPrefix desc = true) :
    List.IsInfix "[Shader]\n Texture resource's name must have a texture_ prefix\n".toList
      (prefixDiagnostics l) := by
  induction l with
  | nil => exact absurd hmem (List.not_mem_nil desc)
  | cons d rest ih =>
    unfold prefixDiagnostics
    rcases List.mem_cons.mp hmem with rfl | hm
    · rw [h, if_pos rfl]
      exact (List.prefix_append _ _).isInfix
    · exact (ih hm).trans (List.suffix_append _ _).isInfix

/-- After a merge whose write number `pre.length` goes to the name `n` and
establishes a property of the descriptor for the stage, and whose later writes
under `n` keep it, the table has a sampler named `n` with that property. -/
theorem mergeActions_sets_last (t : RDIShaderType) (Q : RDISamplerDesc → Prop)
    (pre post : List (CString × (RDISamplerDesc → RDISamplerDesc)))
    (b : CString × (RDISamplerDesc → RDISamplerDesc)) (l : List RDISampler)
    (hset : ∀ d, Q (b.2 d))
    (hkeep : ∀ a ∈ post, a.1 = b.1 → ∀ d, Q d → Q (a.2 d)) :
    ∃ f1, samplerDescs (mergeActions t (pre ++ b :: post) l) b.1 = some f1 ∧ Q (f1 t) := by
  have e : mergeActions t (pre ++ b :: post) l
      = mergeActions t post (RenderDevice.setSamplerDesc t b.1 b.2 (mergeActions t pre l)) := by
    unfold mergeActions
    rw [List.foldl_append, List.foldl_cons]
  rw [e]
  refine mergeActions_keeps t Q post _ b.1
    (Function.update
      ((samplerDescs (mergeActions t pre l) b.1).getD fun _ => RDISamplerDesc.empty) t
      (b.2 (((samplerDescs (mergeActions t pre l) b.1).getD
        fun _ => RDISamplerDesc.empty) t)))
    hkeep ?_ ?_
  · rw [setSamplerDesc_descs, if_pos rfl]
  · rw [Function.update_same]
    exact hset _

/-! ## The order of the calls of `commitStates` -/

theorem StageCalls_nil (n : Nat) : StageCalls n [] := by
  intro c hc
  simp at hc

theorem StageCalls_append {n : Nat} {l1 l2 : List D3DCall} (h1 : StageCalls n l1)
    (h2 : StageCalls n l2) : StageCalls n (l1 ++ l2) := by
  intro c hc
  rcases List.mem_append.mp hc with h | h
  · exact h1 c h
  · exact h2 c h

theorem StageCalls_cons {n : Nat} {c : D3DCall} {l : List D3DCall}
    (hc : c.inCategory n = true) (h : StageCalls n l) : StageCalls n (c :: l) := by
  intro d hd
  rcases List.mem_cons.mp hd with rfl | hd
  · exact hc
  · exact h d hd

theorem inCategory_of_isRaster (c : D3DCall) (h : c.isRaster = true) :
    c.inCategory 2 = true := by
  cases c <;> first | rfl | exact absurd h (by simp [D3DCall.isRaster])

theorem inCategory_of_isBlend (c : D3DCall) (h : c.isBlend = true) :
    c.inCategory 2 = true := by
  cases c <;> first | rfl | exact absurd h (by simp [D3DCall.isBlend])

theorem inCategory_of_isDepthStencil (c : D3DCall) (h : c.isDepthStencil = true) :
    c.inCategory 2 = true := by
  cases c <;> first | rfl | exact absurd h (by simp [D3DCall.isDepthStencil])

/-- The calls of the viewport part. -/
theorem commitViewport_stage (k : RDIConsts) (dev : RenderDevice) (mask : Nat) :
    StageCalls 1 (RenderDevice.commitViewport k dev mask).2 := by
  unfold RenderDevice.commitViewport
  by_cases h : mask &&& k.PM_VIEWPORT ≠ 0
  · rw [if_pos h]
    exact StageCalls_cons rfl (StageCalls_nil 1)
  · rw [if_neg h]
    exact StageCalls_nil 1

/-- The calls of the render-state part. -/
theorem commitRenderStates_stage (k : RDIConsts) (dev : RenderDevice) (io : CommitAnswers)
    (mask : Nat) : StageCalls 2 (RenderDevice.commitRenderStates k dev io mask).2 := by
  unfold RenderDevice.commitRenderStates
  by_cases h : mask &&& k.PM_RENDERSTATES ≠ 0
  · rw [if_pos h]
    show StageCalls 2 (RenderDevice.applyRenderStates k dev io.createdRS io.createdBS
      io.createdDS).2
    rw [applyRenderStates_eq]
    obtain ⟨-, cr, -⟩ := applyRasterState_spec k dev io.createdRS
    obtain ⟨-, cb, -⟩ := applyBlendState_spec k
      (RenderDevice.applyRasterState k dev io.createdRS).1 io.createdBS
    obtain ⟨-, cd, -⟩ := applyDepthStencilState_spec k (RenderDevice.applyBlendState k
      (RenderDevice.applyRasterState k dev io.createdRS).1 io.createdBS).1 io.createdDS
    intro c hc
    simp only [List.mem_append] at hc
    rcases hc with (hc | hc) | hc
    · exact inCategory_of_isRaster c (cr c hc).1
    · exact inCategory_of_isBlend c (cb c hc).2.1
    · exact inCategory_of_isDepthStencil c (cd c hc).2.2
  · rw [if_neg h]
    exact StageCalls_nil 2

/-- The calls of the scissor part. -/
theorem commitScissor_stage (k : RDIConsts) (dev : RenderDevice) (mask : Nat) :
    StageCalls 3 (RenderDevice.commitScissor k dev mask).2 := by
  unfold RenderDevice.commitScissor
  by_cases h : mask &&& k.PM_SCISSOR ≠ 0
  · rw [if_pos h]
    exact StageCalls_cons rfl (StageCalls_nil 3)
  · rw [if_neg h]
    exact StageCalls_nil 3

/-- The calls of the index-buffer part. -/
theorem commitIndexBuf_stage (k : RDIConsts) (dev dev1 : RenderDevice) (mask : Nat)
    (calls : List D3DCall) (h : RenderDevice.commitIndexBuf k dev mask = .ok (dev1, calls)) :
    StageCalls 4 calls := by
  unfold RenderDevice.commitIndexBuf at h
  by_cases h1 : mask &&& k.PM_INDEXBUF ≠ 0
  · rw [if_pos h1] at h
    by_cases h2 : dev._newIndexBuf ≠ dev._curIndexBuf
    · rw [if_pos h2] at h
      simp only at h
      by_cases h3 : dev._newIndexBuf ≠ 0
      · rw [if_pos h3] at h
        cases hb : dev._buffers.getRef dev._newIndexBuf with
        | none => rw [hb] at h; exact absurd h (by simp)
        | some buf =>
          rw [hb] at h
          simp only [Except.ok.injEq, Prod.mk.injEq] at h
          obtain ⟨_, rfl⟩ := h
          exact StageCalls_cons rfl (StageCalls_nil 4)
      · rw [if_neg h3] at h
        simp only [Except.ok.injEq, Prod.mk.injEq] at h
        obtain ⟨_, rfl⟩ := h
        exact StageCalls_cons rfl (StageCalls_nil 4)
    · rw [if_neg h2] at h
      simp only [Except.ok.injEq, Prod.mk.injEq] at h
      obtain ⟨_, rfl⟩ := h
      exact StageCalls_nil 4
  · rw [if_neg h1] at h
    simp only [Except.ok.injEq, Prod.mk.injEq] at h
    obtain ⟨_, rfl⟩ := h
    exact StageCalls_nil 4

/-- The calls of `getSamplerState`. -/
theorem getSamplerState_stage (k : RDIConsts) (dev : RenderDevice) (created : Option Nat)
    (state : Nat) : StageCalls 5 (RenderDevice.getSamplerState k dev created state).2.2 := by
  cases hslot : dev._samplerStates (state &&& k.RDISamplerStateMask) with
  | some obj =>
    rw [getSamplerState_hit k dev created state obj hslot]
    exact StageCalls_nil 5
  | none =>
    simp only [RenderDevice.getSamplerState, hslot]
    intro c hc
    simp only [List.singleton_append, List.mem_cons] at hc
    rcases hc with rfl | hc
    · rfl
    · split_ifs at hc
      · simp only [List.mem_singleton] at hc
        rw [hc]
        rfl
      · simp at hc

/-- The calls of the loop over the samplers of the bound shader. -/
theorem bindSamplers_stage (k : RDIConsts) (io : CommitAnswers) (l : List RDISampler)
    (i : Nat) (dev dev1 : RenderDevice) (calls : List D3DCall)
    (h : RenderDevice.bindSamplers k io l i dev = .ok (dev1, calls)) : StageCalls 5 calls := by
  induction l generalizing i dev dev1 calls with
  | nil =>
    simp only [RenderDevice.bindSamplers, Except.ok.injEq, Prod.mk.injEq] at h
    obtain ⟨_, rfl⟩ := h
    exact StageCalls_nil 5
  | cons sampler rest ih =>
    unfold RenderDevice.bindSamplers at h
    split_ifs at h with hc
    · cases ht : dev._textures.getRef (dev._texSlots sampler.slot.toNat).texObj with
      | none => rw [ht] at h; exact absurd h (by simp)
      | some tex =>
        rw [ht] at h
        simp only at h
        cases hr : RenderDevice.bindSamplers k io rest (i + 1)
            (RenderDevice.getSamplerState k dev (io.createdSampler i)
              (dev._texSlots sampler.slot.toNat).samplerState).1 with
        | error e => rw [hr] at h; exact absurd h (by simp)
        | ok r =>
          obtain ⟨dev2, calls2⟩ := r
          rw [hr] at h
          simp only [Except.ok.injEq, Prod.mk.injEq] at h
          obtain ⟨_, rfl⟩ := h
          exact StageCalls_append (StageCalls_append (getSamplerState_stage k dev _ _)
            (StageCalls_cons rfl (StageCalls_cons rfl (StageCalls_nil 5)))) (ih _ _ _ _ hr)
    · exact ih _ _ _ _ h

/-- The calls of the texture part. -/
theorem commitTextures_stage (k : RDIConsts) (dev dev1 : RenderDevice) (io : CommitAnswers)
    (mask : Nat) (calls : List D3DCall)
    (h : RenderDevice.commitTextures k dev io mask = .ok (dev1, calls)) :
    StageCalls 5 calls := by
  unfold RenderDevice.commitTextures at h
  split_ifs at h with h1 h2
  · cases hsh : dev._shaders.getRef dev._curShaderId with
    | none => rw [hsh] at h; exact absurd h (by simp)
    | some shader =>
      rw [hsh] at h
      simp only at h
      cases hb : RenderDevice.bindSamplers k io shader.samplers 0 dev with
      | error e => rw [hb] at h; exact absurd h (by simp)
      | ok r =>
        obtain ⟨d2, c2⟩ := r
        rw [hb] at h
        simp only [Except.ok.injEq, Prod.mk.injEq] at h
        obtain ⟨_, rfl⟩ := h
        exact bindSamplers_stage k io _ _ _ _ _ hb
  · simp only [Except.ok.injEq, Prod.mk.injEq] at h
    obtain ⟨_, rfl⟩ := h
    exact StageCalls_nil 5
  · simp only [Except.ok.injEq, Prod.mk.injEq] at h
    obtain ⟨_, rfl⟩ := h
    exact StageCalls_nil 5

/-- The calls of `updateBufferData`. -/
theorem updateBufferData_stage (debugAsserts : Bool) (dev : RenderDevice)
    (mapResult : Option Nat) (bufObj offset size : Nat) (data : List Nat)
    (calls : List D3DCall)
    (h : RenderDevice.updateBufferData debugAsserts dev mapResult bufObj offset size data
      = .ok calls) : StageCalls 7 calls := by
  unfold RenderDevice.updateBufferData at h
  cases hb : dev._buffers.getRef bufObj with
  | none => rw [hb] at h; exact absurd h (by simp)
  | some buf =>
    rw [hb] at h
    simp only at h
    by_cases h1 : (debugAsserts && !decide ((offset + size) % 2 ^ 32 ≤ buf.size)) = true
    · rw [if_pos h1] at h; exact absurd h (by simp)
    · rw [if_neg h1] at h
      cases ho : buf.d3dObj with
      | none =>
        rw [ho] at h
        simp only [Except.ok.injEq] at h
        subst h
        exact StageCalls_nil 7
      | some obj =>
        rw [ho] at h
        simp only at h
        by_cases h2 : buf.dynamic = true
        · rw [if_pos h2] at h
          cases mapResult with
          | none =>
            simp only [Except.ok.injEq] at h
            subst h
            exact StageCalls_cons rfl (StageCalls_nil 7)
          | some rowPitch =>
            simp only [Except.ok.injEq] at h
            subst h
            refine StageCalls_append (StageCalls_append
              (StageCalls_cons rfl (StageCalls_nil 7)) ?_)
              (StageCalls_cons rfl (StageCalls_nil 7))
            split_ifs
            · exact StageCalls_cons rfl (StageCalls_nil 7)
            · exact StageCalls_cons rfl (StageCalls_nil 7)
        · rw [if_neg h2] at h
          simp only [Except.ok.injEq] at h
          subst h
          exact StageCalls_cons rfl (StageCalls_nil 7)

/-- The calls of `uploadGlobals`. -/
theorem uploadGlobals_stage (debugAsserts : Bool) (dev : RenderDevice) (cb : GlobalCBuffer)
    (mapResult : Option Nat) (bind : Int → Option Nat → D3DCall)
    (hbind : ∀ a b, (bind a b).inCategory 7 = true) (calls : List D3DCall)
    (h : RenderDevice.uploadGlobals debugAsserts dev cb mapResult bind = .ok calls) :
    StageCalls 7 calls := by
  unfold RenderDevice.uploadGlobals at h
  split_ifs at h with h1
  · cases hb : dev._buffers.getRef cb.bufferId with
    | none => rw [hb] at h; exact absurd h (by simp)
    | some buffer =>
      rw [hb] at h
      simp only at h
      cases hu : RenderDevice.updateBufferData debugAsserts dev mapResult cb.bufferId 0
          buffer.size (cb.bufferData.getD []) with
      | error e => rw [hu] at h; exact absurd h (by simp)
      | ok c1 =>
        rw [hu] at h
        simp only [Except.ok.injEq] at h
        subst h
        exact StageCalls_append (updateBufferData_stage _ _ _ _ _ _ _ _ hu)
          (StageCalls_cons (hbind _ _) (StageCalls_nil 7))
  · simp only [Except.ok.injEq] at h
    subst h
    exact StageCalls_nil 7

/-- The calls of the upload of the shader constants. -/
theorem commitUniforms_stage (debugAsserts : Bool) (dev : RenderDevice) (io : CommitAnswers)
    (calls : List D3DCall)
    (h : RenderDevice.commitUniforms debugAsserts dev io = .ok calls) :
    StageCalls 7 calls := by
  unfold RenderDevice.commitUniforms at h
  split_ifs at h with h1
  · cases hs : dev._shaders.getRef dev._curShaderId with
    | none => rw [hs] at h; exact absurd h (by simp)
    | some shader =>
      rw [hs] at h
      simp only at h
      cases hv : RenderDevice.uploadGlobals debugAsserts dev (shader.globalCBuffers .Vertex)
          io.mapVertex D3DCall.VSSetConstantBuffers with
      | error e => rw [hv] at h; exact absurd h (by simp)
      | ok c1 =>
        rw [hv] at h
        simp only at h
        cases hp : RenderDevice.uploadGlobals debugAsserts dev (shader.globalCBuffers .Pixel)
            io.mapPixel D3DCall.PSSetConstantBuffers with
        | error e => rw [hp] at h; exact absurd h (by simp)
        | ok c2 =>
          rw [hp] at h
          simp only [Except.ok.injEq] at h
          subst h
          exact StageCalls_append
            (uploadGlobals_stage _ _ _ _ D3DCall.VSSetConstantBuffers (fun _ _ => rfl) _ hv)
            (uploadGlobals_stage _ _ _ _ D3DCall.PSSetConstantBuffers (fun _ _ => rfl) _ hp)
  · simp only [Except.ok.injEq] at h
    subst h
    exact StageCalls_nil 7

/-- The calls of the loop of `applyVertexLayout`. -/
theorem bindVertexBuffers_stage (dev : RenderDevice) (vl : RDIVertexLayout) (l : List Nat)
    (m0 m : Nat) (calls : List D3DCall)
    (h : RenderDevice.bindVertexBuffers dev vl l m0 = .ok (m, calls)) :
    StageCalls 6 calls := by
  induction l generalizing m0 m calls with
  | nil =>
    simp only [RenderDevice.bindVertexBuffers, Except.ok.injEq, Prod.mk.injEq] at h
    obtain ⟨_, rfl⟩ := h
    exact StageCalls_nil 6
  | cons i rest ih =>
    unfold RenderDevice.bindVertexBuffers at h
    simp only at h
    split_ifs at h with h1
    · cases hb : dev._buffers.getRef (dev._vertBufSlots (vl.attribs i).vbSlot).vbObj with
      | none => rw [hb] at h; exact absurd h (by simp)
      | some buf =>
        rw [hb] at h
        simp only at h
        cases hr : RenderDevice.bindVertexBuffers dev vl rest
            ((m0 ||| (1 <<< (vl.attribs i).vbSlot)) % 2 ^ 32) with
        | error e => rw [hr] at h; exact absurd h (by simp)
        | ok r =>
          obtain ⟨m2, c2⟩ := r
          rw [hr] at h
          simp only [Except.ok.injEq, Prod.mk.injEq] at h
          obtain ⟨_, rfl⟩ := h
          exact StageCalls_cons rfl (ih _ _ _ hr)
    · exact ih _ _ _ h

/-- The calls that unbind the vertex buffers no longer used. -/
theorem disableCalls_stage (disableMask : Nat) :
    StageCalls 6 ((List.range 16).filterMap fun i =>
      if disableMask &&& (1 <<< i) ≠ 0 then some (D3DCall.IASetVertexBuffers i none 0 0)
      else none) := by
  intro c hc
  rw [List.mem_filterMap] at hc
  obtain ⟨i, _, hi⟩ := hc
  split_ifs at hi
  simp only [Option.some.injEq] at hi
  subst hi
  rfl

/-- The calls of `applyVertexLayout`. -/
theorem applyVertexLayout_stage (dev dev1 : RenderDevice) (b : Bool) (calls : List D3DCall)
    (h : RenderDevice.applyVertexLayout dev = .ok (dev1, b, calls)) : StageCalls 6 calls := by
  have fin : ∀ (m : Nat) (c : List D3DCall), StageCalls 6 c →
      (.ok ({ dev with _activeVertexAttribsMask := m }, true,
          c ++ (if clearBits dev._activeVertexAttribsMask m ≠ 0 then
            (List.range 16).filterMap fun i =>
              if clearBits dev._activeVertexAttribsMask m &&& (1 <<< i) ≠ 0 then
                some (D3DCall.IASetVertexBuffers i none 0 0)
              else none
          else [])) : Except Fault (RenderDevice × Bool × List D3DCall))
        = .ok (dev1, b, calls) → StageCalls 6 calls := by
    intro m c hc he
    simp only [Except.ok.injEq, Prod.mk.injEq] at he
    obtain ⟨rfl, rfl, rfl⟩ := he
    refine StageCalls_append hc ?_
    by_cases hm : clearBits dev._activeVertexAttribsMask m ≠ 0
    · rw [if_pos hm]
      exact disableCalls_stage _
    · rw [if_neg hm]
      exact StageCalls_nil 6
  have same : (.ok (dev, false, []) : Except Fault (RenderDevice × Bool × List D3DCall))
        = .ok (dev1, b, calls) → StageCalls 6 calls := by
    intro he
    simp only [Except.ok.injEq, Prod.mk.injEq] at he
    obtain ⟨rfl, rfl, rfl⟩ := he
    exact StageCalls_nil 6
  unfold RenderDevice.applyVertexLayout at h
  simp only at h
  by_cases h1 : dev._newVertLayout ≠ 0
  · rw [if_pos h1] at h
    by_cases h2 : dev._curShaderId = 0
    · rw [if_pos h2] at h
      exact same h
    · rw [if_neg h2] at h
      cases hs : dev._shaders.getRef dev._curShaderId with
      | none => rw [hs] at h; exact absurd h (by simp)
      | some shader =>
        rw [hs] at h
        simp only at h
        cases hl : shader.inputLayouts (dev._newVertLayout - 1) with
        | none => rw [hl] at h; exact same h
        | some inputLayout =>
          rw [hl] at h
          simp only at h
          cases hr : RenderDevice.bindVertexBuffers dev
              (dev._vertexLayouts (dev._newVertLayout - 1))
              (List.range (dev._vertexLayouts (dev._newVertLayout - 1)).numAttribs) 0 with
          | error e => rw [hr] at h; exact absurd h (by simp)
          | ok r =>
            obtain ⟨m2, c2⟩ := r
            rw [hr] at h
            have hc : StageCalls 6 (D3DCall.IASetInputLayout inputLayout :: c2) :=
              StageCalls_cons rfl (bindVertexBuffers_stage _ _ _ _ _ _ hr)
            exact fin m2 _ hc h
  · rw [if_neg h1] at h
    exact fin 0 [] (StageCalls_nil 6) h

/-- The calls of the vertex-layout part. -/
theorem commitVertLayout_stage (k : RDIConsts) (dev dev1 : RenderDevice) (mask : Nat)
    (b : Bool) (calls : List D3DCall)
    (h : RenderDevice.commitVertLayout k dev mask = .ok (dev1, b, calls)) :
    StageCalls 6 calls := by
  unfold RenderDevice.commitVertLayout at h
  by_cases h1 : mask &&& k.PM_VERTLAYOUT ≠ 0
  · rw [if_pos h1] at h
    cases ha : RenderDevice.applyVertexLayout dev with
    | error e => rw [ha] at h; exact absurd h (by simp)
    | ok r =>
      obtain ⟨d2, b2, c2⟩ := r
      have a4 := applyVertexLayout_stage dev d2 b2 c2 ha
      rw [ha] at h
      cases b2 with
      | false =>
        simp only [Except.ok.injEq, Prod.mk.injEq] at h
        obtain ⟨rfl, rfl, rfl⟩ := h
        exact a4
      | true =>
        simp only [Except.ok.injEq, Prod.mk.injEq] at h
        obtain ⟨rfl, rfl, rfl⟩ := h
        exact a4
  · rw [if_neg h1] at h
    simp only [Except.ok.injEq, Prod.mk.injEq] at h
    obtain ⟨rfl, rfl, rfl⟩ := h
    exact StageCalls_nil 6

/-- The calls of `commitStates` fall into seven consecutive blocks, one for each
category, in the order of the categories. -/
theorem commitStates_blocks (debugAsserts : Bool) (k : RDIConsts) (dev dev1 : RenderDevice)
    (io : CommitAnswers) (filter : Nat) (b : Bool) (calls : List D3DCall)
    (h : RenderDevice.commitStates debugAsserts k dev io filter = .ok (dev1, b, calls)) :
    ∃ l1 l2 l3 l4 l5 l6 l7 : List D3DCall,
      calls = l1 ++ l2 ++ l3 ++ l4 ++ l5 ++ l6 ++ l7 ∧ StageCalls 1 l1 ∧ StageCalls 2 l2 ∧
      StageCalls 3 l3 ∧ StageCalls 4 l4 ∧ StageCalls 5 l5 ∧ StageCalls 6 l6 ∧
      StageCalls 7 l7 := by
  by_cases hp : dev._pendingMask &&& filter ≠ 0
  · unfold RenderDevice.commitStates at h
    rw [if_pos hp] at h
    simp only at h
    have v3 := commitViewport_stage k dev (dev._pendingMask &&& filter)
    have r3 := commitRenderStates_stage k
      (RenderDevice.commitViewport k dev (dev._pendingMask &&& filter)).1 io
      (dev._pendingMask &&& filter)
    have s3 := commitScissor_stage k
      (RenderDevice.commitRenderStates k
        (RenderDevice.commitViewport k dev (dev._pendingMask &&& filter)).1 io
        (dev._pendingMask &&& filter)).1 (dev._pendingMask &&& filter)
    cases h4 : RenderDevice.commitIndexBuf k
        (RenderDevice.commitScissor k
          (RenderDevice.commitRenderStates k
            (RenderDevice.commitViewport k dev (dev._pendingMask &&& filter)).1 io
            (dev._pendingMask &&& filter)).1 (dev._pendingMask &&& filter)).1
        (dev._pendingMask &&& filter) with
    | error e => rw [h4] at h; exact absurd h (by simp)
    | ok r =>
      obtain ⟨dev4, calls4⟩ := r
      rw [h4] at h
      simp only at h
      have i3 := commitIndexBuf_stage k _ _ _ _ h4
      cases h5 : RenderDevice.commitTextures k dev4 io (dev._pendingMask &&& filter) with
      | error e => rw [h5] at h; exact absurd h (by simp)
      | ok r =>
        obtain ⟨dev5, calls5⟩ := r
        rw [h5] at h
        simp only at h
        have t3 := commitTextures_stage k _ _ _ _ _ h5
        cases h6 : RenderDevice.commitVertLayout k dev5 (dev._pendingMask &&& filter) with
        | error e => rw [h6] at h; exact absurd h (by simp)
        | ok r =>
          obtain ⟨dev6, b6, calls6⟩ := r
          have l3 := commitVertLayout_stage k _ _ _ _ _ h6
          rw [h6] at h
          cases b6 with
          | false =>
            simp only [Except.ok.injEq, Prod.mk.injEq] at h
            obtain ⟨rfl, rfl, rfl⟩ := h
            exact ⟨_, _, _, _, _, _, [], by simp, v3, r3, s3, i3, t3, l3, StageCalls_nil 7⟩
          | true =>
            simp only at h
            cases h7 : RenderDevice.commitUniforms debugAsserts dev6 io with
            | error e => rw [h7] at h; exact absurd h (by simp)
            | ok calls7 =>
              rw [h7] at h
              simp only [Except.ok.injEq, Prod.mk.injEq] at h
              obtain ⟨rfl, rfl, rfl⟩ := h
              exact ⟨_, _, _, _, _, _, calls7, rfl, v3, r3, s3, i3, t3, l3,
                commitUniforms_stage _ _ _ _ h7⟩
  · unfold RenderDevice.commitStates at h
    rw [if_neg hp] at h
    simp only [Except.ok.injEq, Prod.mk.injEq] at h
    obtain ⟨rfl, rfl, rfl⟩ := h
    exact ⟨[], [], [], [], [], [], [], rfl, StageCalls_nil 1, StageCalls_nil 2, StageCalls_nil 3,
      StageCalls_nil 4, StageCalls_nil 5, StageCalls_nil 6, StageCalls_nil 7⟩

/-- The categories of the driver calls of a block of category `n`. -/
theorem StageCalls_categories {n : Nat} {l : List D3DCall} (h : StageCalls n l) :
    ∀ m ∈ l.filterMap D3DCall.commitCategory, m = n := by
  intro m hm
  rw [List.mem_filterMap] at hm
  obtain ⟨c, hc, hcm⟩ := hm
  have := h c hc
  unfold D3DCall.inCategory at this
  rw [Bool.or_eq_true] at this
  rcases this with hl | hcat
  · cases c <;>
      first
      | exact Option.noConfusion hcm
      | exact Bool.noConfusion hl
  · rw [beq_iff_eq] at hcat
    rw [hcat] at hcm
    exact (Option.some.inj hcm).symm

/-- Two consecutive sorted lists of numbers, the first below `n` and the second
from `n` on, form a sorted list. -/
theorem pairwise_le_append {l1 l2 : List Nat} {n : Nat} (h1 : l1.Pairwise (· ≤ ·))
    (h2 : l2.Pairwise (· ≤ ·)) (b1 : ∀ m ∈ l1, m ≤ n) (b2 : ∀ m ∈ l2, n ≤ m) :
    (l1 ++ l2).Pairwise (· ≤ ·) := by
  rw [List.pairwise_append]
  exact ⟨h1, h2, fun a ha c hc => le_trans (b1 a ha) (b2 c hc)⟩

/-- A list of equal numbers is sorted. -/
theorem pairwise_le_of_const {l : List Nat} {n : Nat} (h : ∀ m ∈ l, m = n) :
    l.Pairwise (· ≤ ·) := by
  rw [List.pairwise_iff_forall_sublist]
  intro a c hs
  have ha := h a (hs.subset (by simp))
  have hc := h c (hs.subset (by simp))
  omega

/-- A sorted list of numbers up to `n`, followed by a list of copies of a
number `k` from `n` on, is a sorted list of numbers up to `k`. -/
theorem pairwise_le_snoc_block {l1 l2 : List Nat} {n k : Nat} (hk : n ≤ k)
    (h1 : l1.Pairwise (· ≤ ·)) (b1 : ∀ m ∈ l1, m ≤ n) (h2 : ∀ m ∈ l2, m = k) :
    (l1 ++ l2).Pairwise (· ≤ ·) ∧ ∀ m ∈ l1 ++ l2, m ≤ k := by
  constructor
  · exact pairwise_le_append h1 (pairwise_le_of_const h2) b1
      (fun m hm => by rw [h2 m hm]; exact hk)
  · intro m hm
    rcases List.mem_append.mp hm with h | h
    · exact le_trans (b1 m h) hk
    · exact le_of_eq (h2 m h)

/-- The categories of the calls of seven consecutive blocks, one for each
category, never decrease. -/
theorem blocks_sorted {l1 l2 l3 l4 l5 l6 l7 : List D3DCall} (h1 : StageCalls 1 l1)
    (h2 : StageCalls 2 l2) (h3 : StageCalls 3 l3) (h4 : StageCalls 4 l4)
    (h5 : StageCalls 5 l5) (h6 : StageCalls 6 l6) (h7 : StageCalls 7 l7) :
    ((l1 ++ l2 ++ l3 ++ l4 ++ l5 ++ l6 ++ l7).filterMap D3DCall.commitCategory).Pairwise
      (· ≤ ·) := by
  simp only [List.filterMap_append]
  have e1 := StageCalls_categories h1
  have p1 : (l1.filterMap D3DCall.commitCategory).Pairwise (· ≤ ·) := pairwise_le_of_const e1
  have b1 : ∀ m ∈ l1.filterMap D3DCall.commitCategory, m ≤ 1 := fun m hm => le_of_eq (e1 m hm)
  obtain ⟨p2, b2⟩ := pairwise_le_snoc_block (by decide : 1 ≤ 2) p1 b1 (StageCalls_categories h2)
  obtain ⟨p3, b3⟩ := pairwise_le_snoc_block (by decide : 2 ≤ 3) p2 b2 (StageCalls_categories h3)
  obtain ⟨p4, b4⟩ := pairwise_le_snoc_block (by decide : 3 ≤ 4) p3 b3 (StageCalls_categories h4)
  obtain ⟨p5, b5⟩ := pairwise_le_snoc_block (by decide : 4 ≤ 5) p4 b4 (StageCalls_categories h5)
  obtain ⟨p6, b6⟩ := pairwise_le_snoc_block (by decide : 5 ≤ 6) p5 b5 (StageCalls_categories h6)
  exact (pairwise_le_snoc_block (by decide : 6 ≤ 7) p6 b6 (StageCalls_categories h7)).1

/-- A call of a block of category `n` is an entry of the log or a driver call of
category `n`. -/
theorem StageCalls_mem {n : Nat} {l : List D3DCall} (h : StageCalls n l) (c : D3DCall)
    (hc : c ∈ l) : c.isLogEntry = true ∨ c.commitCategory = some n := by
  have := h c hc
  unfold D3DCall.inCategory at this
  rw [Bool.or_eq_true, beq_iff_eq] at this
  exact this

/-! ## Frustum: verified properties -/

/-- C3 (as amended): for a view frustum built by `buildViewFrustum` with the
identity transform, `left < right`, `bottom < top` and `0 < nearPlane < farPlane`,
`cullSphere` at the frustum origin returns `true` for every radius with
`0 < rad < nearPlane`, because the origin lies `nearPlane` in front of the near
plane; it returns `false` exactly when `nearPlane <= rad`. -/
theorem cullSphere_frustum_origin (sqrtf : ℚ → ℚ)
    (hsqrt : ∀ x : ℚ, 0 ≤ x → sqrtf (x * x) = x)
    (left right bottom top nearPlane farPlane rad : ℚ)
    (hlr : left < right) (hbt : bottom < top) (hn : 0 < nearPlane)
    (hnf : nearPlane < farPlane) :
    (0 < rad → rad < nearPlane →
      (Frustum.buildViewFrustum sqrtf Matrix4f.identity left right bottom top nearPlane
          farPlane).cullSphere
        (Frustum.buildViewFrustum sqrtf Matrix4f.identity left right bottom top nearPlane
          farPlane)._origin rad = true) ∧
    ((Frustum.buildViewFrustum sqrtf Matrix4f.identity left right bottom top nearPlane
          farPlane).cullSphere
        (Frustum.buildViewFrustum sqrtf Matrix4f.identity left right bottom top nearPlane
          farPlane)._origin rad = false ↔ nearPlane ≤ rad) := by
  have h := cullSphere_origin_aux sqrtf hsqrt left right bottom top nearPlane farPlane rad
    hlr hbt hn hnf
  refine ⟨fun _ hr => h.mpr hr, ?_⟩
  rw [← not_lt, ← h]
  simp

/-- C3, witness: the frustum with `left = bottom = -1`, `right = top = 1`,
`nearPlane = 1`, `farPlane = 2` and the radius `1/2`. -/
theorem cullSphere_frustum_origin_witness :
    ((-1 : ℚ) < 1 ∧ (0 : ℚ) < 1 ∧ (1 : ℚ) < 2) ∧
    (((0 : ℚ) < 1 / 2 → (1 / 2 : ℚ) < 1 →
      (Frustum.buildViewFrustum sqrtQ Matrix4f.identity (-1) 1 (-1) 1 1 2).cullSphere
        (Frustum.buildViewFrustum sqrtQ Matrix4f.identity (-1) 1 (-1) 1 1 2)._origin (1 / 2)
        = true) ∧
    ((Frustum.buildViewFrustum sqrtQ Matrix4f.identity (-1) 1 (-1) 1 1 2).cullSphere
        (Frustum.buildViewFrustum sqrtQ Matrix4f.identity (-1) 1 (-1) 1 1 2)._origin (1 / 2)
        = false ↔ (1 : ℚ) ≤ 1 / 2)) :=
  ⟨by norm_num,
   cullSphere_frustum_origin sqrtQ sqrtQ_mul_self (-1) 1 (-1) 1 1 2 (1 / 2)
     (by norm_num) (by norm_num) (by norm_num) (by norm_num)⟩

/-- C3, counterexample to the claim as stated: with `left = bottom = -1`,
`right = top = 1`, `nearPlane = 1`, `farPlane = 2`, the sphere of radius `1/2`
centred at the frustum origin is culled, where the claim expects `false`. -/
theorem cullSphere_frustum_origin_counterexample :
    ((-1 : ℚ) < 1 ∧ (0 : ℚ) < 1 ∧ (1 : ℚ) < 2 ∧ (0 : ℚ) < 1 / 2 ∧ (1 / 2 : ℚ) < 1) ∧
    (Frustum.buildViewFrustum sqrtQ Matrix4f.identity (-1) 1 (-1) 1 1 2).cullSphere
      (Frustum.buildViewFrustum sqrtQ Matrix4f.identity (-1) 1 (-1) 1 1 2)._origin (1 / 2)
      ≠ false := by
  refine ⟨by norm_num, ?_⟩
  rw [(cullSphere_origin_aux sqrtQ sqrtQ_mul_self (-1) 1 (-1) 1 1 2 (1 / 2)
    (by norm_num) (by norm_num) (by norm_num) (by norm_num)).mpr (by norm_num)]
  simp

/-- C4: for a view frustum built by `buildViewFrustum` with the identity
transform, `left < right`, `bottom < top` and `0 < nearPlane < farPlane`,
`cullSphere` returns `true` for the centre `(0, 0, -2 * farPlane)` and every
radius with `0 <= rad < farPlane`. -/
theorem cullSphere_behind_far_plane (sqrtf : ℚ → ℚ)
    (hsqrt : ∀ x : ℚ, 0 ≤ x → sqrtf (x * x) = x)
    (left right bottom top nearPlane farPlane rad : ℚ)
    (hlr : left < right) (hbt : bottom < top) (hn : 0 < nearPlane)
    (hnf : nearPlane < farPlane) (_hrad0 : 0 ≤ rad) (hrad : rad < farPlane) :
    (Frustum.buildViewFrustum sqrtf Matrix4f.identity left right bottom top nearPlane
        farPlane).cullSphere ⟨0, 0, -(2 * farPlane)⟩ rad = true := by
  rw [cullSphere_eq_true_iff]
  refine ⟨5, ?_⟩
  rw [viewFrustum_far sqrtf hsqrt left right bottom top nearPlane farPlane hlr hbt hn
    (by linarith)]
  simp only [neg_neg]
  linarith

/-- C4, witness: the frustum with `left = bottom = -1`, `right = top = 1`,
`nearPlane = 1`, `farPlane = 2` and the radius `1`. -/
theorem cullSphere_behind_far_plane_witness :
    ((-1 : ℚ) < 1 ∧ (0 : ℚ) < 1 ∧ (1 : ℚ) < 2 ∧ (0 : ℚ) ≤ 1) ∧
    (Frustum.buildViewFrustum sqrtQ Matrix4f.identity (-1) 1 (-1) 1 1 2).cullSphere
      ⟨0, 0, -(2 * 2)⟩ 1 = true :=
  ⟨by norm_num,
   cullSphere_behind_far_plane sqrtQ sqrtQ_mul_self (-1) 1 (-1) 1 1 2 1
     (by norm_num) (by norm_num) (by norm_num) (by norm_num) (by norm_num) (by norm_num)⟩

/-- C5: when the eight corner coordinates lie in `[-MaxFloat, MaxFloat]`, the
box `(mins, maxs)` computed by `calcAABB` contains every corner in each of x, y
and z, and each component of `mins` and of `maxs` is that component of some
corner. -/
theorem calcAABB_tightest_box (MaxFloat : ℚ) (f : Frustum)
    (hx : ∀ i, -MaxFloat ≤ (f._corners i).x ∧ (f._corners i).x ≤ MaxFloat)
    (hy : ∀ i, -MaxFloat ≤ (f._corners i).y ∧ (f._corners i).y ≤ MaxFloat)
    (hz : ∀ i, -MaxFloat ≤ (f._corners i).z ∧ (f._corners i).z ≤ MaxFloat) :
    (∀ i, ((f.calcAABB MaxFloat).1.x ≤ (f._corners i).x ∧
            (f._corners i).x ≤ (f.calcAABB MaxFloat).2.x) ∧
          ((f.calcAABB MaxFloat).1.y ≤ (f._corners i).y ∧
            (f._corners i).y ≤ (f.calcAABB MaxFloat).2.y) ∧
          ((f.calcAABB MaxFloat).1.z ≤ (f._corners i).z ∧
            (f._corners i).z ≤ (f.calcAABB MaxFloat).2.z)) ∧
    ((∃ i, (f.calcAABB MaxFloat).1.x = (f._corners i).x) ∧
     (∃ i, (f.calcAABB MaxFloat).1.y = (f._corners i).y) ∧
     (∃ i, (f.calcAABB MaxFloat).1.z = (f._corners i).z)) ∧
    ((∃ i, (f.calcAABB MaxFloat).2.x = (f._corners i).x) ∧
     (∃ i, (f.calcAABB MaxFloat).2.y = (f._corners i).y) ∧
     (∃ i, (f.calcAABB MaxFloat).2.z = (f._corners i).z)) := by
  obtain ⟨⟨x1, x2⟩, ⟨x3, x4⟩⟩ := aabb_component (fun i => (f._corners i).x) MaxFloat hx
  obtain ⟨⟨y1, y2⟩, ⟨y3, y4⟩⟩ := aabb_component (fun i => (f._corners i).y) MaxFloat hy
  obtain ⟨⟨z1, z2⟩, ⟨z3, z4⟩⟩ := aabb_component (fun i => (f._corners i).z) MaxFloat hz
  simp only [Frustum.calcAABB, calcAABB_fold]
  exact ⟨fun i => ⟨⟨x1 i, x3 i⟩, ⟨y1 i, y3 i⟩, ⟨z1 i, z3 i⟩⟩, ⟨x2, y2, z2⟩, ⟨x4, y4, z4⟩⟩

/-- C5, witness: the unit cube, with `MaxFloat = 2`. -/
theorem calcAABB_tightest_box_witness :
    (∀ i, -(2 : ℚ) ≤ (unitBoxFrustum._corners i).x ∧ (unitBoxFrustum._corners i).x ≤ 2) ∧
    ((∀ i, ((unitBoxFrustum.calcAABB 2).1.x ≤ (unitBoxFrustum._corners i).x ∧
            (unitBoxFrustum._corners i).x ≤ (unitBoxFrustum.calcAABB 2).2.x) ∧
          ((unitBoxFrustum.calcAABB 2).1.y ≤ (unitBoxFrustum._corners i).y ∧
            (unitBoxFrustum._corners i).y ≤ (unitBoxFrustum.calcAABB 2).2.y) ∧
          ((unitBoxFrustum.calcAABB 2).1.z ≤ (unitBoxFrustum._corners i).z ∧
            (unitBoxFrustum._corners i).z ≤ (unitBoxFrustum.calcAABB 2).2.z)) ∧
    ((∃ i, (unitBoxFrustum.calcAABB 2).1.x = (unitBoxFrustum._corners i).x) ∧
     (∃ i, (unitBoxFrustum.calcAABB 2).1.y = (unitBoxFrustum._corners i).y) ∧
     (∃ i, (unitBoxFrustum.calcAABB 2).1.z = (unitBoxFrustum._corners i).z)) ∧
    ((∃ i, (unitBoxFrustum.calcAABB 2).2.x = (unitBoxFrustum._corners i).x) ∧
     (∃ i, (unitBoxFrustum.calcAABB 2).2.y = (unitBoxFrustum._corners i).y) ∧
     (∃ i, (unitBoxFrustum.calcAABB 2).2.z = (unitBoxFrustum._corners i).z))) :=
  ⟨by intro i; fin_cases i <;> norm_num [unitBoxFrustum, boxCorners, array8],
   calcAABB_tightest_box 2 unitBoxFrustum
     (by intro i; fin_cases i <;> norm_num [unitBoxFrustum, boxCorners, array8])
     (by intro i; fin_cases i <;> norm_num [unitBoxFrustum, boxCorners, array8])
     (by intro i; fin_cases i <;> norm_num [unitBoxFrustum, boxCorners, array8])⟩

/-- C6 (as amended): `this.cullFrustum(other)` returns `true` if and only if
there is one of the six planes of `this` for which no corner of `other` lies
strictly inside, that is all eight corners have signed distance `>= 0` to it
(corners on the plane count as outside). -/
theorem cullFrustum_iff_all_corners_nonneg (f frust : Frustum) :
    f.cullFrustum frust = true ↔
      ∃ i : Fin 6, ∀ j : Fin 8, (f._planes i).distToPoint (frust._corners j) ≥ 0 :=
  cullFrustum_eq_true_iff f frust

/-- C6, counterexample to the claim as stated: the unit cube culls the cube
`[1, 2] × [0, 1] × [0, 1]` that touches it in the face `x = 1`, although no plane of
the unit cube has all eight corners of the other cube at a signed distance
`> 0`. -/
theorem cullFrustum_touching_counterexample :
    ¬ (unitBoxFrustum.cullFrustum touchingBoxFrustum = true ↔
        ∃ i : Fin 6, ∀ j : Fin 8,
          (unitBoxFrustum._planes i).distToPoint (touchingBoxFrustum._corners j) > 0) := by
  intro h
  have hc : unitBoxFrustum.cullFrustum touchingBoxFrustum = true := by
    rw [cullFrustum_eq_true_iff]
    refine ⟨1, ?_⟩
    intro j
    fin_cases j <;>
      norm_num [unitBoxFrustum, touchingBoxFrustum, boxPlanes, boxCorners, array6, array8,
        Plane.distToPoint, Vec3f.dot]
  obtain ⟨i, hi⟩ := h.mp hc
  fin_cases i
  · have := hi 0
    norm_num [unitBoxFrustum, touchingBoxFrustum, boxPlanes, boxCorners, array6, array8,
      Plane.distToPoint, Vec3f.dot] at this
  · have := hi 0
    norm_num [unitBoxFrustum, touchingBoxFrustum, boxPlanes, boxCorners, array6, array8,
      Plane.distToPoint, Vec3f.dot] at this
  · have := hi 0
    norm_num [unitBoxFrustum, touchingBoxFrustum, boxPlanes, boxCorners, array6, array8,
      Plane.distToPoint, Vec3f.dot] at this
  · have := hi 0
    norm_num [unitBoxFrustum, touchingBoxFrustum, boxPlanes, boxCorners, array6, array8,
      Plane.distToPoint, Vec3f.dot] at this
  · have := hi 4
    norm_num [unitBoxFrustum, touchingBoxFrustum, boxPlanes, boxCorners, array6, array8,
      Plane.distToPoint, Vec3f.dot] at this
  · have := hi 0
    norm_num [unitBoxFrustum, touchingBoxFrustum, boxPlanes, boxCorners, array6, array8,
      Plane.distToPoint, Vec3f.dot] at this

/-- C7: `cullFrustum` never over-culls.  Whenever `this.cullFrustum(other)`
returns `true`, no point of the convex hull of the eight corners of `other`
(a combination with non-negative weights of sum one) has a negative signed
distance to all six planes of `this`. -/
theorem cullFrustum_never_overculls (f frust : Frustum)
    (h : f.cullFrustum frust = true)
    (w : Fin 8 → ℚ) (hw : ∀ j, 0 ≤ w j) (hsum : ∑ j, w j = 1) :
    ¬ ∀ i : Fin 6, (f._planes i).distToPoint (convexCombination w frust._corners) < 0 := by
  obtain ⟨i, hi⟩ := (cullFrustum_eq_true_iff f frust).mp h
  intro hall
  have hneg := hall i
  rw [distToPoint_convexCombination _ w _ hsum] at hneg
  exact absurd hneg (not_lt.mpr (Finset.sum_nonneg fun j _ => mul_nonneg (hw j) (hi j)))

/-- C7, witness: the unit cube culls the cube touching it in the face `x = 1`;
the hull point is the centre of that cube. -/
theorem cullFrustum_never_overculls_witness :
    (unitBoxFrustum.cullFrustum touchingBoxFrustum = true ∧
      (∀ j : Fin 8, (0 : ℚ) ≤ (fun _ => 1 / 8) j) ∧ ∑ _j : Fin 8, (1 / 8 : ℚ) = 1) ∧
    ¬ ∀ i : Fin 6, (unitBoxFrustum._planes i).distToPoint
        (convexCombination (fun _ => 1 / 8) touchingBoxFrustum._corners) < 0 :=
  have hc : unitBoxFrustum.cullFrustum touchingBoxFrustum = true := by
    rw [cullFrustum_eq_true_iff]
    refine ⟨1, ?_⟩
    intro j
    fin_cases j <;>
      norm_num [unitBoxFrustum, touchingBoxFrustum, boxPlanes, boxCorners, array6, array8,
        Plane.distToPoint, Vec3f.dot]
  ⟨⟨hc, by intro j; norm_num, by norm_num⟩,
   cullFrustum_never_overculls unitBoxFrustum touchingBoxFrustum hc (fun _ => 1 / 8)
     (by intro j; norm_num) (by norm_num)⟩

/-- C8: for a box with `min <= max` componentwise, the corner that `cullBox`
selects for a plane is a corner of the box and attains the minimum signed
distance to that plane among the eight corners; hence `cullBox` agrees with the
naive test that looks for a plane with all eight corners strictly outside. -/
theorem cullBox_eq_naive (f : Frustum) (b : BoundingBox)
    (hx : b.min.x ≤ b.max.x) (hy : b.min.y ≤ b.max.y) (hz : b.min.z ≤ b.max.z) :
    (∀ i : Fin 6,
      Frustum.cullBoxCorner (f._planes i).normal b ∈ b.corners ∧
      ∀ c ∈ b.corners,
        (f._planes i).distToPoint (Frustum.cullBoxCorner (f._planes i).normal b)
          ≤ (f._planes i).distToPoint c) ∧
    (f.cullBox b = true ↔
      ∃ i : Fin 6, ∀ c ∈ b.corners, (f._planes i).distToPoint c > 0) ∧
    f.cullBox b = f.cullBoxNaive b := by
  have hmin : ∀ i : Fin 6, ∀ c ∈ b.corners,
      (f._planes i).distToPoint (Frustum.cullBoxCorner (f._planes i).normal b)
        ≤ (f._planes i).distToPoint c := by
    intro i c hc
    obtain ⟨bx, by_, bz⟩ := corners_bounds b hx hy hz c hc
    exact Frustum.cullBoxCorner_le (f._planes i) b c bx by_ bz
  have hiff : f.cullBox b = true ↔
      ∃ i : Fin 6, ∀ c ∈ b.corners, (f._planes i).distToPoint c > 0 := by
    simp only [Frustum.cullBox, List.any_eq_true, List.mem_finRange, true_and,
      decide_eq_true_eq]
    constructor
    · rintro ⟨i, hi⟩
      exact ⟨i, fun c hc => lt_of_lt_of_le hi (hmin i c hc)⟩
    · rintro ⟨i, hi⟩
      exact ⟨i, hi _ (Frustum.cullBoxCorner_mem _ b)⟩
  refine ⟨fun i => ⟨Frustum.cullBoxCorner_mem _ b, hmin i⟩, hiff, ?_⟩
  rw [Bool.eq_iff_iff, hiff]
  simp only [Frustum.cullBoxNaive, List.any_eq_true, List.mem_finRange, true_and,
    List.all_eq_true, decide_eq_true_eq]

/-- C8, witness: the unit cube as frustum and the box `[1, 2] × [0, 1] × [0, 1]`. -/
theorem cullBox_eq_naive_witness :
    ((1 : ℚ) ≤ 2 ∧ (0 : ℚ) ≤ 1) ∧
    ((∀ i : Fin 6,
      Frustum.cullBoxCorner (unitBoxFrustum._planes i).normal ⟨⟨1, 0, 0⟩, ⟨2, 1, 1⟩⟩
        ∈ BoundingBox.corners ⟨⟨1, 0, 0⟩, ⟨2, 1, 1⟩⟩ ∧
      ∀ c ∈ BoundingBox.corners ⟨⟨1, 0, 0⟩, ⟨2, 1, 1⟩⟩,
        (unitBoxFrustum._planes i).distToPoint
            (Frustum.cullBoxCorner (unitBoxFrustum._planes i).normal ⟨⟨1, 0, 0⟩, ⟨2, 1, 1⟩⟩)
          ≤ (unitBoxFrustum._planes i).distToPoint c) ∧
    (unitBoxFrustum.cullBox ⟨⟨1, 0, 0⟩, ⟨2, 1, 1⟩⟩ = true ↔
      ∃ i : Fin 6, ∀ c ∈ BoundingBox.corners ⟨⟨1, 0, 0⟩, ⟨2, 1, 1⟩⟩,
        (unitBoxFrustum._planes i).distToPoint c > 0) ∧
    unitBoxFrustum.cullBox ⟨⟨1, 0, 0⟩, ⟨2, 1, 1⟩⟩
      = unitBoxFrustum.cullBoxNaive ⟨⟨1, 0, 0⟩, ⟨2, 1, 1⟩⟩) :=
  ⟨by norm_num,
   cullBox_eq_naive unitBoxFrustum ⟨⟨1, 0, 0⟩, ⟨2, 1, 1⟩⟩
     (by norm_num) (by norm_num) (by norm_num)⟩

/-! ## Render device: verified properties -/

/-- C1, the code at the failing inputs: an update past the end of a static
buffer is not rejected.  With `ASSERT` compiled out, `updateBufferData` on a
16-byte static buffer with `offset = 8`, `size = 16` issues `UpdateSubresource`
for the byte range `[8, 24)`.  With `offset = 4294967295`, `size = 2` the
`uint32` sum wraps to `1`, so the assertion holds in every build and the write
is issued both for the static buffer (`UpdateSubresource`) and, whenever the
mapped row pitch is at least `1`, for a dynamic buffer (`memcpy` at offset
`4294967295`). -/
theorem updateBufferData_out_of_bounds_writes :
    RenderDevice.updateBufferData false staticBufferDevice none 1 8 16 [0xAA]
      = .ok [D3DCall.UpdateSubresource (some 7) 0 (some ⟨8, 0, 0, 24, 1, 1⟩) [0xAA] 0] ∧
    (∀ debugAsserts : Bool,
      RenderDevice.updateBufferData debugAsserts staticBufferDevice none 1 4294967295 2 [0xAA]
        = .ok [D3DCall.UpdateSubresource (some 7) 0 (some ⟨4294967295, 0, 0, 1, 1, 1⟩)
            [0xAA] 0]) ∧
    (∀ debugAsserts : Bool,
      RenderDevice.updateBufferData debugAsserts dynamicBufferDevice (some 16) 1 4294967295 2
          [0xAA]
        = .ok [D3DCall.Map 7, D3DCall.memcpy 7 4294967295 2 [0xAA], D3DCall.Unmap 7]) := by
  refine ⟨rfl, ?_, ?_⟩ <;> intro d <;> cases d <;> rfl

/-- C2, the code at the failing input: after the pixels `[1, 2, 3, 4]` have been
uploaded to a 1 × 1 RGBA8 texture (one `UpdateSubresource` call), `getTextureData`
returns `true` and leaves the buffer `[0, 0, 0, 0]` as it was, so the buffer
does not hold the uploaded bytes. -/
theorem getTextureData_returns_true_without_data :
    RenderDevice.uploadTextureData rgba8TextureDevice 1 0 0 [1, 2, 3, 4]
      = .ok [D3DCall.UpdateSubresource (some 9) 0 none [1, 2, 3, 4] 4] ∧
    RenderDevice.getTextureData rgba8TextureDevice 1 0 0 [0, 0, 0, 0]
      = .ok (true, [0, 0, 0, 0]) ∧
    ([0, 0, 0, 0] : List Nat) ≠ [1, 2, 3, 4] := by
  exact ⟨rfl, rfl, by decide⟩

/-- C9: for two sampler-state words that agree on the bits of
`RDISamplerStateMask`, `getSamplerState(s1)` followed by `getSamplerState(s2)`
returns the same state object both times.  If the cache slot was occupied, that
object is the cached one and `CreateSamplerState` is not called; if the slot was
empty and the driver creation succeeds, the object is the created one and
`CreateSamplerState` is called exactly once over the two requests.  The two
results also agree whenever the second attempt fails like the first. -/
theorem getSamplerState_same_object (k : RDIConsts) (dev : RenderDevice)
    (created1 created2 : Option Nat) (s1 s2 : Nat)
    (hs : s1 &&& k.RDISamplerStateMask = s2 &&& k.RDISamplerStateMask) :
    (∀ obj, dev._samplerStates (s1 &&& k.RDISamplerStateMask) = some obj →
      (RenderDevice.getSamplerState k dev created1 s1).2.1 = some obj ∧
      (RenderDevice.getSamplerState k
        (RenderDevice.getSamplerState k dev created1 s1).1 created2 s2).2.1 = some obj ∧
      ((RenderDevice.getSamplerState k dev created1 s1).2.2 ++
        (RenderDevice.getSamplerState k
          (RenderDevice.getSamplerState k dev created1 s1).1 created2 s2).2.2).countP
        D3DCall.isCreateSamplerState = 0) ∧
    (dev._samplerStates (s1 &&& k.RDISamplerStateMask) = none →
      ∀ obj, created1 = some obj →
      (RenderDevice.getSamplerState k dev created1 s1).2.1 = some obj ∧
      (RenderDevice.getSamplerState k
        (RenderDevice.getSamplerState k dev created1 s1).1 created2 s2).2.1 = some obj ∧
      ((RenderDevice.getSamplerState k dev created1 s1).2.2 ++
        (RenderDevice.getSamplerState k
          (RenderDevice.getSamplerState k dev created1 s1).1 created2 s2).2.2).countP
        D3DCall.isCreateSamplerState = 1) ∧
    (dev._samplerStates (s1 &&& k.RDISamplerStateMask) = none →
      created1 = none → created2 = none →
      (RenderDevice.getSamplerState k dev created1 s1).2.1 = none ∧
      (RenderDevice.getSamplerState k
        (RenderDevice.getSamplerState k dev created1 s1).1 created2 s2).2.1 = none) := by
  refine ⟨?_, ?_, ?_⟩
  · intro obj h
    have e1 := getSamplerState_hit k dev created1 s1 obj h
    rw [e1]
    have e2 := getSamplerState_hit k dev created2 s2 obj (hs ▸ h)
    rw [e2]
    simp
  · intro h obj ho
    obtain ⟨m1, m2, m3⟩ := getSamplerState_miss k dev created1 s1 h
    have hslot : (RenderDevice.getSamplerState k dev created1 s1).1._samplerStates
        (s2 &&& k.RDISamplerStateMask) = some obj := by rw [← hs, m1, ho]
    have e2 := getSamplerState_hit k (RenderDevice.getSamplerState k dev created1 s1).1
      created2 s2 obj hslot
    rw [e2]
    refine ⟨by rw [m2, ho], rfl, ?_⟩
    rw [List.countP_append, m3]
    simp
  · intro h h1 h2
    obtain ⟨m1, m2, -⟩ := getSamplerState_miss k dev created1 s1 h
    have hslot : (RenderDevice.getSamplerState k dev created1 s1).1._samplerStates
        (s2 &&& k.RDISamplerStateMask) = none := by rw [← hs, m1, h1]
    obtain ⟨-, n2, -⟩ := getSamplerState_miss k
      (RenderDevice.getSamplerState k dev created1 s1).1 created2 s2 hslot
    exact ⟨by rw [m2, h1], by rw [n2, h2]⟩

/-- C9, witness: on a fresh device the words `0x2005` and `0x0005` differ only
in a bit outside the mask `0x1fff`; the driver hands out object 42. -/
theorem getSamplerState_same_object_witness :
    (0x2005 &&& sampleConsts.RDISamplerStateMask = 0x0005 &&& sampleConsts.RDISamplerStateMask ∧
      freshDevice._samplerStates (0x2005 &&& sampleConsts.RDISamplerStateMask) = none) ∧
    ((RenderDevice.getSamplerState sampleConsts freshDevice (some 42) 0x2005).2.1 = some 42 ∧
      (RenderDevice.getSamplerState sampleConsts
        (RenderDevice.getSamplerState sampleConsts freshDevice (some 42) 0x2005).1
        (some 43) 0x0005).2.1 = some 42 ∧
      ((RenderDevice.getSamplerState sampleConsts freshDevice (some 42) 0x2005).2.2 ++
        (RenderDevice.getSamplerState sampleConsts
          (RenderDevice.getSamplerState sampleConsts freshDevice (some 42) 0x2005).1
          (some 43) 0x0005).2.2).countP D3DCall.isCreateSamplerState = 1) :=
  ⟨⟨by decide, rfl⟩,
   (getSamplerState_same_object sampleConsts freshDevice (some 42) (some 43) 0x2005 0x0005
     (by decide)).2.1 rfl 42 rfl⟩

/-- C10: `applyRenderStates` issues no driver call, neither a state-object
creation nor a state binding, for a category among raster, blend and
depth-stencil whose pending hash equals its current hash; after it returns the
current hash equals the pending hash for all three categories; and a second
consecutive `applyRenderStates` issues no driver call and leaves the device as
it is. -/
theorem applyRenderStates_lazy_idempotent (k : RDIConsts) (dev : RenderDevice)
    (createdRS createdBS createdDS createdRS2 createdBS2 createdDS2 : Option Nat) :
    ((dev._newRasterState.hash = dev._curRasterState.hash →
        ∀ c ∈ (RenderDevice.applyRenderStates k dev createdRS createdBS createdDS).2,
          c.isRaster = false) ∧
      (dev._newBlendState.hash = dev._curBlendState.hash →
        ∀ c ∈ (RenderDevice.applyRenderStates k dev createdRS createdBS createdDS).2,
          c.isBlend = false) ∧
      (dev._newDepthStencilState.hash = dev._curDepthStencilState.hash →
        ∀ c ∈ (RenderDevice.applyRenderStates k dev createdRS createdBS createdDS).2,
          c.isDepthStencil = false)) ∧
    ((RenderDevice.applyRenderStates k dev createdRS createdBS createdDS).1._curRasterState.hash
        = (RenderDevice.applyRenderStates k dev createdRS createdBS
            createdDS).1._newRasterState.hash ∧
      (RenderDevice.applyRenderStates k dev createdRS createdBS createdDS).1._curBlendState.hash
        = (RenderDevice.applyRenderStates k dev createdRS createdBS
            createdDS).1._newBlendState.hash ∧
      (RenderDevice.applyRenderStates k dev createdRS createdBS
          createdDS).1._curDepthStencilState.hash
        = (RenderDevice.applyRenderStates k dev createdRS createdBS
            createdDS).1._newDepthStencilState.hash) ∧
    RenderDevice.applyRenderStates k
        (RenderDevice.applyRenderStates k dev createdRS createdBS createdDS).1
        createdRS2 createdBS2 createdDS2
      = ((RenderDevice.applyRenderStates k dev createdRS createdBS createdDS).1, []) := by
  obtain ⟨⟨h1, h2⟩, ⟨h3, h4⟩, ⟨h5, h6⟩⟩ :=
    applyRenderStates_hashes k dev createdRS createdBS createdDS
  have hr : (RenderDevice.applyRenderStates k dev createdRS createdBS
      createdDS).1._newRasterState.hash
      = (RenderDevice.applyRenderStates k dev createdRS createdBS
          createdDS).1._curRasterState.hash := by rw [h1, h2]
  have hb : (RenderDevice.applyRenderStates k dev createdRS createdBS
      createdDS).1._newBlendState.hash
      = (RenderDevice.applyRenderStates k dev createdRS createdBS
          createdDS).1._curBlendState.hash := by rw [h3, h4]
  have hd : (RenderDevice.applyRenderStates k dev createdRS createdBS
      createdDS).1._newDepthStencilState.hash
      = (RenderDevice.applyRenderStates k dev createdRS createdBS
          createdDS).1._curDepthStencilState.hash := by rw [h5, h6]
  exact ⟨applyRenderStates_silent k dev createdRS createdBS createdDS,
    ⟨hr.symm, hb.symm, hd.symm⟩,
    applyRenderStates_noop k _ createdRS2 createdBS2 createdDS2 hr hb hd⟩

/-- C10, witness: on a fresh device with only a new blend state pending, the
call issues two calls, `CreateBlendState` and `OMSetBlendState`, none of the
raster or depth-stencil category, and a second call issues none. -/
theorem applyRenderStates_lazy_idempotent_witness :
    (pendingBlendDevice._newRasterState.hash = pendingBlendDevice._curRasterState.hash ∧
      pendingBlendDevice._newDepthStencilState.hash
        = pendingBlendDevice._curDepthStencilState.hash) ∧
    (RenderDevice.applyRenderStates sampleConsts pendingBlendDevice
        (some 4) (some 5) (some 6)).2.length = 2 ∧
    (∀ c ∈ (RenderDevice.applyRenderStates sampleConsts pendingBlendDevice
        (some 4) (some 5) (some 6)).2, c.isRaster = false) ∧
    (∀ c ∈ (RenderDevice.applyRenderStates sampleConsts pendingBlendDevice
        (some 4) (some 5) (some 6)).2, c.isDepthStencil = false) ∧
    RenderDevice.applyRenderStates sampleConsts
        (RenderDevice.applyRenderStates sampleConsts pendingBlendDevice
          (some 4) (some 5) (some 6)).1 (some 7) (some 8) (some 9)
      = ((RenderDevice.applyRenderStates sampleConsts pendingBlendDevice
          (some 4) (some 5) (some 6)).1, []) :=
  ⟨⟨rfl, rfl⟩, rfl,
   (applyRenderStates_lazy_idempotent sampleConsts pendingBlendDevice
      (some 4) (some 5) (some 6) (some 7) (some 8) (some 9)).1.1 rfl,
   (applyRenderStates_lazy_idempotent sampleConsts pendingBlendDevice
      (some 4) (some 5) (some 6) (some 7) (some 8) (some 9)).1.2.2 rfl,
   (applyRenderStates_lazy_idempotent sampleConsts pendingBlendDevice
      (some 4) (some 5) (some 6) (some 7) (some 8) (some 9)).2.2⟩

/-- C11: for a render target created by `createRenderBuffer` with `n` color
attachments, `n <= MaxColorAttachmentCount`, `getRenderBufferTex(rb, i)` returns
0, without failing, for every index `i >= n` other than the depth index 32. -/
theorem getRenderBufferTex_past_attachments (k : RDIConsts) (dev dev1 : RenderDevice)
    (width height : Nat) (format : TextureFormats) (depth : Bool) (n samples rb : Nat)
    (calls : List D3DCall) (hwf : dev._rendBufs.WF) (hn : n ≤ k.MaxColorAttachmentCount)
    (hc : RenderDevice.createRenderBuffer k dev width height format depth n samples
      = .ok (dev1, rb, calls))
    (hrb : rb ≠ 0) (i : Nat) (_hi : n ≤ i) (_h32 : i ≠ 32) :
    RenderDevice.getRenderBufferTex k dev1 rb i = .ok 0 := by
  by_cases h1 : (format = .RGBA16F ∨ format = .RGBA32F) ∧ dev._caps.texFloat = false
  · unfold RenderDevice.createRenderBuffer at hc
    rw [if_pos h1] at hc
    simp only [Except.ok.injEq, Prod.mk.injEq] at hc
    exact absurd hc.2.1.symm hrb
  · rw [createRenderBuffer_ok k dev width height format depth n samples h1 (by omega)] at hc
    simp only [Except.ok.injEq, Prod.mk.injEq] at hc
    obtain ⟨hd, hh, -⟩ := hc
    subst hd hh
    unfold RenderDevice.getRenderBufferTex
    simp only [RDIObjects.getRef_add _ _ hwf]
    split_ifs <;> rfl

/-- C11, witness: on a fresh device a target with 2 color attachments gets
handle 1, and index 2 reads 0. -/
theorem getRenderBufferTex_past_attachments_witness :
    ∃ dev1 rb calls,
      RenderDevice.createRenderBuffer sampleConsts freshDevice 64 64 .RGBA8 true 2 0
        = .ok (dev1, rb, calls) ∧ rb ≠ 0 ∧
      RenderDevice.getRenderBufferTex sampleConsts dev1 rb 2 = .ok 0 :=
  ⟨_, 1, _, rfl, by decide,
    getRenderBufferTex_past_attachments sampleConsts freshDevice _ 64 64 .RGBA8 true 2 0 1 _
      (fun i hi => absurd hi (List.not_mem_nil i)) (by decide) rfl (by decide) 2
      (by decide) (by decide)⟩

/-- C12: `destroyBuffer(0)`, `destroyTexture(0)` and `destroyShader(0)` return
at once: the device is unchanged in every field and no call is issued. -/
theorem destroy_null_handle_noop (k : RDIConsts) (dev : RenderDevice) :
    RenderDevice.destroyBuffer dev 0 = .ok (dev, []) ∧
    RenderDevice.destroyTexture dev 0 = .ok (dev, []) ∧
    RenderDevice.destroyShader k dev 0 = .ok (dev, []) :=
  ⟨rfl, rfl, rfl⟩

/-- C13: in every state reached from a device without registered layouts by
`registerVertexLayout` calls, the number of registered layouts is at most
`MaxNumVertexLayouts`; a call made when the count equals the maximum returns 0
and leaves the device unchanged; every other call returns the old count plus
one, a non-zero handle `h`, raises the count by one and stores the given
attributes, in order, as layout `h - 1`, leaving the other layouts as they
were. -/
theorem registerVertexLayout_bounded (k : RDIConsts) (dev0 : RenderDevice)
    (h0 : dev0._numVertexLayouts = 0) (calls : List (List VertexLayoutAttrib))
    (attribs : List VertexLayoutAttrib) :
    (RenderDevice.registerAll k dev0 calls)._numVertexLayouts ≤ k.MaxNumVertexLayouts ∧
    ((RenderDevice.registerAll k dev0 calls)._numVertexLayouts = k.MaxNumVertexLayouts →
      RenderDevice.registerVertexLayout k (RenderDevice.registerAll k dev0 calls) attribs
        = (RenderDevice.registerAll k dev0 calls, 0)) ∧
    ((RenderDevice.registerAll k dev0 calls)._numVertexLayouts ≠ k.MaxNumVertexLayouts →
      (RenderDevice.registerVertexLayout k (RenderDevice.registerAll k dev0 calls) attribs).2
        = (RenderDevice.registerAll k dev0 calls)._numVertexLayouts + 1 ∧
      (RenderDevice.registerVertexLayout k (RenderDevice.registerAll k dev0 calls) attribs).2
        ≠ 0 ∧
      (RenderDevice.registerVertexLayout k (RenderDevice.registerAll k dev0 calls)
          attribs).1._numVertexLayouts
        = (RenderDevice.registerAll k dev0 calls)._numVertexLayouts + 1 ∧
      ((RenderDevice.registerVertexLayout k (RenderDevice.registerAll k dev0 calls)
          attribs).1._vertexLayouts
        ((RenderDevice.registerVertexLayout k (RenderDevice.registerAll k dev0 calls)
          attribs).2 - 1)).numAttribs = attribs.length ∧
      (∀ (i : Nat) (hi : i < attribs.length),
        ((RenderDevice.registerVertexLayout k (RenderDevice.registerAll k dev0 calls)
            attribs).1._vertexLayouts
          ((RenderDevice.registerVertexLayout k (RenderDevice.registerAll k dev0 calls)
            attribs).2 - 1)).attribs i = attribs.get ⟨i, hi⟩) ∧
      (∀ j, j ≠ (RenderDevice.registerAll k dev0 calls)._numVertexLayouts →
        (RenderDevice.registerVertexLayout k (RenderDevice.registerAll k dev0 calls)
            attribs).1._vertexLayouts j
          = (RenderDevice.registerAll k dev0 calls)._vertexLayouts j)) := by
  refine ⟨registerAll_count_le k calls dev0 (by omega), ?_, ?_⟩
  · intro hmax
    unfold RenderDevice.registerVertexLayout
    rw [if_pos hmax]
  · intro hmax
    unfold RenderDevice.registerVertexLayout
    rw [if_neg hmax]
    refine ⟨rfl, by simp, rfl, by simp, ?_, ?_⟩
    · intro i hi
      simp [hi, List.getD_eq_getElem?_getD, List.getElem?_eq_getElem hi]
    · intro j hj
      simp [Function.update_noteq hj]

/-- C13, witness: on a fresh device one layout is registered, then a second
one. -/
theorem registerVertexLayout_bounded_witness :
    freshDevice._numVertexLayouts = 0 ∧
    (RenderDevice.registerAll sampleConsts freshDevice [positionLayout])._numVertexLayouts
      ≤ sampleConsts.MaxNumVertexLayouts ∧
    ((RenderDevice.registerAll sampleConsts freshDevice [positionLayout])._numVertexLayouts
        ≠ sampleConsts.MaxNumVertexLayouts →
      (RenderDevice.registerVertexLayout sampleConsts
        (RenderDevice.registerAll sampleConsts freshDevice [positionLayout]) positionLayout).2
        = (RenderDevice.registerAll sampleConsts freshDevice
            [positionLayout])._numVertexLayouts + 1) :=
  ⟨rfl,
   (registerVertexLayout_bounded sampleConsts freshDevice rfl [positionLayout]
      positionLayout).1,
   fun h => ((registerVertexLayout_bounded sampleConsts freshDevice rfl [positionLayout]
      positionLayout).2.2 h).1⟩

/-- C15: `createRenderBuffer` returns 0 and leaves the device, with its
render-target table and its texture table, unchanged when the format is RGBA16F
or RGBA32F while `texFloat` is false, or when `numColBufs` exceeds
`MaxColorAttachmentCount`.  In every other case it returns a non-zero handle
whose slot was free before the call and which now names a record with the
requested width and height; every other handle names the record it named
before, and the texture table is unchanged. -/
theorem createRenderBuffer_spec (k : RDIConsts) (dev : RenderDevice) (width height : Nat)
    (format : TextureFormats) (depth : Bool) (numColBufs samples : Nat)
    (hwf : dev._rendBufs.WF) :
    (((format = .RGBA16F ∨ format = .RGBA32F) ∧ dev._caps.texFloat = false) ∨
        numColBufs > k.MaxColorAttachmentCount →
      RenderDevice.createRenderBuffer k dev width height format depth numColBufs samples
        = .ok (dev, 0, [])) ∧
    (¬ (((format = .RGBA16F ∨ format = .RGBA32F) ∧ dev._caps.texFloat = false) ∨
        numColBufs > k.MaxColorAttachmentCount) →
      ∃ dev1 rb calls,
        RenderDevice.createRenderBuffer k dev width height format depth numColBufs samples
          = .ok (dev1, rb, calls) ∧
        rb ≠ 0 ∧
        (rb - 1 ∈ dev._rendBufs._freeList ∨ dev._rendBufs.getRef rb = none) ∧
        (∃ r, dev1._rendBufs.getRef rb = some r ∧ r.width = width ∧ r.height = height) ∧
        (∀ handle, handle ≠ rb → dev1._rendBufs.getRef handle = dev._rendBufs.getRef handle) ∧
        dev1._textures = dev._textures) := by
  constructor
  · rintro (h | h)
    · unfold RenderDevice.createRenderBuffer
      rw [if_pos h]
    · unfold RenderDevice.createRenderBuffer
      split_ifs
      · rfl
      · rfl
  · intro h
    push_neg at h
    have h1 : ¬ ((format = .RGBA16F ∨ format = .RGBA32F) ∧ dev._caps.texFloat = false) := by
      intro hc
      exact h.1 hc.1 hc.2
    refine ⟨_, _, _, createRenderBuffer_ok k dev width height format depth numColBufs samples
      h1 (by omega), RDIObjects.add_ne_zero _ _, RDIObjects.add_fresh _ _,
      ⟨_, RDIObjects.getRef_add _ _ hwf, rfl, rfl⟩, ?_, rfl⟩
    intro handle hne
    exact RDIObjects.getRef_add_of_ne _ _ handle hne

/-- C15, witness: on a fresh device with float textures disabled a float format
is refused, and an RGBA8 target of 64 × 32 gets handle 1. -/
theorem createRenderBuffer_spec_witness :
    (RenderDevice.createRenderBuffer sampleConsts
        { freshDevice with _caps := ⟨false, true, true⟩ } 64 32 .RGBA16F true 1 0
      = .ok ({ freshDevice with _caps := ⟨false, true, true⟩ }, 0, [])) ∧
    (∃ dev1 rb calls,
      RenderDevice.createRenderBuffer sampleConsts freshDevice 64 32 .RGBA8 true 1 0
        = .ok (dev1, rb, calls) ∧ rb ≠ 0 ∧
      (rb - 1 ∈ freshDevice._rendBufs._freeList ∨ freshDevice._rendBufs.getRef rb = none) ∧
      (∃ r, dev1._rendBufs.getRef rb = some r ∧ r.width = 64 ∧ r.height = 32) ∧
      (∀ handle, handle ≠ rb →
        dev1._rendBufs.getRef handle = freshDevice._rendBufs.getRef handle) ∧
      dev1._textures = freshDevice._textures) :=
  ⟨(createRenderBuffer_spec sampleConsts { freshDevice with _caps := ⟨false, true, true⟩ }
      64 32 .RGBA16F true 1 0 (fun i hi => absurd hi (List.not_mem_nil i))).1
      (Or.inl ⟨Or.inl rfl, rfl⟩),
   (createRenderBuffer_spec sampleConsts freshDevice 64 32 .RGBA8 true 1 0
      (fun i hi => absurd hi (List.not_mem_nil i))).2 (by decide)⟩

/-- C20: `createTexture` increases `_textureMem` by exactly the `memSize` stored
in the record it adds; `destroyTexture` of a live non-zero handle decreases
`_textureMem` by the `memSize` of that record and removes the record (the slot
holds the default record and heads the free list); so `createTexture` followed
by `destroyTexture` of the returned handle restores `_textureMem`.  All sums are
taken modulo `2 ^ 32`. -/
theorem textureMem_accounting (debugAsserts sRGBLinearization : Bool) (ftoi_r : ℚ → Int)
    (dev : RenderDevice) (createdTex createdView : Option Nat) (type : TextureTypes)
    (width height depth : Int) (format : TextureFormats) (hasMips genMips sRGB : Bool)
    (hassert : debugAsserts = false ∨ depth > 0) (hwf : dev._textures.WF)
    (hmem : dev._textureMem < 2 ^ 32) :
    (∃ dev1 texObj calls tex,
      RenderDevice.createTexture debugAsserts sRGBLinearization ftoi_r dev createdTex
        createdView type width height depth format hasMips genMips sRGB
        = .ok (dev1, texObj, calls) ∧
      texObj ≠ 0 ∧
      dev1._textures.getRef texObj = some tex ∧
      dev1._textureMem = (dev._textureMem + tex.memSize) % 2 ^ 32 ∧
      ∃ dev2 calls2,
        RenderDevice.destroyTexture dev1 texObj = .ok (dev2, calls2) ∧
        dev2._textureMem = dev._textureMem) ∧
    (∀ (d : RenderDevice) (texObj : Nat) (tex : RDITexture),
      texObj ≠ 0 → d._textures.getRef texObj = some tex →
      ∃ d2 calls2,
        RenderDevice.destroyTexture d texObj = .ok (d2, calls2) ∧
        d2._textureMem = (d._textureMem + 2 ^ 32 - tex.memSize % 2 ^ 32) % 2 ^ 32 ∧
        d2._textures.getRef texObj = some RDITexture.empty ∧
        d2._textures._freeList = (texObj - 1) :: d._textures._freeList) := by
  constructor
  · obtain ⟨dev1, texObj, calls, tex, hc, h0, hget, hmem1⟩ :=
      createTexture_ok debugAsserts sRGBLinearization ftoi_r dev createdTex createdView type
        width height depth format hasMips genMips sRGB hassert hwf
    refine ⟨dev1, texObj, calls, tex, hc, h0, hget, hmem1, _, _,
      destroyTexture_live dev1 texObj tex h0 hget, ?_⟩
    show subUInt32 dev1._textureMem tex.memSize = dev._textureMem
    rw [hmem1]
    exact subUInt32_addUInt32 _ _ hmem
  · intro d texObj tex h0 hget
    exact ⟨_, _, destroyTexture_live d texObj tex h0 hget, rfl,
      (RDIObjects.getRef_remove _ _ tex texObj hget).1, rfl⟩

/-- C20, witness: on a fresh device a 4 × 4 RGBA8 cube map with mipmaps is
created and destroyed again. -/
theorem textureMem_accounting_witness :
    ((4 : Int) > 0 ∧ freshDevice._textureMem < 2 ^ 32) ∧
    ∃ dev1 texObj calls tex,
      RenderDevice.createTexture true true roundQ freshDevice (some 9) (some 10) .TexCube
        4 4 1 .RGBA8 true false false = .ok (dev1, texObj, calls) ∧
      texObj ≠ 0 ∧
      dev1._textures.getRef texObj = some tex ∧
      dev1._textureMem = (freshDevice._textureMem + tex.memSize) % 2 ^ 32 ∧
      ∃ dev2 calls2,
        RenderDevice.destroyTexture dev1 texObj = .ok (dev2, calls2) ∧
        dev2._textureMem = freshDevice._textureMem :=
  ⟨⟨by decide, by decide⟩,
   (textureMem_accounting true true roundQ freshDevice (some 9) (some 10) .TexCube 4 4 1
     .RGBA8 true false false (Or.inr (by decide))
     (fun i hi => absurd hi (List.not_mem_nil i)) (by decide)).1⟩

/-- C14 (as amended): if the vertex stage or the pixel stage fails to compile or
fails to be created, `createShader` returns 0 and adds no record to the shader
table (the device changes in its shader log only).  The shader log is non-empty
after the call except when the compile call at which `createShader` stops has
failed without handing back an error blob; in that case the log is empty. -/
theorem createShader_failure (dev : RenderDevice) (vs ps : StageAnswers)
    (vertexShaderSrc fragmentShaderSrc : CString)
    (hfail : vs.compileFailed = true ∨ vs.created = none ∨ ps.compileFailed = true ∨
      ps.created = none) :
    ∃ dev1 calls,
      RenderDevice.createShader dev vs ps vertexShaderSrc fragmentShaderSrc
        = .ok (dev1, 0, calls) ∧
      dev1._shaders = dev._shaders ∧
      (dev1._shaderLog ≠ [] ↔
        ¬ ((vs.compileFailed = true ∧ vs.errorBlob = none) ∨
          (vs.compileFailed = false ∧ vs.errorBlob = none ∧ vs.created ≠ none ∧
            ps.compileFailed = true ∧ ps.errorBlob = none))) := by
  obtain ⟨log, calls, hc, hlog⟩ :=
    createShader_failure_aux dev vs ps vertexShaderSrc fragmentShaderSrc hfail
  exact ⟨_, calls, hc, rfl, not_congr hlog⟩

/-- C14, witness: the pixel stage fails to compile with the error text `X3000`;
the log is non-empty. -/
theorem createShader_failure_witness :
    stageFailsWithMessage.compileFailed = true ∧
    ∃ dev1 calls,
      RenderDevice.createShader freshDevice (stageCreated 20 positionReflection)
        stageFailsWithMessage [] [] = .ok (dev1, 0, calls) ∧
      dev1._shaders = freshDevice._shaders ∧
      (dev1._shaderLog ≠ [] ↔
        ¬ (((stageCreated 20 positionReflection).compileFailed = true ∧
            (stageCreated 20 positionReflection).errorBlob = none) ∨
          ((stageCreated 20 positionReflection).compileFailed = false ∧
            (stageCreated 20 positionReflection).errorBlob = none ∧
            (stageCreated 20 positionReflection).created ≠ none ∧
            stageFailsWithMessage.compileFailed = true ∧
            stageFailsWithMessage.errorBlob = none))) :=
  ⟨rfl, createShader_failure freshDevice (stageCreated 20 positionReflection)
    stageFailsWithMessage [] [] (Or.inr (Or.inr (Or.inl rfl)))⟩

/-- C14, counterexample to the claim as stated: when `D3DCompile` fails for the
vertex stage without an error blob, `createShader` returns 0 and the shader log
is empty after the call. -/
theorem createShader_silent_failure_counterexample :
    stageFailsSilently.compileFailed = true ∧
    ∃ dev1 calls,
      RenderDevice.createShader freshDevice stageFailsSilently
        (stageCreated 21 positionReflection) [] [] = .ok (dev1, 0, calls) ∧
      dev1._shaderLog = [] :=
  ⟨rfl, _, _, rfl, rfl⟩

/-- C17: when the vertex stage of a shader is reflected, for each registered
vertex layout `i` an input-layout object is requested for the pair (shader, `i`)
if and only if every input parameter of the shader (semantic name, semantic
index) is the (semantic name, semantic index) that the table `attribRemaps`
assigns to some attribute of layout `i`; otherwise `shader.inputLayouts[i]` is
left as it was, null. -/
theorem parseShaderBlob_input_layouts (dev : RenderDevice) (shaderId : Nat)
    (a : StageAnswers) (shader : RDIShader) (h0 : shaderId ≠ 0)
    (hs : dev._shaders.getRef shaderId = some shader) :
    ∃ dev1 calls shader1,
      RenderDevice.parseShaderBlob dev shaderId a .Vertex = .ok (dev1, calls) ∧
      dev1._shaders.getRef shaderId = some shader1 ∧
      ∀ i, i < dev._numVertexLayouts →
        ((∃ layout, D3DCall.CreateInputLayout layout i ∈ calls) ↔
          layoutCovers (dev._vertexLayouts i) a.reflection.InputParameters) ∧
        (¬ layoutCovers (dev._vertexLayouts i) a.reflection.InputParameters →
          shader1.inputLayouts i = shader.inputLayouts i) := by
  obtain ⟨c1, c2, c3⟩ := createInputLayouts_spec dev a (List.range dev._numVertexLayouts)
    shader.inputLayouts
  obtain ⟨g1, g2, g3⟩ := parseGlobals_frame dev
    { shader with
      inputLayouts := (RenderDevice.createInputLayouts dev a
        (List.range dev._numVertexLayouts) shader.inputLayouts).1 } a .Vertex
  unfold RenderDevice.parseShaderBlob
  rw [if_neg h0, hs]
  simp only [if_true]
  refine ⟨_, _, _, rfl, RDIObjects.getRef_setRef _ shaderId shader _ (by rw [g1]; exact hs), ?_⟩
  intro i hi
  rw [← allParametersFound_iff]
  constructor
  · constructor
    · rintro ⟨layout, hmem⟩
      simp only [List.mem_append, List.mem_singleton, List.singleton_append,
        List.mem_cons] at hmem
      rcases hmem with (hmem | hmem) | hmem
      · exact absurd hmem (by simp)
      · obtain ⟨j, _, hf, he⟩ := c1 _ hmem
        simp only [D3DCall.CreateInputLayout.injEq] at he
        rw [he.2]
        exact hf
      · exact absurd rfl (g3 _ hmem layout i)
    · intro hf
      refine ⟨RenderDevice.layoutElements (dev._vertexLayouts i), ?_⟩
      simp only [List.mem_append, List.mem_singleton, List.singleton_append, List.mem_cons]
      exact Or.inl (Or.inr (c2 i (List.mem_range.mpr hi) hf))
  · intro hf
    rw [bindResources_inputLayouts, g2]
    exact c3 i (by simpa using hf)

/-- C17, witness: for the layout with the one attribute `vertPos`, a vertex stage
with the one input `POSITION0` gets an input layout, requested with the element
`POSITION0`, and a vertex stage that also reads `NORMAL0` gets none. -/
theorem parseShaderBlob_input_layouts_witness :
    ((1 : Nat) ≠ 0 ∧ (0 : Nat) < shaderDevice._numVertexLayouts) ∧
    (Except.map Prod.snd
        (RenderDevice.parseShaderBlob shaderDevice 1 (stageCreated 20 positionReflection)
          .Vertex)
      = .ok [D3DCall.D3DReflect .Vertex,
          D3DCall.CreateInputLayout
            [⟨"POSITION".toList, 0, "DXGI_FORMAT_R32G32B32_FLOAT", 0, 0⟩] 0]) ∧
    (Except.map Prod.snd
        (RenderDevice.parseShaderBlob shaderDevice 1 (stageCreated 20 positionNormalReflection)
          .Vertex)
      = .ok [D3DCall.D3DReflect .Vertex]) ∧
    ∃ dev1 calls shader1,
      RenderDevice.parseShaderBlob shaderDevice 1 (stageCreated 20 positionNormalReflection)
        .Vertex = .ok (dev1, calls) ∧
      dev1._shaders.getRef 1 = some shader1 ∧
      ∀ i, i < shaderDevice._numVertexLayouts →
        ((∃ layout, D3DCall.CreateInputLayout layout i ∈ calls) ↔
          layoutCovers (shaderDevice._vertexLayouts i)
            (stageCreated 20 positionNormalReflection).reflection.InputParameters) ∧
        (¬ layoutCovers (shaderDevice._vertexLayouts i)
            (stageCreated 20 positionNormalReflection).reflection.InputParameters →
          shader1.inputLayouts i
            = ({ RDIShader.empty with vertexShader := some 20, pixelShader := some 21 } :
                RDIShader).inputLayouts i) :=
  ⟨⟨by decide, by decide⟩, rfl, rfl,
   parseShaderBlob_input_layouts shaderDevice 1 (stageCreated 20 positionNormalReflection)
     { RDIShader.empty with vertexShader := some 20, pixelShader := some 21 } (by decide) rfl⟩

/-- C18, the code at the failing input: on a fresh device `setIndexBuffer(0)`
marks the index-buffer category dirty while the requested buffer equals the
current one.  `commitStates`, both with the filter `PM_INDEXBUF` and with the
full filter, then returns `true`, issues no call and leaves the device as it
was, so the index-buffer bit is still set in the pending mask. -/
theorem commitStates_keeps_index_bit :
    (RenderDevice.setIndexBuffer sampleConsts freshDevice 0 57)._pendingMask
        &&& sampleConsts.PM_INDEXBUF ≠ 0 ∧
    RenderDevice.commitStates false sampleConsts
        (RenderDevice.setIndexBuffer sampleConsts freshDevice 0 57) noAnswers
        sampleConsts.PM_INDEXBUF
      = .ok (RenderDevice.setIndexBuffer sampleConsts freshDevice 0 57, true, []) ∧
    RenderDevice.commitStates false sampleConsts
        (RenderDevice.setIndexBuffer sampleConsts freshDevice 0 57) noAnswers 0xFFFFFFFF
      = .ok (RenderDevice.setIndexBuffer sampleConsts freshDevice 0 57, true, []) :=
  ⟨by decide, rfl, rfl⟩

/-- C19, counterexample to the claim as stated: with texture 5 requested for
texture unit 0, `setRenderBuffer(0)` makes 0 the current render target and
leaves texture unit 0 holding texture 5. -/
theorem setRenderBuffer_default_target_counterexample :
    ∃ dev1 calls,
      RenderDevice.setRenderBuffer false sampleConsts boundTextureDevice noAnswers 0
        = .ok (dev1, calls) ∧
      dev1._curRendBuf = 0 ∧ (dev1._texSlots 0).texObj = 5 :=
  ⟨_, _, rfl, rfl, rfl⟩


/-- C19, amended: after `setRenderBuffer(rbObj)` the current render target is
`rbObj`.  When `rbObj` is not 0 all 16 texture slots hold texture handle 0;
when `rbObj` is 0 the texture slots are as they were before the call. -/
theorem setRenderBuffer_unbinds_textures (debugAsserts : Bool) (k : RDIConsts)
    (dev dev1 : RenderDevice) (io : CommitAnswers) (rbObj : Nat) (calls : List D3DCall)
    (h : RenderDevice.setRenderBuffer debugAsserts k dev io rbObj = .ok (dev1, calls)) :
    dev1._curRendBuf = rbObj ∧
    (rbObj ≠ 0 → ∀ i, i < 16 → (dev1._texSlots i).texObj = 0) ∧
    (rbObj = 0 → dev1._texSlots = dev._texSlots) := by
  unfold RenderDevice.setRenderBuffer at h
  cases hr : (if dev._curRendBuf ≠ 0 then RenderDevice.resolveRenderBuffer dev dev._curRendBuf
      else .ok () : Except Fault Unit) with
  | error e => rw [hr] at h; exact absurd h (by simp)
  | ok u =>
    rw [hr] at h
    simp only at h
    by_cases h0 : rbObj = 0
    · rw [if_pos h0] at h
      simp only [Except.ok.injEq, Prod.mk.injEq] at h
      obtain ⟨rfl, _⟩ := h
      exact ⟨rfl, fun hne => absurd h0 hne, fun _ => rfl⟩
    · rw [if_neg h0] at h
      obtain ⟨u1, _, u3, _⟩ := unbindTextures_spec k (List.range 16)
        { dev with _curRendBuf := rbObj }
      cases hc : RenderDevice.commitStates debugAsserts k
          ((List.range 16).foldl (fun d i => RenderDevice.setTexture k d i 0 0)
            { dev with _curRendBuf := rbObj }) io k.PM_TEXTURES with
      | error e => rw [hc] at h; exact absurd h (by simp)
      | ok r =>
        obtain ⟨dev3, b3, calls3⟩ := r
        rw [hc] at h
        simp only at h
        obtain ⟨hs, _⟩ := commitStates_frame _ _ _ _ _ _ _ _ hc
        cases hrb : dev3._rendBufs.getRef rbObj with
        | none => rw [hrb] at h; exact absurd h (by simp)
        | some rb =>
          rw [hrb] at h
          simp only [Except.ok.injEq, Prod.mk.injEq] at h
          obtain ⟨rfl, _⟩ := h
          refine ⟨?_, ?_, fun he => absurd he h0⟩
          · show dev3._curRendBuf = rbObj
            rw [hs.curRendBuf, u3]
          · intro _ i hi
            show (dev3._texSlots i).texObj = 0
            rw [hs.texSlots, u1 i (List.mem_range.mpr hi)]

theorem setRenderBuffer_unbinds_textures_witness :
    ∃ dev1 calls,
      RenderDevice.setRenderBuffer false sampleConsts renderTargetDevice noAnswers 1
        = .ok (dev1, calls) ∧
      (renderTargetDevice._texSlots 0).texObj = 5 ∧
      dev1._curRendBuf = 1 ∧
      ((1 : Nat) ≠ 0 → ∀ i, i < 16 → (dev1._texSlots i).texObj = 0) ∧
      ((1 : Nat) = 0 → dev1._texSlots = renderTargetDevice._texSlots) :=
  ⟨_, _, rfl, rfl,
    setRenderBuffer_unbinds_textures false sampleConsts renderTargetDevice _ noAnswers 1 _ rfl⟩

/-- C16: `draw` and `drawIndexed` issue the driver draw command exactly when
the full `commitStates` they perform first returns `true`: a fault of
`commitStates` is passed on, and otherwise the calls issued are those of
`commitStates`, which hold no draw command, followed by the topology and the draw
command when the flag is `true` and by nothing when it is `false`.  When the
vertex-layout category is pending, the pending vertex layout is not 0 and
either no shader is bound or the bound shader has no input layout for that
layout, the flag is `false`, no draw command is issued, the vertex-layout bit
stays pending and `_curVertLayout` is unchanged.  The dirty bit of the vertex
layout is taken to share no bit with those of the other categories. -/
theorem draw_iff_commitStates (debugAsserts : Bool) (k : RDIConsts) (dev : RenderDevice)
    (io : CommitAnswers) (primType firstVert numVerts firstIndex numIndices : Nat)
    (hk : k.LayoutBitApart) :
    (∀ e, RenderDevice.commitStates debugAsserts k dev io 0xFFFFFFFF = .error e →
      RenderDevice.draw debugAsserts k dev io primType firstVert numVerts = .error e ∧
      RenderDevice.drawIndexed debugAsserts k dev io primType firstIndex numIndices
        firstVert numVerts = .error e) ∧
    (∀ dev1 b calls,
      RenderDevice.commitStates debugAsserts k dev io 0xFFFFFFFF = .ok (dev1, b, calls) →
      ∃ drawCalls indexedCalls,
        RenderDevice.draw debugAsserts k dev io primType firstVert numVerts
          = .ok (dev1, drawCalls) ∧
        RenderDevice.drawIndexed debugAsserts k dev io primType firstIndex numIndices
          firstVert numVerts = .ok (dev1, indexedCalls) ∧
        ((∃ c ∈ drawCalls, c.isDraw = true) ↔ b = true) ∧
        ((∃ c ∈ indexedCalls, c.isDraw = true) ↔ b = true) ∧
        (b = true →
          drawCalls = calls ++ [D3DCall.IASetPrimitiveTopology primType,
            D3DCall.Draw numVerts firstVert] ∧
          indexedCalls = calls ++ [D3DCall.IASetPrimitiveTopology primType,
            D3DCall.DrawIndexed numIndices firstIndex 0]) ∧
        (dev._pendingMask &&& k.PM_VERTLAYOUT ≠ 0 → dev._newVertLayout ≠ 0 →
          (dev._curShaderId = 0 ∨ ∃ shader,
            dev._shaders.getRef dev._curShaderId = some shader ∧
            shader.inputLayouts (dev._newVertLayout - 1) = none) →
          b = false ∧ NoDraw drawCalls ∧ NoDraw indexedCalls ∧
          dev1._pendingMask &&& k.PM_VERTLAYOUT ≠ 0 ∧
          dev1._curVertLayout = dev._curVertLayout)) := by
  constructor
  · intro e he
    unfold RenderDevice.draw RenderDevice.drawIndexed
    rw [he]
    exact ⟨rfl, rfl⟩
  · intro dev1 b calls hc
    obtain ⟨_, hno⟩ := commitStates_frame _ _ _ _ _ _ _ _ hc
    have hfail : dev._pendingMask &&& k.PM_VERTLAYOUT ≠ 0 → dev._newVertLayout ≠ 0 →
        (dev._curShaderId = 0 ∨ ∃ shader,
          dev._shaders.getRef dev._curShaderId = some shader ∧
          shader.inputLayouts (dev._newVertLayout - 1) = none) →
        b = false ∧ dev1._pendingMask &&& k.PM_VERTLAYOUT ≠ 0 ∧
        dev1._curVertLayout = dev._curVertLayout := by
      intro hp hnew hsh
      have hm : dev._pendingMask &&& 0xFFFFFFFF &&& k.PM_VERTLAYOUT ≠ 0 := by
        rw [Nat.and_assoc, Nat.and_comm 0xFFFFFFFF, and_full_filter _ hk.1]
        exact hp
      obtain ⟨hb, hkeep⟩ := commitStates_layout_fails debugAsserts k dev dev1 io 0xFFFFFFFF b
        calls hk hc hm hnew hsh
      refine ⟨hb, ?_, hkeep.1⟩
      rw [hkeep.2]
      exact hp
    cases b with
    | true =>
      refine ⟨calls ++ [D3DCall.IASetPrimitiveTopology primType,
          D3DCall.Draw numVerts firstVert],
        calls ++ [D3DCall.IASetPrimitiveTopology primType,
          D3DCall.DrawIndexed numIndices firstIndex 0], ?_, ?_, ?_, ?_, ?_, ?_⟩
      · unfold RenderDevice.draw
        rw [hc]
      · unfold RenderDevice.drawIndexed
        rw [hc]
      · exact ⟨fun _ => rfl, fun _ => ⟨D3DCall.Draw numVerts firstVert, by simp, rfl⟩⟩
      · exact ⟨fun _ => rfl,
          fun _ => ⟨D3DCall.DrawIndexed numIndices firstIndex 0, by simp, rfl⟩⟩
      · exact fun _ => ⟨rfl, rfl⟩
      · intro hp hnew hsh
        exact absurd (hfail hp hnew hsh).1 (by simp)
    | false =>
      refine ⟨calls, calls, ?_, ?_, ?_, ?_, ?_, ?_⟩
      · unfold RenderDevice.draw
        rw [hc]
      · unfold RenderDevice.drawIndexed
        rw [hc]
      · constructor
        · rintro ⟨c, hmem, hd⟩
          rw [hno c hmem] at hd
          exact absurd hd (by simp)
        · intro hb
          exact absurd hb (by simp)
      · constructor
        · rintro ⟨c, hmem, hd⟩
          rw [hno c hmem] at hd
          exact absurd hd (by simp)
        · intro hb
          exact absurd hb (by simp)
      · intro hb
        exact absurd hb (by simp)
      · intro hp hnew hsh
        obtain ⟨_, h2, h3⟩ := hfail hp hnew hsh
        exact ⟨rfl, hno, hno, h2, h3⟩

theorem draw_iff_commitStates_witness :
    sampleConsts.LayoutBitApart ∧
    RenderDevice.commitStates false sampleConsts pendingLayoutDevice noAnswers 0xFFFFFFFF
      = .ok (pendingLayoutDevice, false, []) ∧
    RenderDevice.draw false sampleConsts pendingLayoutDevice noAnswers 4 0 3
      = .ok (pendingLayoutDevice, []) ∧
    ∃ drawCalls indexedCalls,
      RenderDevice.draw false sampleConsts pendingLayoutDevice noAnswers 4 0 3
        = .ok (pendingLayoutDevice, drawCalls) ∧
      RenderDevice.drawIndexed false sampleConsts pendingLayoutDevice noAnswers 4 0 3 0 3
        = .ok (pendingLayoutDevice, indexedCalls) ∧
      ((∃ c ∈ drawCalls, c.isDraw = true) ↔ false = true) ∧
      ((∃ c ∈ indexedCalls, c.isDraw = true) ↔ false = true) ∧
      (false = true →
        drawCalls = [] ++ [D3DCall.IASetPrimitiveTopology 4, D3DCall.Draw 3 0] ∧
        indexedCalls = [] ++ [D3DCall.IASetPrimitiveTopology 4, D3DCall.DrawIndexed 3 0 0]) ∧
      (pendingLayoutDevice._pendingMask &&& sampleConsts.PM_VERTLAYOUT ≠ 0 →
        pendingLayoutDevice._newVertLayout ≠ 0 →
        (pendingLayoutDevice._curShaderId = 0 ∨ ∃ shader,
          pendingLayoutDevice._shaders.getRef pendingLayoutDevice._curShaderId = some shader ∧
          shader.inputLayouts (pendingLayoutDevice._newVertLayout - 1) = none) →
        false = false ∧ NoDraw drawCalls ∧ NoDraw indexedCalls ∧
        pendingLayoutDevice._pendingMask &&& sampleConsts.PM_VERTLAYOUT ≠ 0 ∧
        pendingLayoutDevice._curVertLayout = pendingLayoutDevice._curVertLayout) :=
  ⟨by unfold RDIConsts.LayoutBitApart; decide, rfl, rfl,
    (draw_iff_commitStates false sampleConsts pendingLayoutDevice noAnswers 4 0 3 0 3
      (by unfold RDIConsts.LayoutBitApart; decide)).2 pendingLayoutDevice false [] rfl⟩


/-- C28: for 32-bit signed `width`, `height` and `depth` the loop of
`getMipLevels` terminates: every bound of 31 or more on the number of
iterations gives the same result, so the loop leaves by its condition.  The
result is 1 when the largest extent is at most 1 and otherwise
`floor(log2(max(width, height, depth))) + 1`; it lies between 1 and 31. -/
theorem getMipLevels_spec (width height depth : Int)
    (hw : width < 2 ^ 31) (hh : height < 2 ^ 31) (hd : depth < 2 ^ 31) :
    (∀ fuel, 31 ≤ fuel →
      getMipLevelsLoop fuel width height depth 1 = getMipLevels width height depth) ∧
    (max width (max height depth) ≤ 1 → getMipLevels width height depth = 1) ∧
    (1 < max width (max height depth) →
      getMipLevels width height depth
        = (Nat.log 2 (max width (max height depth)).toNat : Int) + 1) ∧
    1 ≤ getMipLevels width height depth ∧ getMipLevels width height depth ≤ 31 := by
  have hmax : max width (max height depth) < 2 ^ 31 := by omega
  have hfuel : ∀ fuel, 31 ≤ fuel → max width (max height depth) < 2 ^ fuel := by
    intro fuel hf
    calc max width (max height depth) < (2 : Int) ^ 31 := hmax
      _ ≤ 2 ^ fuel := pow_le_pow_right₀ (by norm_num) hf
  have hval : getMipLevels width height depth
      = 1 + (Nat.log 2 (max width (max height depth)).toNat : Int) :=
    getMipLevelsLoop_eq 32 width height depth 1 (hfuel 32 (by norm_num))
  have hlog : Nat.log 2 (max width (max height depth)).toNat ≤ 30 := by
    by_cases h0 : (max width (max height depth)).toNat = 0
    · rw [h0]; simp
    · have hlt : (max width (max height depth)).toNat < 2 ^ 31 := by omega
      have := Nat.log_lt_of_lt_pow h0 hlt
      omega
  refine ⟨?_, ?_, ?_, ?_, ?_⟩
  · intro fuel hf
    rw [hval]
    exact getMipLevelsLoop_eq fuel width height depth 1 (hfuel fuel hf)
  · intro h1
    have hn : (max width (max height depth)).toNat < 2 := by omega
    rw [hval, Nat.log_of_lt hn]
    simp
  · intro _
    rw [hval]
    ring
  · rw [hval]
    omega
  · rw [hval]
    omega

theorem getMipLevels_spec_witness :
    ((256 : Int) < 2 ^ 31 ∧ (64 : Int) < 2 ^ 31 ∧ (1 : Int) < 2 ^ 31) ∧
    getMipLevels 256 64 1 = 9 ∧
    (∀ fuel, 31 ≤ fuel → getMipLevelsLoop fuel 256 64 1 1 = getMipLevels 256 64 1) ∧
    1 ≤ getMipLevels 256 64 1 ∧ getMipLevels 256 64 1 ≤ 31 :=
  ⟨⟨by norm_num, by norm_num, by norm_num⟩, by decide,
    (getMipLevels_spec 256 64 1 (by norm_num) (by norm_num) (by norm_num)).1,
    (getMipLevels_spec 256 64 1 (by norm_num) (by norm_num) (by norm_num)).2.2.2⟩

/-- C29: for non-negative `width`, `height` and `depth` whose product does not
overflow 32 bits, `calcTextureSize` returns `width*height*depth*4` for RGBA8,
`width*height*depth*8` for RGBA16F, `width*height*depth*16` for RGBA32F,
`max(width/4,1)*max(height/4,1)*depth*8` for DXT1 and
`max(width/4,1)*max(height/4,1)*depth*16` for DXT3 and DXT5, with the division
rounding down; for every other format, DEPTH among them, it returns 0. -/
theorem calcTextureSize_formulas (width height depth : Int)
    (hw : 0 ≤ width) (hh : 0 ≤ height) (hd : 0 ≤ depth) :
    (width * height * depth * 4 < 2 ^ 32 →
      (RenderDevice.calcTextureSize .RGBA8 width height depth : Int)
        = width * height * depth * 4) ∧
    (width * height * depth * 8 < 2 ^ 32 →
      (RenderDevice.calcTextureSize .RGBA16F width height depth : Int)
        = width * height * depth * 8) ∧
    (width * height * depth * 16 < 2 ^ 32 →
      (RenderDevice.calcTextureSize .RGBA32F width height depth : Int)
        = width * height * depth * 16) ∧
    (max (width / 4) 1 * max (height / 4) 1 * depth * 8 < 2 ^ 32 →
      (RenderDevice.calcTextureSize .DXT1 width height depth : Int)
        = max (width / 4) 1 * max (height / 4) 1 * depth * 8) ∧
    (max (width / 4) 1 * max (height / 4) 1 * depth * 16 < 2 ^ 32 →
      (RenderDevice.calcTextureSize .DXT3 width height depth : Int)
        = max (width / 4) 1 * max (height / 4) 1 * depth * 16 ∧
      (RenderDevice.calcTextureSize .DXT5 width height depth : Int)
        = max (width / 4) 1 * max (height / 4) 1 * depth * 16) ∧
    (∀ format : TextureFormats, format ≠ .RGBA8 → format ≠ .RGBA16F → format ≠ .RGBA32F →
      format ≠ .DXT1 → format ≠ .DXT3 → format ≠ .DXT5 →
      RenderDevice.calcTextureSize format width height depth = 0) ∧
    RenderDevice.calcTextureSize .DEPTH width height depth = 0 := by
  have hcast : ∀ x : Int, 0 ≤ x → x < 2 ^ 32 → ((toUInt32 x : Nat) : Int) = x := by
    intro x h0 h1
    unfold toUInt32
    rw [Int.emod_eq_of_lt h0 h1]
    exact Int.toNat_of_nonneg h0
  have hwhd : 0 ≤ width * height * depth := mul_nonneg (mul_nonneg hw hh) hd
  have hdw : width.tdiv 4 = width / 4 := Int.tdiv_eq_ediv hw (by norm_num)
  have hdh : height.tdiv 4 = height / 4 := Int.tdiv_eq_ediv hh (by norm_num)
  have hblk : 0 ≤ max (width / 4) 1 * max (height / 4) 1 * depth :=
    mul_nonneg (mul_nonneg (le_max_of_le_right zero_le_one) (le_max_of_le_right zero_le_one)) hd
  refine ⟨?_, ?_, ?_, ?_, ?_, ?_, rfl⟩
  · intro h
    exact hcast _ (mul_nonneg hwhd (by norm_num)) h
  · intro h
    exact hcast _ (mul_nonneg hwhd (by norm_num)) h
  · intro h
    exact hcast _ (mul_nonneg hwhd (by norm_num)) h
  · intro h
    show ((toUInt32 (max (width.tdiv 4) 1 * max (height.tdiv 4) 1 * depth * 8) : Nat) : Int) = _
    rw [hdw, hdh]
    exact hcast _ (mul_nonneg hblk (by norm_num)) h
  · intro h
    constructor
    · show ((toUInt32 (max (width.tdiv 4) 1 * max (height.tdiv 4) 1 * depth * 16) : Nat) : Int)
        = _
      rw [hdw, hdh]
      exact hcast _ (mul_nonneg hblk (by norm_num)) h
    · show ((toUInt32 (max (width.tdiv 4) 1 * max (height.tdiv 4) 1 * depth * 16) : Nat) : Int)
        = _
      rw [hdw, hdh]
      exact hcast _ (mul_nonneg hblk (by norm_num)) h
  · intro format h1 h2 h3 h4 h5 h6
    cases format
    · rfl
    · exact absurd rfl h1
    · exact absurd rfl h4
    · exact absurd rfl h5
    · exact absurd rfl h6
    · exact absurd rfl h2
    · exact absurd rfl h3
    · rfl

theorem calcTextureSize_formulas_witness :
    ((0 : Int) ≤ 10 ∧ (0 : Int) ≤ 6 ∧ (0 : Int) ≤ 2) ∧
    RenderDevice.calcTextureSize .RGBA8 10 6 2 = 480 ∧
    RenderDevice.calcTextureSize .DXT1 10 6 2 = 32 ∧
    ((10 : Int) * 6 * 2 * 4 < 2 ^ 32 →
      (RenderDevice.calcTextureSize .RGBA8 10 6 2 : Int) = 10 * 6 * 2 * 4) ∧
    RenderDevice.calcTextureSize .DEPTH 10 6 2 = 0 :=
  ⟨⟨by norm_num, by norm_num, by norm_num⟩, by decide, by decide,
    (calcTextureSize_formulas 10 6 2 (by norm_num) (by norm_num) (by norm_num)).1,
    (calcTextureSize_formulas 10 6 2 (by norm_num) (by norm_num) (by norm_num)).2.2.2.2.2.2⟩

/-- C30: for a box frustum built by `buildBoxFrustum` with the identity
transform and `left < right`, `bottom < top`, `back < front`, the six plane
normals point outward (`-x`, `+x`, `-y`, `+y`, `+z`, `-z` for the left, right,
bottom, top, front and back plane), and for every point `p`
`cullSphere(p, 0)` returns `false` exactly when `left <= p.x <= right`,
`bottom <= p.y <= top` and `back <= p.z <= front`. -/
theorem buildBoxFrustum_outward (sqrtf : ℚ → ℚ)
    (hsqrt : ∀ x : ℚ, 0 ≤ x → sqrtf (x * x) = x)
    (left right bottom top front back : ℚ)
    (hlr : left < right) (hbt : bottom < top) (hbf : back < front) (p : Vec3f) :
    (∀ i, ((Frustum.buildBoxFrustum sqrtf Matrix4f.identity left right bottom top front
        back)._planes i).normal
      = array6 (⟨-1, 0, 0⟩ : Vec3f) ⟨1, 0, 0⟩ ⟨0, -1, 0⟩ ⟨0, 1, 0⟩ ⟨0, 0, 1⟩ ⟨0, 0, -1⟩ i) ∧
    ((Frustum.buildBoxFrustum sqrtf Matrix4f.identity left right bottom top front
        back).cullSphere p 0 = false
      ↔ (left ≤ p.x ∧ p.x ≤ right) ∧ (bottom ≤ p.y ∧ p.y ≤ top) ∧
        (back ≤ p.z ∧ p.z ≤ front)) := by
  have hp := boxFrustum_planes sqrtf hsqrt left right bottom top front back hlr hbt hbf
  constructor
  · intro i
    rw [hp]
    rcases fin6_cases i with h | h | h | h | h | h <;> subst h <;> rfl
  · rw [Bool.eq_false_iff, Ne, cullSphere_eq_true_iff, hp]
    constructor
    · intro h
      have h0 := fun i => not_lt.mp (fun hi => h ⟨i, hi⟩)
      have a0 := h0 0
      have a1 := h0 1
      have a2 := h0 2
      have a3 := h0 3
      have a4 := h0 4
      have a5 := h0 5
      simp only [boxPlanes, (array6_val _ _ _ _ _ _).1, (array6_val _ _ _ _ _ _).2.1,
        (array6_val _ _ _ _ _ _).2.2.1, (array6_val _ _ _ _ _ _).2.2.2.1,
        (array6_val _ _ _ _ _ _).2.2.2.2.1, (array6_val _ _ _ _ _ _).2.2.2.2.2,
        Plane.distToPoint, Vec3f.dot] at a0 a1 a2 a3 a4 a5
      refine ⟨⟨?_, ?_⟩, ⟨?_, ?_⟩, ⟨?_, ?_⟩⟩ <;> linarith
    · rintro ⟨⟨h1, h2⟩, ⟨h3, h4⟩, ⟨h5, h6⟩⟩ ⟨i, hi⟩
      rcases fin6_cases i with h | h | h | h | h | h <;> subst h <;>
        simp only [boxPlanes, (array6_val _ _ _ _ _ _).1, (array6_val _ _ _ _ _ _).2.1,
          (array6_val _ _ _ _ _ _).2.2.1, (array6_val _ _ _ _ _ _).2.2.2.1,
          (array6_val _ _ _ _ _ _).2.2.2.2.1, (array6_val _ _ _ _ _ _).2.2.2.2.2,
          Plane.distToPoint, Vec3f.dot] at hi <;> linarith

theorem buildBoxFrustum_outward_witness :
    ((0 : ℚ) < 2 ∧ (0 : ℚ) < 3 ∧ (1 : ℚ) < 5) ∧
    (∀ i, ((Frustum.buildBoxFrustum sqrtQ Matrix4f.identity 0 2 0 3 5 1)._planes i).normal
      = array6 (⟨-1, 0, 0⟩ : Vec3f) ⟨1, 0, 0⟩ ⟨0, -1, 0⟩ ⟨0, 1, 0⟩ ⟨0, 0, 1⟩ ⟨0, 0, -1⟩ i) ∧
    ((Frustum.buildBoxFrustum sqrtQ Matrix4f.identity 0 2 0 3 5 1).cullSphere ⟨1, 1, 2⟩ 0 = false
      ↔ ((0 : ℚ) ≤ 1 ∧ (1 : ℚ) ≤ 2) ∧ ((0 : ℚ) ≤ 1 ∧ (1 : ℚ) ≤ 3) ∧
        ((1 : ℚ) ≤ 2 ∧ (2 : ℚ) ≤ 5)) :=
  ⟨⟨by norm_num, by norm_num, by norm_num⟩,
    buildBoxFrustum_outward sqrtQ sqrtQ_mul_self 0 2 0 3 5 1 (by norm_num) (by norm_num)
      (by norm_num) ⟨1, 1, 2⟩⟩


/-- C21, amended: for every texture created by `createTexture`, the recorded
`memSize` is the footprint `base + round(base / 3)` (with mipmaps) or `base`
(without), multiplied by 6 for a cube map, reduced modulo `2 ^ 32`, where
`base = calcTextureSize(format, width, height, depth)`; it is that footprint
itself whenever the footprint is non-negative and below `2 ^ 32`. -/
theorem createTexture_memSize (debugAsserts sRGBLinearization : Bool) (ftoi_r : ℚ → Int)
    (dev : RenderDevice) (createdTex createdView : Option Nat) (type : TextureTypes)
    (width height depth : Int) (format : TextureFormats) (hasMips genMips sRGB : Bool)
    (hassert : debugAsserts = false ∨ depth > 0) (hwf : dev._textures.WF) :
    ∃ dev1 texObj calls tex,
      RenderDevice.createTexture debugAsserts sRGBLinearization ftoi_r dev createdTex
        createdView type width height depth format hasMips genMips sRGB
        = .ok (dev1, texObj, calls) ∧
      dev1._textures.getRef texObj = some tex ∧
      tex.memSize = toUInt32 (textureFootprint ftoi_r
        (RenderDevice.calcTextureSize format width height depth) (hasMips || genMips)
        (decide (type = .TexCube))) ∧
      (0 ≤ textureFootprint ftoi_r (RenderDevice.calcTextureSize format width height depth)
          (hasMips || genMips) (decide (type = .TexCube)) →
        textureFootprint ftoi_r (RenderDevice.calcTextureSize format width height depth)
          (hasMips || genMips) (decide (type = .TexCube)) < 2 ^ 32 →
        (tex.memSize : Int) = textureFootprint ftoi_r
          (RenderDevice.calcTextureSize format width height depth) (hasMips || genMips)
          (decide (type = .TexCube))) := by
  obtain ⟨dev1, texObj, calls, tex, hc, hget, hmem⟩ :=
    createTexture_record debugAsserts sRGBLinearization ftoi_r dev createdTex createdView type
      width height depth format hasMips genMips sRGB hassert hwf
  have hb := calcTextureSize_lt format width height depth
  have key : tex.memSize = toUInt32 (textureFootprint ftoi_r
      (RenderDevice.calcTextureSize format width height depth) (hasMips || genMips)
      (decide (type = .TexCube))) := by
    rw [hmem]
    unfold textureFootprint
    simp only [mul_one, decide_eq_true_eq]
    generalize RenderDevice.calcTextureSize format width height depth = base at hb ⊢
    generalize ftoi_r ((base : ℚ) / 3) = r
    by_cases hcube : type = .TexCube <;> by_cases hm : (hasMips || genMips) = true <;>
      simp only [hcube, hm, if_true, if_false, Bool.false_eq_true, mul_one]
    · exact_mod_cast toUInt32_mul _ 6
    · have h6 := toUInt32_mul (base : Int) 6
      rw [toUInt32_natCast _ hb] at h6
      exact_mod_cast h6
    · exact (toUInt32_natCast _ hb).symm
  refine ⟨dev1, texObj, calls, tex, hc, hget, key, ?_⟩
  intro h0 h1
  rw [key]
  unfold toUInt32
  rw [Int.emod_eq_of_lt h0 h1]
  exact Int.toNat_of_nonneg h0

theorem createTexture_memSize_witness :
    ((4 : Int) > 0 ∧ freshDevice._textures.WF) ∧
    textureFootprint roundQ 64 true true = 510 ∧
    ∃ dev1 texObj calls tex,
      RenderDevice.createTexture true true roundQ freshDevice (some 9) (some 10) .TexCube
        4 4 1 .RGBA8 true false false = .ok (dev1, texObj, calls) ∧
      dev1._textures.getRef texObj = some tex ∧
      tex.memSize = toUInt32 (textureFootprint roundQ
        (RenderDevice.calcTextureSize .RGBA8 4 4 1) (true || false)
        (decide (TextureTypes.TexCube = .TexCube))) ∧
      (0 ≤ textureFootprint roundQ (RenderDevice.calcTextureSize .RGBA8 4 4 1)
          (true || false) (decide (TextureTypes.TexCube = .TexCube)) →
        textureFootprint roundQ (RenderDevice.calcTextureSize .RGBA8 4 4 1)
          (true || false) (decide (TextureTypes.TexCube = .TexCube)) < 2 ^ 32 →
        (tex.memSize : Int) = textureFootprint roundQ
          (RenderDevice.calcTextureSize .RGBA8 4 4 1) (true || false)
          (decide (TextureTypes.TexCube = .TexCube))) :=
  ⟨⟨by decide, fun i hi => absurd hi (List.not_mem_nil i)⟩,
    by
      unfold textureFootprint roundQ
      norm_num,
    createTexture_memSize true true roundQ freshDevice (some 9) (some 10) .TexCube 4 4 1
      .RGBA8 true false false (Or.inr (by decide))
      (fun i hi => absurd hi (List.not_mem_nil i))⟩

/-- C21, counterexample to the claim as stated: a cube map of format RGBA8 with
faces of 16384 × 16384 and no mipmaps has `base = 2 ^ 30`, so the footprint is
`6 * 2 ^ 30`, which does not fit the `uint32` field: the recorded `memSize` is
`2 ^ 31`. -/
theorem createTexture_memSize_counterexample :
    ∃ dev1 texObj calls tex,
      RenderDevice.createTexture true true roundQ freshDevice (some 9) (some 10) .TexCube
        16384 16384 1 .RGBA8 false false false = .ok (dev1, texObj, calls) ∧
      dev1._textures.getRef texObj = some tex ∧
      RenderDevice.calcTextureSize .RGBA8 16384 16384 1 = 1073741824 ∧
      tex.memSize = 2147483648 ∧
      tex.memSize ≠ 1073741824 * 6 :=
  ⟨_, _, _, _, rfl, rfl, by decide, rfl, by decide⟩


/-- C22: for every 2D or cube-map texture, `uploadTextureData` triggers mipmap
generation (the call `D3DX11FilterTexture` on the texture, issued after the
upload) if and only if the flag `genMips` of the texture is set and the upload
goes either to a 2D texture or to face 5 of a cube map; an upload to the cube
faces 0..4, or to a texture without `genMips`, triggers none. -/
theorem uploadTextureData_genMips (dev : RenderDevice) (texObj : Nat) (tex : RDITexture)
    (slice mipLevel : Int) (pixels : List Nat)
    (hget : dev._textures.getRef texObj = some tex)
    (htype : tex.type = .Tex2D ∨ tex.type = .TexCube) :
    ∃ upload filter,
      RenderDevice.uploadTextureData dev texObj slice mipLevel pixels
        = .ok (upload :: filter) ∧
      upload.isFilterTexture = false ∧
      (filter = [D3DCall.D3DX11FilterTexture tex.d3dTexture] ∨ filter = []) ∧
      ((∃ c ∈ upload :: filter, c.isFilterTexture = true) ↔
        tex.genMips = true ∧ (tex.type = .Tex2D ∨ (tex.type = .TexCube ∧ slice = 5))) ∧
      (tex.type = .TexCube → slice ≠ 5 → filter = []) ∧
      (tex.genMips = false → filter = []) := by
  have heq : ∃ upload,
      RenderDevice.uploadTextureData dev texObj slice mipLevel pixels
        = .ok (upload :: (if (tex.genMips &&
            (decide (tex.type ≠ .TexCube) || decide (slice = 5))) = true
          then [D3DCall.D3DX11FilterTexture tex.d3dTexture] else [])) ∧
      upload.isFilterTexture = false := by
    unfold RenderDevice.uploadTextureData
    rw [hget]
    simp only [htype, if_true]
    exact ⟨_, rfl, rfl⟩
  obtain ⟨upload, heq, hup⟩ := heq
  by_cases hf : (tex.genMips && (decide (tex.type ≠ .TexCube) || decide (slice = 5))) = true
  · rw [if_pos hf] at heq
    simp only [Bool.and_eq_true, Bool.or_eq_true, decide_eq_true_eq] at hf
    refine ⟨upload, _, heq, hup, Or.inl rfl, ?_, ?_, ?_⟩
    · constructor
      · intro _
        refine ⟨hf.1, ?_⟩
        rcases hf.2 with h | h
        · rcases htype with h2 | h2
          · exact Or.inl h2
          · exact absurd h2 h
        · rcases htype with h2 | h2
          · exact Or.inl h2
          · exact Or.inr ⟨h2, h⟩
      · intro _
        exact ⟨_, List.mem_cons_of_mem _ (List.mem_singleton.mpr rfl), rfl⟩
    · intro hcube hslice
      rcases hf.2 with h | h
      · exact absurd hcube h
      · exact absurd h hslice
    · intro hg
      rw [hg] at hf
      exact absurd hf.1 (by simp)
  · rw [if_neg hf] at heq
    simp only [Bool.and_eq_true, Bool.or_eq_true, decide_eq_true_eq, not_and, not_or] at hf
    refine ⟨upload, _, heq, hup, Or.inr rfl, ?_, fun _ _ => rfl, fun _ => rfl⟩
    constructor
    · rintro ⟨c, hc, hcf⟩
      rw [List.mem_singleton] at hc
      rw [hc, hup] at hcf
      exact absurd hcf (by simp)
    · rintro ⟨hg, h | ⟨h1, h2⟩⟩
      · have := (hf hg).1
        rw [h] at this
        exact absurd this (by simp)
      · exact absurd h2 (hf hg).2

theorem uploadTextureData_genMips_witness :
    (cubeTextureDevice._textures.getRef 1
        = some ⟨.TexCube, .RGBA8, 4, 4, 1, false, true, false, 510, some 9, some 10,
          "DXGI_FORMAT_R8G8B8A8_UNORM"⟩ ∧
      (TextureTypes.TexCube = .Tex2D ∨ TextureTypes.TexCube = .TexCube)) ∧
    RenderDevice.uploadTextureData cubeTextureDevice 1 4 0 [7]
      = .ok [D3DCall.UpdateSubresource (some 9) 12 none [7] 16] ∧
    RenderDevice.uploadTextureData cubeTextureDevice 1 5 0 [7]
      = .ok [D3DCall.UpdateSubresource (some 9) 15 none [7] 16,
          D3DCall.D3DX11FilterTexture (some 9)] ∧
    ∃ upload filter,
      RenderDevice.uploadTextureData cubeTextureDevice 1 5 0 [7] = .ok (upload :: filter) ∧
      ((∃ c ∈ upload :: filter, c.isFilterTexture = true) ↔
        true = true ∧ (TextureTypes.TexCube = .Tex2D ∨
          (TextureTypes.TexCube = .TexCube ∧ (5 : Int) = 5))) :=
  ⟨⟨rfl, Or.inr rfl⟩, rfl, rfl,
    (uploadTextureData_genMips cubeTextureDevice 1 _ 5 0 [7] rfl (Or.inr rfl)).elim
      fun upload h => h.elim fun filter h => ⟨upload, filter, h.1, h.2.2.2.1⟩⟩


/-- C26: for every shader and name, `getShaderConstLoc` returns the smallest
index `i` such that `uniforms[i].name` equals the name or `uniforms[i].name`
followed by `[0]` equals the name, and returns -1 if and only if no uniform
satisfies this; `getShaderSamplerLoc` returns the smallest index of a sampler
whose name equals the name, and -1 if and only if there is none.  The tables
hold fewer than `2 ^ 31` entries, so that an index is an `int`. -/
theorem getShaderLoc_first_match (dev : RenderDevice) (shaderId : Nat) (shader : RDIShader)
    (name : CString) (hget : dev._shaders.getRef shaderId = some shader)
    (hu : shader.uniforms.length < 2 ^ 31) (hs : shader.samplers.length < 2 ^ 31) :
    ∃ loc sloc,
      RenderDevice.getShaderConstLoc dev shaderId name = .ok loc ∧
      RenderDevice.getShaderSamplerLoc dev shaderId name = .ok sloc ∧
      (loc = -1 ↔
        ∀ u ∈ shader.uniforms, ¬ (u.name = name ∨ u.name ++ "[0]".toList = name)) ∧
      (∀ i : Nat, loc = (i : Int) ↔
        (∃ u, shader.uniforms[i]? = some u ∧
          (u.name = name ∨ u.name ++ "[0]".toList = name)) ∧
        ∀ j, j < i → ∀ u, shader.uniforms[j]? = some u →
          ¬ (u.name = name ∨ u.name ++ "[0]".toList = name)) ∧
      (loc = -1 ∨ ∃ i : Nat, i < shader.uniforms.length ∧ loc = (i : Int)) ∧
      (sloc = -1 ↔ ∀ sampler ∈ shader.samplers, sampler.name ≠ name) ∧
      (∀ i : Nat, sloc = (i : Int) ↔
        (∃ sampler, shader.samplers[i]? = some sampler ∧ sampler.name = name) ∧
        ∀ j, j < i → ∀ sampler, shader.samplers[j]? = some sampler → sampler.name ≠ name) ∧
      (sloc = -1 ∨ ∃ i : Nat, i < shader.samplers.length ∧ sloc = (i : Int)) := by
  have hu1 : shader.uniforms.take (shader.uniforms.length % 2 ^ 32) = shader.uniforms := by
    rw [Nat.mod_eq_of_lt (by omega), List.take_length]
  have hs1 : shader.samplers.take (shader.samplers.length % 2 ^ 32) = shader.samplers := by
    rw [Nat.mod_eq_of_lt (by omega), List.take_length]
  obtain ⟨a1, a2, a3⟩ := getShaderLocLoop_spec
    (fun u : RDIUniform => decide (u.name = name) || decide (u.name ++ "[0]".toList = name))
    shader.uniforms 0 (by omega)
  obtain ⟨b1, b2, b3⟩ := getShaderLocLoop_spec
    (fun sampler : RDISampler => decide (sampler.name = name)) shader.samplers 0 (by omega)
  refine ⟨getShaderLocLoop
      (fun u : RDIUniform => decide (u.name = name) || decide (u.name ++ "[0]".toList = name))
      shader.uniforms 0,
    getShaderLocLoop (fun sampler : RDISampler => decide (sampler.name = name))
      shader.samplers 0, ?_, ?_, ?_, ?_, ?_, ?_, ?_, ?_⟩
  · unfold RenderDevice.getShaderConstLoc
    rw [hget]
    simp only [hu1]
  · unfold RenderDevice.getShaderSamplerLoc
    rw [hget]
    simp only [hs1]
  · rw [a1]
    simp only [Bool.or_eq_false_iff, decide_eq_false_iff_not, not_or]
  · intro i
    have := a2 i
    simp only [zero_add, Bool.or_eq_true, decide_eq_true_eq, Bool.or_eq_false_iff,
      decide_eq_false_iff_not, not_or] at this ⊢
    exact this
  · simpa only [zero_add] using a3
  · rw [b1]
    simp only [decide_eq_false_iff_not, ne_eq]
  · intro i
    have := b2 i
    simp only [zero_add, decide_eq_true_eq, decide_eq_false_iff_not, ne_eq] at this ⊢
    exact this
  · simpa only [zero_add] using b3

theorem getShaderLoc_first_match_witness :
    (uniformShaderDevice._shaders.getRef 1 = uniformShaderDevice._shaders._objects[0]? ∧
      (3 : Nat) < 2 ^ 31 ∧ (2 : Nat) < 2 ^ 31) ∧
    RenderDevice.getShaderConstLoc uniformShaderDevice 1 "lights[0]".toList = .ok 1 ∧
    RenderDevice.getShaderConstLoc uniformShaderDevice 1 "bones".toList = .ok 2 ∧
    RenderDevice.getShaderConstLoc uniformShaderDevice 1 "lights[1]".toList = .ok (-1) ∧
    RenderDevice.getShaderSamplerLoc uniformShaderDevice 1 "normalMap".toList = .ok 1 ∧
    RenderDevice.getShaderSamplerLoc uniformShaderDevice 1 "shadowMap".toList = .ok (-1) ∧
    ∃ loc sloc,
      RenderDevice.getShaderConstLoc uniformShaderDevice 1 "lights[0]".toList = .ok loc ∧
      RenderDevice.getShaderSamplerLoc uniformShaderDevice 1 "lights[0]".toList = .ok sloc ∧
      (loc = -1 ∨ ∃ i : Nat, i < 3 ∧ loc = (i : Int)) ∧
      (sloc = -1 ∨ ∃ i : Nat, i < 2 ∧ sloc = (i : Int)) :=
  ⟨⟨rfl, by norm_num, by norm_num⟩, rfl, rfl, rfl, rfl, rfl,
    (getShaderLoc_first_match uniformShaderDevice 1 _ "lights[0]".toList rfl
      (by decide) (by decide)).elim
      fun loc h => h.elim fun sloc h => ⟨loc, sloc, h.1, h.2.1, h.2.2.2.2.1, h.2.2.2.2.2.2.2⟩⟩


/-- C23: for a shader whose uniform names are pairwise distinct and whose
sampler names are pairwise distinct, in particular one whose uniform and
sampler tables are empty, after `parseShaderBlob` has run for the vertex stage
and then for the pixel stage the names in `shader.uniforms` are pairwise
distinct and the names in `shader.samplers` are pairwise distinct, whatever
variable names and resource names reflection reports. -/
theorem parseShaderBlob_names_distinct (dev : RenderDevice) (shaderId : Nat)
    (vs ps : StageAnswers) (shader : RDIShader) (h0 : shaderId ≠ 0)
    (hs : dev._shaders.getRef shaderId = some shader)
    (hu : (shader.uniforms.map fun u => u.name).Nodup)
    (hsm : (shader.samplers.map fun x => x.name).Nodup) :
    ∃ dev1 calls1 dev2 calls2 shader2,
      RenderDevice.parseShaderBlob dev shaderId vs .Vertex = .ok (dev1, calls1) ∧
      RenderDevice.parseShaderBlob dev1 shaderId ps .Pixel = .ok (dev2, calls2) ∧
      dev2._shaders.getRef shaderId = some shader2 ∧
      (shader2.uniforms.map fun u => u.name).Nodup ∧
      (shader2.samplers.map fun x => x.name).Nodup := by
  obtain ⟨dev1, calls1, shader1, _, hp1, hg1, hu1, hs1, _, _⟩ :=
    parseShaderBlob_tables dev shaderId vs .Vertex shader h0 hs
  obtain ⟨dev2, calls2, shader2, _, hp2, hg2, hu2, hs2, _, _⟩ :=
    parseShaderBlob_tables dev1 shaderId ps .Pixel shader1 h0 hg1
  refine ⟨dev1, calls1, dev2, calls2, shader2, hp1, hp2, hg2, ?_, ?_⟩
  · rw [hu2, hu1]
    exact mergeUsed_nodup _ _ _ (mergeUsed_nodup _ _ _ hu)
  · rw [hs2, hs1]
    exact mergeActions_nodup _ _ _ (mergeActions_nodup _ _ _ hsm)

theorem parseShaderBlob_names_distinct_witness :
    ((1 : Nat) ≠ 0 ∧
      (shaderDevice._shaders.getRef 1).map (fun sh => (sh.uniforms.length, sh.samplers.length))
        = some (0, 0)) ∧
    ∃ dev1 calls1 dev2 calls2 shader2,
      RenderDevice.parseShaderBlob shaderDevice 1 (stageCreated 20 repeatedNamesReflection)
        .Vertex = .ok (dev1, calls1) ∧
      RenderDevice.parseShaderBlob dev1 1 (stageCreated 21 repeatedNamesReflection) .Pixel
        = .ok (dev2, calls2) ∧
      dev2._shaders.getRef 1 = some shader2 ∧
      (shader2.uniforms.map fun u => u.name).Nodup ∧
      (shader2.samplers.map fun x => x.name).Nodup :=
  ⟨⟨by decide, rfl⟩,
    parseShaderBlob_names_distinct shaderDevice 1 (stageCreated 20 repeatedNamesReflection)
      (stageCreated 21 repeatedNamesReflection) _ (by decide) rfl List.nodup_nil
      List.nodup_nil⟩


/-- C24: after a `createShader` in which both stages compile and are created,
if a variable name is reported as used in `$Globals` of both the vertex and the
pixel stage (with one start offset and size per stage), the uniform table has
exactly one entry with that name, whose vertex-stage descriptor holds the
vertex stage's start offset and size and whose pixel-stage descriptor holds the
pixel stage's.  The names in the table are exactly the names of the variables
reported as used, so a name whose variables are all not flagged as used has no
entry. -/
theorem createShader_uniform_both_stages (dev : RenderDevice) (vs ps : StageAnswers)
    (vertexShaderSrc fragmentShaderSrc : CString) (hwf : dev._shaders.WF)
    (hvf : vs.compileFailed = false) (hve : vs.errorBlob = none) (hvc : vs.created ≠ none)
    (hpf : ps.compileFailed = false) (hpe : ps.errorBlob = none) (hpc : ps.created ≠ none) :
    ∃ dev1 shaderId calls shader,
      RenderDevice.createShader dev vs ps vertexShaderSrc fragmentShaderSrc
        = .ok (dev1, shaderId, calls) ∧
      shaderId ≠ 0 ∧
      dev1._shaders.getRef shaderId = some shader ∧
      (∀ v ∈ usedVariables vs, ∀ p ∈ usedVariables ps, v.Name = p.Name →
        (∀ v1 ∈ usedVariables vs, v1.Name = v.Name →
          v1.StartOffset = v.StartOffset ∧ v1.Size = v.Size) →
        (∀ p1 ∈ usedVariables ps, p1.Name = p.Name →
          p1.StartOffset = p.StartOffset ∧ p1.Size = p.Size) →
        ∃ u, shader.uniforms.filter (fun u => decide (u.name = v.Name)) = [u] ∧
          u.desc .Vertex = ⟨v.StartOffset, v.Size⟩ ∧
          u.desc .Pixel = ⟨p.StartOffset, p.Size⟩) ∧
      (∀ n, (∃ u ∈ shader.uniforms, u.name = n)
        ↔ ∃ v ∈ usedVariables vs ++ usedVariables ps, v.Name = n) ∧
      (∀ n,
        (∀ b v, vs.reflection.globals = some b → some v ∈ b.Variables → v.Name = n →
          v.uFlags &&& 2 = 0) →
        (∀ b v, ps.reflection.globals = some b → some v ∈ b.Variables → v.Name = n →
          v.uFlags &&& 2 = 0) →
        ∀ u ∈ shader.uniforms, u.name ≠ n) := by
  obtain ⟨dev3, shaderId, calls, shader3, hc, h0, hget, hu, _⟩ :=
    createShader_ok dev vs ps vertexShaderSrc fragmentShaderSrc hwf hvf hve hvc hpf hpe hpc
  have hnames : ∀ n, (∃ u ∈ shader3.uniforms, u.name = n)
      ↔ ∃ v ∈ usedVariables vs ++ usedVariables ps, v.Name = n := by
    intro n
    have h1 := mergeUsed_names .Pixel (usedVariables ps)
      (mergeUsed .Vertex (usedVariables vs) []) n
    have h2 := mergeUsed_names .Vertex (usedVariables vs) [] n
    rw [← hu] at h1
    rw [List.mem_map] at h1
    rw [h1, h2]
    constructor
    · rintro ((h | ⟨v, hv, hn⟩) | ⟨v, hv, hn⟩)
      · exact absurd h (by simp)
      · exact ⟨v, List.mem_append_left _ hv, hn⟩
      · exact ⟨v, List.mem_append_right _ hv, hn⟩
    · rintro ⟨v, hv, hn⟩
      rcases List.mem_append.mp hv with hv | hv
      · exact Or.inl (Or.inr ⟨v, hv, hn⟩)
      · exact Or.inr ⟨v, hv, hn⟩
  refine ⟨dev3, shaderId, calls, shader3, hc, h0, hget, ?_, hnames, ?_⟩
  · intro v hv p hp hvp huv hup
    have hnd : (shader3.uniforms.map fun u => u.name).Nodup := by
      rw [hu]
      exact mergeUsed_nodup _ _ _ (mergeUsed_nodup _ _ _ List.nodup_nil)
    have hd1 := mergeUsed_descs .Vertex (usedVariables vs) [] v.Name ⟨v.StartOffset, v.Size⟩
      ⟨v, hv, rfl⟩
      (fun v1 hv1 hn => by
        obtain ⟨e1, e2⟩ := huv v1 hv1 hn
        rw [e1, e2])
    have hd2 := mergeUsed_descs .Pixel (usedVariables ps)
      (mergeUsed .Vertex (usedVariables vs) []) v.Name ⟨p.StartOffset, p.Size⟩
      ⟨p, hp, hvp.symm⟩
      (fun p1 hp1 hn => by
        obtain ⟨e1, e2⟩ := hup p1 hp1 (hn.trans hvp)
        rw [e1, e2])
    rw [hd1, ← hu] at hd2
    obtain ⟨u, hf, _, hdesc⟩ := uniformDescs_unique shader3.uniforms v.Name _ hnd hd2
    refine ⟨u, hf, ?_, ?_⟩
    · rw [hdesc]
      simp [Function.update]
    · rw [hdesc]
      simp [Function.update]
  · intro n hvn hpn u hu1 hun
    obtain ⟨v, hv, hn⟩ := (hnames n).mp ⟨u, hu1, hun⟩
    rcases List.mem_append.mp hv with hv | hv
    · obtain ⟨hused, b, hb, hmem⟩ := mem_usedVariables vs v hv
      exact hused (hvn b v hb hmem hn)
    · obtain ⟨hused, b, hb, hmem⟩ := mem_usedVariables ps v hv
      exact hused (hpn b v hb hmem hn)


theorem createShader_uniform_both_stages_witness :
    (freshDevice._shaders.WF ∧
      (stageCreated 20 vertexGlobalsReflection).compileFailed = false ∧
      (stageCreated 20 vertexGlobalsReflection).errorBlob = none ∧
      (stageCreated 20 vertexGlobalsReflection).created ≠ none ∧
      (stageCreated 21 pixelGlobalsReflection).compileFailed = false ∧
      (stageCreated 21 pixelGlobalsReflection).errorBlob = none ∧
      (stageCreated 21 pixelGlobalsReflection).created ≠ none) ∧
    ∃ dev1 shaderId calls shader,
      RenderDevice.createShader freshDevice (stageCreated 20 vertexGlobalsReflection)
        (stageCreated 21 pixelGlobalsReflection) [] [] = .ok (dev1, shaderId, calls) ∧
      dev1._shaders.getRef shaderId = some shader ∧
      (∃ u, shader.uniforms.filter (fun u => decide (u.name = "worldMat".toList)) = [u] ∧
        u.desc .Vertex = ⟨0, 64⟩ ∧ u.desc .Pixel = ⟨16, 64⟩) ∧
      (∀ u ∈ shader.uniforms, u.name ≠ "time".toList) := by
  refine ⟨⟨fun i hi => absurd hi (List.not_mem_nil i), rfl, rfl, by decide, rfl, rfl,
    by decide⟩, ?_⟩
  obtain ⟨dev1, shaderId, calls, shader, hc, _, hget, h1, _, h3⟩ :=
    createShader_uniform_both_stages freshDevice (stageCreated 20 vertexGlobalsReflection)
      (stageCreated 21 pixelGlobalsReflection) [] []
      (fun i hi => absurd hi (List.not_mem_nil i)) rfl rfl (by decide) rfl rfl (by decide)
  refine ⟨dev1, shaderId, calls, shader, hc, hget, ?_, ?_⟩
  · exact h1 ⟨"worldMat".toList, 0, 64, 2⟩ (by decide) ⟨"worldMat".toList, 16, 64, 2⟩
      (by decide) rfl (by decide) (by decide)
  · refine h3 "time".toList ?_ ?_
    · intro b v hb hm hn
      have hb1 : b = ⟨80, [some ⟨"worldMat".toList, 0, 64, 2⟩,
          some ⟨"time".toList, 64, 4, 0⟩]⟩ := (Option.some.inj hb).symm
      subst hb1
      simp only [List.mem_cons, Option.some.injEq, List.mem_singleton, List.not_mem_nil,
        or_false] at hm
      rcases hm with rfl | rfl
      · exact absurd hn (by decide)
      · rfl
    · intro b v hb hm hn
      have hb1 : b = ⟨80, [some ⟨"color".toList, 0, 16, 2⟩,
          some ⟨"worldMat".toList, 16, 64, 2⟩]⟩ := (Option.some.inj hb).symm
      subst hb1
      simp only [List.mem_cons, Option.some.injEq, List.mem_singleton, List.not_mem_nil,
        or_false] at hm
      rcases hm with rfl | rfl
      · exact absurd hn (by decide)
      · exact absurd hn (by decide)


/-- C25: for every bound resource of type texture named `texture_` followed by
a non-empty string `s` (respectively of type sampler named `sampler_` followed
by `s`), after `parseShaderBlob` the shader has a sampler entry named `s` whose
`textureBindPoint` (respectively `samplerBindPoint`) for the parsed stage is
the bind point of the resource, no resource of that type and name reported
after it carrying another bind point.  Texture and sampler resources that lack the prefix (or
consist of the prefix alone) leave the sampler table as it is: the table is the
one obtained without them, and it is unchanged when every texture and sampler
resource is of this kind; for each of them the diagnostic line is appended to
the shader log. -/
theorem parseShaderBlob_bound_resources (dev : RenderDevice) (shaderId : Nat)
    (a : StageAnswers) (t : RDIShaderType) (shader : RDIShader) (h0 : shaderId ≠ 0)
    (hs : dev._shaders.getRef shaderId = some shader) :
    ∃ dev1 calls shader1,
      RenderDevice.parseShaderBlob dev shaderId a t = .ok (dev1, calls) ∧
      dev1._shaders.getRef shaderId = some shader1 ∧
      (∀ pre desc post, a.reflection.BoundResources = pre ++ desc :: post →
        ∀ s : CString, s ≠ [] →
        (∀ d1 ∈ post, d1.Type_ = desc.Type_ → d1.Name = desc.Name →
          d1.BindPoint = desc.BindPoint) →
        (desc.Type_ = .D3D_SIT_TEXTURE → desc.Name = "texture_".toList ++ s →
          ∃ sampler ∈ shader1.samplers, sampler.name = s ∧
            (sampler.desc t).textureBindPoint = desc.BindPoint) ∧
        (desc.Type_ = .D3D_SIT_SAMPLER → desc.Name = "sampler_".toList ++ s →
          ∃ sampler ∈ shader1.samplers, sampler.name = s ∧
            (sampler.desc t).samplerBindPoint = desc.BindPoint)) ∧
      shader1.samplers
        = (RenderDevice.bindResources t
            (a.reflection.BoundResources.filter fun d => !lacksPrefix d) shader).1.samplers ∧
      ((∀ desc ∈ a.reflection.BoundResources,
          desc.Type_ = .D3D_SIT_TEXTURE ∨ desc.Type_ = .D3D_SIT_SAMPLER →
          lacksPrefix desc = true) →
        shader1.samplers = shader.samplers) ∧
      (∃ globalsLog,
        (globalsLog = [] ∨
          globalsLog = "[Shader]\n Failed to get constant buffer desc\n".toList) ∧
        dev1._shaderLog
          = dev._shaderLog ++ globalsLog ++ prefixDiagnostics a.reflection.BoundResources) ∧
      (∀ desc ∈ a.reflection.BoundResources, lacksPrefix desc = true →
        List.IsInfix
          "[Shader]\n Texture resource's name must have a texture_ prefix\n".toList
          dev1._shaderLog) := by
  obtain ⟨dev1, calls, shader1, globalsLog, hp, hg, _, hsm, hgl, hlog⟩ :=
    parseShaderBlob_tables dev shaderId a t shader h0 hs
  refine ⟨dev1, calls, shader1, hp, hg, ?_, ?_, ?_, ⟨globalsLog, hgl, hlog⟩, ?_⟩
  · intro pre desc post hres s hne hone
    have hacts : ∀ b, resourceAction desc = some b →
        a.reflection.BoundResources.filterMap resourceAction
          = pre.filterMap resourceAction ++ b :: post.filterMap resourceAction := by
      intro b hb
      rw [hres, List.filterMap_append, List.filterMap_cons, hb]
    constructor
    · intro ht hn
      have hact := resourceAction_texture desc s ht hn hne
      obtain ⟨f1, hf1, hq⟩ := mergeActions_sets_last t
        (fun d => d.textureBindPoint = desc.BindPoint)
        (pre.filterMap resourceAction) (post.filterMap resourceAction)
        (s, fun d => { d with textureBindPoint := desc.BindPoint }) shader.samplers
        (fun _ => rfl)
        (by
          intro b hb hbs d hd
          obtain ⟨d1, hd1, hd1a⟩ := List.mem_filterMap.mp hb
          rcases resourceAction_some d1 b hd1a with ⟨ht1, hn1, hw⟩ | ⟨_, _, hw⟩
          · rw [hw]
            exact hone d1 hd1 (ht1.trans ht.symm) (by rw [hn1, hbs, hn])
          · rw [hw]
            exact hd)
      rw [← hacts _ hact, ← hsm] at hf1
      obtain ⟨sampler, hin, hname, hdesc⟩ := samplerDescs_mem _ _ _ hf1
      exact ⟨sampler, hin, hname, by rw [hdesc]; exact hq⟩
    · intro ht hn
      have hact := resourceAction_sampler desc s ht hn hne
      obtain ⟨f1, hf1, hq⟩ := mergeActions_sets_last t
        (fun d => d.samplerBindPoint = desc.BindPoint)
        (pre.filterMap resourceAction) (post.filterMap resourceAction)
        (s, fun d => { d with samplerBindPoint := desc.BindPoint }) shader.samplers
        (fun _ => rfl)
        (by
          intro b hb hbs d hd
          obtain ⟨d1, hd1, hd1a⟩ := List.mem_filterMap.mp hb
          rcases resourceAction_some d1 b hd1a with ⟨_, _, hw⟩ | ⟨ht1, hn1, hw⟩
          · rw [hw]
            exact hd
          · rw [hw]
            exact hone d1 hd1 (ht1.trans ht.symm) (by rw [hn1, hbs, hn]))
      rw [← hacts _ hact, ← hsm] at hf1
      obtain ⟨sampler, hin, hname, hdesc⟩ := samplerDescs_mem _ _ _ hf1
      exact ⟨sampler, hin, hname, by rw [hdesc]; exact hq⟩
  · rw [(bindResources_eq t _ shader).1, filterMap_resourceAction_filter, hsm]
  · intro hall
    have hnil : a.reflection.BoundResources.filterMap resourceAction = [] := by
      rw [List.filterMap_eq_nil_iff]
      intro desc hmem
      cases hact : resourceAction desc with
      | none => rfl
      | some b =>
        rcases resourceAction_some desc b hact with ⟨ht, _, _⟩ | ⟨ht, _, _⟩
        · rw [resourceAction_of_lacksPrefix desc (hall desc hmem (Or.inl ht))] at hact
          exact absurd hact (by simp)
        · rw [resourceAction_of_lacksPrefix desc (hall desc hmem (Or.inr ht))] at hact
          exact absurd hact (by simp)
    rw [hsm, hnil]
    rfl
  · intro desc hmem hl
    rw [hlog]
    exact (prefixDiagnostics_logged _ desc hmem hl).trans (List.suffix_append _ _).isInfix

theorem parseShaderBlob_bound_resources_witness :
    ((1 : Nat) ≠ 0 ∧
      (shaderDevice._shaders.getRef 1).map (fun sh => sh.samplers.length) = some 0) ∧
    lacksPrefix ⟨"albedo".toList, .D3D_SIT_TEXTURE, 5⟩ = true ∧
    ∃ dev1 calls shader1,
      RenderDevice.parseShaderBlob shaderDevice 1 (stageCreated 21 repeatedNamesReflection)
        .Pixel = .ok (dev1, calls) ∧
      dev1._shaders.getRef 1 = some shader1 ∧
      (∃ sampler ∈ shader1.samplers, sampler.name = "albedo".toList ∧
        (sampler.desc .Pixel).textureBindPoint = 3) ∧
      (∃ sampler ∈ shader1.samplers, sampler.name = "albedo".toList ∧
        (sampler.desc .Pixel).samplerBindPoint = 2) ∧
      List.IsInfix "[Shader]\n Texture resource's name must have a texture_ prefix\n".toList
        dev1._shaderLog := by
  refine ⟨⟨by decide, rfl⟩, by decide, ?_⟩
  obtain ⟨dev1, calls, shader1, hp, hg, h1, _, _, _, h5⟩ :=
    parseShaderBlob_bound_resources shaderDevice 1 (stageCreated 21 repeatedNamesReflection)
      .Pixel _ (by decide) rfl
  refine ⟨dev1, calls, shader1, hp, hg, ?_, ?_, ?_⟩
  · exact (h1 [] ⟨"texture_albedo".toList, .D3D_SIT_TEXTURE, 3⟩
      [⟨"sampler_albedo".toList, .D3D_SIT_SAMPLER, 2⟩,
        ⟨"texture_albedo".toList, .D3D_SIT_TEXTURE, 3⟩,
        ⟨"albedo".toList, .D3D_SIT_TEXTURE, 5⟩] rfl "albedo".toList
      (by decide) (by decide)).1 rfl rfl
  · exact (h1 [⟨"texture_albedo".toList, .D3D_SIT_TEXTURE, 3⟩]
      ⟨"sampler_albedo".toList, .D3D_SIT_SAMPLER, 2⟩
      [⟨"texture_albedo".toList, .D3D_SIT_TEXTURE, 3⟩,
        ⟨"albedo".toList, .D3D_SIT_TEXTURE, 5⟩] rfl "albedo".toList
      (by decide) (by decide)).2 rfl rfl
  · exact h5 ⟨"albedo".toList, .D3D_SIT_TEXTURE, 5⟩ (by decide) (by decide)

/-- C27: the calls issued by one `commitStates` call that returns fall into seven
consecutive blocks, in this order: viewport; raster, blend and depth-stencil
state; scissor rectangle; index buffer; texture and sampler bindings; input
layout and vertex buffers; uniform-buffer upload and binding.  Each block
holds only driver calls of its category and entries of the engine log, so that
every driver call of the trace belongs to one of the seven categories, and no
driver call of a later category precedes one of an earlier category. -/
theorem commitStates_call_order (debugAsserts : Bool) (k : RDIConsts)
    (dev dev1 : RenderDevice) (io : CommitAnswers) (filter : Nat) (b : Bool)
    (calls : List D3DCall)
    (h : RenderDevice.commitStates debugAsserts k dev io filter = .ok (dev1, b, calls)) :
    (∃ l1 l2 l3 l4 l5 l6 l7 : List D3DCall,
      calls = l1 ++ l2 ++ l3 ++ l4 ++ l5 ++ l6 ++ l7 ∧ StageCalls 1 l1 ∧ StageCalls 2 l2 ∧
      StageCalls 3 l3 ∧ StageCalls 4 l4 ∧ StageCalls 5 l5 ∧ StageCalls 6 l6 ∧
      StageCalls 7 l7) ∧
    (∀ c ∈ calls, c.isLogEntry = true ∨
      ∃ n, 1 ≤ n ∧ n ≤ 7 ∧ c.commitCategory = some n) ∧
    (calls.filterMap D3DCall.commitCategory).Pairwise (· ≤ ·) ∧
    calls.Pairwise (fun c d => ∀ n m, c.commitCategory = some n →
      d.commitCategory = some m → n ≤ m) := by
  obtain ⟨l1, l2, l3, l4, l5, l6, l7, rfl, h1, h2, h3, h4, h5, h6, h7⟩ :=
    commitStates_blocks debugAsserts k dev dev1 io filter b calls h
  have hs := blocks_sorted h1 h2 h3 h4 h5 h6 h7
  refine ⟨⟨l1, l2, l3, l4, l5, l6, l7, rfl, h1, h2, h3, h4, h5, h6, h7⟩, ?_, hs, ?_⟩
  · intro c hc
    simp only [List.mem_append] at hc
    rcases hc with (((((hc | hc) | hc) | hc) | hc) | hc) | hc
    · exact (StageCalls_mem h1 c hc).imp id fun e => ⟨1, by decide, by decide, e⟩
    · exact (StageCalls_mem h2 c hc).imp id fun e => ⟨2, by decide, by decide, e⟩
    · exact (StageCalls_mem h3 c hc).imp id fun e => ⟨3, by decide, by decide, e⟩
    · exact (StageCalls_mem h4 c hc).imp id fun e => ⟨4, by decide, by decide, e⟩
    · exact (StageCalls_mem h5 c hc).imp id fun e => ⟨5, by decide, by decide, e⟩
    · exact (StageCalls_mem h6 c hc).imp id fun e => ⟨6, by decide, by decide, e⟩
    · exact (StageCalls_mem h7 c hc).imp id fun e => ⟨7, by decide, by decide, e⟩
  · rw [List.pairwise_filterMap] at hs
    refine hs.imp ?_
    intro c d hcd n m hn hm
    exact hcd n (by rw [hn]; rfl) m (by rw [hm]; rfl)

/-- C27 at a device with every category pending: the fourteen calls issued run
through the categories 1, 2, 2, 3, 4, 5, 5, 5, 6, 6, 7, 7, 7, 7. -/
theorem commitStates_call_order_witness :
    ∃ dev1 calls,
      RenderDevice.commitStates false sampleConsts fullFrameDevice allAnswers 0xFFFFFFFF
        = .ok (dev1, true, calls) ∧
      calls.map D3DCall.commitCategory = [some 1, some 2, some 2, some 3, some 4, some 5,
        some 5, some 5, some 6, some 6, some 7, some 7, some 7, some 7] ∧
      (∃ l1 l2 l3 l4 l5 l6 l7 : List D3DCall,
        calls = l1 ++ l2 ++ l3 ++ l4 ++ l5 ++ l6 ++ l7 ∧ StageCalls 1 l1 ∧ StageCalls 2 l2 ∧
        StageCalls 3 l3 ∧ StageCalls 4 l4 ∧ StageCalls 5 l5 ∧ StageCalls 6 l6 ∧
        StageCalls 7 l7) ∧
      (∀ c ∈ calls, c.isLogEntry = true ∨
        ∃ n, 1 ≤ n ∧ n ≤ 7 ∧ c.commitCategory = some n) ∧
      (calls.filterMap D3DCall.commitCategory).Pairwise (· ≤ ·) ∧
      calls.Pairwise (fun c d => ∀ n m, c.commitCategory = some n →
        d.commitCategory = some m → n ≤ m) :=
  ⟨_, _, rfl, rfl,
    commitStates_call_order false sampleConsts fullFrameDevice _ allAnswers 0xFFFFFFFF true _
      rfl⟩

end Horde3D
